import Mathlib

/-! SlicerAstro smoothing logic.

A shallow embedding of `vtkSlicerAstroSmoothingLogic` (file
`AstroSmoothing/Logic/vtkSlicerAstroSmoothingLogic.cxx`) and theorems about it.

Modelling conventions.

* The build modelled is the single-threaded one: `VTK_SLICER_ASTRO_SUPPORT_OPENMP`
  and `VTK_SLICER_ASTRO_SUPPORT_OPENGL` are both undefined. Two fragments of the
  OpenMP build are transcribed as well: the header of the per-voxel loop body
  (`voxelStepOpenMP`) and the divisor of the progress update
  (`progressDivisorOpenMP`).
* Voxel values are rationals: `float` and `double` arithmetic is taken exact, so
  the two branches of every `switch (DataType)` perform the same operation.
  The doubles `inf` and NaN are not rationals. The division `Pixel2 / noise2` of the
  gradient filter by a zero `noise2` (a missing or non-numeric noise attribute reads
  as 0) is modelled after IEEE where its result is a number, see `gradientVoxel`;
  any other division of a voxel by zero follows Lean (`x / 0 = 0`).
* C++ `int` is `Int` (no wrap-around: signed overflow is undefined in C++).
  `/` and `%` on `int` are `Int.tdiv` and `Int.tmod` (truncation toward zero).
  An integer division by zero is recorded in the state (`divByZero`) and ends
  the run with `Outcome.divisionByZero`.
* A scalar buffer is a function from element offsets to values; the input,
  output and scratch buffers are distinct pieces of memory. An access outside
  the allocated range of a buffer is not trapped.
* The shared `Status` cell of the parameter node can be written by another
  thread: `Env.ext t = some v` says that `v` was stored in the cell just before
  the engine's read number `t`.
-/

namespace SlicerAstro

/-! ## Data model -/

/-- Scalar memory addressed by element offset from `GetScalarPointer(0,0,0)`. -/
abbrev Buffer := Int → ℚ

/-- The assignment `*(b + p) = v`. -/
def write (b : Buffer) (p : Int) (v : ℚ) : Buffer :=
  fun q => if q = p then v else b q

/-- Tag `VTK_FLOAT` of `vtkType.h`. -/
def VTK_FLOAT : Int := 10

/-- Tag `VTK_DOUBLE` of `vtkType.h`. -/
def VTK_DOUBLE : Int := 11

/-- What the filters query on a volume's `vtkImageData`. -/
structure ImageData where
  dims0 : Int
  dims1 : Int
  dims2 : Int
  NumberOfScalarComponents : Int
  DataType : Int

/-- Fields of `vtkMRMLAstroSmoothingParametersNode` read by the logic
(the `Status` cell lives in `State`). -/
structure ParametersNode where
  Filter : Int
  Hardware : Int
  ParameterX : ℚ
  ParameterY : ℚ
  ParameterZ : ℚ
  KernelLengthX : Int
  KernelLengthY : Int
  KernelLengthZ : Int
  GaussianKernel1D : Buffer
  GaussianKernel3D : Buffer
  K : ℚ
  TimeStep : ℚ
  Accuracy : Int

/-- Everything a filter call can read or change. -/
structure State where
  /-- Result of `GetNodeByID(pnode->GetInputVolumeNodeID())`. -/
  inputVolume : Option ImageData
  /-- Result of `GetNodeByID(pnode->GetOutputVolumeNodeID())`. -/
  outputVolume : Option ImageData
  /-- Scalars of the input volume. -/
  inPixel : Buffer
  /-- Scalars of the output volume. -/
  outPixel : Buffer
  /-- Scalars of `Internal->tempVolumeData`. -/
  tempPixel : Buffer
  /-- The shared status cell `pnode->Status`. -/
  Status : Int
  /-- Values returned by `pnode->GetStatus()` so far, most recent first. -/
  statusReads : List Int
  /-- Values passed to `pnode->SetStatus()` by the logic so far, most recent first. -/
  statusWrites : List Int
  /-- Local `bool cancel`. -/
  cancel : Bool
  /-- Local `int status` of the anisotropic filters. -/
  status : Int
  /-- Set when an integer division by zero was executed (cleared on entry of a filter). -/
  divByZero : Bool
  /-- Number of per-voxel bodies executed (iterations that passed `if (!cancel)`). -/
  voxels : Nat
  /-- Calls of `outputVolume->UpdateRangeAttributes()`. -/
  rangeUpdates : Nat
  /-- Calls of `outputVolume->UpdateNoiseAttributes()`. -/
  noiseUpdates : Nat
  /-- Attribute `SlicerAstro.RMS` of the output volume, as `StringToDouble` reads it. -/
  RMS : ℚ
  /-- Attribute `SlicerAstro.RMSMEAN` of the output volume, as `StringToDouble` reads it. -/
  RMSMEAN : ℚ

/-- The collaborators outside the logic class. -/
structure Env where
  /-- External writes to the status cell, indexed by the engine's read count. -/
  ext : Nat → Option Int
  /-- Modelled from the spec: value `UpdateNoiseAttributes` (a method of
  `vtkMRMLAstroVolumeNode`, which is not among the sources) stores in `SlicerAstro.RMS` for
  given scalars. -/
  noiseRMS : Buffer → ℚ
  /-- Modelled from the spec: value `UpdateNoiseAttributes` stores in `SlicerAstro.RMSMEAN`
  for given scalars. -/
  noiseMean : Buffer → ℚ

/-- How a call ends. -/
inductive Outcome where
  | returned (code : Int)
  | divisionByZero
  deriving DecidableEq

/-! ## Loops -/

/-- Effect of one execution of a loop body on the control flow: fall through to the
increment (also `continue`), or leave the loop (`break`). -/
inductive LoopStep (σ : Type) where
  | cont (s : σ)
  | brk (s : σ)

/-- Run at most `n` iterations of `body`, the loop variable starting at `i`. -/
def forLoop {σ : Type} (body : Int → σ → LoopStep σ) : Nat → Int → σ → σ
  | 0, _, s => s
  | n + 1, i, s =>
    match body i s with
    | LoopStep.cont t => forLoop body n (i + 1) t
    | LoopStep.brk t => t

/-- The loop `for (int i = lo; i <= hi; i++) body`. -/
def forRange {σ : Type} (lo hi : Int) (body : Int → σ → LoopStep σ) (s : σ) : σ :=
  forLoop body (hi + 1 - lo).toNat lo s

/-! ## Scalar conversions -/

/-- Conversion `(int) q` of a `double`: truncation toward zero. -/
def toInt (q : ℚ) : Int := Int.tdiv q.num q.den

/-- The statement `if (nItems % 2 < 0.001) nItems++;`. -/
def forceOdd (nItems : Int) : Int :=
  if ((Int.tmod nItems 2 : Int) : ℚ) < 0.001 then nItems + 1 else nItems

/-- The expression `(int) ((nItems - 1) / 2.)`. -/
def halfWidth (nItems : Int) : Int := toInt (((nItems - 1 : Int) : ℚ) / 2)

/-! ## Status cell -/

/-- The call `pnode->GetStatus()`: an external write that arrived since the last
read is seen, and the value read is logged. -/
def GetStatus (env : Env) (s : State) : Int × State :=
  let v := (env.ext s.statusReads.length).getD s.Status
  (v, { s with Status := v, statusReads := v :: s.statusReads })

/-- The call `pnode->SetStatus(v)`. -/
def SetStatus (v : Int) (s : State) : State :=
  { s with Status := v, statusWrites := v :: s.statusWrites }

/-- Header shared by every per-voxel loop body (single-threaded build):
read the status, latch `cancel` on `-1`, run the body unless cancelled. -/
def voxelStep (env : Env) (body : Int → State → State) (elemCnt : Int) (s : State) :
    LoopStep State :=
  let r := GetStatus env s
  let s1 := if r.1 = -1 then { r.2 with cancel := true } else r.2
  if s1.cancel then LoopStep.cont s1
  else
    let s2 := body elemCnt { s1 with voxels := s1.voxels + 1 }
    if s2.divByZero then LoopStep.brk s2 else LoopStep.cont s2

/-- The loop `for (int elemCnt = 0; elemCnt < numElements; elemCnt++)`. -/
def sweep (env : Env) (numElements : Int) (body : Int → State → State) (s : State) : State :=
  forRange 0 (numElements - 1) (voxelStep env body) s

/-- Modelled from the spec: the calls `outputVolume->UpdateRangeAttributes();
outputVolume->UpdateNoiseAttributes();`. The class `vtkMRMLAstroVolumeNode` that implements
them is not among the sources; the spec has them as side-effecting calls of an external
volume-statistics collaborator that must reflect the data the grid holds when they are
called. Here each call is counted, and the noise update stores in the attributes
`SlicerAstro.RMS` and `SlicerAstro.RMSMEAN` the statistics `Env.noiseRMS` and
`Env.noiseMean` of the current contents of the output grid. -/
def updateAttributes (env : Env) (s : State) : State :=
  { s with rangeUpdates := s.rangeUpdates + 1, noiseUpdates := s.noiseUpdates + 1,
           RMS := env.noiseRMS s.outPixel, RMSMEAN := env.noiseMean s.outPixel }

/-- The call `Internal->tempVolumeData->Initialize()`. -/
def releaseTemp (s : State) : State := { s with tempPixel := fun _ => 0 }

/-! ## Box filter, anisotropic -/

/-- The three nested tap loops of `AnisotropicBoxCPUFilter` for one voxel. -/
def anisoBoxTaps (dims0 numSlice numElements Xmax Ymax Zmax : Int) (src : Buffer)
    (elemCnt : Int) (dst : Buffer) : Buffer :=
  forRange (-Zmax) Zmax (fun k dk => LoopStep.cont (
    forRange (-Ymax) Ymax (fun j dj => LoopStep.cont (
      forRange (-Xmax) Xmax (fun i d =>
        let posData := elemCnt + i
        let ref := Int.tdiv elemCnt dims0 * dims0
        if posData < ref then LoopStep.cont d
        else if posData ≥ ref + dims0 then LoopStep.brk d
        else
          let posData := posData + j * dims0
          let ref := Int.tdiv elemCnt numSlice * numSlice
          if posData < ref then LoopStep.cont d
          else if posData ≥ ref + numSlice then LoopStep.brk d
          else
            let posData := posData + k * numSlice
            if posData < 0 then LoopStep.cont d
            else if posData ≥ numElements then LoopStep.brk d
            else LoopStep.cont (write d elemCnt (d elemCnt + src posData))) dj)) dk)) dst

/-- The progress update `if (elemCnt / (numElements / 100) > status) ...` of the
anisotropic sweeps, in the build without OpenMP. -/
def progress (numElements elemCnt : Int) (s : State) : State :=
  let d := Int.tdiv numElements 100
  if d = 0 then { s with divByZero := true }
  else if Int.tdiv elemCnt d > s.status then
    SetStatus (s.status + 10) { s with status := s.status + 10 }
  else s

/-- State of an anisotropic filter when its sweep is about to start: `cancel` is false,
the local progress counter is 0, status is 1. -/
def startDirect (s : State) : State :=
  SetStatus 1 { s with cancel := false, status := 0, divByZero := false }

/-- Per-voxel body of `AnisotropicBoxCPUFilter`. -/
def anisoBoxVoxel (dims0 numSlice numElements Xmax Ymax Zmax cont : Int)
    (elemCnt : Int) (s : State) : State :=
  let o0 := write s.outPixel elemCnt 0
  let o1 := anisoBoxTaps dims0 numSlice numElements Xmax Ymax Zmax s.inPixel elemCnt o0
  let o2 := write o1 elemCnt (o1 elemCnt / (cont : ℚ))
  progress numElements elemCnt { s with outPixel := o2 }

/-- The method `vtkSlicerAstroSmoothingLogic::AnisotropicBoxCPUFilter`. -/
def AnisotropicBoxCPUFilter (env : Env) (pnode : ParametersNode) (s : State) :
    Outcome × State :=
  match s.inputVolume with
  | none => (Outcome.returned 0, s)
  | some _ =>
    match s.outputVolume with
    | none => (Outcome.returned 0, s)
    | some outputVolume =>
      if outputVolume.NumberOfScalarComponents > 1 then (Outcome.returned 0, s)
      else
        let numElements := outputVolume.dims0 * outputVolume.dims1 * outputVolume.dims2
        let numSlice := outputVolume.dims0 * outputVolume.dims1
        let nItemsX := forceOdd (toInt pnode.ParameterX)
        let Xmax := halfWidth nItemsX
        let nItemsY := forceOdd (toInt pnode.ParameterY)
        let Ymax := halfWidth nItemsY
        let nItemsZ := forceOdd (toInt pnode.ParameterZ)
        let Zmax := halfWidth nItemsZ
        let cont := nItemsX * nItemsY * nItemsZ
        if outputVolume.DataType = VTK_FLOAT ∨ outputVolume.DataType = VTK_DOUBLE then
          let s2 := sweep env numElements
            (anisoBoxVoxel outputVolume.dims0 numSlice numElements Xmax Ymax Zmax cont)
            (startDirect s)
          if s2.divByZero then (Outcome.divisionByZero, s2)
          else if s2.cancel then (Outcome.returned 0, s2)
          else (Outcome.returned 1, updateAttributes env s2)
        else (Outcome.returned 0, s)

/-! ## Box filter, isotropic -/

/-- Tap loop of the X pass of `IsotropicBoxCPUFilter` for one voxel. -/
def boxTapsX (dims0 is : Int) (src : Buffer) (elemCnt : Int) (dst : Buffer) : Buffer :=
  forRange (-is) is (fun i d =>
    let ii := elemCnt + i
    let ref := Int.tdiv elemCnt dims0 * dims0
    if ii < ref then LoopStep.cont d
    else if ii ≥ ref + dims0 then LoopStep.brk d
    else LoopStep.cont (write d elemCnt (d elemCnt + src ii))) dst

/-- Tap loop of the Y pass of `IsotropicBoxCPUFilter` for one voxel. -/
def boxTapsY (dims0 numSlice is : Int) (src : Buffer) (elemCnt : Int) (dst : Buffer) :
    Buffer :=
  forRange (-is) is (fun i d =>
    let ii := elemCnt + i * dims0
    let ref := Int.tdiv elemCnt numSlice * numSlice
    if ii < ref then LoopStep.cont d
    else if ii ≥ ref + numSlice then LoopStep.brk d
    else LoopStep.cont (write d elemCnt (d elemCnt + src ii))) dst

/-- Tap loop of the Z pass of `IsotropicBoxCPUFilter` for one voxel. -/
def boxTapsZ (numSlice numElements is : Int) (src : Buffer) (elemCnt : Int) (dst : Buffer) :
    Buffer :=
  forRange (-is) is (fun i d =>
    let ii := elemCnt + i * numSlice
    if ii < 0 then LoopStep.cont d
    else if ii ≥ numElements then LoopStep.brk d
    else LoopStep.cont (write d elemCnt (d elemCnt + src ii))) dst

/-- Per-voxel body of the X pass: reads the scratch grid, writes the output grid. -/
def boxVoxelX (dims0 nItems is : Int) (elemCnt : Int) (s : State) : State :=
  let o0 := write s.outPixel elemCnt 0
  let o1 := boxTapsX dims0 is s.tempPixel elemCnt o0
  { s with outPixel := write o1 elemCnt (o1 elemCnt / (nItems : ℚ)) }

/-- Per-voxel body of the Y pass: reads the output grid, writes the scratch grid. -/
def boxVoxelY (dims0 numSlice nItems is : Int) (elemCnt : Int) (s : State) : State :=
  let t0 := write s.tempPixel elemCnt 0
  let t1 := boxTapsY dims0 numSlice is s.outPixel elemCnt t0
  { s with tempPixel := write t1 elemCnt (t1 elemCnt / (nItems : ℚ)) }

/-- Per-voxel body of the Z pass: reads the scratch grid, writes the output grid. -/
def boxVoxelZ (numSlice numElements nItems is : Int) (elemCnt : Int) (s : State) : State :=
  let o0 := write s.outPixel elemCnt 0
  let o1 := boxTapsZ numSlice numElements is s.tempPixel elemCnt o0
  { s with outPixel := write o1 elemCnt (o1 elemCnt / (nItems : ℚ)) }

/-- The block `if (pnode->GetParameterX() > 0.001) { ... }` of `IsotropicBoxCPUFilter`. -/
def boxStageX (env : Env) (pnode : ParametersNode) (ov : ImageData) (s : State) : State :=
  let numElements := ov.dims0 * ov.dims1 * ov.dims2
  let nItems := forceOdd (toInt pnode.ParameterX)
  let is := halfWidth nItems
  if pnode.ParameterX > 0.001 then
    sweep env numElements (boxVoxelX ov.dims0 nItems is) (SetStatus 10 s)
  else s

/-- The block `if (pnode->GetParameterY() > 0.001) { ... } else { DeepCopy }` of
`IsotropicBoxCPUFilter`. -/
def boxStageY (env : Env) (pnode : ParametersNode) (ov : ImageData) (s : State) : State :=
  let numElements := ov.dims0 * ov.dims1 * ov.dims2
  let numSlice := ov.dims0 * ov.dims1
  let nItems := forceOdd (toInt pnode.ParameterX)
  let is := halfWidth nItems
  if pnode.ParameterY > 0.001 then
    sweep env numElements (boxVoxelY ov.dims0 numSlice nItems is) (SetStatus 40 s)
  else { s with tempPixel := s.outPixel }

/-- The block `if (pnode->GetParameterZ() > 0.001) { ... } else { DeepCopy }` of
`IsotropicBoxCPUFilter`. -/
def boxStageZ (env : Env) (pnode : ParametersNode) (ov : ImageData) (s : State) : State :=
  let numElements := ov.dims0 * ov.dims1 * ov.dims2
  let numSlice := ov.dims0 * ov.dims1
  let nItems := forceOdd (toInt pnode.ParameterX)
  let is := halfWidth nItems
  if pnode.ParameterZ > 0.001 then
    sweep env numElements (boxVoxelZ numSlice numElements nItems is) (SetStatus 70 s)
  else { s with outPixel := s.tempPixel }

/-- State of an isotropic or gradient filter when its first sweep is about to start:
the scratch grid is a copy of the output grid, `cancel` is false, status is 1. -/
def startScratch (s : State) : State :=
  SetStatus 1 { s with tempPixel := s.outPixel, cancel := false, divByZero := false }

/-- The method `vtkSlicerAstroSmoothingLogic::IsotropicBoxCPUFilter`. -/
def IsotropicBoxCPUFilter (env : Env) (pnode : ParametersNode) (s : State) :
    Outcome × State :=
  match s.inputVolume with
  | none => (Outcome.returned 0, s)
  | some _ =>
    match s.outputVolume with
    | none => (Outcome.returned 0, s)
    | some outputVolume =>
      let s0 := { s with tempPixel := s.outPixel }
      if outputVolume.NumberOfScalarComponents > 1 then (Outcome.returned 0, s0)
      else if outputVolume.DataType = VTK_FLOAT ∨ outputVolume.DataType = VTK_DOUBLE then
        let s2 := boxStageX env pnode outputVolume (startScratch s)
        if s2.cancel then (Outcome.returned 0, releaseTemp s2)
        else
          let s3 := boxStageY env pnode outputVolume s2
          if s3.cancel then (Outcome.returned 0, releaseTemp s3)
          else
            let s5 := releaseTemp (boxStageZ env pnode outputVolume s3)
            if s5.cancel then (Outcome.returned 0, s5)
            else (Outcome.returned 1, updateAttributes env s5)
      else (Outcome.returned 0, s0)

/-! ## Gaussian filter, anisotropic -/

/-- The three nested tap loops of `AnisotropicGaussianCPUFilter` for one voxel. -/
def anisoGaussTaps (dims0 numSlice numElements Xmax Ymax Zmax numKernelSlice KernelLengthX : Int)
    (GaussKernel src : Buffer) (elemCnt : Int) (dst : Buffer) : Buffer :=
  forRange (-Zmax) Zmax (fun k dk => LoopStep.cont (
    forRange (-Ymax) Ymax (fun j dj => LoopStep.cont (
      forRange (-Xmax) Xmax (fun i d =>
        let posData := elemCnt + i
        let ref := Int.tdiv elemCnt dims0 * dims0
        if posData < ref then LoopStep.cont d
        else if posData ≥ ref + dims0 then LoopStep.brk d
        else
          let posData := posData + j * dims0
          let ref := Int.tdiv elemCnt numSlice * numSlice
          if posData < ref then LoopStep.cont d
          else if posData ≥ ref + numSlice then LoopStep.brk d
          else
            let posData := posData + k * numSlice
            if posData < 0 then LoopStep.cont d
            else if posData ≥ numElements then LoopStep.brk d
            else
              let posKernel := (k + Zmax) * numKernelSlice + (j + Ymax) * KernelLengthX
                + (i + Xmax)
              LoopStep.cont
                (write d elemCnt (d elemCnt + src posData * GaussKernel posKernel))) dj)) dk)) dst

/-- Per-voxel body of `AnisotropicGaussianCPUFilter`. -/
def anisoGaussVoxel (dims0 numSlice numElements Xmax Ymax Zmax numKernelSlice KernelLengthX : Int)
    (GaussKernel : Buffer) (elemCnt : Int) (s : State) : State :=
  let o0 := write s.outPixel elemCnt 0
  let o1 := anisoGaussTaps dims0 numSlice numElements Xmax Ymax Zmax numKernelSlice
    KernelLengthX GaussKernel s.inPixel elemCnt o0
  progress numElements elemCnt { s with outPixel := o1 }

/-- The method `vtkSlicerAstroSmoothingLogic::AnisotropicGaussianCPUFilter`. -/
def AnisotropicGaussianCPUFilter (env : Env) (pnode : ParametersNode) (s : State) :
    Outcome × State :=
  match s.inputVolume with
  | none => (Outcome.returned 0, s)
  | some _ =>
    match s.outputVolume with
    | none => (Outcome.returned 0, s)
    | some outputVolume =>
      if outputVolume.NumberOfScalarComponents > 1 then (Outcome.returned 0, s)
      else
        let numElements := outputVolume.dims0 * outputVolume.dims1 * outputVolume.dims2
        let numSlice := outputVolume.dims0 * outputVolume.dims1
        let Xmax := toInt (((pnode.KernelLengthX - 1 : Int) : ℚ) / 2)
        let Ymax := toInt (((pnode.KernelLengthY - 1 : Int) : ℚ) / 2)
        let Zmax := toInt (((pnode.KernelLengthZ - 1 : Int) : ℚ) / 2)
        let numKernelSlice := pnode.KernelLengthX * pnode.KernelLengthY
        if outputVolume.DataType = VTK_FLOAT ∨ outputVolume.DataType = VTK_DOUBLE then
          let s2 := sweep env numElements
            (anisoGaussVoxel outputVolume.dims0 numSlice numElements Xmax Ymax Zmax
              numKernelSlice pnode.KernelLengthX pnode.GaussianKernel3D) (startDirect s)
          if s2.divByZero then (Outcome.divisionByZero, s2)
          else if s2.cancel then (Outcome.returned 0, s2)
          else (Outcome.returned 1, updateAttributes env s2)
        else (Outcome.returned 0, s)

/-! ## Gaussian filter, isotropic -/

/-- Tap loop of the X pass of `IsotropicGaussianCPUFilter` for one voxel. -/
def gaussTapsX (dims0 is is2 : Int) (GaussKernel1D src : Buffer) (elemCnt : Int)
    (dst : Buffer) : Buffer :=
  forRange 0 is (fun i d =>
    let ii := elemCnt + i + is2
    let ref := Int.tdiv elemCnt dims0 * dims0
    if ii < ref then LoopStep.cont d
    else if ii ≥ ref + dims0 then LoopStep.brk d
    else LoopStep.cont (write d elemCnt (d elemCnt + src ii * GaussKernel1D i))) dst

/-- Tap loop of the Y pass of `IsotropicGaussianCPUFilter` for one voxel. -/
def gaussTapsY (dims0 numSlice is is2 : Int) (GaussKernel1D src : Buffer) (elemCnt : Int)
    (dst : Buffer) : Buffer :=
  forRange 0 is (fun i d =>
    let ii := elemCnt + (i + is2) * dims0
    let ref := Int.tdiv elemCnt numSlice * numSlice
    if ii < ref then LoopStep.cont d
    else if ii ≥ ref + numSlice then LoopStep.brk d
    else LoopStep.cont (write d elemCnt (d elemCnt + src ii * GaussKernel1D i))) dst

/-- Tap loop of the Z pass of `IsotropicGaussianCPUFilter` for one voxel. -/
def gaussTapsZ (numSlice numElements is is2 : Int) (GaussKernel1D src : Buffer)
    (elemCnt : Int) (dst : Buffer) : Buffer :=
  forRange 0 is (fun i d =>
    let ii := elemCnt + (i + is2) * numSlice
    if ii < 0 then LoopStep.cont d
    else if ii ≥ numElements then LoopStep.brk d
    else LoopStep.cont (write d elemCnt (d elemCnt + src ii * GaussKernel1D i))) dst

/-- Per-voxel body of the X pass: reads the scratch grid, writes the output grid. -/
def gaussVoxelX (dims0 is is2 : Int) (GaussKernel1D : Buffer) (elemCnt : Int) (s : State) :
    State :=
  let o0 := write s.outPixel elemCnt 0
  { s with outPixel := gaussTapsX dims0 is is2 GaussKernel1D s.tempPixel elemCnt o0 }

/-- Per-voxel body of the Y pass: reads the output grid, writes the scratch grid. -/
def gaussVoxelY (dims0 numSlice is is2 : Int) (GaussKernel1D : Buffer) (elemCnt : Int)
    (s : State) : State :=
  let t0 := write s.tempPixel elemCnt 0
  { s with tempPixel := gaussTapsY dims0 numSlice is is2 GaussKernel1D s.outPixel elemCnt t0 }

/-- Per-voxel body of the Z pass: reads the scratch grid, writes the output grid. -/
def gaussVoxelZ (numSlice numElements is is2 : Int) (GaussKernel1D : Buffer) (elemCnt : Int)
    (s : State) : State :=
  let o0 := write s.outPixel elemCnt 0
  { s with outPixel := gaussTapsZ numSlice numElements is is2 GaussKernel1D s.tempPixel elemCnt o0 }

/-- The block `if (pnode->GetParameterX() > 0.001) { ... }` of `IsotropicGaussianCPUFilter`. -/
def gaussStageX (env : Env) (pnode : ParametersNode) (ov : ImageData) (s : State) : State :=
  let numElements := ov.dims0 * ov.dims1 * ov.dims2
  let is := forceOdd pnode.KernelLengthX
  let is2 := -(Int.tdiv (is - 1) 2)
  if pnode.ParameterX > 0.001 then
    sweep env numElements (gaussVoxelX ov.dims0 is is2 pnode.GaussianKernel1D) (SetStatus 10 s)
  else s

/-- The block `if (pnode->GetParameterY() > 0.001) { ... } else { DeepCopy }` of
`IsotropicGaussianCPUFilter`. -/
def gaussStageY (env : Env) (pnode : ParametersNode) (ov : ImageData) (s : State) : State :=
  let numElements := ov.dims0 * ov.dims1 * ov.dims2
  let numSlice := ov.dims0 * ov.dims1
  let is := forceOdd pnode.KernelLengthX
  let is2 := -(Int.tdiv (is - 1) 2)
  if pnode.ParameterY > 0.001 then
    sweep env numElements (gaussVoxelY ov.dims0 numSlice is is2 pnode.GaussianKernel1D)
      (SetStatus 40 s)
  else { s with tempPixel := s.outPixel }

/-- The block `if (pnode->GetParameterZ() > 0.001) { ... } else { DeepCopy }` of
`IsotropicGaussianCPUFilter`. -/
def gaussStageZ (env : Env) (pnode : ParametersNode) (ov : ImageData) (s : State) : State :=
  let numElements := ov.dims0 * ov.dims1 * ov.dims2
  let numSlice := ov.dims0 * ov.dims1
  let is := forceOdd pnode.KernelLengthX
  let is2 := -(Int.tdiv (is - 1) 2)
  if pnode.ParameterZ > 0.001 then
    sweep env numElements (gaussVoxelZ numSlice numElements is is2 pnode.GaussianKernel1D)
      (SetStatus 70 s)
  else { s with outPixel := s.tempPixel }

/-- The method `vtkSlicerAstroSmoothingLogic::IsotropicGaussianCPUFilter`. -/
def IsotropicGaussianCPUFilter (env : Env) (pnode : ParametersNode) (s : State) :
    Outcome × State :=
  match s.inputVolume with
  | none => (Outcome.returned 0, s)
  | some _ =>
    match s.outputVolume with
    | none => (Outcome.returned 0, s)
    | some outputVolume =>
      let s0 := { s with tempPixel := s.outPixel }
      if outputVolume.NumberOfScalarComponents > 1 then (Outcome.returned 0, s0)
      else if outputVolume.DataType = VTK_FLOAT ∨ outputVolume.DataType = VTK_DOUBLE then
        let s2 := gaussStageX env pnode outputVolume (startScratch s)
        if s2.cancel then (Outcome.returned 0, releaseTemp s2)
        else
          let s3 := gaussStageY env pnode outputVolume s2
          if s3.cancel then (Outcome.returned 0, releaseTemp s3)
          else
            let s5 := releaseTemp (gaussStageZ env pnode outputVolume s3)
            if s5.cancel then (Outcome.returned 0, s5)
            else (Outcome.returned 1, updateAttributes env s5)
      else (Outcome.returned 0, s0)

/-! ## Gradient (intensity-driven diffusion) filter -/

/-- Per-voxel body of `GradientCPUFilter`: reads the output grid, writes the scratch grid.
`Pixel2 / noise2` is a division of doubles, and `noise2` is 0 when `K` or the noise
attribute is 0. With `noise2 = 0` and a voxel value other than 0 the quotient and `norm` are
`+inf`, the term `timeStep * (cX + cY + cZ) / norm` is 0, and the voxel keeps its value.
With `noise2 = 0` and the voxel value 0 the quotient is `0 / 0`: the double stored is NaN,
for which the embedding has no rational; the voxel's value is kept in its place and
`gradientStoresNaN` names the case. Once a NaN has been stored the rationals no longer
describe the grids of that run; with `K * RMS` other than 0 none is stored
(`gradient_no_NaN`). -/
def gradientVoxel (pnode : ParametersNode) (dims0 numSlice numElements : Int) (noise2 : ℚ)
    (elemCnt : Int) (s : State) : State :=
  let ref := Int.tdiv elemCnt dims0 * dims0
  let x1 := if elemCnt - 1 < ref then elemCnt - 1 + 1 else elemCnt - 1
  let x2 := if elemCnt + 1 ≥ ref + dims0 then elemCnt + 1 - 1 else elemCnt + 1
  let ref := Int.tdiv elemCnt numSlice * numSlice
  let y1 := if elemCnt - dims0 < ref then elemCnt - dims0 + dims0 else elemCnt - dims0
  let y2 := if elemCnt + dims0 ≥ ref + numSlice then elemCnt + dims0 - dims0 else elemCnt + dims0
  let z1 := if elemCnt - numSlice < 0 then elemCnt - numSlice + numSlice else elemCnt - numSlice
  let z2 := if elemCnt + numSlice ≥ numElements then elemCnt + numSlice - numSlice
    else elemCnt + numSlice
  let out := s.outPixel
  let Pixel2 := out elemCnt * out elemCnt
  let cX := ((out x1 - out elemCnt) + (out x2 - out elemCnt)) * pnode.ParameterX
  let cY := ((out y1 - out elemCnt) + (out y2 - out elemCnt)) * pnode.ParameterY
  let cZ := ((out z1 - out elemCnt) + (out z2 - out elemCnt)) * pnode.ParameterZ
  if noise2 = 0 then { s with tempPixel := write s.tempPixel elemCnt (out elemCnt) }
  else
    let norm := 1 + Pixel2 / noise2
    { s with tempPixel :=
        write s.tempPixel elemCnt (out elemCnt + pnode.TimeStep * (cX + cY + cZ) / norm) }

/-- The call `outputVolume->GetImageData()->DeepCopy(Internal->tempVolumeData)`. -/
def copyTempToOut (s : State) : State := { s with outPixel := s.tempPixel }

/-- One pass of the loop `for (int i = 1; i <= pnode->GetAccuracy(); i++)` of
`GradientCPUFilter`; the `return 0` on cancellation leaves the loop with `cancel` set. -/
def gradientIteration (env : Env) (pnode : ParametersNode) (dims0 numSlice numElements : Int)
    (noise2 : ℚ) (i : Int) (s : State) : LoopStep State :=
  let s1 := sweep env numElements (gradientVoxel pnode dims0 numSlice numElements noise2) s
  if s1.cancel then LoopStep.brk (releaseTemp s1)
  else LoopStep.cont (SetStatus (Int.tdiv (i * 100) pnode.Accuracy) (copyTempToOut s1))

/-- The loop `for (elemCnt ...) *(outPixel + elemCnt) -= noiseMean;`. -/
def subtractMean (numElements : Int) (noiseMean : ℚ) (out : Buffer) : Buffer :=
  forRange 0 (numElements - 1)
    (fun elemCnt o => LoopStep.cont (write o elemCnt (o elemCnt - noiseMean))) out

/-- The method `vtkSlicerAstroSmoothingLogic::GradientCPUFilter`. -/
def GradientCPUFilter (env : Env) (pnode : ParametersNode) (s : State) : Outcome × State :=
  match s.inputVolume with
  | none => (Outcome.returned 0, s)
  | some _ =>
    match s.outputVolume with
    | none => (Outcome.returned 0, s)
    | some outputVolume =>
      let s0 := { s with tempPixel := s.outPixel }
      if outputVolume.NumberOfScalarComponents > 1 then (Outcome.returned 0, s0)
      else
        let numElements := outputVolume.dims0 * outputVolume.dims1 * outputVolume.dims2
        let numSlice := outputVolume.dims0 * outputVolume.dims1
        let noise := s.RMS
        let noise2 := noise * noise * pnode.K * pnode.K
        if outputVolume.DataType = VTK_FLOAT ∨ outputVolume.DataType = VTK_DOUBLE then
          let s2 := forRange 1 pnode.Accuracy
            (gradientIteration env pnode outputVolume.dims0 numSlice numElements noise2)
            (startScratch s)
          if s2.cancel then (Outcome.returned 0, s2)
          else
            let s3 := updateAttributes env s2
            let noiseMean := s3.RMSMEAN
            let s4 := { s3 with outPixel := subtractMean numElements noiseMean s3.outPixel }
            let s5 := updateAttributes env s4
            (Outcome.returned 1, releaseTemp s5)
        else (Outcome.returned 0, s0)

/-! ## GPU entry points and dispatch -/

/-- The method `BoxGPUFilter` in a build without OpenGL filtering support. -/
def BoxGPUFilter (s : State) : Outcome × State := (Outcome.returned 0, s)

/-- The method `GaussianGPUFilter` in a build without OpenGL filtering support. -/
def GaussianGPUFilter (s : State) : Outcome × State := (Outcome.returned 0, s)

/-- The method `GradientGPUFilter` in a build without OpenGL filtering support. -/
def GradientGPUFilter (s : State) : Outcome × State := (Outcome.returned 0, s)

/-- The filter methods `Apply` can call. -/
inductive Strategy where
  | IsotropicBoxCPU
  | AnisotropicBoxCPU
  | BoxGPU
  | IsotropicGaussianCPU
  | AnisotropicGaussianCPU
  | GaussianGPU
  | GradientCPU
  | GradientGPU
  deriving DecidableEq

/-- The method the `switch (pnode->GetFilter())` of `Apply` calls, if any. -/
def selectStrategy (pnode : ParametersNode) : Option Strategy :=
  if pnode.Filter = 0 then
    if pnode.Hardware = 0 then
      if |pnode.ParameterX - pnode.ParameterY| < 0.001 ∧
          |pnode.ParameterY - pnode.ParameterZ| < 0.001 then
        some Strategy.IsotropicBoxCPU
      else some Strategy.AnisotropicBoxCPU
    else some Strategy.BoxGPU
  else if pnode.Filter = 1 then
    if pnode.Hardware = 0 then
      if |pnode.ParameterX - pnode.ParameterY| < 0.001 ∧
          |pnode.ParameterY - pnode.ParameterZ| < 0.001 then
        some Strategy.IsotropicGaussianCPU
      else some Strategy.AnisotropicGaussianCPU
    else some Strategy.GaussianGPU
  else if pnode.Filter = 2 then
    if pnode.Hardware = 0 then some Strategy.GradientCPU
    else some Strategy.GradientGPU
  else none

/-- Call of the selected method. -/
def runStrategy (env : Env) (pnode : ParametersNode) (s : State) : Strategy → Outcome × State
  | Strategy.IsotropicBoxCPU => IsotropicBoxCPUFilter env pnode s
  | Strategy.AnisotropicBoxCPU => AnisotropicBoxCPUFilter env pnode s
  | Strategy.BoxGPU => BoxGPUFilter s
  | Strategy.IsotropicGaussianCPU => IsotropicGaussianCPUFilter env pnode s
  | Strategy.AnisotropicGaussianCPU => AnisotropicGaussianCPUFilter env pnode s
  | Strategy.GaussianGPU => GaussianGPUFilter s
  | Strategy.GradientCPU => GradientCPUFilter env pnode s
  | Strategy.GradientGPU => GradientGPUFilter s

/-- The method `vtkSlicerAstroSmoothingLogic::Apply`: `success` stays 0 when no case
of the switch matches. -/
def Apply (env : Env) (pnode : ParametersNode) (s : State) : Outcome × State :=
  match selectStrategy pnode with
  | none => (Outcome.returned 0, s)
  | some strategy => runStrategy env pnode s strategy

/-- The five CPU filter methods. -/
def Strategy.isCPU : Strategy → Bool
  | Strategy.IsotropicBoxCPU => true
  | Strategy.AnisotropicBoxCPU => true
  | Strategy.IsotropicGaussianCPU => true
  | Strategy.AnisotropicGaussianCPU => true
  | Strategy.GradientCPU => true
  | _ => false

/-! ## Closed forms used in the proofs -/

/-- Classification of one tap of a window loop. -/
inductive Tap where
  | skip
  | stop
  | take (v : ℚ)

/-- Value a tap adds to the destination voxel. -/
def Tap.val : Tap → ℚ
  | Tap.take v => v
  | _ => 0

/-- Loop body that accumulates classified taps into voxel `e`. -/
def tapBody (cls : Int → Tap) (e : Int) (i : Int) (d : Buffer) : LoopStep Buffer :=
  match cls i with
  | Tap.skip => LoopStep.cont d
  | Tap.stop => LoopStep.brk d
  | Tap.take v => LoopStep.cont (write d e (d e + v))

/-- Total added by `n` iterations starting at `i`, honouring `break`. -/
def tapSum (cls : Int → Tap) : Nat → Int → ℚ
  | 0, _ => 0
  | n + 1, i =>
    match cls i with
    | Tap.skip => tapSum cls n (i + 1)
    | Tap.stop => 0
    | Tap.take v => v + tapSum cls n (i + 1)

/-- Sum of `f` over the integers `lo, ..., hi`. -/
def winSum (lo hi : Int) (f : Int → ℚ) : ℚ :=
  Finset.sum (Finset.range (hi + 1 - lo).toNat) (fun t => f (lo + (t : Int)))

/-- Tap of a window loop guarded by `if (pos < a) continue; if (pos >= b) break;`. -/
def boundedTap (pos : Int → Int) (a b : Int) (v : Int → ℚ) (i : Int) : Tap :=
  if pos i < a then Tap.skip else if pos i ≥ b then Tap.stop else Tap.take (v i)

/-- Value left at voxel `e` by the X pass of the box filter reading `T`. -/
def passX (nx nItems h : Int) (T : Buffer) (e : Int) : ℚ :=
  winSum (-h) h (fun i =>
    if Int.tdiv e nx * nx ≤ e + i ∧ e + i < Int.tdiv e nx * nx + nx then T (e + i) else 0)
    / (nItems : ℚ)

/-- Value left at voxel `e` by the Y pass of the box filter reading `O`. -/
def passY (nx S nItems h : Int) (O : Buffer) (e : Int) : ℚ :=
  winSum (-h) h (fun j =>
    if Int.tdiv e S * S ≤ e + j * nx ∧ e + j * nx < Int.tdiv e S * S + S then O (e + j * nx)
    else 0) / (nItems : ℚ)

/-- Value left at voxel `e` by the Z pass of the box filter reading `T`. -/
def passZ (S N nItems h : Int) (T : Buffer) (e : Int) : ℚ :=
  winSum (-h) h (fun k =>
    if 0 ≤ e + k * S ∧ e + k * S < N then T (e + k * S) else 0) / (nItems : ℚ)

/-- Buffer after a complete sweep that stores `F e` at every index `0 ≤ e < N`. -/
def swept (N : Int) (F : Int → ℚ) (old : Buffer) : Buffer :=
  fun e => if 0 ≤ e ∧ e < N then F e else old e

/-- Accepted taps of the anisotropic loops: all three pairs of bounds hold. -/
def anisoTapOK (nx S N e i j k : Int) : Prop :=
  (Int.tdiv e nx * nx ≤ e + i ∧ e + i < Int.tdiv e nx * nx + nx) ∧
  (Int.tdiv e S * S ≤ e + i + j * nx ∧ e + i + j * nx < Int.tdiv e S * S + S) ∧
  (0 ≤ e + i + j * nx + k * S ∧ e + i + j * nx + k * S < N)

instance (nx S N e i j k : Int) : Decidable (anisoTapOK nx S N e i j k) := by
  unfold anisoTapOK; infer_instance

/-- Sum accumulated at voxel `e` by the anisotropic box tap loops reading `I`. -/
def anisoBoxSum (nx S N hx hy hz : Int) (I : Buffer) (e : Int) : ℚ :=
  winSum (-hz) hz (fun k => winSum (-hy) hy (fun j => winSum (-hx) hx (fun i =>
    if anisoTapOK nx S N e i j k then I (e + i + j * nx + k * S) else 0)))

/-- Tap of the innermost anisotropic loop, for fixed `j` and `k`. -/
def anisoTap (nx S N e j k : Int) (v : Int → ℚ) (i : Int) : Tap :=
  if e + i < Int.tdiv e nx * nx then Tap.skip
  else if e + i ≥ Int.tdiv e nx * nx + nx then Tap.stop
  else if e + i + j * nx < Int.tdiv e S * S then Tap.skip
  else if e + i + j * nx ≥ Int.tdiv e S * S + S then Tap.stop
  else if e + i + j * nx + k * S < 0 then Tap.skip
  else if e + i + j * nx + k * S ≥ N then Tap.stop
  else Tap.take (v i)

/-- State seen by a voxel body after the status read returned `v`. -/
def afterRead (v : Int) (s : State) : State :=
  { s with Status := v, statusReads := v :: s.statusReads, voxels := s.voxels + 1 }

/-- Output grid after the X pass of the isotropic box filter (`O`: grid before the run). -/
def isoBoxAfterX (pnode : ParametersNode) (ov : ImageData) (O : Buffer) : Buffer :=
  if pnode.ParameterX > 0.001 then
    swept (ov.dims0 * ov.dims1 * ov.dims2)
      (passX ov.dims0 (forceOdd (toInt pnode.ParameterX))
        (halfWidth (forceOdd (toInt pnode.ParameterX))) O) O
  else O

/-- Scratch grid after the Y pass of the isotropic box filter. -/
def isoBoxAfterY (pnode : ParametersNode) (ov : ImageData) (O : Buffer) : Buffer :=
  if pnode.ParameterY > 0.001 then
    swept (ov.dims0 * ov.dims1 * ov.dims2)
      (passY ov.dims0 (ov.dims0 * ov.dims1) (forceOdd (toInt pnode.ParameterX))
        (halfWidth (forceOdd (toInt pnode.ParameterX))) (isoBoxAfterX pnode ov O)) O
  else isoBoxAfterX pnode ov O

/-- Output grid after the Z pass of the isotropic box filter. -/
def isoBoxAfterZ (pnode : ParametersNode) (ov : ImageData) (O : Buffer) : Buffer :=
  if pnode.ParameterZ > 0.001 then
    swept (ov.dims0 * ov.dims1 * ov.dims2)
      (passZ (ov.dims0 * ov.dims1) (ov.dims0 * ov.dims1 * ov.dims2)
        (forceOdd (toInt pnode.ParameterX)) (halfWidth (forceOdd (toInt pnode.ParameterX)))
        (isoBoxAfterY pnode ov O)) (isoBoxAfterX pnode ov O)
  else isoBoxAfterY pnode ov O

/-- Number of sweeps the isotropic filters schedule. -/
def passCount (pnode : ParametersNode) : Nat :=
  (if pnode.ParameterX > 0.001 then 1 else 0) + (if pnode.ParameterY > 0.001 then 1 else 0)
    + (if pnode.ParameterZ > 0.001 then 1 else 0)

/-- The scene passes the checks made before the first sweep. -/
def ValidScene (s : State) (ov : ImageData) : Prop :=
  (∃ iv, s.inputVolume = some iv) ∧ s.outputVolume = some ov ∧
    ¬ ov.NumberOfScalarComponents > 1 ∧
    (ov.DataType = VTK_FLOAT ∨ ov.DataType = VTK_DOUBLE)

/-- Nobody stores `-1` in the status cell. -/
def Quiet (env : Env) : Prop := ∀ t, env.ext t ≠ some (-1)

/-- Output grid after a completed run of the anisotropic box filter (`I`: input grid,
`O`: output grid before the run). -/
def anisoBoxOut (pnode : ParametersNode) (ov : ImageData) (I O : Buffer) : Buffer :=
  swept (ov.dims0 * ov.dims1 * ov.dims2)
    (fun e => anisoBoxSum ov.dims0 (ov.dims0 * ov.dims1) (ov.dims0 * ov.dims1 * ov.dims2)
      (halfWidth (forceOdd (toInt pnode.ParameterX)))
      (halfWidth (forceOdd (toInt pnode.ParameterY)))
      (halfWidth (forceOdd (toInt pnode.ParameterZ))) I e /
      ((forceOdd (toInt pnode.ParameterX) * forceOdd (toInt pnode.ParameterY) *
        forceOdd (toInt pnode.ParameterZ) : Int) : ℚ)) O

/-- Linear index of voxel `(x, y, z)` in a grid with row length `nx` and `ny` rows per slab. -/
def idx (nx ny x y z : Int) : Int := x + y * nx + z * (nx * ny)

/-- Sum of `f` over the window `x - h, ..., x + h` cut to the axis `0, ..., len - 1`. -/
def cutSum (len h : Int) (f : Int → ℚ) (x : Int) : ℚ :=
  winSum (-h) h (fun i => if 0 ≤ x + i ∧ x + i < len then f (x + i) else 0)

/-- Triple window sum of a grid function `G`, each axis cut to the grid. -/
def cutSum3 (nx ny nz hx hy hz : Int) (G : Int → Int → Int → ℚ) (x y z : Int) : ℚ :=
  cutSum nz hz (fun z2 => cutSum ny hy (fun y2 => cutSum nx hx (fun x2 => G x2 y2 z2) x) y) z

/-- Number of taps of the window `x - h, ..., x + h` that fall on the axis
`0, ..., len - 1`. -/
def tapsIn (len h x : Int) : ℚ := cutSum len h (fun _ => 1) x

/-- An environment in which nobody else touches the status cell. -/
def idleEnv : Env := { ext := fun _ => none, noiseRMS := fun _ => 0, noiseMean := fun _ => 0 }

/-- A single-component `float` image of the given size. -/
def floatImage (nx ny nz : Int) : ImageData :=
  { dims0 := nx, dims1 := ny, dims2 := nz, NumberOfScalarComponents := 1, DataType := VTK_FLOAT }

/-- A scene with an input volume holding `inp` and an output volume holding `out`,
the status cell holding `status`. -/
def sceneOf (iv ov : ImageData) (inp out : Buffer) (status : Int) : State :=
  { inputVolume := some iv, outputVolume := some ov, inPixel := inp, outPixel := out,
    tempPixel := fun _ => 0, Status := status, statusReads := [], statusWrites := [],
    cancel := false, status := 0,
    divByZero := false, voxels := 0, rangeUpdates := 0, noiseUpdates := 0, RMS := 1,
    RMSMEAN := 0 }

/-- A CPU box-filter request with the given axis parameters. -/
def boxNode (px py pz : ℚ) : ParametersNode :=
  { Filter := 0, Hardware := 0, ParameterX := px, ParameterY := py, ParameterZ := pz,
    KernelLengthX := 0, KernelLengthY := 0, KernelLengthZ := 0,
    GaussianKernel1D := fun _ => 0, GaussianKernel3D := fun _ => 0, K := 1, TimeStep := 1,
    Accuracy := 1 }

/-- Chebyshev distance between the voxels `(x, y, z)` and `(px, py, pz)`. -/
def chebyshev (x y z px py pz : Int) : Int := max (max |x - px| |y - py|) |z - pz|

/-- A grid that is 1 at the voxel with linear index `p` and 0 elsewhere. -/
def impulse (p : Int) : Buffer := fun e => if e = p then 1 else 0

/-- A grid with rows of length 10 that holds 1 on the first row and 2 on all others. -/
def rowGrid : Buffer := fun e => if e < 10 then 1 else 2

/-- Values returned by `GetStatus` between state `s` and the later state `t`. -/
def newReads (s t : State) : List Int :=
  t.statusReads.take (t.statusReads.length - s.statusReads.length)

/-- Value the next `GetStatus` call returns in state `t`. -/
def readValue (env : Env) (t : State) : Int := (env.ext t.statusReads.length).getD t.Status

/-- Bookkeeping between two states of one run: `t` extends the read log of `s`, `cancel`
is set exactly when it was set before or some new read returned `-1`, and the
statistics of the output volume were not recomputed. -/
def Track (s t : State) : Prop :=
  ∃ l : List Int, t.statusReads = l ++ s.statusReads ∧
    (t.cancel = true ↔ (s.cancel = true ∨ -1 ∈ l)) ∧
    t.rangeUpdates = s.rangeUpdates ∧ t.noiseUpdates = s.noiseUpdates

/-- A voxel body leaves the control fields alone. -/
def FrameBody (body : Int → State → State) : Prop :=
  ∀ e s, (body e s).cancel = s.cancel ∧ (body e s).statusReads = s.statusReads ∧
    (body e s).rangeUpdates = s.rangeUpdates ∧ (body e s).noiseUpdates = s.noiseUpdates

/-- A voxel body that in addition never traps and never writes the status cell. -/
def PlainBody (body : Int → State → State) : Prop :=
  FrameBody body ∧ ∀ e s, (body e s).divByZero = s.divByZero ∧ (body e s).Status = s.Status ∧
    (body e s).voxels = s.voxels

/-- What a finished call says about cancellation: if one of the status reads made during
the call returned `-1`, the call returned 0 and no statistics were recomputed. -/
def Summary (s : State) (r : Outcome × State) : Prop :=
  ∃ l : List Int, r.2.statusReads = l ++ s.statusReads ∧
    (-1 ∈ l → r.1 = Outcome.returned 0 ∧ r.2.rangeUpdates = s.rangeUpdates ∧
      r.2.noiseUpdates = s.noiseUpdates)

/-- The three filters that sweep the grid several times. -/
def Strategy.isMultiPass : Strategy → Bool
  | Strategy.IsotropicBoxCPU => true
  | Strategy.IsotropicGaussianCPU => true
  | Strategy.GradientCPU => true
  | _ => false

/-- Number of sweeps over the grid a multi-pass filter schedules: one per axis whose
parameter exceeds 0.001 for the isotropic filters, `Accuracy` for the gradient filter. -/
def scheduledSweeps (pnode : ParametersNode) : Strategy → Nat
  | Strategy.GradientCPU => pnode.Accuracy.toNat
  | _ => passCount pnode

/-- A CPU gradient-filter request with `accuracy` iterations. -/
def gradientNode (accuracy : Int) : ParametersNode :=
  { Filter := 2, Hardware := 0, ParameterX := 1, ParameterY := 1, ParameterZ := 1,
    KernelLengthX := 0, KernelLengthY := 0, KernelLengthZ := 0,
    GaussianKernel1D := fun _ => 0, GaussianKernel3D := fun _ => 0, K := 1, TimeStep := 1,
    Accuracy := accuracy }

/-- The scene `s` with another result of the input-volume lookup. -/
def withInput (v : Option ImageData) (s : State) : State := { s with inputVolume := v }

/-- Apply `g` to the state carried by a loop step. -/
def mapStep {σ : Type} (g : σ → σ) : LoopStep σ → LoopStep σ
  | LoopStep.cont s => LoopStep.cont (g s)
  | LoopStep.brk s => LoopStep.brk (g s)

/-- An image with the given size, component count and scalar type tag. -/
def imageOf (nx ny nz comps dataType : Int) : ImageData :=
  { dims0 := nx, dims1 := ny, dims2 := nz, NumberOfScalarComponents := comps,
    DataType := dataType }

/-- Tag `VTK_SHORT` of `vtkType.h`. -/
def VTK_SHORT : Int := 4

/-- An environment in which another thread stores `-1` in the status cell before every
read. -/
def cancelEnv : Env :=
  { ext := fun _ => some (-1), noiseRMS := fun _ => 0, noiseMean := fun _ => 0 }

/-- The separable three-pass filter methods. -/
def Strategy.isIsotropic : Strategy → Bool
  | Strategy.IsotropicBoxCPU => true
  | Strategy.IsotropicGaussianCPU => true
  | _ => false

/-- The non-separable filter methods. -/
def Strategy.isAnisotropic : Strategy → Bool
  | Strategy.AnisotropicBoxCPU => true
  | Strategy.AnisotropicGaussianCPU => true
  | _ => false

/-- A request for the GPU backend: filter kind `filter`, hardware flag 1. -/
def gpuNode (filter : Int) : ParametersNode :=
  { Filter := filter, Hardware := 1, ParameterX := 3, ParameterY := 3, ParameterZ := 3,
    KernelLengthX := 3, KernelLengthY := 3, KernelLengthZ := 3,
    GaussianKernel1D := fun _ => 0, GaussianKernel3D := fun _ => 0, K := 1, TimeStep := 1,
    Accuracy := 1 }

/-- Accounting of a finished call: if it returned 1, `UpdateRangeAttributes` and
`UpdateNoiseAttributes` were each invoked `k` times on the output volume. -/
def Counted (k : Nat) (s : State) (r : Outcome × State) : Prop :=
  r.1 = Outcome.returned 1 →
    r.2.rangeUpdates = s.rangeUpdates + k ∧ r.2.noiseUpdates = s.noiseUpdates + k

/-- Number of statistics updates a successful run of a strategy makes. -/
def updatesOnSuccess : Strategy → Nat
  | Strategy.GradientCPU => 2
  | _ => 1

/-- Values passed to `SetStatus` between state `s` and the later state `t`. -/
def newWrites (s t : State) : List Int :=
  t.statusWrites.take (t.statusWrites.length - s.statusWrites.length)

/-- Between `s` and `t` the logic passed only values satisfying `P` to `SetStatus`. -/
def Wrote (P : Int → Prop) (s t : State) : Prop :=
  ∃ l : List Int, t.statusWrites = l ++ s.statusWrites ∧ ∀ v ∈ l, P v

/-- The values the isotropic filters pass to `SetStatus`. -/
def isoWrite (v : Int) : Prop := v = 1 ∨ v = 10 ∨ v = 40 ∨ v = 70

/-- The values the anisotropic filters pass to `SetStatus`. -/
def anisoWrite (v : Int) : Prop := v = 1 ∨ (10 ≤ v ∧ v % 10 = 0)

/-- The values `GradientCPUFilter` passes to `SetStatus`. -/
def gradientWrite (pnode : ParametersNode) (v : Int) : Prop :=
  v = 1 ∨ ∃ i : Int, 1 ≤ i ∧ i ≤ pnode.Accuracy ∧ v = Int.tdiv (i * 100) pnode.Accuracy

/-- Nobody but the logic writes the status cell. -/
def Idle (env : Env) : Prop := ∀ t, env.ext t = none

/-- Value the isotropic filters leave in the status cell: the one written before the last
sweep that ran. -/
def isoFinalStatus (pnode : ParametersNode) : Int :=
  if pnode.ParameterZ > 0.001 then 70
  else if pnode.ParameterY > 0.001 then 40
  else if pnode.ParameterX > 0.001 then 10 else 1

/-- The values a strategy passes to `SetStatus`: 1, 10, 40, 70 for the isotropic filters;
1 and multiples of ten from 10 upward for the anisotropic filters; 1 and `i * 100 / Accuracy`
for an iteration number `i` for the gradient filter; nothing for the GPU entry points of the
build without OpenGL. -/
def statusWriteShape (pnode : ParametersNode) : Strategy → Int → Prop
  | Strategy.IsotropicBoxCPU, v => isoWrite v
  | Strategy.IsotropicGaussianCPU, v => isoWrite v
  | Strategy.AnisotropicBoxCPU, v => anisoWrite v
  | Strategy.AnisotropicGaussianCPU, v => anisoWrite v
  | Strategy.GradientCPU, v => gradientWrite pnode v
  | _, _ => False

/-- What the status cell holds after a successful run when nobody else writes it: the value
written before the last sweep for the isotropic filters, a multiple of ten from 100 upward
for the anisotropic filters, 100 for the gradient filter (1 when it has no iteration). -/
def successStatus (pnode : ParametersNode) : Strategy → Int → Prop
  | Strategy.IsotropicBoxCPU, v => v = isoFinalStatus pnode
  | Strategy.IsotropicGaussianCPU, v => v = isoFinalStatus pnode
  | Strategy.AnisotropicBoxCPU, v => 100 ≤ v ∧ v % 10 = 0
  | Strategy.AnisotropicGaussianCPU, v => 100 ≤ v ∧ v % 10 = 0
  | Strategy.GradientCPU, v => v = if 1 ≤ pnode.Accuracy then 100 else 1
  | _, _ => True

/-- The scene `s` with other voxel values in the input grid. -/
def withInPixel (p : Buffer) (s : State) : State := { s with inPixel := p }

/-- Sum accumulated at voxel `e` by the anisotropic Gaussian tap loops reading `I`, the tap
at offsets `(i, j, k)` weighted by entry `(k + hz) * KS + (j + hy) * KL + (i + hx)` of the
kernel table `G`. -/
def anisoGaussSum (nx S N hx hy hz KS KL : Int) (G I : Buffer) (e : Int) : ℚ :=
  winSum (-hz) hz (fun k => winSum (-hy) hy (fun j => winSum (-hx) hx (fun i =>
    if anisoTapOK nx S N e i j k
    then I (e + i + j * nx + k * S) * G ((k + hz) * KS + (j + hy) * KL + (i + hx)) else 0)))

/-- Output grid after a completed run of the anisotropic Gaussian filter (`I`: input grid,
`O`: output grid before the run). -/
def anisoGaussOut (pnode : ParametersNode) (ov : ImageData) (I O : Buffer) : Buffer :=
  swept (ov.dims0 * ov.dims1 * ov.dims2)
    (anisoGaussSum ov.dims0 (ov.dims0 * ov.dims1) (ov.dims0 * ov.dims1 * ov.dims2)
      (toInt (((pnode.KernelLengthX - 1 : Int) : ℚ) / 2))
      (toInt (((pnode.KernelLengthY - 1 : Int) : ℚ) / 2))
      (toInt (((pnode.KernelLengthZ - 1 : Int) : ℚ) / 2))
      (pnode.KernelLengthX * pnode.KernelLengthY) pnode.KernelLengthX
      pnode.GaussianKernel3D I) O

/-- Modelled from the spec: the two string properties `InputVolumeNodeID` and
`ZeroMomentVolumeNodeID` of `vtkMRMLAstroMomentMapsParametersNode`. The class is not among
the sources, only its test `vtkMRMLAstroMomentMapsParametersNodeTest1.cxx` is. A property
holds a string or nothing (a null pointer); `MTime` counts the calls of `Modified()`. -/
structure MomentMapsParametersNode where
  InputVolumeNodeID : Option String
  ZeroMomentVolumeNodeID : Option String
  MTime : Nat

/-- Modelled from the spec: a freshly created node, both properties unset. -/
def MomentMapsParametersNode.new : MomentMapsParametersNode :=
  { InputVolumeNodeID := none, ZeroMomentVolumeNodeID := none, MTime := 0 }

/-- Modelled from the spec: `SetInputVolumeNodeID(arg)`, a string setter in the style of
`vtkSetStringMacro`: nothing happens when the property already equals the argument,
otherwise the node stores a copy of the argument and is marked modified. -/
def MomentMapsParametersNode.SetInputVolumeNodeID (arg : Option String)
    (n : MomentMapsParametersNode) : MomentMapsParametersNode :=
  if n.InputVolumeNodeID = arg then n
  else { n with InputVolumeNodeID := arg, MTime := n.MTime + 1 }

/-- Modelled from the spec: `GetInputVolumeNodeID()` returns the stored string. -/
def MomentMapsParametersNode.GetInputVolumeNodeID (n : MomentMapsParametersNode) :
    Option String := n.InputVolumeNodeID

/-- Modelled from the spec: `SetZeroMomentVolumeNodeID(arg)`, as `SetInputVolumeNodeID`. -/
def MomentMapsParametersNode.SetZeroMomentVolumeNodeID (arg : Option String)
    (n : MomentMapsParametersNode) : MomentMapsParametersNode :=
  if n.ZeroMomentVolumeNodeID = arg then n
  else { n with ZeroMomentVolumeNodeID := arg, MTime := n.MTime + 1 }

/-- Modelled from the spec: `GetZeroMomentVolumeNodeID()` returns the stored string. -/
def MomentMapsParametersNode.GetZeroMomentVolumeNodeID (n : MomentMapsParametersNode) :
    Option String := n.ZeroMomentVolumeNodeID

/-- Value left at voxel `e` by the X pass of the isotropic Gaussian filter reading `T`:
taps `i = 0, ..., is` at offset `i + is2`, weighted by entry `i` of the kernel table. -/
def gaussPassX (nx is is2 : Int) (g T : Buffer) (e : Int) : ℚ :=
  winSum 0 is (fun i =>
    if Int.tdiv e nx * nx ≤ e + i + is2 ∧ e + i + is2 < Int.tdiv e nx * nx + nx
    then T (e + i + is2) * g i else 0)

/-- Value left at voxel `e` by the Y pass of the isotropic Gaussian filter reading `O`. -/
def gaussPassY (nx S is is2 : Int) (g O : Buffer) (e : Int) : ℚ :=
  winSum 0 is (fun i =>
    if Int.tdiv e S * S ≤ e + (i + is2) * nx ∧ e + (i + is2) * nx < Int.tdiv e S * S + S
    then O (e + (i + is2) * nx) * g i else 0)

/-- Value left at voxel `e` by the Z pass of the isotropic Gaussian filter reading `T`. -/
def gaussPassZ (S N is is2 : Int) (g T : Buffer) (e : Int) : ℚ :=
  winSum 0 is (fun i =>
    if 0 ≤ e + (i + is2) * S ∧ e + (i + is2) * S < N then T (e + (i + is2) * S) * g i else 0)

/-- Output grid after the X pass of the isotropic Gaussian filter (`O`: grid before the
run). -/
def isoGaussAfterX (pnode : ParametersNode) (ov : ImageData) (O : Buffer) : Buffer :=
  if pnode.ParameterX > 0.001 then
    swept (ov.dims0 * ov.dims1 * ov.dims2)
      (gaussPassX ov.dims0 (forceOdd pnode.KernelLengthX)
        (-(Int.tdiv (forceOdd pnode.KernelLengthX - 1) 2)) pnode.GaussianKernel1D O) O
  else O

/-- Scratch grid after the Y pass of the isotropic Gaussian filter. -/
def isoGaussAfterY (pnode : ParametersNode) (ov : ImageData) (O : Buffer) : Buffer :=
  if pnode.ParameterY > 0.001 then
    swept (ov.dims0 * ov.dims1 * ov.dims2)
      (gaussPassY ov.dims0 (ov.dims0 * ov.dims1) (forceOdd pnode.KernelLengthX)
        (-(Int.tdiv (forceOdd pnode.KernelLengthX - 1) 2)) pnode.GaussianKernel1D
        (isoGaussAfterX pnode ov O)) O
  else isoGaussAfterX pnode ov O

/-- Output grid after the Z pass of the isotropic Gaussian filter. -/
def isoGaussAfterZ (pnode : ParametersNode) (ov : ImageData) (O : Buffer) : Buffer :=
  if pnode.ParameterZ > 0.001 then
    swept (ov.dims0 * ov.dims1 * ov.dims2)
      (gaussPassZ (ov.dims0 * ov.dims1) (ov.dims0 * ov.dims1 * ov.dims2)
        (forceOdd pnode.KernelLengthX) (-(Int.tdiv (forceOdd pnode.KernelLengthX - 1) 2))
        pnode.GaussianKernel1D (isoGaussAfterY pnode ov O))
      (isoGaussAfterX pnode ov O)
  else isoGaussAfterY pnode ov O

/-- A CPU Gaussian request with kernel length 1 on every axis: the one-entry 1-D table holds
1.0, the memory cell after it holds `c`, and the one-entry 3-D table holds 1.0 (the product
`g[0] * g[0] * g[0]`). -/
def unitGaussNode (c : ℚ) : ParametersNode :=
  { Filter := 1, Hardware := 0, ParameterX := 1, ParameterY := 1, ParameterZ := 1,
    KernelLengthX := 1, KernelLengthY := 1, KernelLengthZ := 1,
    GaussianKernel1D := fun i => if i = 0 then 1 else if i = 1 then c else 0,
    GaussianKernel3D := fun i => if i = 0 then 1 else 0, K := 1, TimeStep := 1,
    Accuracy := 1 }

/-- Index `x1` of the per-voxel body of `GradientCPUFilter`:
`x1 = elemCnt - 1; ref = (elemCnt / dims[0]) * dims[0]; if (x1 < ref) x1++;`. -/
def gradientX1 (dims0 elemCnt : Int) : Int :=
  let ref := Int.tdiv elemCnt dims0 * dims0
  if elemCnt - 1 < ref then elemCnt - 1 + 1 else elemCnt - 1

/-- Index `x2`: `x2 = elemCnt + 1; if (x2 >= ref + dims[0]) x2--;`. -/
def gradientX2 (dims0 elemCnt : Int) : Int :=
  let ref := Int.tdiv elemCnt dims0 * dims0
  if elemCnt + 1 ≥ ref + dims0 then elemCnt + 1 - 1 else elemCnt + 1

/-- Index `y1`: `y1 = elemCnt - dims[0]; ref = (elemCnt / numSlice) * numSlice;
if (y1 < ref) y1 += dims[0];`. -/
def gradientY1 (dims0 numSlice elemCnt : Int) : Int :=
  let ref := Int.tdiv elemCnt numSlice * numSlice
  if elemCnt - dims0 < ref then elemCnt - dims0 + dims0 else elemCnt - dims0

/-- Index `y2`: `y2 = elemCnt + dims[0]; if (y2 >= ref + numSlice) y2 -= dims[0];`. -/
def gradientY2 (dims0 numSlice elemCnt : Int) : Int :=
  let ref := Int.tdiv elemCnt numSlice * numSlice
  if elemCnt + dims0 ≥ ref + numSlice then elemCnt + dims0 - dims0 else elemCnt + dims0

/-- Index `z1`: `z1 = elemCnt - numSlice; if (z1 < 0) z1 += numSlice;`. -/
def gradientZ1 (numSlice elemCnt : Int) : Int :=
  if elemCnt - numSlice < 0 then elemCnt - numSlice + numSlice else elemCnt - numSlice

/-- Index `z2`: `z2 = elemCnt + numSlice; if (z2 >= numElements) z2 -= numSlice;`. -/
def gradientZ2 (numSlice numElements elemCnt : Int) : Int :=
  if elemCnt + numSlice ≥ numElements then elemCnt + numSlice - numSlice
  else elemCnt + numSlice

/-- The variable `norm` of the per-voxel body, `1. + (Pixel2 / noise2)`, for `noise2` other
than 0. For `noise2 = 0` the double is `+inf` or NaN, which this rational does not
describe; `gradientValue` does not use it then. -/
def gradientNorm (noise2 : ℚ) (out : Buffer) (elemCnt : Int) : ℚ :=
  1 + out elemCnt * out elemCnt / noise2

/-- The double the per-voxel body stores at `elemCnt` is NaN: `noise2` is 0 and the voxel
holds 0, so `Pixel2 / noise2` is `0 / 0`. -/
def gradientStoresNaN (noise2 : ℚ) (out : Buffer) (elemCnt : Int) : Prop :=
  noise2 = 0 ∧ out elemCnt = 0

/-- The sum `cX + cY + cZ` of the per-voxel body. -/
def gradientFlux (pnode : ParametersNode) (dims0 numSlice numElements : Int) (out : Buffer)
    (elemCnt : Int) : ℚ :=
  ((out (gradientX1 dims0 elemCnt) - out elemCnt) +
      (out (gradientX2 dims0 elemCnt) - out elemCnt)) * pnode.ParameterX +
    ((out (gradientY1 dims0 numSlice elemCnt) - out elemCnt) +
      (out (gradientY2 dims0 numSlice elemCnt) - out elemCnt)) * pnode.ParameterY +
    ((out (gradientZ1 numSlice elemCnt) - out elemCnt) +
      (out (gradientZ2 numSlice numElements elemCnt) - out elemCnt)) * pnode.ParameterZ

/-- Value the per-voxel body of `GradientCPUFilter` stores in the scratch grid at `elemCnt`
when the output grid holds `out`. With `noise2 = 0` the division by the infinite `norm`
leaves the voxel's value (the case `gradientStoresNaN` apart, where the double stored is
NaN and the voxel's value stands in for it). -/
def gradientValue (pnode : ParametersNode) (dims0 numSlice numElements : Int) (noise2 : ℚ)
    (out : Buffer) (elemCnt : Int) : ℚ :=
  if noise2 = 0 then out elemCnt
  else
    out elemCnt + pnode.TimeStep * gradientFlux pnode dims0 numSlice numElements out elemCnt /
      gradientNorm noise2 out elemCnt

/-- Output grid after one iteration nobody cancels: the sweep over all voxels followed by
the copy of the scratch grid into the output grid. -/
def gradientStep (pnode : ParametersNode) (dims0 numSlice numElements : Int) (noise2 : ℚ)
    (g : Buffer) : Buffer :=
  swept numElements (gradientValue pnode dims0 numSlice numElements noise2 g) g

/-- State of `GradientCPUFilter` when the loop `for (int i = 1; i <= pnode->GetAccuracy();
i++)` has ended: the output grid is the grid before the statistics update and the bias
correction. -/
def gradientLoop (env : Env) (pnode : ParametersNode) (ov : ImageData) (s : State) : State :=
  forRange 1 pnode.Accuracy
    (gradientIteration env pnode ov.dims0 (ov.dims0 * ov.dims1)
      (ov.dims0 * ov.dims1 * ov.dims2) (s.RMS * s.RMS * pnode.K * pnode.K))
    (startScratch s)

/-- The statements of `GradientCPUFilter` that follow the loop over the iterations. -/
def gradientTail (env : Env) (ov : ImageData) (s2 : State) : Outcome × State :=
  let numElements := ov.dims0 * ov.dims1 * ov.dims2
  if s2.cancel then (Outcome.returned 0, s2)
  else
    let s3 := updateAttributes env s2
    let noiseMean := s3.RMSMEAN
    let s4 := { s3 with outPixel := subtractMean numElements noiseMean s3.outPixel }
    let s5 := updateAttributes env s4
    (Outcome.returned 1, releaseTemp s5)

/-- The step map `S` of one diffusion iteration in the words of the spec: for the voxel
with linear index `e = i + j*nx + k*nx*ny`, the neighbour along an axis is the adjacent voxel
when there is one and `e` itself otherwise, and
`S(g)(e) = g(e) + timeStep * (Px*(g(x1)+g(x2)-2*g(e)) + Py*(g(y1)+g(y2)-2*g(e)) +
Pz*(g(z1)+g(z2)-2*g(e))) / (1 + g(e)^2 / (K*RMS)^2)`. Outside the grid nothing changes. -/
def stepMap (pnode : ParametersNode) (rms : ℚ) (nx ny nz : Int) (g : Buffer) : Buffer :=
  fun e =>
    if 0 ≤ e ∧ e < nx * ny * nz then
      let i := e % nx
      let j := e % (nx * ny) / nx
      let k := e / (nx * ny)
      let x1 := if i > 0 then e - 1 else e
      let x2 := if i < nx - 1 then e + 1 else e
      let y1 := if j > 0 then e - nx else e
      let y2 := if j < ny - 1 then e + nx else e
      let z1 := if k > 0 then e - nx * ny else e
      let z2 := if k < nz - 1 then e + nx * ny else e
      g e + pnode.TimeStep *
        (pnode.ParameterX * (g x1 + g x2 - 2 * g e) +
          pnode.ParameterY * (g y1 + g y2 - 2 * g e) +
          pnode.ParameterZ * (g z1 + g z2 - 2 * g e)) /
        (1 + g e ^ 2 / (pnode.K * rms) ^ 2)
    else g e

/-- Collaborators for a 2x1x1 grid: nobody writes the status cell, and the noise statistics
of a grid are the mean of its two voxels and the constant 1. -/
def twoVoxelEnv : Env :=
  { ext := fun _ => none, noiseRMS := fun _ => 1, noiseMean := fun g => (g 0 + g 1) / 2 }

/-- The function `StringToDouble` of the logic: the string is inserted into a
`std::stringstream` and a `double` is extracted; the result is the extracted number, and 0
when the extraction fails. `extract` stands for the extraction of the standard library. -/
def StringToDouble (extract : String → Option ℚ) (str : String) : ℚ :=
  match extract str with
  | some result => result
  | none => 0

/-- The per-voxel body of a sweep executed once for each index of `order`, in that order, by
a run nobody cancels. The loop `for (int elemCnt = 0; elemCnt < numElements; elemCnt++)`
takes the indices in increasing order; a parallel schedule takes them in another. -/
def runOrder (body : Int → State → State) (order : List Int) (s : State) : State :=
  order.foldl (fun t e => body e t) s

/-- The indices `0, ..., numElements - 1` in increasing order. -/
def indices (numElements : Int) : List Int :=
  (List.range numElements.toNat).map Int.ofNat

/-- The body for index `e` writes only element `e` of the buffer `dst`; the value written
is computed from the buffer `src` and `e` alone, and `src` is left as it is. -/
def WritesOwn (dst src : State → Buffer) (body : Int → State → State) : Prop :=
  ∃ F : Buffer → Int → ℚ,
    ∀ e t, dst (body e t) = write (dst t) e (F (src t) e) ∧ src (body e t) = src t

/-- Every order of processing the indices `0, ..., N - 1` leaves the destination buffer the
in-order sweep leaves. -/
def OrderFree (env : Env) (N : Int) (dst : State → Buffer) (body : Int → State → State)
    (s : State) : Prop :=
  ∀ order : List Int, order.Perm (indices N) →
    dst (runOrder body order s) = dst (sweep env N body s)

/-- Header of a per-voxel loop body in the build with `VTK_SLICER_ASTRO_SUPPORT_OPENMP`, as
executed by the worker whose `omp_get_thread_num()` is `thread`: read the status, set the
shared `cancel` on `-1` only in thread 0, `#pragma omp flush (cancel)`, run the body unless
`cancel` is set. The field `cancel` of the state passed in is the value of the shared flag
the flush makes visible to this worker. -/
def voxelStepOpenMP (env : Env) (thread : Int) (body : Int → State → State) (elemCnt : Int)
    (s : State) : LoopStep State :=
  let r := GetStatus env s
  let s1 := if r.1 = -1 ∧ thread = 0 then { r.2 with cancel := true } else r.2
  if s1.cancel then LoopStep.cont s1
  else
    let s2 := body elemCnt { s1 with voxels := s1.voxels + 1 }
    if s2.divByZero then LoopStep.brk s2 else LoopStep.cont s2

/-- The state a loop step ends in. -/
def stepState {σ : Type} : LoopStep σ → σ
  | LoopStep.cont s => s
  | LoopStep.brk s => s

/-- The divisor `numElements / (numProcs * 100)` of the progress update in the build with
`VTK_SLICER_ASTRO_SUPPORT_OPENMP`. -/
def progressDivisorOpenMP (numElements numProcs : Int) : Int :=
  Int.tdiv numElements (numProcs * 100)

/-- The effective kernel length for a requested box length `L`, in the words of the spec:
`L + 1` when `L` is even, `L` when `L` is odd. -/
def effectiveLength (L : Int) : Int := if L % 2 = 0 then L + 1 else L

/-! ## Loop lemmas -/

theorem write_same (b : Buffer) (p : Int) (v : ℚ) : write b p v p = v := by
  simp [write]

theorem write_other (b : Buffer) {p q : Int} (v : ℚ) (h : q ≠ p) : write b p v q = b q := by
  simp [write, h]

theorem write_write (b : Buffer) (p : Int) (u v : ℚ) : write (write b p u) p v = write b p v := by
  funext q
  by_cases h : q = p <;> simp [write, h]

theorem write_self (b : Buffer) (p : Int) : write b p (b p) = b := by
  funext q
  by_cases h : q = p <;> simp [write, h]

theorem forLoop_tapBody (cls : Int → Tap) (e : Int) (n : Nat) (lo : Int) (d : Buffer) :
    forLoop (tapBody cls e) n lo d = write d e (d e + tapSum cls n lo) := by
  induction n generalizing lo d with
  | zero => simp [forLoop, tapSum, write_self]
  | succ n ih =>
    rw [forLoop, tapSum]
    cases h : cls lo with
    | skip =>
      have hb : tapBody cls e lo d = LoopStep.cont d := by simp [tapBody, h]
      rw [hb]
      exact ih (lo + 1) d
    | stop =>
      have hb : tapBody cls e lo d = LoopStep.brk d := by simp [tapBody, h]
      rw [hb]
      simp [write_self]
    | take v =>
      have hb : tapBody cls e lo d = LoopStep.cont (write d e (d e + v)) := by
        simp [tapBody, h]
      rw [hb]
      simp only
      rw [ih, write_write, write_same, add_assoc]

theorem tapSum_eq_sum (cls : Int → Tap)
    (hmono : ∀ i j, cls i = Tap.stop → i ≤ j → (cls j).val = 0) (n : Nat) (lo : Int) :
    tapSum cls n lo = Finset.sum (Finset.range n) (fun t => (cls (lo + (t : Int))).val) := by
  induction n generalizing lo with
  | zero => simp [tapSum]
  | succ n ih =>
    rw [Finset.sum_range_succ']
    have hshift : ∀ t : Nat, lo + ((t + 1 : Nat) : Int) = lo + 1 + (t : Int) := by
      intro t; push_cast; ring
    simp only [hshift, Nat.cast_zero, add_zero]
    rw [tapSum]
    cases h : cls lo with
    | skip =>
      have h0 : Tap.skip.val = 0 := rfl
      simp only [h0, add_zero]
      exact ih (lo + 1)
    | stop =>
      have h0 : Tap.stop.val = 0 := rfl
      have hz : ∀ t : Nat, (cls (lo + 1 + (t : Int))).val = 0 := fun t =>
        hmono lo _ h (by omega)
      simp only [h0, hz, add_zero, Finset.sum_const_zero]
    | take v =>
      have h0 : (Tap.take v).val = v := rfl
      simp only [h0]
      rw [ih (lo + 1), add_comm]

theorem forRange_tapBody (cls : Int → Tap)
    (hmono : ∀ i j, cls i = Tap.stop → i ≤ j → (cls j).val = 0) (e lo hi : Int) (d : Buffer) :
    forRange lo hi (tapBody cls e) d = write d e (d e + winSum lo hi (fun i => (cls i).val)) := by
  unfold forRange winSum
  rw [forLoop_tapBody, tapSum_eq_sum cls hmono]

theorem boundedTap_val (pos : Int → Int) (a b : Int) (v : Int → ℚ) (i : Int) :
    (boundedTap pos a b v i).val = if a ≤ pos i ∧ pos i < b then v i else 0 := by
  unfold boundedTap
  by_cases h1 : pos i < a
  · have : ¬ (a ≤ pos i ∧ pos i < b) := fun h => absurd h1 (not_lt.mpr h.1)
    simp [h1, this, Tap.val]
  · by_cases h2 : pos i ≥ b
    · have : ¬ (a ≤ pos i ∧ pos i < b) := fun h => absurd h.2 (not_lt.mpr h2)
      simp [h1, h2, this, Tap.val]
    · have : a ≤ pos i ∧ pos i < b := ⟨not_lt.mp h1, not_le.mp h2⟩
      simp [h1, h2, this, Tap.val]

theorem boundedTap_mono (pos : Int → Int) (hpos : Monotone pos) (a b : Int) (v : Int → ℚ)
    (i j : Int) (hstop : boundedTap pos a b v i = Tap.stop) (hij : i ≤ j) :
    (boundedTap pos a b v j).val = 0 := by
  have hb : b ≤ pos i := by
    unfold boundedTap at hstop
    by_cases h1 : pos i < a
    · simp [h1] at hstop
    · by_cases h2 : pos i ≥ b
      · exact h2
      · simp [h1, h2] at hstop
  have hj : b ≤ pos j := le_trans hb (hpos hij)
  rw [boundedTap_val]
  have : ¬ (a ≤ pos j ∧ pos j < b) := fun h => absurd h.2 (not_lt.mpr hj)
  simp [this]

theorem boxTapsX_eq (nx h : Int) (src : Buffer) (e : Int) (d : Buffer) :
    boxTapsX nx h src e d = write d e (d e + winSum (-h) h (fun i =>
      if Int.tdiv e nx * nx ≤ e + i ∧ e + i < Int.tdiv e nx * nx + nx then src (e + i)
      else 0)) := by
  have hbody : (fun (i : Int) (d : Buffer) =>
      let ii := e + i
      let ref := Int.tdiv e nx * nx
      if ii < ref then LoopStep.cont d
      else if ii ≥ ref + nx then LoopStep.brk d
      else LoopStep.cont (write d e (d e + src ii))) =
      tapBody (boundedTap (fun i => e + i) (Int.tdiv e nx * nx) (Int.tdiv e nx * nx + nx)
        (fun i => src (e + i))) e := by
    funext i d
    simp only [tapBody, boundedTap]
    split_ifs <;> rfl
  unfold boxTapsX
  rw [hbody, forRange_tapBody _ (boundedTap_mono _ (fun a b hab => by simpa using hab) _ _ _)]
  simp only [boundedTap_val]

theorem boxTapsY_eq (nx S h : Int) (hnx : 0 ≤ nx) (src : Buffer) (e : Int) (d : Buffer) :
    boxTapsY nx S h src e d = write d e (d e + winSum (-h) h (fun j =>
      if Int.tdiv e S * S ≤ e + j * nx ∧ e + j * nx < Int.tdiv e S * S + S
      then src (e + j * nx) else 0)) := by
  have hbody : (fun (i : Int) (d : Buffer) =>
      let ii := e + i * nx
      let ref := Int.tdiv e S * S
      if ii < ref then LoopStep.cont d
      else if ii ≥ ref + S then LoopStep.brk d
      else LoopStep.cont (write d e (d e + src ii))) =
      tapBody (boundedTap (fun i => e + i * nx) (Int.tdiv e S * S) (Int.tdiv e S * S + S)
        (fun i => src (e + i * nx))) e := by
    funext i d
    simp only [tapBody, boundedTap]
    split_ifs <;> rfl
  unfold boxTapsY
  rw [hbody, forRange_tapBody _ (boundedTap_mono _
    (fun a b hab => by
      have := mul_le_mul_of_nonneg_right hab hnx
      simpa using this) _ _ _)]
  simp only [boundedTap_val]

theorem boxTapsZ_eq (S N h : Int) (hS : 0 ≤ S) (src : Buffer) (e : Int) (d : Buffer) :
    boxTapsZ S N h src e d = write d e (d e + winSum (-h) h (fun k =>
      if 0 ≤ e + k * S ∧ e + k * S < N then src (e + k * S) else 0)) := by
  have hbody : (fun (i : Int) (d : Buffer) =>
      let ii := e + i * S
      if ii < 0 then LoopStep.cont d
      else if ii ≥ N then LoopStep.brk d
      else LoopStep.cont (write d e (d e + src ii))) =
      tapBody (boundedTap (fun i => e + i * S) 0 N (fun i => src (e + i * S))) e := by
    funext i d
    simp only [tapBody, boundedTap]
    split_ifs <;> rfl
  unfold boxTapsZ
  rw [hbody, forRange_tapBody _ (boundedTap_mono _
    (fun a b hab => by
      have := mul_le_mul_of_nonneg_right hab hS
      simpa using this) _ _ _)]
  simp only [boundedTap_val]

theorem boxVoxelX_eq (nx nItems h : Int) (e : Int) (s : State) :
    boxVoxelX nx nItems h e s =
      { s with outPixel := write s.outPixel e (passX nx nItems h s.tempPixel e) } := by
  unfold boxVoxelX passX
  simp only [boxTapsX_eq, write_same, write_write, zero_add]

theorem boxVoxelY_eq (nx S nItems h : Int) (hnx : 0 ≤ nx) (e : Int) (s : State) :
    boxVoxelY nx S nItems h e s =
      { s with tempPixel := write s.tempPixel e (passY nx S nItems h s.outPixel e) } := by
  unfold boxVoxelY passY
  simp only [boxTapsY_eq _ _ _ hnx, write_same, write_write, zero_add]

theorem boxVoxelZ_eq (S N nItems h : Int) (hS : 0 ≤ S) (e : Int) (s : State) :
    boxVoxelZ S N nItems h e s =
      { s with outPixel := write s.outPixel e (passZ S N nItems h s.tempPixel e) } := by
  unfold boxVoxelZ passZ
  simp only [boxTapsZ_eq _ _ _ hS, write_same, write_write, zero_add]

theorem anisoTap_val (nx S N e j k : Int) (v : Int → ℚ) (i : Int) :
    (anisoTap nx S N e j k v i).val = if anisoTapOK nx S N e i j k then v i else 0 := by
  unfold anisoTap anisoTapOK
  split_ifs <;> first | rfl | (exfalso; omega)

theorem anisoTap_mono (nx S N e j k : Int) (v : Int → ℚ) (i i2 : Int)
    (hstop : anisoTap nx S N e j k v i = Tap.stop) (hi : i ≤ i2) :
    (anisoTap nx S N e j k v i2).val = 0 := by
  rw [anisoTap_val]
  have hno : ¬ anisoTapOK nx S N e i2 j k := by
    unfold anisoTap at hstop
    unfold anisoTapOK
    split_ifs at hstop <;> omega
  simp [hno]

theorem tapBody_take (W : Int → ℚ) (e : Int) :
    (fun (j : Int) (d : Buffer) => LoopStep.cont (write d e (d e + W j))) =
      tapBody (fun j => Tap.take (W j)) e := by
  funext j d
  rfl

theorem forRange_take (W : Int → ℚ) (e lo hi : Int) (d : Buffer) :
    forRange lo hi (fun (j : Int) (d : Buffer) => LoopStep.cont (write d e (d e + W j))) d =
      write d e (d e + winSum lo hi W) := by
  rw [tapBody_take, forRange_tapBody]
  · rfl
  · intro i j h _
    exact absurd h (by simp)

theorem anisoBoxTaps_eq (nx S N hx hy hz : Int) (src : Buffer) (e : Int) (d : Buffer) :
    anisoBoxTaps nx S N hx hy hz src e d =
      write d e (d e + anisoBoxSum nx S N hx hy hz src e) := by
  have hinner : ∀ (j k : Int), (fun (i : Int) (d : Buffer) =>
      let posData := e + i
      let ref := Int.tdiv e nx * nx
      if posData < ref then LoopStep.cont d
      else if posData ≥ ref + nx then LoopStep.brk d
      else
        let posData := posData + j * nx
        let ref := Int.tdiv e S * S
        if posData < ref then LoopStep.cont d
        else if posData ≥ ref + S then LoopStep.brk d
        else
          let posData := posData + k * S
          if posData < 0 then LoopStep.cont d
          else if posData ≥ N then LoopStep.brk d
          else LoopStep.cont (write d e (d e + src posData))) =
      tapBody (anisoTap nx S N e j k (fun i => src (e + i + j * nx + k * S))) e := by
    intro j k
    funext i d
    simp only [tapBody, anisoTap]
    split_ifs <;> rfl
  unfold anisoBoxTaps anisoBoxSum
  simp only [hinner, forRange_tapBody _ (anisoTap_mono _ _ _ _ _ _ _), anisoTap_val,
    forRange_take]

theorem anisoBoxVoxel_eq (nx S N hx hy hz cont : Int) (e : Int) (s : State) :
    anisoBoxVoxel nx S N hx hy hz cont e s =
      progress N e
        { s with outPixel := write s.outPixel e (anisoBoxSum nx S N hx hy hz s.inPixel e / cont) } := by
  unfold anisoBoxVoxel
  simp only [anisoBoxTaps_eq, write_same, write_write, zero_add]

theorem forLoop_rule {σ : Type} (body : Int → σ → LoopStep σ) (Inv : Nat → σ → Prop)
    (Q : σ → Prop) (n : Nat) (lo : Int) (s : σ) (h0 : Inv 0 s)
    (hstep : ∀ (k : Nat) (t : σ), k < n → Inv k t →
      match body (lo + (k : Int)) t with
      | LoopStep.cont u => Inv (k + 1) u
      | LoopStep.brk u => Q u)
    (hend : ∀ t, Inv n t → Q t) : Q (forLoop body n lo s) := by
  induction n generalizing lo s Inv with
  | zero => exact hend s h0
  | succ n ih =>
    rw [forLoop]
    have h := hstep 0 s (Nat.succ_pos n) h0
    simp only [Nat.cast_zero, add_zero] at h
    cases hb : body lo s with
    | cont u =>
      rw [hb] at h
      simp only at h ⊢
      refine ih (fun k => Inv (k + 1)) (lo + 1) u h ?_ hend
      intro k t hk hinv
      have h2 := hstep (k + 1) t (Nat.succ_lt_succ hk) hinv
      have hcast : lo + ((k + 1 : Nat) : Int) = lo + 1 + (k : Int) := by push_cast; ring
      rw [hcast] at h2
      exact h2
    | brk u =>
      rw [hb] at h
      exact h

theorem swept_zero (F : Int → ℚ) (old : Buffer) : swept 0 F old = old := by
  funext e
  unfold swept
  have : ¬ (0 ≤ e ∧ e < 0) := by omega
  simp [this]

theorem swept_succ (k : Int) (hk : 0 ≤ k) (F : Int → ℚ) (old : Buffer) :
    write (swept k F old) k (F k) = swept (k + 1) F old := by
  funext e
  unfold swept write
  by_cases h : e = k
  · subst h
    rw [if_pos rfl, if_pos ⟨hk, by omega⟩]
  · rw [if_neg h]
    show (if 0 ≤ e ∧ e < k then F e else old e) = _
    by_cases h2 : 0 ≤ e ∧ e < k
    · rw [if_pos h2, if_pos ⟨h2.1, by omega⟩]
    · rw [if_neg h2, if_neg (by omega)]

theorem swept_toNat (N : Int) (F : Int → ℚ) (old : Buffer) :
    swept ((N.toNat : Nat) : Int) F old = swept N F old := by
  funext e
  unfold swept
  by_cases h : 0 ≤ e ∧ e < N
  · rw [if_pos h, if_pos (by omega)]
  · rw [if_neg h, if_neg (by omega)]

/-- A status read that cannot return `-1`. -/
theorem read_ne (env : Env) (hq : ∀ t, env.ext t ≠ some (-1)) (s : State)
    (hs : s.Status ≠ -1) : (env.ext s.statusReads.length).getD s.Status ≠ -1 := by
  cases h : env.ext s.statusReads.length with
  | none => simpa using hs
  | some w =>
    simp only [Option.getD_some]
    intro hw
    exact hq _ (by rw [h, hw])

theorem voxelStep_quiet (env : Env) (hq : ∀ t, env.ext t ≠ some (-1))
    (body : Int → State → State) (e : Int) (s : State)
    (hc : s.cancel = false) (hs : s.Status ≠ -1) :
    ∃ v : Int, v ≠ -1 ∧ voxelStep env body e s =
      if (body e (afterRead v s)).divByZero then LoopStep.brk (body e (afterRead v s))
      else LoopStep.cont (body e (afterRead v s)) := by
  refine ⟨(env.ext s.statusReads.length).getD s.Status, read_ne env hq s hs, ?_⟩
  have hv := read_ne env hq s hs
  unfold voxelStep GetStatus afterRead
  simp only [hv, if_false, hc]
  simp

theorem sweep_toNat (N : Int) : (N - 1 + 1 - 0).toNat = N.toNat := by
  congr 1
  ring

/-- A sweep nobody cancels, whose body stores `F e` in the output grid. -/
theorem sweep_out_quiet (env : Env) (hq : ∀ t, env.ext t ≠ some (-1)) (N : Int)
    (body : Int → State → State) (F : Int → ℚ) (s : State)
    (hbody : ∀ e t, t.tempPixel = s.tempPixel → t.inPixel = s.inPixel →
      body e t = { t with outPixel := write t.outPixel e (F e) })
    (hc : s.cancel = false) (hd : s.divByZero = false) (hs : s.Status ≠ -1) :
    ∃ (st : Int) (rd : List Int), st ≠ -1 ∧
      sweep env N body s =
        { s with outPixel := swept N F s.outPixel,
                 voxels := s.voxels + N.toNat, Status := st, statusReads := rd } := by
  unfold sweep forRange
  rw [sweep_toNat]
  refine forLoop_rule (voxelStep env body)
    (fun k t => ∃ (st : Int) (rd : List Int), st ≠ -1 ∧
      t = { s with outPixel := swept (k : Int) F s.outPixel,
                   voxels := s.voxels + k, Status := st, statusReads := rd })
    (fun t => ∃ (st : Int) (rd : List Int), st ≠ -1 ∧
      t = { s with outPixel := swept N F s.outPixel,
                   voxels := s.voxels + N.toNat, Status := st, statusReads := rd })
    N.toNat 0 s ⟨s.Status, s.statusReads, hs, by simp [swept_zero]⟩ ?_ ?_
  · rintro k t hk ⟨st, rd, hst, ht⟩
    obtain ⟨v, hv, hstep⟩ := voxelStep_quiet env hq body (0 + (k : Int)) t
      (by rw [ht]; exact hc) (by rw [ht]; exact hst)
    have hb := hbody (0 + (k : Int)) (afterRead v t) (by rw [ht]; rfl) (by rw [ht]; rfl)
    rw [hstep, hb]
    subst ht
    simp only [afterRead, hd, zero_add, Bool.false_eq_true, if_false]
    refine ⟨v, v :: rd, hv, ?_⟩
    rw [swept_succ _ (by omega)]
    push_cast
    rfl
  · rintro t ⟨st, rd, hst, rfl⟩
    exact ⟨st, rd, hst, by rw [swept_toNat]⟩

/-- A sweep nobody cancels, whose body stores `F e` in the scratch grid. -/
theorem sweep_temp_quiet (env : Env) (hq : ∀ t, env.ext t ≠ some (-1)) (N : Int)
    (body : Int → State → State) (F : Int → ℚ) (s : State)
    (hbody : ∀ e t, t.outPixel = s.outPixel →
      body e t = { t with tempPixel := write t.tempPixel e (F e) })
    (hc : s.cancel = false) (hd : s.divByZero = false) (hs : s.Status ≠ -1) :
    ∃ (st : Int) (rd : List Int), st ≠ -1 ∧
      sweep env N body s =
        { s with tempPixel := swept N F s.tempPixel,
                 voxels := s.voxels + N.toNat, Status := st, statusReads := rd } := by
  unfold sweep forRange
  rw [sweep_toNat]
  refine forLoop_rule (voxelStep env body)
    (fun k t => ∃ (st : Int) (rd : List Int), st ≠ -1 ∧
      t = { s with tempPixel := swept (k : Int) F s.tempPixel,
                   voxels := s.voxels + k, Status := st, statusReads := rd })
    (fun t => ∃ (st : Int) (rd : List Int), st ≠ -1 ∧
      t = { s with tempPixel := swept N F s.tempPixel,
                   voxels := s.voxels + N.toNat, Status := st, statusReads := rd })
    N.toNat 0 s ⟨s.Status, s.statusReads, hs, by simp [swept_zero]⟩ ?_ ?_
  · rintro k t hk ⟨st, rd, hst, ht⟩
    obtain ⟨v, hv, hstep⟩ := voxelStep_quiet env hq body (0 + (k : Int)) t
      (by rw [ht]; exact hc) (by rw [ht]; exact hst)
    have hb := hbody (0 + (k : Int)) (afterRead v t) (by rw [ht]; rfl)
    rw [hstep, hb]
    subst ht
    simp only [afterRead, hd, zero_add, Bool.false_eq_true, if_false]
    refine ⟨v, v :: rd, hv, ?_⟩
    rw [swept_succ _ (by omega)]
    push_cast
    rfl
  · rintro t ⟨st, rd, hst, rfl⟩
    exact ⟨st, rd, hst, by rw [swept_toNat]⟩

theorem progress_ok (N e : Int) (hN : 100 ≤ N) (s : State) (hls : 0 ≤ s.status) :
    ∃ (st ls : Int) (wr : List Int), (st = s.Status ∨ 10 ≤ st) ∧ 0 ≤ ls ∧
      progress N e s = { s with Status := st, status := ls, statusWrites := wr } := by
  have hd : Int.tdiv N 100 ≠ 0 := by
    have h1 : Int.tdiv N 100 = N / 100 := Int.tdiv_eq_ediv (by omega) (by norm_num)
    rw [h1]
    omega
  unfold progress SetStatus
  simp only [hd, if_false]
  by_cases hgt : Int.tdiv e (Int.tdiv N 100) > s.status
  · simp only [hgt, if_true]
    exact ⟨s.status + 10, s.status + 10, _, Or.inr (by omega), by omega, rfl⟩
  · simp only [hgt, if_false]
    exact ⟨s.Status, s.status, s.statusWrites, Or.inl rfl, hls, rfl⟩

/-- An anisotropic sweep nobody cancels on a grid of at least 100 voxels: the body
stores `F e` in the output grid and updates the progress. -/
theorem sweep_aniso_quiet (env : Env) (hq : ∀ t, env.ext t ≠ some (-1)) (N : Int)
    (hN : 100 ≤ N) (body : Int → State → State) (F : Int → ℚ) (s : State)
    (hbody : ∀ e t, t.inPixel = s.inPixel →
      body e t = progress N e { t with outPixel := write t.outPixel e (F e) })
    (hc : s.cancel = false) (hd : s.divByZero = false) (hs : s.Status ≠ -1)
    (hls : 0 ≤ s.status) :
    ∃ (st : Int) (rd : List Int) (ls : Int) (wr : List Int), st ≠ -1 ∧
      sweep env N body s =
        { s with outPixel := swept N F s.outPixel, voxels := s.voxels + N.toNat,
                 Status := st, statusReads := rd, status := ls, statusWrites := wr } := by
  unfold sweep forRange
  rw [sweep_toNat]
  refine forLoop_rule (voxelStep env body)
    (fun k t => ∃ (st : Int) (rd : List Int) (ls : Int) (wr : List Int), st ≠ -1 ∧ 0 ≤ ls ∧
      t = { s with outPixel := swept (k : Int) F s.outPixel, voxels := s.voxels + k,
                   Status := st, statusReads := rd, status := ls, statusWrites := wr })
    (fun t => ∃ (st : Int) (rd : List Int) (ls : Int) (wr : List Int), st ≠ -1 ∧
      t = { s with outPixel := swept N F s.outPixel, voxels := s.voxels + N.toNat,
                   Status := st, statusReads := rd, status := ls, statusWrites := wr })
    N.toNat 0 s ⟨s.Status, s.statusReads, s.status, s.statusWrites, hs, hls,
      by simp [swept_zero]⟩ ?_ ?_
  · rintro k t hk ⟨st, rd, ls, wr, hst, hl, ht⟩
    obtain ⟨v, hv, hstep⟩ := voxelStep_quiet env hq body (0 + (k : Int)) t
      (by rw [ht]; exact hc) (by rw [ht]; exact hst)
    have hb := hbody (0 + (k : Int)) (afterRead v t) (by rw [ht]; rfl)
    obtain ⟨st2, ls2, wr2, hst2, hl2, hp⟩ := progress_ok N (0 + (k : Int)) hN
      { afterRead v t with
        outPixel := write (afterRead v t).outPixel (0 + (k : Int)) (F (0 + (k : Int))) }
      (by rw [ht]; exact hl)
    rw [hstep, hb, hp]
    subst ht
    simp only [afterRead, hd, zero_add, Bool.false_eq_true, if_false]
    refine ⟨st2, v :: rd, ls2, wr2, ?_, hl2, ?_⟩
    · rcases hst2 with h1 | h1
      · rw [h1]; exact hv
      · omega
    · rw [swept_succ _ (by omega)]
      push_cast
      rfl
  · rintro t ⟨st, rd, ls, wr, hst, _, rfl⟩
    exact ⟨st, rd, ls, wr, hst, by rw [swept_toNat]⟩

theorem boxStageX_quiet (env : Env) (hq : Quiet env) (pnode : ParametersNode)
    (ov : ImageData) (s : State) (hc : s.cancel = false) (hd : s.divByZero = false)
    (hs : s.Status ≠ -1) :
    ∃ (st : Int) (rd wr : List Int), st ≠ -1 ∧ boxStageX env pnode ov s =
      { s with outPixel := if pnode.ParameterX > 0.001 then
                 swept (ov.dims0 * ov.dims1 * ov.dims2)
                   (passX ov.dims0 (forceOdd (toInt pnode.ParameterX))
                     (halfWidth (forceOdd (toInt pnode.ParameterX))) s.tempPixel) s.outPixel
                 else s.outPixel,
               voxels := s.voxels + (if pnode.ParameterX > 0.001 then 1 else 0) *
                 (ov.dims0 * ov.dims1 * ov.dims2).toNat,
               Status := st, statusReads := rd, statusWrites := wr } := by
  unfold boxStageX
  by_cases hx : pnode.ParameterX > 0.001
  · obtain ⟨st, rd, hst, e⟩ := sweep_out_quiet env hq (ov.dims0 * ov.dims1 * ov.dims2)
      (boxVoxelX ov.dims0 (forceOdd (toInt pnode.ParameterX))
          (halfWidth (forceOdd (toInt pnode.ParameterX))))
      (passX ov.dims0 (forceOdd (toInt pnode.ParameterX))
          (halfWidth (forceOdd (toInt pnode.ParameterX))) s.tempPixel)
      (SetStatus 10 s)
      (fun e t ht _ => by rw [boxVoxelX_eq, ht]; rfl) hc hd (by simp [SetStatus])
    refine ⟨st, rd, 10 :: s.statusWrites, hst, ?_⟩
    simp only [if_pos hx, e]
    simp [SetStatus]
  · refine ⟨s.Status, s.statusReads, s.statusWrites, hs, ?_⟩
    simp only [if_neg hx]
    simp

theorem boxStageY_quiet (env : Env) (hq : Quiet env) (pnode : ParametersNode)
    (ov : ImageData) (h0 : 0 ≤ ov.dims0) (s : State) (hc : s.cancel = false)
    (hd : s.divByZero = false) (hs : s.Status ≠ -1) :
    ∃ (st : Int) (rd wr : List Int), st ≠ -1 ∧ boxStageY env pnode ov s =
      { s with tempPixel := if pnode.ParameterY > 0.001 then
                 swept (ov.dims0 * ov.dims1 * ov.dims2)
                   (passY ov.dims0 (ov.dims0 * ov.dims1) (forceOdd (toInt pnode.ParameterX))
                     (halfWidth (forceOdd (toInt pnode.ParameterX))) s.outPixel) s.tempPixel
                 else s.outPixel,
               voxels := s.voxels + (if pnode.ParameterY > 0.001 then 1 else 0) *
                 (ov.dims0 * ov.dims1 * ov.dims2).toNat,
               Status := st, statusReads := rd, statusWrites := wr } := by
  unfold boxStageY
  by_cases hy : pnode.ParameterY > 0.001
  · obtain ⟨st, rd, hst, e⟩ := sweep_temp_quiet env hq (ov.dims0 * ov.dims1 * ov.dims2)
      (boxVoxelY ov.dims0 (ov.dims0 * ov.dims1) (forceOdd (toInt pnode.ParameterX))
          (halfWidth (forceOdd (toInt pnode.ParameterX))))
      (passY ov.dims0 (ov.dims0 * ov.dims1) (forceOdd (toInt pnode.ParameterX))
          (halfWidth (forceOdd (toInt pnode.ParameterX))) s.outPixel)
      (SetStatus 40 s)
      (fun e t ht => by rw [boxVoxelY_eq _ _ _ _ h0, ht]; rfl) hc hd (by simp [SetStatus])
    refine ⟨st, rd, 40 :: s.statusWrites, hst, ?_⟩
    simp only [if_pos hy, e]
    simp [SetStatus]
  · refine ⟨s.Status, s.statusReads, s.statusWrites, hs, ?_⟩
    simp only [if_neg hy]
    simp

theorem boxStageZ_quiet (env : Env) (hq : Quiet env) (pnode : ParametersNode)
    (ov : ImageData) (hS : 0 ≤ ov.dims0 * ov.dims1) (s : State) (hc : s.cancel = false)
    (hd : s.divByZero = false) (hs : s.Status ≠ -1) :
    ∃ (st : Int) (rd wr : List Int), st ≠ -1 ∧ boxStageZ env pnode ov s =
      { s with outPixel := if pnode.ParameterZ > 0.001 then
                 swept (ov.dims0 * ov.dims1 * ov.dims2)
                   (passZ (ov.dims0 * ov.dims1) (ov.dims0 * ov.dims1 * ov.dims2)
                     (forceOdd (toInt pnode.ParameterX))
                     (halfWidth (forceOdd (toInt pnode.ParameterX))) s.tempPixel) s.outPixel
                 else s.tempPixel,
               voxels := s.voxels + (if pnode.ParameterZ > 0.001 then 1 else 0) *
                 (ov.dims0 * ov.dims1 * ov.dims2).toNat,
               Status := st, statusReads := rd, statusWrites := wr } := by
  unfold boxStageZ
  by_cases hz : pnode.ParameterZ > 0.001
  · obtain ⟨st, rd, hst, e⟩ := sweep_out_quiet env hq (ov.dims0 * ov.dims1 * ov.dims2)
      (boxVoxelZ (ov.dims0 * ov.dims1) (ov.dims0 * ov.dims1 * ov.dims2)
          (forceOdd (toInt pnode.ParameterX)) (halfWidth (forceOdd (toInt pnode.ParameterX))))
      (passZ (ov.dims0 * ov.dims1) (ov.dims0 * ov.dims1 * ov.dims2)
          (forceOdd (toInt pnode.ParameterX))
          (halfWidth (forceOdd (toInt pnode.ParameterX))) s.tempPixel)
      (SetStatus 70 s)
      (fun e t ht _ => by rw [boxVoxelZ_eq _ _ _ _ hS, ht]; rfl) hc hd (by simp [SetStatus])
    refine ⟨st, rd, 70 :: s.statusWrites, hst, ?_⟩
    simp only [if_pos hz, e]
    simp [SetStatus]
  · refine ⟨s.Status, s.statusReads, s.statusWrites, hs, ?_⟩
    simp only [if_neg hz]
    simp

theorem isoBox_quiet (env : Env) (hq : Quiet env) (pnode : ParametersNode) (s : State)
    (ov : ImageData) (hv : ValidScene s ov) (h0 : 0 ≤ ov.dims0) (h1 : 0 ≤ ov.dims1) :
    ∃ (st : Int) (rd wr : List Int),
      IsotropicBoxCPUFilter env pnode s = (Outcome.returned 1,
        { s with outPixel := isoBoxAfterZ pnode ov s.outPixel,
                 tempPixel := fun _ => 0, cancel := false, divByZero := false,
                 voxels := s.voxels + passCount pnode * (ov.dims0 * ov.dims1 * ov.dims2).toNat,
                 Status := st, statusReads := rd, statusWrites := wr,
                 rangeUpdates := s.rangeUpdates + 1, noiseUpdates := s.noiseUpdates + 1,
                 RMS := env.noiseRMS (isoBoxAfterZ pnode ov s.outPixel),
                 RMSMEAN := env.noiseMean (isoBoxAfterZ pnode ov s.outPixel) }) := by
  obtain ⟨⟨iv, hin⟩, hout, hcomp, htype⟩ := hv
  have hS : 0 ≤ ov.dims0 * ov.dims1 := mul_nonneg h0 h1
  obtain ⟨st1, rd1, wr1, hst1, e1⟩ := boxStageX_quiet env hq pnode ov (startScratch s) rfl rfl
    (by simp [startScratch, SetStatus])
  obtain ⟨st2, rd2, wr2, hst2, e2⟩ := boxStageY_quiet env hq pnode ov h0
    (boxStageX env pnode ov (startScratch s)) (by rw [e1]; rfl) (by rw [e1]; rfl)
    (by rw [e1]; exact hst1)
  obtain ⟨st3, rd3, wr3, hst3, e3⟩ := boxStageZ_quiet env hq pnode ov hS
    (boxStageY env pnode ov (boxStageX env pnode ov (startScratch s)))
    (by rw [e2, e1]; rfl) (by rw [e2, e1]; rfl) (by rw [e2]; exact hst2)
  have hc1 : (boxStageX env pnode ov (startScratch s)).cancel = false := by rw [e1]; rfl
  have hc2 : (boxStageY env pnode ov (boxStageX env pnode ov (startScratch s))).cancel
      = false := by rw [e2, e1]; rfl
  have hc3 : (releaseTemp (boxStageZ env pnode ov
      (boxStageY env pnode ov (boxStageX env pnode ov (startScratch s))))).cancel
      = false := by rw [e3, e2, e1]; rfl
  refine ⟨st3, rd3, wr3, ?_⟩
  unfold IsotropicBoxCPUFilter
  simp only [hin, hout, hcomp, htype, if_true, if_false, hc1, hc2, hc3, Bool.false_eq_true]
  rw [e3, e2, e1]
  simp only [updateAttributes, releaseTemp, startScratch, SetStatus, isoBoxAfterZ, isoBoxAfterY,
    isoBoxAfterX, passCount]
  congr 2
  ring

theorem anisoBox_quiet (env : Env) (hq : Quiet env) (pnode : ParametersNode) (s : State)
    (ov : ImageData) (hv : ValidScene s ov) (hN : 100 ≤ ov.dims0 * ov.dims1 * ov.dims2) :
    ∃ (st : Int) (rd : List Int) (ls : Int) (wr : List Int),
      AnisotropicBoxCPUFilter env pnode s = (Outcome.returned 1,
        { s with outPixel := anisoBoxOut pnode ov s.inPixel s.outPixel,
                 cancel := false, divByZero := false, status := ls,
                 voxels := s.voxels + (ov.dims0 * ov.dims1 * ov.dims2).toNat,
                 Status := st, statusReads := rd, statusWrites := wr,
                 rangeUpdates := s.rangeUpdates + 1, noiseUpdates := s.noiseUpdates + 1,
                 RMS := env.noiseRMS (anisoBoxOut pnode ov s.inPixel s.outPixel),
                 RMSMEAN := env.noiseMean (anisoBoxOut pnode ov s.inPixel s.outPixel) }) := by
  obtain ⟨⟨iv, hin⟩, hout, hcomp, htype⟩ := hv
  obtain ⟨st, rd, ls, wr, hst, e⟩ := sweep_aniso_quiet env hq (ov.dims0 * ov.dims1 * ov.dims2) hN
    (anisoBoxVoxel ov.dims0 (ov.dims0 * ov.dims1) (ov.dims0 * ov.dims1 * ov.dims2)
      (halfWidth (forceOdd (toInt pnode.ParameterX)))
      (halfWidth (forceOdd (toInt pnode.ParameterY)))
      (halfWidth (forceOdd (toInt pnode.ParameterZ)))
      (forceOdd (toInt pnode.ParameterX) * forceOdd (toInt pnode.ParameterY) *
        forceOdd (toInt pnode.ParameterZ)))
    (fun e => anisoBoxSum ov.dims0 (ov.dims0 * ov.dims1) (ov.dims0 * ov.dims1 * ov.dims2)
      (halfWidth (forceOdd (toInt pnode.ParameterX)))
      (halfWidth (forceOdd (toInt pnode.ParameterY)))
      (halfWidth (forceOdd (toInt pnode.ParameterZ))) s.inPixel e /
      ((forceOdd (toInt pnode.ParameterX) * forceOdd (toInt pnode.ParameterY) *
        forceOdd (toInt pnode.ParameterZ) : Int) : ℚ))
    (startDirect s)
    (fun e t ht => by rw [anisoBoxVoxel_eq, ht]; rfl) rfl rfl
    (by simp [startDirect, SetStatus]) (by simp [startDirect, SetStatus])
  refine ⟨st, rd, ls, wr, ?_⟩
  unfold AnisotropicBoxCPUFilter
  simp only [hin, hout, hcomp, htype, if_true, if_false]
  rw [e]
  simp only [updateAttributes, startDirect, SetStatus, anisoBoxOut, Bool.false_eq_true, if_false]
  rw [hin, hout]

theorem progress_trap (N e : Int) (hN0 : 0 ≤ N) (hN : N < 100) (s : State) :
    (progress N e s).divByZero = true := by
  have hd : Int.tdiv N 100 = 0 := by
    rw [Int.tdiv_eq_ediv hN0 (by norm_num)]
    omega
  unfold progress
  simp [hd]

/-- On a grid of fewer than 100 voxels the first progress update of an anisotropic
sweep divides by zero. -/
theorem sweep_aniso_trap (env : Env) (hq : Quiet env) (N : Int) (hN1 : 1 ≤ N) (hN : N < 100)
    (body : Int → State → State) (s : State)
    (hbody : ∀ e t, ∃ u, body e t = progress N e u)
    (hc : s.cancel = false) (hs : s.Status ≠ -1) :
    (sweep env N body s).divByZero = true := by
  unfold sweep forRange
  rw [sweep_toNat]
  obtain ⟨m, hm⟩ : ∃ m, N.toNat = m + 1 := ⟨N.toNat - 1, by omega⟩
  rw [hm, forLoop]
  obtain ⟨v, hv, hstep⟩ := voxelStep_quiet env hq body 0 s hc hs
  obtain ⟨u, hu⟩ := hbody 0 (afterRead v s)
  have htrap : (body 0 (afterRead v s)).divByZero = true := by
    rw [hu]; exact progress_trap N 0 (by omega) hN u
  rw [hstep, if_pos htrap]
  exact htrap

theorem anisoBox_trap (env : Env) (hq : Quiet env) (pnode : ParametersNode) (s : State)
    (ov : ImageData) (hv : ValidScene s ov) (hN1 : 1 ≤ ov.dims0 * ov.dims1 * ov.dims2)
    (hN : ov.dims0 * ov.dims1 * ov.dims2 < 100) :
    (AnisotropicBoxCPUFilter env pnode s).1 = Outcome.divisionByZero := by
  obtain ⟨⟨iv, hin⟩, hout, hcomp, htype⟩ := hv
  have htrap := sweep_aniso_trap env hq (ov.dims0 * ov.dims1 * ov.dims2) hN1 hN
    (anisoBoxVoxel ov.dims0 (ov.dims0 * ov.dims1) (ov.dims0 * ov.dims1 * ov.dims2)
      (halfWidth (forceOdd (toInt pnode.ParameterX)))
      (halfWidth (forceOdd (toInt pnode.ParameterY)))
      (halfWidth (forceOdd (toInt pnode.ParameterZ)))
      (forceOdd (toInt pnode.ParameterX) * forceOdd (toInt pnode.ParameterY) *
        forceOdd (toInt pnode.ParameterZ)))
    (startDirect s) (fun e t => ⟨_, anisoBoxVoxel_eq _ _ _ _ _ _ _ e t⟩) rfl
    (by simp [startDirect, SetStatus])
  unfold AnisotropicBoxCPUFilter
  simp only [hin, hout, hcomp, htype, if_true, if_false, htrap]

theorem digit_nonneg (n x b : Int) (hx0 : 0 ≤ x) (hxn : x < n) : 0 ≤ x + b * n ↔ 0 ≤ b := by
  constructor
  · intro h
    by_contra hb
    have hb1 : b ≤ -1 := by omega
    have : b * n ≤ -1 * n := mul_le_mul_of_nonneg_right hb1 (by omega)
    omega
  · intro hb
    have : 0 ≤ b * n := mul_nonneg hb (by omega)
    omega

theorem digit_lt (n m x b : Int) (hx0 : 0 ≤ x) (hxn : x < n) : x + b * n < n * m ↔ b < m := by
  constructor
  · intro h
    by_contra hb
    have hb1 : m ≤ b := by omega
    have h2 : m * n ≤ b * n := mul_le_mul_of_nonneg_right hb1 (by omega)
    have h3 : n * m = m * n := mul_comm n m
    omega
  · intro hb
    have hb1 : b ≤ m - 1 := by omega
    have h2 : b * n ≤ (m - 1) * n := mul_le_mul_of_nonneg_right hb1 (by omega)
    have h3 : (m - 1) * n = n * m - n := by ring
    omega

theorem row_part (nx ny x y : Int) (hx0 : 0 ≤ x) (hxn : x < nx) (hy0 : 0 ≤ y) (hyn : y < ny) :
    0 ≤ x + y * nx ∧ x + y * nx < nx * ny :=
  ⟨(digit_nonneg nx x y hx0 hxn).mpr hy0, (digit_lt nx ny x y hx0 hxn).mpr hyn⟩

theorem idx_range (nx ny nz x y z : Int) (hx0 : 0 ≤ x) (hxn : x < nx) (hy0 : 0 ≤ y)
    (hyn : y < ny) (hz0 : 0 ≤ z) (hzn : z < nz) :
    0 ≤ idx nx ny x y z ∧ idx nx ny x y z < nx * ny * nz := by
  obtain ⟨h1, h2⟩ := row_part nx ny x y hx0 hxn hy0 hyn
  unfold idx
  have h3 := (digit_nonneg (nx * ny) (x + y * nx) z h1 h2).mpr hz0
  have h4 := (digit_lt (nx * ny) nz (x + y * nx) z h1 h2).mpr hzn
  exact ⟨h3, h4⟩

theorem tdiv_mul_of_digit (n r q : Int) (hr0 : 0 ≤ r) (hrn : r < n) (hq : 0 ≤ q) :
    Int.tdiv (r + q * n) n * n = q * n := by
  have hn : 0 < n := by omega
  have h0 : 0 ≤ r + q * n := by
    have : 0 ≤ q * n := mul_nonneg hq (by omega)
    omega
  rw [Int.tdiv_eq_ediv h0 (by omega), Int.add_mul_ediv_right _ _ (by omega),
    Int.ediv_eq_zero_of_lt hr0 hrn, zero_add]

theorem rowRef (nx ny x y z : Int) (hx0 : 0 ≤ x) (hxn : x < nx) (hy0 : 0 ≤ y)
    (hny : 0 ≤ ny) (hz0 : 0 ≤ z) :
    Int.tdiv (idx nx ny x y z) nx * nx = idx nx ny 0 y z := by
  have h : idx nx ny x y z = x + (y + z * ny) * nx := by unfold idx; ring
  have hq : 0 ≤ y + z * ny := by
    have : 0 ≤ z * ny := mul_nonneg hz0 hny
    omega
  rw [h, tdiv_mul_of_digit nx x _ hx0 hxn hq]
  unfold idx
  ring

theorem slabRef (nx ny x y z : Int) (hx0 : 0 ≤ x) (hxn : x < nx) (hy0 : 0 ≤ y)
    (hyn : y < ny) (hz0 : 0 ≤ z) :
    Int.tdiv (idx nx ny x y z) (nx * ny) * (nx * ny) = idx nx ny 0 0 z := by
  obtain ⟨h1, h2⟩ := row_part nx ny x y hx0 hxn hy0 hyn
  have h : idx nx ny x y z = (x + y * nx) + z * (nx * ny) := by unfold idx; ring
  rw [h, tdiv_mul_of_digit (nx * ny) _ z h1 h2 hz0]
  unfold idx
  ring

theorem winSum_congr (lo hi : Int) (f g : Int → ℚ) (h : ∀ i, lo ≤ i → i ≤ hi → f i = g i) :
    winSum lo hi f = winSum lo hi g := by
  unfold winSum
  apply Finset.sum_congr rfl
  intro t ht
  have := Finset.mem_range.mp ht
  exact h _ (by omega) (by omega)

theorem winSum_guard (lo hi : Int) (Q : Prop) [Decidable Q] (f : Int → ℚ) :
    winSum lo hi (fun i => if Q then f i else 0) = if Q then winSum lo hi f else 0 := by
  by_cases hQ : Q
  · simp [hQ]
  · simp [hQ, winSum]

theorem winSum_div (lo hi : Int) (f : Int → ℚ) (c : ℚ) :
    winSum lo hi (fun i => f i / c) = winSum lo hi f / c := by
  unfold winSum
  rw [Finset.sum_div]

theorem winSum_mul (lo hi : Int) (f : Int → ℚ) (c : ℚ) :
    winSum lo hi (fun i => f i * c) = winSum lo hi f * c := by
  unfold winSum
  rw [Finset.sum_mul]

theorem cutSum_congr (len h : Int) (f g : Int → ℚ) (x : Int)
    (hfg : ∀ x2, 0 ≤ x2 → x2 < len → f x2 = g x2) : cutSum len h f x = cutSum len h g x := by
  unfold cutSum
  apply winSum_congr
  intro i _ _
  by_cases hv : 0 ≤ x + i ∧ x + i < len
  · rw [if_pos hv, if_pos hv, hfg _ hv.1 hv.2]
  · rw [if_neg hv, if_neg hv]

theorem cutSum_div (len h : Int) (f : Int → ℚ) (c : ℚ) (x : Int) :
    cutSum len h (fun x2 => f x2 / c) x = cutSum len h f x / c := by
  unfold cutSum
  rw [← winSum_div]
  apply winSum_congr
  intro i _ _
  by_cases hv : 0 ≤ x + i ∧ x + i < len
  · rw [if_pos hv, if_pos hv]
  · rw [if_neg hv, if_neg hv, zero_div]

theorem cutSum_mul (len h : Int) (f : Int → ℚ) (c : ℚ) (x : Int) :
    cutSum len h (fun x2 => f x2 * c) x = cutSum len h f x * c := by
  unfold cutSum
  rw [← winSum_mul]
  apply winSum_congr
  intro i _ _
  by_cases hv : 0 ≤ x + i ∧ x + i < len
  · rw [if_pos hv, if_pos hv]
  · rw [if_neg hv, if_neg hv, zero_mul]

theorem passX_coord (nx ny nItems h : Int) (T : Buffer) (x y z : Int) (hx0 : 0 ≤ x)
    (hxn : x < nx) (hy0 : 0 ≤ y) (hny : 0 ≤ ny) (hz0 : 0 ≤ z) :
    passX nx nItems h T (idx nx ny x y z) =
      cutSum nx h (fun x2 => T (idx nx ny x2 y z)) x / (nItems : ℚ) := by
  unfold passX cutSum
  congr 1
  apply winSum_congr
  intro i _ _
  rw [rowRef nx ny x y z hx0 hxn hy0 hny hz0]
  have hs : idx nx ny x y z + i = idx nx ny (x + i) y z := by unfold idx; ring
  rw [hs]
  apply if_congr _ rfl rfl
  unfold idx
  constructor <;> intro hh <;> constructor <;> omega

theorem passY_coord (nx ny nItems h : Int) (O : Buffer) (x y z : Int) (hx0 : 0 ≤ x)
    (hxn : x < nx) (hy0 : 0 ≤ y) (hyn : y < ny) (hz0 : 0 ≤ z) :
    passY nx (nx * ny) nItems h O (idx nx ny x y z) =
      cutSum ny h (fun y2 => O (idx nx ny x y2 z)) y / (nItems : ℚ) := by
  unfold passY cutSum
  congr 1
  apply winSum_congr
  intro j _ _
  rw [slabRef nx ny x y z hx0 hxn hy0 hyn hz0]
  have hs : idx nx ny x y z + j * nx = idx nx ny x (y + j) z := by unfold idx; ring
  rw [hs]
  apply if_congr _ rfl rfl
  have hA := digit_nonneg nx x (y + j) hx0 hxn
  have hB := digit_lt nx ny x (y + j) hx0 hxn
  unfold idx
  constructor
  · intro hh
    exact ⟨hA.mp (by omega), hB.mp (by omega)⟩
  · intro hh
    have h1 := hA.mpr hh.1
    have h2 := hB.mpr hh.2
    constructor <;> omega

theorem passZ_coord (nx ny nz nItems h : Int) (T : Buffer) (x y z : Int) (hx0 : 0 ≤ x)
    (hxn : x < nx) (hy0 : 0 ≤ y) (hyn : y < ny) :
    passZ (nx * ny) (nx * ny * nz) nItems h T (idx nx ny x y z) =
      cutSum nz h (fun z2 => T (idx nx ny x y z2)) z / (nItems : ℚ) := by
  unfold passZ cutSum
  congr 1
  apply winSum_congr
  intro k _ _
  have hs : idx nx ny x y z + k * (nx * ny) = idx nx ny x y (z + k) := by unfold idx; ring
  rw [hs]
  apply if_congr _ rfl rfl
  obtain ⟨h1, h2⟩ := row_part nx ny x y hx0 hxn hy0 hyn
  have hA := digit_nonneg (nx * ny) (x + y * nx) (z + k) h1 h2
  have hB := digit_lt (nx * ny) nz (x + y * nx) (z + k) h1 h2
  unfold idx
  exact and_congr hA hB

theorem swept_in (N : Int) (F : Int → ℚ) (old : Buffer) (e : Int) (h0 : 0 ≤ e) (h1 : e < N) :
    swept N F old e = F e := by
  unfold swept
  rw [if_pos ⟨h0, h1⟩]

theorem anisoTapOK_coord (nx ny nz x y z i j k : Int) (hx0 : 0 ≤ x) (hxn : x < nx)
    (hy0 : 0 ≤ y) (hyn : y < ny) (hz0 : 0 ≤ z) :
    anisoTapOK nx (nx * ny) (nx * ny * nz) (idx nx ny x y z) i j k ↔
      (0 ≤ x + i ∧ x + i < nx) ∧ (0 ≤ y + j ∧ y + j < ny) ∧ (0 ≤ z + k ∧ z + k < nz) := by
  unfold anisoTapOK
  rw [rowRef nx ny x y z hx0 hxn hy0 (by omega) hz0, slabRef nx ny x y z hx0 hxn hy0 hyn hz0]
  have e2 : idx nx ny x y z + i + j * nx = idx nx ny (x + i) (y + j) z := by unfold idx; ring
  have e3 : idx nx ny x y z + i + j * nx + k * (nx * ny) = idx nx ny (x + i) (y + j) (z + k) := by
    unfold idx; ring
  rw [e3, e2]
  have hX : (idx nx ny 0 y z ≤ idx nx ny x y z + i ∧ idx nx ny x y z + i < idx nx ny 0 y z + nx)
      ↔ (0 ≤ x + i ∧ x + i < nx) := by
    unfold idx
    constructor <;> intro hh <;> constructor <;> omega
  rw [hX]
  constructor
  · rintro ⟨hx, hy, hz⟩
    have hA := digit_nonneg nx (x + i) (y + j) hx.1 hx.2
    have hB := digit_lt nx ny (x + i) (y + j) hx.1 hx.2
    have hy2 : 0 ≤ y + j ∧ y + j < ny := by
      unfold idx at hy
      exact ⟨hA.mp (by omega), hB.mp (by omega)⟩
    obtain ⟨r1, r2⟩ := row_part nx ny (x + i) (y + j) hx.1 hx.2 hy2.1 hy2.2
    have hC := digit_nonneg (nx * ny) (x + i + (y + j) * nx) (z + k) r1 r2
    have hD := digit_lt (nx * ny) nz (x + i + (y + j) * nx) (z + k) r1 r2
    unfold idx at hz
    exact ⟨hx, hy2, hC.mp hz.1, hD.mp hz.2⟩
  · rintro ⟨hx, hy, hz⟩
    have hA := (digit_nonneg nx (x + i) (y + j) hx.1 hx.2).mpr hy.1
    have hB := (digit_lt nx ny (x + i) (y + j) hx.1 hx.2).mpr hy.2
    obtain ⟨r1, r2⟩ := row_part nx ny (x + i) (y + j) hx.1 hx.2 hy.1 hy.2
    have hC := (digit_nonneg (nx * ny) (x + i + (y + j) * nx) (z + k) r1 r2).mpr hz.1
    have hD := (digit_lt (nx * ny) nz (x + i + (y + j) * nx) (z + k) r1 r2).mpr hz.2
    unfold idx
    refine ⟨hx, ⟨by omega, by omega⟩, hC, hD⟩

theorem anisoBoxSum_coord (nx ny nz hx hy hz : Int) (I : Buffer) (x y z : Int)
    (hx0 : 0 ≤ x) (hxn : x < nx) (hy0 : 0 ≤ y) (hyn : y < ny) (hz0 : 0 ≤ z) :
    anisoBoxSum nx (nx * ny) (nx * ny * nz) hx hy hz I (idx nx ny x y z) =
      cutSum3 nx ny nz hx hy hz (fun x2 y2 z2 => I (idx nx ny x2 y2 z2)) x y z := by
  unfold anisoBoxSum cutSum3 cutSum
  apply winSum_congr
  intro k _ _
  rw [← winSum_guard]
  apply winSum_congr
  intro j _ _
  rw [← winSum_guard, ← winSum_guard]
  apply winSum_congr
  intro i _ _
  have hok := anisoTapOK_coord nx ny nz x y z i j k hx0 hxn hy0 hyn hz0
  have e3 : idx nx ny x y z + i + j * nx + k * (nx * ny) = idx nx ny (x + i) (y + j) (z + k) := by
    unfold idx; ring
  rw [e3]
  by_cases hvz : 0 ≤ z + k ∧ z + k < nz
  · by_cases hvy : 0 ≤ y + j ∧ y + j < ny
    · by_cases hvx : 0 ≤ x + i ∧ x + i < nx
      · rw [if_pos (hok.mpr ⟨hvx, hvy, hvz⟩), if_pos hvz, if_pos hvy, if_pos hvx]
      · rw [if_neg (fun h => hvx (hok.mp h).1), if_pos hvz, if_pos hvy, if_neg hvx]
    · rw [if_neg (fun h => hvy (hok.mp h).2.1), if_pos hvz, if_neg hvy]
  · rw [if_neg (fun h => hvz (hok.mp h).2.2), if_neg hvz]

theorem cutSum3_div (nx ny nz hx hy hz : Int) (G : Int → Int → Int → ℚ) (x y z : Int)
    (a b c : ℚ) :
    cutSum nz hz (fun z2 => cutSum ny hy (fun y2 => cutSum nx hx (fun x2 => G x2 y2 z2) x / a)
      y / b) z / c = cutSum3 nx ny nz hx hy hz G x y z / (a * b * c) := by
  unfold cutSum3
  have h1 : ∀ z2, cutSum ny hy (fun y2 => cutSum nx hx (fun x2 => G x2 y2 z2) x / a) y =
      cutSum ny hy (fun y2 => cutSum nx hx (fun x2 => G x2 y2 z2) x) y / a :=
    fun z2 => cutSum_div ny hy _ a y
  simp only [h1]
  have h2 : cutSum nz hz (fun z2 =>
      cutSum ny hy (fun y2 => cutSum nx hx (fun x2 => G x2 y2 z2) x) y / a / b) z =
      cutSum nz hz (fun z2 =>
        cutSum ny hy (fun y2 => cutSum nx hx (fun x2 => G x2 y2 z2) x) y) z / a / b := by
    rw [← cutSum_div, ← cutSum_div]
  rw [h2, div_div, div_div, mul_assoc]

theorem isoBox_coord (pnode : ParametersNode) (ov : ImageData) (O : Buffer) (x y z : Int)
    (hpx : pnode.ParameterX > 0.001) (hpy : pnode.ParameterY > 0.001)
    (hpz : pnode.ParameterZ > 0.001)
    (hx0 : 0 ≤ x) (hxn : x < ov.dims0) (hy0 : 0 ≤ y) (hyn : y < ov.dims1)
    (hz0 : 0 ≤ z) (hzn : z < ov.dims2) :
    isoBoxAfterZ pnode ov O (idx ov.dims0 ov.dims1 x y z) =
      cutSum3 ov.dims0 ov.dims1 ov.dims2 (halfWidth (forceOdd (toInt pnode.ParameterX)))
        (halfWidth (forceOdd (toInt pnode.ParameterX)))
        (halfWidth (forceOdd (toInt pnode.ParameterX)))
        (fun x2 y2 z2 => O (idx ov.dims0 ov.dims1 x2 y2 z2)) x y z /
      (((forceOdd (toInt pnode.ParameterX) : Int) : ℚ) *
        ((forceOdd (toInt pnode.ParameterX) : Int) : ℚ) *
        ((forceOdd (toInt pnode.ParameterX) : Int) : ℚ)) := by
  have hr := idx_range ov.dims0 ov.dims1 ov.dims2 x y z hx0 hxn hy0 hyn hz0 hzn
  rw [← cutSum3_div]
  unfold isoBoxAfterZ
  rw [if_pos hpz, swept_in _ _ _ _ hr.1 hr.2, passZ_coord _ _ _ _ _ _ x y z hx0 hxn hy0 hyn]
  congr 1
  apply cutSum_congr
  intro z2 hz20 hz2n
  have hr2 := idx_range ov.dims0 ov.dims1 ov.dims2 x y z2 hx0 hxn hy0 hyn hz20 hz2n
  unfold isoBoxAfterY
  rw [if_pos hpy, swept_in _ _ _ _ hr2.1 hr2.2, passY_coord _ _ _ _ _ x y z2 hx0 hxn hy0 hyn hz20]
  congr 1
  apply cutSum_congr
  intro y2 hy20 hy2n
  have hr3 := idx_range ov.dims0 ov.dims1 ov.dims2 x y2 z2 hx0 hxn hy20 hy2n hz20 hz2n
  unfold isoBoxAfterX
  rw [if_pos hpx, swept_in _ _ _ _ hr3.1 hr3.2,
    passX_coord _ _ _ _ _ x y2 z2 hx0 hxn hy20 (by omega) hz20]

theorem anisoBox_coord (pnode : ParametersNode) (ov : ImageData) (I O : Buffer) (x y z : Int)
    (hx0 : 0 ≤ x) (hxn : x < ov.dims0) (hy0 : 0 ≤ y) (hyn : y < ov.dims1)
    (hz0 : 0 ≤ z) (hzn : z < ov.dims2) :
    anisoBoxOut pnode ov I O (idx ov.dims0 ov.dims1 x y z) =
      cutSum3 ov.dims0 ov.dims1 ov.dims2 (halfWidth (forceOdd (toInt pnode.ParameterX)))
        (halfWidth (forceOdd (toInt pnode.ParameterY)))
        (halfWidth (forceOdd (toInt pnode.ParameterZ)))
        (fun x2 y2 z2 => I (idx ov.dims0 ov.dims1 x2 y2 z2)) x y z /
      (((forceOdd (toInt pnode.ParameterX) : Int) : ℚ) *
        ((forceOdd (toInt pnode.ParameterY) : Int) : ℚ) *
        ((forceOdd (toInt pnode.ParameterZ) : Int) : ℚ)) := by
  have hr := idx_range ov.dims0 ov.dims1 ov.dims2 x y z hx0 hxn hy0 hyn hz0 hzn
  unfold anisoBoxOut
  rw [swept_in _ _ _ _ hr.1 hr.2, anisoBoxSum_coord _ _ _ _ _ _ _ x y z hx0 hxn hy0 hyn hz0]
  push_cast
  rfl

theorem toInt_intCast (n : Int) : toInt (n : ℚ) = n := by
  unfold toInt
  simp

theorem forceOdd_odd (h : Int) (hh : 0 ≤ h) : forceOdd (2 * h + 1) = 2 * h + 1 := by
  unfold forceOdd
  have hm : Int.tmod (2 * h + 1) 2 = 1 := by
    rw [Int.tmod_eq_emod (by omega) (by norm_num)]
    omega
  rw [hm]
  norm_num

theorem halfWidth_odd (h : Int) : halfWidth (2 * h + 1) = h := by
  unfold halfWidth
  have e : (((2 * h + 1 - 1 : Int) : ℚ) / 2) = ((h : Int) : ℚ) := by
    push_cast
    ring
  rw [e, toInt_intCast]

theorem forceOdd_zero : forceOdd 0 = 1 := by
  unfold forceOdd
  norm_num [Int.tmod]

theorem halfWidth_one : halfWidth 1 = 0 := by
  have := halfWidth_odd 0
  simpa using this

/-- Window sum over the whole kernel when the window lies inside the axis. -/
theorem cutSum_inside (len h : Int) (f : Int → ℚ) (x : Int) (hlo : h ≤ x)
    (hhi : x + h < len) :
    cutSum len h f x = winSum (-h) h (fun i => f (x + i)) := by
  unfold cutSum
  apply winSum_congr
  intro i hi1 hi2
  rw [if_pos ⟨by omega, by omega⟩]

theorem winSum_const (lo hi : Int) (hle : lo ≤ hi + 1) (c : ℚ) :
    winSum lo hi (fun _ => c) = ((hi + 1 - lo : Int) : ℚ) * c := by
  unfold winSum
  rw [Finset.sum_const, Finset.card_range, nsmul_eq_mul]
  congr 1
  have : (((hi + 1 - lo).toNat : Int) : ℚ) = ((hi + 1 - lo : Int) : ℚ) := by
    congr 1
    omega
  exact_mod_cast this

/-- Number of window taps that fall on the axis `0, ..., len - 1`. -/
theorem cutSum_one_inside (len h : Int) (hh : 0 ≤ h) (x : Int) (hlo : h ≤ x)
    (hhi : x + h < len) : cutSum len h (fun _ => 1) x = ((2 * h + 1 : Int) : ℚ) := by
  rw [cutSum_inside len h _ x hlo hhi, winSum_const _ _ (by omega)]
  have : h + 1 - -h = 2 * h + 1 := by ring
  rw [this, mul_one]

theorem cutSum3_product (nx ny nz hx hy hz : Int) (a b c : Int → ℚ) (x y z : Int) :
    cutSum3 nx ny nz hx hy hz (fun x2 y2 z2 => a x2 * b y2 * c z2) x y z =
      cutSum nx hx a x * cutSum ny hy b y * cutSum nz hz c z := by
  unfold cutSum3
  have h1 : ∀ y2 z2, cutSum nx hx (fun x2 => a x2 * b y2 * c z2) x =
      cutSum nx hx a x * (b y2 * c z2) := by
    intro y2 z2
    rw [← cutSum_mul]
    apply cutSum_congr
    intro x2 _ _
    ring
  simp only [h1]
  have h2 : ∀ z2, cutSum ny hy (fun y2 => cutSum nx hx a x * (b y2 * c z2)) y =
      cutSum ny hy b y * (cutSum nx hx a x * c z2) := by
    intro z2
    rw [← cutSum_mul]
    apply cutSum_congr
    intro y2 _ _
    ring
  simp only [h2]
  have h3 : cutSum nz hz (fun z2 => cutSum ny hy b y * (cutSum nx hx a x * c z2)) z =
      cutSum nz hz c z * (cutSum ny hy b y * cutSum nx hx a x) := by
    rw [← cutSum_mul]
    apply cutSum_congr
    intro z2 _ _
    ring
  rw [h3]
  ring

theorem cutSum3_congr (nx ny nz hx hy hz : Int) (G H : Int → Int → Int → ℚ) (x y z : Int)
    (hGH : ∀ x2 y2 z2, 0 ≤ x2 → x2 < nx → 0 ≤ y2 → y2 < ny → 0 ≤ z2 → z2 < nz →
      G x2 y2 z2 = H x2 y2 z2) :
    cutSum3 nx ny nz hx hy hz G x y z = cutSum3 nx ny nz hx hy hz H x y z := by
  unfold cutSum3
  apply cutSum_congr
  intro z2 hz0 hzn
  apply cutSum_congr
  intro y2 hy0 hyn
  apply cutSum_congr
  intro x2 hx0 hxn
  exact hGH x2 y2 z2 hx0 hxn hy0 hyn hz0 hzn

theorem idleEnv_quiet : Quiet idleEnv := by
  intro t
  simp [idleEnv]

theorem sceneOf_valid (iv ov : ImageData) (inp out : Buffer) (status : Int)
    (hc : ¬ ov.NumberOfScalarComponents > 1)
    (ht : ov.DataType = VTK_FLOAT ∨ ov.DataType = VTK_DOUBLE) :
    ValidScene (sceneOf iv ov inp out status) ov :=
  ⟨⟨iv, rfl⟩, rfl, hc, ht⟩

theorem isoBox_quiet_fst (env : Env) (hq : Quiet env) (pnode : ParametersNode) (s : State)
    (ov : ImageData) (hv : ValidScene s ov) (h0 : 0 ≤ ov.dims0) (h1 : 0 ≤ ov.dims1) :
    (IsotropicBoxCPUFilter env pnode s).1 = Outcome.returned 1 := by
  obtain ⟨st, rd, wr, e⟩ := isoBox_quiet env hq pnode s ov hv h0 h1
  rw [e]

theorem isoBox_quiet_out (env : Env) (hq : Quiet env) (pnode : ParametersNode) (s : State)
    (ov : ImageData) (hv : ValidScene s ov) (h0 : 0 ≤ ov.dims0) (h1 : 0 ≤ ov.dims1) :
    (IsotropicBoxCPUFilter env pnode s).2.outPixel = isoBoxAfterZ pnode ov s.outPixel := by
  obtain ⟨st, rd, wr, e⟩ := isoBox_quiet env hq pnode s ov hv h0 h1
  rw [e]

theorem anisoBox_quiet_fst (env : Env) (hq : Quiet env) (pnode : ParametersNode) (s : State)
    (ov : ImageData) (hv : ValidScene s ov) (hN : 100 ≤ ov.dims0 * ov.dims1 * ov.dims2) :
    (AnisotropicBoxCPUFilter env pnode s).1 = Outcome.returned 1 := by
  obtain ⟨st, rd, ls, wr, e⟩ := anisoBox_quiet env hq pnode s ov hv hN
  rw [e]

theorem anisoBox_quiet_out (env : Env) (hq : Quiet env) (pnode : ParametersNode) (s : State)
    (ov : ImageData) (hv : ValidScene s ov) (hN : 100 ≤ ov.dims0 * ov.dims1 * ov.dims2) :
    (AnisotropicBoxCPUFilter env pnode s).2.outPixel =
      anisoBoxOut pnode ov s.inPixel s.outPixel := by
  obtain ⟨st, rd, ls, wr, e⟩ := anisoBox_quiet env hq pnode s ov hv hN
  rw [e]

/-- Window sum of a constant. -/
theorem cutSum_const (len h : Int) (c : ℚ) (x : Int) :
    cutSum len h (fun _ => c) x = c * tapsIn len h x := by
  unfold tapsIn
  have : cutSum len h (fun _ => c) x = cutSum len h (fun _ => (1 : ℚ) * c) x := by simp
  rw [this, cutSum_mul]
  ring

theorem tapsIn_inside (len h : Int) (hh : 0 ≤ h) (x : Int) (hlo : h ≤ x) (hhi : x + h < len) :
    tapsIn len h x = ((2 * h + 1 : Int) : ℚ) :=
  cutSum_one_inside len h hh x hlo hhi

/-- Value of the box filters on a grid that holds `c` everywhere. -/
theorem cutSum3_const (nx ny nz hx hy hz : Int) (G : Int → Int → Int → ℚ) (c : ℚ)
    (x y z : Int)
    (hG : ∀ x2 y2 z2, 0 ≤ x2 → x2 < nx → 0 ≤ y2 → y2 < ny → 0 ≤ z2 → z2 < nz →
      G x2 y2 z2 = c) :
    cutSum3 nx ny nz hx hy hz G x y z =
      c * (tapsIn nx hx x * tapsIn ny hy y * tapsIn nz hz z) := by
  rw [cutSum3_congr nx ny nz hx hy hz G (fun x2 y2 z2 =>
    (fun _ => c) x2 * (fun _ => 1) y2 * (fun _ => 1) z2) x y z
    (fun x2 y2 z2 a b c2 d e f => by rw [hG x2 y2 z2 a b c2 d e f]; ring),
    cutSum3_product, cutSum_const]
  unfold tapsIn
  ring

theorem odd_param (h : Int) (hh : 0 ≤ h) (p : ℚ)
    (hp : p = ((2 * h + 1 : Int) : ℚ)) :
    p > 0.001 ∧ forceOdd (toInt p) = 2 * h + 1 ∧ halfWidth (forceOdd (toInt p)) = h := by
  subst hp
  rw [toInt_intCast, forceOdd_odd h hh, halfWidth_odd]
  refine ⟨?_, rfl, rfl⟩
  have h1 : (1 : ℚ) ≤ ((2 * h + 1 : Int) : ℚ) := by
    have : (1 : Int) ≤ 2 * h + 1 := by omega
    exact_mod_cast this
  have h2 : (0.001 : ℚ) < 1 := by norm_num
  exact lt_of_lt_of_le h2 h1

/-- Value the isotropic box filter leaves at voxel `(x, y, z)` of a constant grid. -/
theorem isoBox_const (env : Env) (hq : Quiet env) (pnode : ParametersNode) (s : State)
    (ov : ImageData) (hv : ValidScene s ov) (h : Int) (hh : 0 ≤ h)
    (hpx : pnode.ParameterX = ((2 * h + 1 : Int) : ℚ))
    (hpy : pnode.ParameterY = ((2 * h + 1 : Int) : ℚ))
    (hpz : pnode.ParameterZ = ((2 * h + 1 : Int) : ℚ))
    (c : ℚ) (hc : ∀ e, 0 ≤ e → e < ov.dims0 * ov.dims1 * ov.dims2 → s.outPixel e = c)
    (x y z : Int) (hx0 : 0 ≤ x) (hxn : x < ov.dims0) (hy0 : 0 ≤ y) (hyn : y < ov.dims1)
    (hz0 : 0 ≤ z) (hzn : z < ov.dims2) :
    (IsotropicBoxCPUFilter env pnode s).2.outPixel (idx ov.dims0 ov.dims1 x y z) =
      c * (tapsIn ov.dims0 h x * tapsIn ov.dims1 h y * tapsIn ov.dims2 h z) /
        ((2 * h + 1 : Int) : ℚ) ^ 3 := by
  obtain ⟨hx1, hx2, hx3⟩ := odd_param h hh _ hpx
  obtain ⟨hy1, -, -⟩ := odd_param h hh _ hpy
  obtain ⟨hz1, -, -⟩ := odd_param h hh _ hpz
  rw [isoBox_quiet_out env hq pnode s ov hv (by omega) (by omega),
    isoBox_coord pnode ov s.outPixel x y z hx1 hy1 hz1 hx0 hxn hy0 hyn hz0 hzn, hx3, hx2,
    cutSum3_const _ _ _ _ _ _ _ c x y z
      (fun x2 y2 z2 a b c2 d e f =>
        hc _ (idx_range _ _ _ x2 y2 z2 a b c2 d e f).1 (idx_range _ _ _ x2 y2 z2 a b c2 d e f).2)]
  congr 1
  ring

/-- Value the anisotropic box filter leaves at voxel `(x, y, z)` of a constant grid. -/
theorem anisoBox_const (env : Env) (hq : Quiet env) (pnode : ParametersNode) (s : State)
    (ov : ImageData) (hv : ValidScene s ov) (h : Int) (hh : 0 ≤ h)
    (hpx : pnode.ParameterX = ((2 * h + 1 : Int) : ℚ))
    (hpy : pnode.ParameterY = ((2 * h + 1 : Int) : ℚ))
    (hpz : pnode.ParameterZ = ((2 * h + 1 : Int) : ℚ))
    (hN : 100 ≤ ov.dims0 * ov.dims1 * ov.dims2)
    (c : ℚ) (hc : ∀ e, 0 ≤ e → e < ov.dims0 * ov.dims1 * ov.dims2 → s.inPixel e = c)
    (x y z : Int) (hx0 : 0 ≤ x) (hxn : x < ov.dims0) (hy0 : 0 ≤ y) (hyn : y < ov.dims1)
    (hz0 : 0 ≤ z) (hzn : z < ov.dims2) :
    (AnisotropicBoxCPUFilter env pnode s).2.outPixel (idx ov.dims0 ov.dims1 x y z) =
      c * (tapsIn ov.dims0 h x * tapsIn ov.dims1 h y * tapsIn ov.dims2 h z) /
        ((2 * h + 1 : Int) : ℚ) ^ 3 := by
  obtain ⟨-, hx2, hx3⟩ := odd_param h hh _ hpx
  obtain ⟨-, hy2, hy3⟩ := odd_param h hh _ hpy
  obtain ⟨-, hz2, hz3⟩ := odd_param h hh _ hpz
  rw [anisoBox_quiet_out env hq pnode s ov hv hN,
    anisoBox_coord pnode ov s.inPixel s.outPixel x y z hx0 hxn hy0 hyn hz0 hzn, hx3, hx2,
    hy3, hy2, hz3, hz2,
    cutSum3_const _ _ _ _ _ _ _ c x y z
      (fun x2 y2 z2 a b c2 d e f =>
        hc _ (idx_range _ _ _ x2 y2 z2 a b c2 d e f).1 (idx_range _ _ _ x2 y2 z2 a b c2 d e f).2)]
  congr 1
  ring

theorem const_inside (c : ℚ) (h lx ly lz x y z : Int) (hh : 0 ≤ h)
    (hx : h ≤ x ∧ x + h < lx) (hy : h ≤ y ∧ y + h < ly) (hz : h ≤ z ∧ z + h < lz) :
    c * (tapsIn lx h x * tapsIn ly h y * tapsIn lz h z) / ((2 * h + 1 : Int) : ℚ) ^ 3 = c := by
  rw [tapsIn_inside lx h hh x hx.1 hx.2, tapsIn_inside ly h hh y hy.1 hy.2,
    tapsIn_inside lz h hh z hz.1 hz.2]
  have hn : ((2 * h + 1 : Int) : ℚ) ≠ 0 := by
    have : (2 * h + 1 : Int) ≠ 0 := by omega
    exact_mod_cast this
  rw [div_eq_iff (pow_ne_zero 3 hn)]
  ring

/-- C1 (amended). On a grid whose voxels all equal `c`, with all three axis parameters
equal to an odd length `n = 2h + 1`, a run of the box filter that nobody cancels leaves
at voxel `(x, y, z)` the value `c * tx * ty * tz / n ^ 3`, where `tx`, `ty`, `tz` count
the window taps that fall inside the grid on each axis; so every voxel whose window lies
inside the grid keeps the value `c`. This holds for `IsotropicBoxCPUFilter` (which
filters the contents of the output grid) and, in the build without OpenMP on grids of at
least 100 voxels, for `AnisotropicBoxCPUFilter` (which reads the input grid). The OpenMP
build, whose progress update divides by `numElements / (numProcs * 100)`, zero below
`numProcs * 100` voxels, is not covered. -/
theorem C1_box_constant_grid (env : Env) (hq : Quiet env) (pnode : ParametersNode)
    (s : State) (ov : ImageData) (hv : ValidScene s ov) (h : Int) (hh : 0 ≤ h)
    (hpx : pnode.ParameterX = ((2 * h + 1 : Int) : ℚ))
    (hpy : pnode.ParameterY = ((2 * h + 1 : Int) : ℚ))
    (hpz : pnode.ParameterZ = ((2 * h + 1 : Int) : ℚ))
    (c : ℚ) (x y z : Int) (hx0 : 0 ≤ x) (hxn : x < ov.dims0) (hy0 : 0 ≤ y)
    (hyn : y < ov.dims1) (hz0 : 0 ≤ z) (hzn : z < ov.dims2) :
    ((∀ e, 0 ≤ e → e < ov.dims0 * ov.dims1 * ov.dims2 → s.outPixel e = c) →
      (IsotropicBoxCPUFilter env pnode s).1 = Outcome.returned 1 ∧
      (IsotropicBoxCPUFilter env pnode s).2.outPixel (idx ov.dims0 ov.dims1 x y z) =
        c * (tapsIn ov.dims0 h x * tapsIn ov.dims1 h y * tapsIn ov.dims2 h z) /
          ((2 * h + 1 : Int) : ℚ) ^ 3 ∧
      ((h ≤ x ∧ x + h < ov.dims0) → (h ≤ y ∧ y + h < ov.dims1) → (h ≤ z ∧ z + h < ov.dims2) →
        (IsotropicBoxCPUFilter env pnode s).2.outPixel (idx ov.dims0 ov.dims1 x y z) = c)) ∧
    (100 ≤ ov.dims0 * ov.dims1 * ov.dims2 →
      (∀ e, 0 ≤ e → e < ov.dims0 * ov.dims1 * ov.dims2 → s.inPixel e = c) →
      (AnisotropicBoxCPUFilter env pnode s).1 = Outcome.returned 1 ∧
      (AnisotropicBoxCPUFilter env pnode s).2.outPixel (idx ov.dims0 ov.dims1 x y z) =
        c * (tapsIn ov.dims0 h x * tapsIn ov.dims1 h y * tapsIn ov.dims2 h z) /
          ((2 * h + 1 : Int) : ℚ) ^ 3 ∧
      ((h ≤ x ∧ x + h < ov.dims0) → (h ≤ y ∧ y + h < ov.dims1) → (h ≤ z ∧ z + h < ov.dims2) →
        (AnisotropicBoxCPUFilter env pnode s).2.outPixel (idx ov.dims0 ov.dims1 x y z) = c)) := by
  constructor
  · intro hc
    have hval := isoBox_const env hq pnode s ov hv h hh hpx hpy hpz c hc x y z hx0 hxn hy0 hyn
      hz0 hzn
    refine ⟨isoBox_quiet_fst env hq pnode s ov hv (by omega) (by omega), hval, ?_⟩
    intro hx hy hz
    rw [hval]
    exact const_inside c h _ _ _ x y z hh hx hy hz
  · intro hN hc
    have hval := anisoBox_const env hq pnode s ov hv h hh hpx hpy hpz hN c hc x y z hx0 hxn
      hy0 hyn hz0 hzn
    refine ⟨anisoBox_quiet_fst env hq pnode s ov hv hN, hval, ?_⟩
    intro hx hy hz
    rw [hval]
    exact const_inside c h _ _ _ x y z hh hx hy hz

theorem tapsIn_edge (len : Int) (hlen : 2 ≤ len) : tapsIn len 1 0 = 2 := by
  unfold tapsIn cutSum winSum
  have h3 : ((1 : Int) + 1 - -1).toNat = 3 := by decide
  rw [h3, Finset.sum_range_succ, Finset.sum_range_succ, Finset.sum_range_succ,
    Finset.sum_range_zero]
  have e0 : ¬ ((0 : Int) ≤ 0 + (-1 + ((0 : Nat) : Int)) ∧ 0 + (-1 + ((0 : Nat) : Int)) < len) := by
    norm_num
  have e1 : (0 : Int) ≤ 0 + (-1 + ((1 : Nat) : Int)) ∧ 0 + (-1 + ((1 : Nat) : Int)) < len := by
    norm_num
    omega
  have e2 : (0 : Int) ≤ 0 + (-1 + ((2 : Nat) : Int)) ∧ 0 + (-1 + ((2 : Nat) : Int)) < len := by
    norm_num
    omega
  beta_reduce
  rw [if_neg e0, if_pos e1, if_pos e2]
  norm_num

/-- C1 (counterexample). The 4x4x4 grid of all 1.0 with kernel length 3 on all axes:
the isotropic box filter completes and leaves 8/27, not 1.0, at the corner voxel 0. -/
theorem C1_counterexample :
    (IsotropicBoxCPUFilter idleEnv (boxNode 3 3 3)
      (sceneOf (floatImage 4 4 4) (floatImage 4 4 4) (fun _ => 1) (fun _ => 1) 0)).1
        = Outcome.returned 1 ∧
    (IsotropicBoxCPUFilter idleEnv (boxNode 3 3 3)
      (sceneOf (floatImage 4 4 4) (floatImage 4 4 4) (fun _ => 1) (fun _ => 1) 0)).2.outPixel 0
        = 8 / 27 ∧
    (IsotropicBoxCPUFilter idleEnv (boxNode 3 3 3)
      (sceneOf (floatImage 4 4 4) (floatImage 4 4 4) (fun _ => 1) (fun _ => 1) 0)).2.outPixel 0
        ≠ 1 := by
  have hv : ValidScene
      (sceneOf (floatImage 4 4 4) (floatImage 4 4 4) (fun _ => 1) (fun _ => 1) 0)
      (floatImage 4 4 4) :=
    sceneOf_valid _ _ _ _ _ (by norm_num [floatImage]) (Or.inl rfl)
  have h3 : (3 : ℚ) = ((2 * 1 + 1 : Int) : ℚ) := by norm_num
  have hval := isoBox_const idleEnv idleEnv_quiet (boxNode 3 3 3) _ (floatImage 4 4 4) hv 1
    (by norm_num) h3 h3 h3 1 (fun _ _ _ => rfl) 0 0 0 (le_refl 0) (by norm_num [floatImage])
    (le_refl 0) (by norm_num [floatImage]) (le_refl 0) (by norm_num [floatImage])
  have hidx : idx (floatImage 4 4 4).dims0 (floatImage 4 4 4).dims1 0 0 0 = 0 := by
    norm_num [idx]
  have hdims : (floatImage 4 4 4).dims0 = 4 ∧ (floatImage 4 4 4).dims1 = 4 ∧
      (floatImage 4 4 4).dims2 = 4 := ⟨rfl, rfl, rfl⟩
  rw [hidx, hdims.1, hdims.2.1, hdims.2.2, tapsIn_edge 4 (by norm_num)] at hval
  have h827 : (1 : ℚ) * (2 * 2 * 2) / ((2 * 1 + 1 : Int) : ℚ) ^ 3 = 8 / 27 := by norm_num
  rw [h827] at hval
  refine ⟨isoBox_quiet_fst idleEnv idleEnv_quiet _ _ (floatImage 4 4 4) hv
    (by norm_num [floatImage]) (by norm_num [floatImage]), hval, ?_⟩
  rw [hval]
  norm_num

/-- C1 (witness). On the 5x5x4 grid of all 1.0 with kernel length 3 on all axes, the
interior voxel (1, 1, 1) keeps the value 1.0 under both box filters (build without
OpenMP). -/
theorem C1_box_constant_grid_witness :
    (IsotropicBoxCPUFilter idleEnv (boxNode 3 3 3)
      (sceneOf (floatImage 5 5 4) (floatImage 5 5 4) (fun _ => 1) (fun _ => 1) 0)).2.outPixel
        (idx 5 5 1 1 1) = 1 ∧
    (AnisotropicBoxCPUFilter idleEnv (boxNode 3 3 3)
      (sceneOf (floatImage 5 5 4) (floatImage 5 5 4) (fun _ => 1) (fun _ => 1) 0)).2.outPixel
        (idx 5 5 1 1 1) = 1 := by
  have h3 : (3 : ℚ) = ((2 * 1 + 1 : Int) : ℚ) := by norm_num
  have H := C1_box_constant_grid idleEnv idleEnv_quiet (boxNode 3 3 3)
    (sceneOf (floatImage 5 5 4) (floatImage 5 5 4) (fun _ => 1) (fun _ => 1) 0)
    (floatImage 5 5 4)
    (sceneOf_valid _ _ _ _ _ (by norm_num [floatImage]) (Or.inl rfl)) 1 (by norm_num)
    h3 h3 h3 1 1 1 1 (by norm_num) (by norm_num [floatImage]) (by norm_num)
    (by norm_num [floatImage]) (by norm_num) (by norm_num [floatImage])
  exact ⟨(H.1 (fun _ _ _ => rfl)).2.2 (by norm_num [floatImage]) (by norm_num [floatImage])
      (by norm_num [floatImage]),
    (H.2 (by norm_num [floatImage]) (fun _ _ _ => rfl)).2.2 (by norm_num [floatImage])
      (by norm_num [floatImage]) (by norm_num [floatImage])⟩

/-- On grids of at least 100 voxels the separable and the non-separable box filter agree
at every voxel when the three axis parameters are one odd length and the output grid
starts as a copy of the input grid. -/
theorem box_paths_agree (env : Env) (hq : Quiet env) (pnode : ParametersNode) (s : State)
    (ov : ImageData) (hv : ValidScene s ov) (h : Int) (hh : 0 ≤ h)
    (hpx : pnode.ParameterX = ((2 * h + 1 : Int) : ℚ))
    (hpy : pnode.ParameterY = ((2 * h + 1 : Int) : ℚ))
    (hpz : pnode.ParameterZ = ((2 * h + 1 : Int) : ℚ))
    (hN : 100 ≤ ov.dims0 * ov.dims1 * ov.dims2)
    (hcopy : ∀ e, 0 ≤ e → e < ov.dims0 * ov.dims1 * ov.dims2 → s.outPixel e = s.inPixel e)
    (x y z : Int) (hx0 : 0 ≤ x) (hxn : x < ov.dims0) (hy0 : 0 ≤ y) (hyn : y < ov.dims1)
    (hz0 : 0 ≤ z) (hzn : z < ov.dims2) :
    (IsotropicBoxCPUFilter env pnode s).1 = Outcome.returned 1 ∧
    (AnisotropicBoxCPUFilter env pnode s).1 = Outcome.returned 1 ∧
    (IsotropicBoxCPUFilter env pnode s).2.outPixel (idx ov.dims0 ov.dims1 x y z) =
      (AnisotropicBoxCPUFilter env pnode s).2.outPixel (idx ov.dims0 ov.dims1 x y z) := by
  obtain ⟨hx1, hx2, hx3⟩ := odd_param h hh _ hpx
  obtain ⟨hy1, hy2, hy3⟩ := odd_param h hh _ hpy
  obtain ⟨hz1, hz2, hz3⟩ := odd_param h hh _ hpz
  refine ⟨isoBox_quiet_fst env hq pnode s ov hv (by omega) (by omega),
    anisoBox_quiet_fst env hq pnode s ov hv hN, ?_⟩
  rw [isoBox_quiet_out env hq pnode s ov hv (by omega) (by omega),
    isoBox_coord pnode ov s.outPixel x y z hx1 hy1 hz1 hx0 hxn hy0 hyn hz0 hzn,
    anisoBox_quiet_out env hq pnode s ov hv hN,
    anisoBox_coord pnode ov s.inPixel s.outPixel x y z hx0 hxn hy0 hyn hz0 hzn,
    hy3, hy2, hz3, hz2, hx3, hx2]
  congr 1
  apply cutSum3_congr
  intro x2 y2 z2 a b c d e f
  exact hcopy _ (idx_range _ _ _ x2 y2 z2 a b c d e f).1 (idx_range _ _ _ x2 y2 z2 a b c d e f).2

/-- C2 (failing input). On the 4x4x4 grid of all 1.0 with kernel length 3 on all axes and
the output grid a copy of the input grid, the non-separable path stops at its first
progress update with an integer division by zero (`64 / 100 = 0`), while the separable
path completes. -/
theorem C2_small_grid_division_by_zero :
    (AnisotropicBoxCPUFilter idleEnv (boxNode 3 3 3)
      (sceneOf (floatImage 4 4 4) (floatImage 4 4 4) (fun _ => 1) (fun _ => 1) 0)).1
        = Outcome.divisionByZero ∧
    (IsotropicBoxCPUFilter idleEnv (boxNode 3 3 3)
      (sceneOf (floatImage 4 4 4) (floatImage 4 4 4) (fun _ => 1) (fun _ => 1) 0)).1
        = Outcome.returned 1 := by
  have hv : ValidScene
      (sceneOf (floatImage 4 4 4) (floatImage 4 4 4) (fun _ => 1) (fun _ => 1) 0)
      (floatImage 4 4 4) :=
    sceneOf_valid _ _ _ _ _ (by norm_num [floatImage]) (Or.inl rfl)
  exact ⟨anisoBox_trap idleEnv idleEnv_quiet _ _ (floatImage 4 4 4) hv
      (by norm_num [floatImage]) (by norm_num [floatImage]),
    isoBox_quiet_fst idleEnv idleEnv_quiet _ _ (floatImage 4 4 4) hv
      (by norm_num [floatImage]) (by norm_num [floatImage])⟩

theorem digit_unique (n r q r2 q2 : Int) (hr0 : 0 ≤ r) (hrn : r < n) (hr20 : 0 ≤ r2)
    (hr2n : r2 < n) (he : r + q * n = r2 + q2 * n) : r = r2 ∧ q = q2 := by
  have hq : q = q2 := by
    rcases lt_trichotomy q q2 with hlt | heq | hgt
    · exfalso
      have h1 : (q + 1) * n ≤ q2 * n := mul_le_mul_of_nonneg_right (by omega) (by omega)
      have h2 : (q + 1) * n = q * n + n := by ring
      omega
    · exact heq
    · exfalso
      have h1 : (q2 + 1) * n ≤ q * n := mul_le_mul_of_nonneg_right (by omega) (by omega)
      have h2 : (q2 + 1) * n = q2 * n + n := by ring
      omega
  subst hq
  exact ⟨by omega, rfl⟩

theorem idx_inj (nx ny x y z x2 y2 z2 : Int) (hx0 : 0 ≤ x) (hxn : x < nx) (hy0 : 0 ≤ y)
    (hyn : y < ny) (hx20 : 0 ≤ x2) (hx2n : x2 < nx) (hy20 : 0 ≤ y2) (hy2n : y2 < ny)
    (he : idx nx ny x y z = idx nx ny x2 y2 z2) : x = x2 ∧ y = y2 ∧ z = z2 := by
  obtain ⟨a1, a2⟩ := row_part nx ny x y hx0 hxn hy0 hyn
  obtain ⟨b1, b2⟩ := row_part nx ny x2 y2 hx20 hx2n hy20 hy2n
  unfold idx at he
  obtain ⟨hr, hz⟩ := digit_unique (nx * ny) (x + y * nx) z (x2 + y2 * nx) z2 a1 a2 b1 b2 he
  obtain ⟨hx, hy⟩ := digit_unique nx x y x2 y2 hx0 hxn hx20 hx2n hr
  exact ⟨hx, hy, hz⟩

theorem rangeSum_single (lo m : Int) (v : ℚ) (n : Nat) :
    Finset.sum (Finset.range n) (fun t => if lo + (t : Int) = m then v else 0) =
      if lo ≤ m ∧ m < lo + (n : Int) then v else 0 := by
  induction n with
  | zero =>
    have : ¬ (lo ≤ m ∧ m < lo + ((0 : Nat) : Int)) := by omega
    rw [Finset.sum_range_zero, if_neg this]
  | succ n ih =>
    rw [Finset.sum_range_succ, ih]
    by_cases h1 : lo ≤ m ∧ m < lo + (n : Int)
    · have h2 : ¬ (lo + (n : Int) = m) := by omega
      have h3 : lo ≤ m ∧ m < lo + ((n + 1 : Nat) : Int) := by omega
      rw [if_pos h1, if_neg h2, if_pos h3, add_zero]
    · by_cases h2 : lo + (n : Int) = m
      · have h3 : lo ≤ m ∧ m < lo + ((n + 1 : Nat) : Int) := by omega
        rw [if_neg h1, if_pos h2, if_pos h3, zero_add]
      · have h3 : ¬ (lo ≤ m ∧ m < lo + ((n + 1 : Nat) : Int)) := by omega
        rw [if_neg h1, if_neg h2, if_neg h3, add_zero]

/-- Window sum of the indicator of one position `p` of the axis. -/
theorem cutSum_delta (len h p : Int) (hp0 : 0 ≤ p) (hpn : p < len) (x : Int) :
    cutSum len h (fun x2 => if x2 = p then 1 else 0) x =
      if (-h ≤ p - x ∧ p - x ≤ h) then 1 else 0 := by
  unfold cutSum winSum
  have hterm : ∀ t : Nat,
      (if 0 ≤ x + (-h + (t : Int)) ∧ x + (-h + (t : Int)) < len then
        (if x + (-h + (t : Int)) = p then (1 : ℚ) else 0) else 0) =
      (if -h + (t : Int) = p - x then (1 : ℚ) else 0) := by
    intro t
    by_cases he : -h + (t : Int) = p - x
    · have hv : 0 ≤ x + (-h + (t : Int)) ∧ x + (-h + (t : Int)) < len := by omega
      have he2 : x + (-h + (t : Int)) = p := by omega
      rw [if_pos hv, if_pos he2, if_pos he]
    · have he2 : ¬ (x + (-h + (t : Int)) = p) := by omega
      rw [if_neg he]
      by_cases hv : 0 ≤ x + (-h + (t : Int)) ∧ x + (-h + (t : Int)) < len
      · rw [if_pos hv, if_neg he2]
      · rw [if_neg hv]
  simp only [hterm]
  rw [rangeSum_single]
  apply if_congr _ rfl rfl
  constructor <;> intro hh <;> constructor <;> omega

theorem delta_product (h x y z px py pz : Int) (n : ℚ) :
    (if (-h ≤ px - x ∧ px - x ≤ h) then (1 : ℚ) else 0) *
      (if (-h ≤ py - y ∧ py - y ≤ h) then (1 : ℚ) else 0) *
      (if (-h ≤ pz - z ∧ pz - z ≤ h) then (1 : ℚ) else 0) / (n * n * n) =
    if chebyshev x y z px py pz ≤ h then 1 / n ^ 3 else 0 := by
  unfold chebyshev
  by_cases hc : max (max |x - px| |y - py|) |z - pz| ≤ h
  · rw [if_pos hc]
    rw [max_le_iff, max_le_iff, abs_le, abs_le, abs_le] at hc
    obtain ⟨⟨hx, hy⟩, hz⟩ := hc
    rw [if_pos ⟨by omega, by omega⟩, if_pos ⟨by omega, by omega⟩,
      if_pos ⟨by omega, by omega⟩]
    ring
  · rw [if_neg hc]
    rw [max_le_iff, max_le_iff, abs_le, abs_le, abs_le] at hc
    by_cases hx : -h ≤ px - x ∧ px - x ≤ h
    · by_cases hy : -h ≤ py - y ∧ py - y ≤ h
      · have hz : ¬ (-h ≤ pz - z ∧ pz - z ≤ h) := by
          intro hz
          exact hc ⟨⟨⟨by omega, by omega⟩, ⟨by omega, by omega⟩⟩, ⟨by omega, by omega⟩⟩
        rw [if_neg hz]
        ring
      · rw [if_neg hy]
        ring
    · rw [if_neg hx]
      ring

/-- C3. The isotropic box filter with all three axis parameters equal to an odd length
`n = 2h + 1`, run without cancellation on a grid that is 1 at the single voxel
`(px, py, pz)` and 0 elsewhere, leaves `1 / n ^ 3` at every voxel within Chebyshev
distance `h` of that voxel and 0 at every other voxel. -/
theorem C3_box_impulse (env : Env) (hq : Quiet env) (pnode : ParametersNode) (s : State)
    (ov : ImageData) (hv : ValidScene s ov) (h : Int) (hh : 0 ≤ h)
    (hpx : pnode.ParameterX = ((2 * h + 1 : Int) : ℚ))
    (hpy : pnode.ParameterY = ((2 * h + 1 : Int) : ℚ))
    (hpz : pnode.ParameterZ = ((2 * h + 1 : Int) : ℚ))
    (px py pz : Int) (hpx0 : 0 ≤ px) (hpxn : px < ov.dims0) (hpy0 : 0 ≤ py)
    (hpyn : py < ov.dims1) (hpz0 : 0 ≤ pz) (hpzn : pz < ov.dims2)
    (himp : ∀ e, 0 ≤ e → e < ov.dims0 * ov.dims1 * ov.dims2 →
      s.outPixel e = impulse (idx ov.dims0 ov.dims1 px py pz) e)
    (x y z : Int) (hx0 : 0 ≤ x) (hxn : x < ov.dims0) (hy0 : 0 ≤ y) (hyn : y < ov.dims1)
    (hz0 : 0 ≤ z) (hzn : z < ov.dims2) :
    (IsotropicBoxCPUFilter env pnode s).1 = Outcome.returned 1 ∧
    (IsotropicBoxCPUFilter env pnode s).2.outPixel (idx ov.dims0 ov.dims1 x y z) =
      if chebyshev x y z px py pz ≤ h then 1 / ((2 * h + 1 : Int) : ℚ) ^ 3 else 0 := by
  obtain ⟨hx1, hx2, hx3⟩ := odd_param h hh _ hpx
  obtain ⟨hy1, -, -⟩ := odd_param h hh _ hpy
  obtain ⟨hz1, -, -⟩ := odd_param h hh _ hpz
  refine ⟨isoBox_quiet_fst env hq pnode s ov hv (by omega) (by omega), ?_⟩
  rw [isoBox_quiet_out env hq pnode s ov hv (by omega) (by omega),
    isoBox_coord pnode ov s.outPixel x y z hx1 hy1 hz1 hx0 hxn hy0 hyn hz0 hzn, hx3, hx2,
    cutSum3_congr _ _ _ _ _ _ _ (fun x2 y2 z2 =>
      (fun a => if a = px then (1 : ℚ) else 0) x2 * (fun b => if b = py then (1 : ℚ) else 0) y2 *
        (fun c => if c = pz then (1 : ℚ) else 0) z2) x y z ?_,
    cutSum3_product, cutSum_delta _ _ _ hpx0 hpxn, cutSum_delta _ _ _ hpy0 hpyn,
    cutSum_delta _ _ _ hpz0 hpzn, delta_product]
  intro x2 y2 z2 a b c d e f
  rw [himp _ (idx_range _ _ _ x2 y2 z2 a b c d e f).1 (idx_range _ _ _ x2 y2 z2 a b c d e f).2]
  unfold impulse
  by_cases heq : idx ov.dims0 ov.dims1 x2 y2 z2 = idx ov.dims0 ov.dims1 px py pz
  · obtain ⟨e1, e2, e3⟩ := idx_inj _ _ _ _ _ _ _ _ a b c d hpx0 hpxn hpy0 hpyn heq
    rw [if_pos heq]
    simp only [e1, e2, e3, if_true]
    norm_num
  · rw [if_neg heq]
    by_cases e1 : x2 = px
    · by_cases e2 : y2 = py
      · have e3 : ¬ z2 = pz := by
          intro e3
          exact heq (by rw [e1, e2, e3])
        simp only [e3, if_false, mul_zero]
      · simp only [e2, if_false, mul_zero, zero_mul]
    · simp only [e1, if_false, zero_mul]

/-- C3 (witness). 5x5x5 grid with 1.0 at (2, 2, 2), kernel length 3: the centre voxel and
its face neighbour (1, 2, 2) become 1/27, the voxel (0, 2, 2) at distance 2 becomes 0. -/
theorem C3_box_impulse_witness :
    (IsotropicBoxCPUFilter idleEnv (boxNode 3 3 3)
      (sceneOf (floatImage 5 5 5) (floatImage 5 5 5) (impulse (idx 5 5 2 2 2))
        (impulse (idx 5 5 2 2 2)) 0)).2.outPixel (idx 5 5 2 2 2) = 1 / 27 ∧
    (IsotropicBoxCPUFilter idleEnv (boxNode 3 3 3)
      (sceneOf (floatImage 5 5 5) (floatImage 5 5 5) (impulse (idx 5 5 2 2 2))
        (impulse (idx 5 5 2 2 2)) 0)).2.outPixel (idx 5 5 1 2 2) = 1 / 27 ∧
    (IsotropicBoxCPUFilter idleEnv (boxNode 3 3 3)
      (sceneOf (floatImage 5 5 5) (floatImage 5 5 5) (impulse (idx 5 5 2 2 2))
        (impulse (idx 5 5 2 2 2)) 0)).2.outPixel (idx 5 5 0 2 2) = 0 := by
  have h3 : (3 : ℚ) = ((2 * 1 + 1 : Int) : ℚ) := by norm_num
  have H := fun (x y z : Int) (hx0 : 0 ≤ x) (hxn : x < 5) (hy0 : 0 ≤ y) (hyn : y < 5)
      (hz0 : 0 ≤ z) (hzn : z < 5) =>
    (C3_box_impulse idleEnv idleEnv_quiet (boxNode 3 3 3)
      (sceneOf (floatImage 5 5 5) (floatImage 5 5 5) (impulse (idx 5 5 2 2 2))
        (impulse (idx 5 5 2 2 2)) 0)
      (floatImage 5 5 5)
      (sceneOf_valid _ _ _ _ _ (by norm_num [floatImage]) (Or.inl rfl)) 1 (by norm_num)
      h3 h3 h3 2 2 2 (by norm_num) (by norm_num [floatImage]) (by norm_num)
      (by norm_num [floatImage]) (by norm_num) (by norm_num [floatImage])
      (fun _ _ _ => rfl) x y z hx0 hxn hy0 hyn hz0 hzn).2
  have hn : (1 : ℚ) / ((2 * 1 + 1 : Int) : ℚ) ^ 3 = 1 / 27 := by norm_num
  refine ⟨?_, ?_, ?_⟩
  · have := H 2 2 2 (by norm_num) (by norm_num) (by norm_num) (by norm_num) (by norm_num)
      (by norm_num)
    rw [if_pos (by decide), hn] at this
    exact this
  · have := H 1 2 2 (by norm_num) (by norm_num) (by norm_num) (by norm_num) (by norm_num)
      (by norm_num)
    rw [if_pos (by decide), hn] at this
    exact this
  · have := H 0 2 2 (by norm_num) (by norm_num) (by norm_num) (by norm_num) (by norm_num)
      (by norm_num)
    rw [if_neg (by decide)] at this
    exact this

theorem cutSum_zero (len : Int) (g : Int → ℚ) (y : Int) (hy0 : 0 ≤ y) (hyn : y < len) :
    cutSum len 0 g y = g y := by
  unfold cutSum winSum
  have h1 : ((0 : Int) + 1 - -0).toNat = 1 := by decide
  rw [h1, Finset.sum_range_one]
  have he : y + (-0 + ((0 : Nat) : Int)) = y := by simp
  show (if 0 ≤ y + (-0 + ((0 : Nat) : Int)) ∧ y + (-0 + ((0 : Nat) : Int)) < len then
    g (y + (-0 + ((0 : Nat) : Int))) else 0) = g y
  rw [he, if_pos ⟨hy0, hyn⟩]

theorem toInt_zero : toInt 0 = 0 := by
  have := toInt_intCast 0
  simpa using this

theorem toInt_nonneg (q : ℚ) (hq : 0 ≤ q) : 0 ≤ toInt q := by
  unfold toInt
  exact Int.tdiv_nonneg (Rat.num_nonneg.mpr hq) (by exact_mod_cast Nat.zero_le q.den)

/-- The effective length of a non-negative request is odd: `L = 2 * halfWidth L + 1`. -/
theorem forceOdd_shape (m : Int) (hm : 0 ≤ m) :
    0 ≤ halfWidth (forceOdd m) ∧ forceOdd m = 2 * halfWidth (forceOdd m) + 1 := by
  have hmod : Int.tmod m 2 = m % 2 := Int.tmod_eq_emod hm (by norm_num)
  rcases Int.emod_two_eq_zero_or_one m with h0 | h1
  · have hf : forceOdd m = 2 * (m / 2) + 1 := by
      unfold forceOdd
      rw [hmod, h0]
      norm_num
      omega
    rw [hf, halfWidth_odd]
    exact ⟨by omega, rfl⟩
  · have hf : forceOdd m = 2 * (m / 2) + 1 := by
      unfold forceOdd
      rw [hmod, h1]
      norm_num
      omega
    rw [hf, halfWidth_odd]
    exact ⟨by omega, rfl⟩

/-- Anisotropic box filter with `ParameterY = ParameterZ = 0` on a grid that depends only
on the Y index: the value left at voxel `(x, y, z)`. -/
theorem anisoBox_xonly (env : Env) (hq : Quiet env) (pnode : ParametersNode) (s : State)
    (ov : ImageData) (hv : ValidScene s ov)
    (hpy : pnode.ParameterY = 0) (hpz : pnode.ParameterZ = 0)
    (hN : 100 ≤ ov.dims0 * ov.dims1 * ov.dims2) (f : Int → ℚ)
    (hf : ∀ x y z, 0 ≤ x → x < ov.dims0 → 0 ≤ y → y < ov.dims1 → 0 ≤ z → z < ov.dims2 →
      s.inPixel (idx ov.dims0 ov.dims1 x y z) = f y)
    (x y z : Int) (hx0 : 0 ≤ x) (hxn : x < ov.dims0) (hy0 : 0 ≤ y) (hyn : y < ov.dims1)
    (hz0 : 0 ≤ z) (hzn : z < ov.dims2) :
    (AnisotropicBoxCPUFilter env pnode s).2.outPixel (idx ov.dims0 ov.dims1 x y z) =
      f y * tapsIn ov.dims0 (halfWidth (forceOdd (toInt pnode.ParameterX))) x /
        ((forceOdd (toInt pnode.ParameterX) : Int) : ℚ) := by
  rw [anisoBox_quiet_out env hq pnode s ov hv hN,
    anisoBox_coord pnode ov s.inPixel s.outPixel x y z hx0 hxn hy0 hyn hz0 hzn,
    hpy, hpz, toInt_zero, forceOdd_zero, halfWidth_one,
    cutSum3_congr _ _ _ _ _ _ _ (fun x2 y2 z2 =>
      (fun _ => (1 : ℚ)) x2 * f y2 * (fun _ => (1 : ℚ)) z2) x y z
      (fun x2 y2 z2 a b c d e g => by rw [hf x2 y2 z2 a b c d e g]; ring),
    cutSum3_product, cutSum_zero _ _ y hy0 hyn, cutSum_zero _ _ z hz0 hzn]
  unfold tapsIn
  push_cast
  ring

theorem apply_box_aniso (env : Env) (pnode : ParametersNode) (s : State)
    (hF : pnode.Filter = 0) (hH : pnode.Hardware = 0)
    (hpy : pnode.ParameterY = 0) (hx : 0.001 ≤ pnode.ParameterX) :
    Apply env pnode s = AnisotropicBoxCPUFilter env pnode s := by
  have hno : ¬ (|pnode.ParameterX - pnode.ParameterY| < 0.001 ∧
      |pnode.ParameterY - pnode.ParameterZ| < 0.001) := by
    rintro ⟨h1, -⟩
    rw [hpy, sub_zero, abs_of_nonneg (le_trans (by norm_num) hx)] at h1
    exact absurd h1 (not_lt.mpr hx)
  unfold Apply selectStrategy
  simp only [hF, hH, hno, if_true, if_false, runStrategy]

theorem apply_box_iso (env : Env) (pnode : ParametersNode) (s : State)
    (hF : pnode.Filter = 0) (hH : pnode.Hardware = 0)
    (hpy : pnode.ParameterY = 0) (hpz : pnode.ParameterZ = 0) (h0 : 0 < pnode.ParameterX)
    (hx : pnode.ParameterX < 0.001) :
    Apply env pnode s = IsotropicBoxCPUFilter env pnode s := by
  have hyes : |pnode.ParameterX - pnode.ParameterY| < 0.001 ∧
      |pnode.ParameterY - pnode.ParameterZ| < 0.001 := by
    rw [hpy, hpz, sub_zero, sub_zero, abs_of_pos h0, abs_zero]
    exact ⟨hx, by norm_num⟩
  unfold Apply selectStrategy
  simp only [hF, hH, hyes, if_true, runStrategy]
  rfl

/-- C4 (amended). CPU box filtering through `Apply` with `ParameterX = n > 0` and
`ParameterY = ParameterZ = 0`, not cancelled, on a grid whose voxel value depends only
on its Y index. For `n >= 0.001`, in the build without OpenMP and on a grid of at least
100 voxels (the OpenMP build divides by `numElements / (numProcs * 100)` in its progress
update and is not covered), the anisotropic path
leaves at voxel `(x, y, z)` the input value times `t / L`, where `L` is the effective odd
kernel length, `hX = (L - 1) / 2` and `t` counts the taps of the window around `x` that
fall inside the row; so the output equals the input at every voxel with
`hX <= x < nx - hX`. For `n < 0.001` the isotropic path runs no pass and the output grid
keeps its contents. -/
theorem C4_box_x_only (env : Env) (hq : Quiet env) (pnode : ParametersNode) (s : State)
    (ov : ImageData) (hv : ValidScene s ov) (hF : pnode.Filter = 0)
    (hH : pnode.Hardware = 0) (hpos : 0 < pnode.ParameterX) (hpy : pnode.ParameterY = 0)
    (hpz : pnode.ParameterZ = 0) (f : Int → ℚ)
    (hf : ∀ x y z, 0 ≤ x → x < ov.dims0 → 0 ≤ y → y < ov.dims1 → 0 ≤ z → z < ov.dims2 →
      s.inPixel (idx ov.dims0 ov.dims1 x y z) = f y)
    (x y z : Int) (hx0 : 0 ≤ x) (hxn : x < ov.dims0) (hy0 : 0 ≤ y) (hyn : y < ov.dims1)
    (hz0 : 0 ≤ z) (hzn : z < ov.dims2) :
    (pnode.ParameterX < 0.001 →
      (Apply env pnode s).1 = Outcome.returned 1 ∧
      (Apply env pnode s).2.outPixel = s.outPixel) ∧
    (0.001 ≤ pnode.ParameterX → 100 ≤ ov.dims0 * ov.dims1 * ov.dims2 →
      (Apply env pnode s).1 = Outcome.returned 1 ∧
      (Apply env pnode s).2.outPixel (idx ov.dims0 ov.dims1 x y z) =
        s.inPixel (idx ov.dims0 ov.dims1 x y z) *
          tapsIn ov.dims0 (halfWidth (forceOdd (toInt pnode.ParameterX))) x /
          ((forceOdd (toInt pnode.ParameterX) : Int) : ℚ) ∧
      (halfWidth (forceOdd (toInt pnode.ParameterX)) ≤ x ∧
          x + halfWidth (forceOdd (toInt pnode.ParameterX)) < ov.dims0 →
        (Apply env pnode s).2.outPixel (idx ov.dims0 ov.dims1 x y z) =
          s.inPixel (idx ov.dims0 ov.dims1 x y z))) := by
  constructor
  · intro hsmall
    rw [apply_box_iso env pnode s hF hH hpy hpz hpos hsmall]
    refine ⟨isoBox_quiet_fst env hq pnode s ov hv (by omega) (by omega), ?_⟩
    rw [isoBox_quiet_out env hq pnode s ov hv (by omega) (by omega)]
    have hnx : ¬ pnode.ParameterX > 0.001 := not_lt.mpr (le_of_lt hsmall)
    have hny : ¬ pnode.ParameterY > 0.001 := by rw [hpy]; norm_num
    have hnz : ¬ pnode.ParameterZ > 0.001 := by rw [hpz]; norm_num
    unfold isoBoxAfterZ isoBoxAfterY isoBoxAfterX
    rw [if_neg hnz, if_neg hny, if_neg hnx]
  · intro hbig hN
    rw [apply_box_aniso env pnode s hF hH hpy hbig]
    have hval := anisoBox_xonly env hq pnode s ov hv hpy hpz hN f hf x y z hx0 hxn hy0 hyn
      hz0 hzn
    rw [← hf x y z hx0 hxn hy0 hyn hz0 hzn] at hval
    refine ⟨anisoBox_quiet_fst env hq pnode s ov hv hN, hval, ?_⟩
    intro hin
    obtain ⟨hk, hL⟩ := forceOdd_shape (toInt pnode.ParameterX)
      (toInt_nonneg _ (le_of_lt hpos))
    rw [hval, tapsIn_inside _ _ hk x hin.1 hin.2, ← hL]
    have hne : ((forceOdd (toInt pnode.ParameterX) : Int) : ℚ) ≠ 0 := by
      have : forceOdd (toInt pnode.ParameterX) ≠ 0 := by omega
      exact_mod_cast this
    rw [mul_div_assoc, div_self hne, mul_one]

theorem rowGrid_rows (x y z : Int) (hx0 : 0 ≤ x) (hxn : x < 10) (hy0 : 0 ≤ y) (_hyn : y < 10)
    (hz0 : 0 ≤ z) (hzn : z < 1) :
    rowGrid (idx 10 10 x y z) = (fun b : Int => if b = 0 then (1 : ℚ) else 2) y := by
  unfold rowGrid idx
  by_cases hy : y = 0
  · rw [if_pos (by omega)]
    simp [hy]
  · rw [if_neg (by omega)]
    simp [hy]

/-- C4 (counterexample). A 10x10x1 grid holding 1.0 on row 0 and 2.0 on the other rows
(so its value depends only on the Y index), filtered through `Apply` with
`ParameterX = 3`, `ParameterY = ParameterZ = 0` in the build without OpenMP: the run
completes and voxel 0, whose input value is 1, becomes 2/3. -/
theorem C4_counterexample :
    (∀ x y z : Int, 0 ≤ x → x < 10 → 0 ≤ y → y < 10 → 0 ≤ z → z < 1 →
      rowGrid (idx 10 10 x y z) = if y = 0 then 1 else 2) ∧
    (Apply idleEnv (boxNode 3 0 0)
      (sceneOf (floatImage 10 10 1) (floatImage 10 10 1) rowGrid rowGrid 0)).1
        = Outcome.returned 1 ∧
    (sceneOf (floatImage 10 10 1) (floatImage 10 10 1) rowGrid rowGrid 0).inPixel 0 = 1 ∧
    (Apply idleEnv (boxNode 3 0 0)
      (sceneOf (floatImage 10 10 1) (floatImage 10 10 1) rowGrid rowGrid 0)).2.outPixel 0
        = 2 / 3 := by
  have hv : ValidScene
      (sceneOf (floatImage 10 10 1) (floatImage 10 10 1) rowGrid rowGrid 0)
      (floatImage 10 10 1) :=
    sceneOf_valid _ _ _ _ _ (by norm_num [floatImage]) (Or.inl rfl)
  have h3 : (boxNode 3 0 0).ParameterX = ((2 * 1 + 1 : Int) : ℚ) := by norm_num [boxNode]
  obtain ⟨-, hL, hX⟩ := odd_param 1 (by norm_num) _ h3
  have hN : (100 : Int) ≤ (floatImage 10 10 1).dims0 * (floatImage 10 10 1).dims1 *
      (floatImage 10 10 1).dims2 := by norm_num [floatImage]
  have happ := apply_box_aniso idleEnv (boxNode 3 0 0)
    (sceneOf (floatImage 10 10 1) (floatImage 10 10 1) rowGrid rowGrid 0) rfl rfl rfl
    (by norm_num [boxNode])
  have hval := anisoBox_xonly idleEnv idleEnv_quiet (boxNode 3 0 0) _ (floatImage 10 10 1) hv
    rfl rfl hN (fun b : Int => if b = 0 then (1 : ℚ) else 2)
    (fun x y z a b c d e f => rowGrid_rows x y z a b c d e f) 0 0 0 (le_refl 0)
    (by norm_num [floatImage]) (le_refl 0) (by norm_num [floatImage]) (le_refl 0)
    (by norm_num [floatImage])
  have hidx : idx (floatImage 10 10 1).dims0 (floatImage 10 10 1).dims1 0 0 0 = 0 := by
    norm_num [idx]
  have hd0 : (floatImage 10 10 1).dims0 = 10 := rfl
  rw [hidx, hX, hL, hd0, tapsIn_edge 10 (by norm_num)] at hval
  refine ⟨fun x y z a b c d e f => rowGrid_rows x y z a b c d e f, ?_, ?_, ?_⟩
  · rw [happ]
    exact anisoBox_quiet_fst idleEnv idleEnv_quiet _ _ (floatImage 10 10 1) hv hN
  · show rowGrid 0 = 1
    unfold rowGrid
    norm_num
  · rw [happ, hval]
    norm_num

/-- C4 (witness). On the same 10x10x1 grid and request (build without OpenMP), the voxel
(1, 0, 0), whose window of length 3 lies inside its row, keeps its input value. -/
theorem C4_box_x_only_witness :
    (Apply idleEnv (boxNode 3 0 0)
      (sceneOf (floatImage 10 10 1) (floatImage 10 10 1) rowGrid rowGrid 0)).2.outPixel
        (idx 10 10 1 0 0) = rowGrid (idx 10 10 1 0 0) := by
  have h3 : (boxNode 3 0 0).ParameterX = ((2 * 1 + 1 : Int) : ℚ) := by norm_num [boxNode]
  obtain ⟨-, -, hX⟩ := odd_param 1 (by norm_num) _ h3
  have H := C4_box_x_only idleEnv idleEnv_quiet (boxNode 3 0 0)
    (sceneOf (floatImage 10 10 1) (floatImage 10 10 1) rowGrid rowGrid 0)
    (floatImage 10 10 1)
    (sceneOf_valid _ _ _ _ _ (by norm_num [floatImage]) (Or.inl rfl)) rfl rfl
    (by norm_num [boxNode]) rfl rfl (fun b : Int => if b = 0 then (1 : ℚ) else 2)
    (fun x y z a b c d e f => rowGrid_rows x y z a b c d e f) 1 0 0 (by norm_num)
    (by norm_num [floatImage]) (le_refl 0) (by norm_num [floatImage]) (le_refl 0)
    (by norm_num [floatImage])
  exact (H.2 (by norm_num [boxNode]) (by norm_num [floatImage])).2.2
    ⟨by rw [hX], by rw [hX]; norm_num [floatImage]⟩

theorem Track.refl (s : State) : Track s s :=
  ⟨[], by simp, by simp, rfl, rfl⟩

theorem Track.trans {s t u : State} (h1 : Track s t) (h2 : Track t u) : Track s u := by
  obtain ⟨l1, a1, b1, c1, d1⟩ := h1
  obtain ⟨l2, a2, b2, c2, d2⟩ := h2
  refine ⟨l2 ++ l1, by rw [a2, a1, List.append_assoc], ?_, by rw [c2, c1], by rw [d2, d1]⟩
  rw [b2, b1, List.mem_append]
  tauto

theorem Track.of_eq {s t : State} (h1 : t.statusReads = s.statusReads)
    (h2 : t.cancel = s.cancel) (h3 : t.rangeUpdates = s.rangeUpdates)
    (h4 : t.noiseUpdates = s.noiseUpdates) : Track s t :=
  ⟨[], by simpa using h1, by simp [h2], h3, h4⟩

theorem Track.newReads {s t : State} (h : Track s t) :
    ∃ l : List Int, newReads s t = l ∧ t.statusReads = l ++ s.statusReads ∧
      (t.cancel = true ↔ (s.cancel = true ∨ -1 ∈ l)) := by
  obtain ⟨l, a, b, -, -⟩ := h
  refine ⟨l, ?_, a, b⟩
  unfold SlicerAstro.newReads
  rw [a, List.length_append, Nat.add_sub_cancel, List.take_left']
  rfl

theorem voxelStep_cases (env : Env) (body : Int → State → State) (e : Int) (t : State) :
    voxelStep env body e t =
      if readValue env t = -1 ∨ t.cancel = true then
        LoopStep.cont { t with Status := readValue env t,
                               statusReads := readValue env t :: t.statusReads, cancel := true }
      else if (body e (afterRead (readValue env t) t)).divByZero then
        LoopStep.brk (body e (afterRead (readValue env t) t))
      else LoopStep.cont (body e (afterRead (readValue env t) t)) := by
  unfold voxelStep GetStatus afterRead readValue
  by_cases hv : (env.ext t.statusReads.length).getD t.Status = -1
  · simp [hv]
  · by_cases hc : t.cancel = true
    · simp [hv, hc]
    · have hcf : t.cancel = false := by simpa using hc
      simp [hv, hcf]

/-- Control flow of one sweep, whatever the environment does. -/
theorem sweep_track (env : Env) (N : Int) (body : Int → State → State) (hb : FrameBody body)
    (s : State) (hd : s.divByZero = false) :
    Track s (sweep env N body s) ∧
      ((sweep env N body s).divByZero = true → (sweep env N body s).cancel = false) := by
  unfold sweep forRange
  refine forLoop_rule (voxelStep env body)
    (fun _ t => t.divByZero = false ∧ Track s t)
    (fun t => Track s t ∧ (t.divByZero = true → t.cancel = false))
    _ 0 s ⟨hd, Track.refl s⟩ ?_ ?_
  · rintro k t _ ⟨htd, l, a, b, c, d⟩
    rw [voxelStep_cases]
    by_cases hstop : readValue env t = -1 ∨ t.cancel = true
    · rw [if_pos hstop]
      refine ⟨htd, readValue env t :: l, ?_, ?_, c, d⟩
      · show readValue env t :: t.statusReads = readValue env t :: l ++ s.statusReads
        rw [a]
        rfl
      · show (true = true) ↔ _
        simp only [true_iff, List.mem_cons]
        rcases hstop with h | h
        · exact Or.inr (Or.inl h.symm)
        · rcases b.mp h with h2 | h2
          · exact Or.inl h2
          · exact Or.inr (Or.inr h2)
    · rw [if_neg hstop]
      have hv : readValue env t ≠ -1 := fun h => hstop (Or.inl h)
      have hc : ¬ t.cancel = true := fun h => hstop (Or.inr h)
      obtain ⟨f1, f2, f3, f4⟩ := hb (0 + (k : Int)) (afterRead (readValue env t) t)
      have hnot : ¬ (s.cancel = true ∨ -1 ∈ l) := fun h => hc (b.mpr h)
      have hcb : (body (0 + (k : Int)) (afterRead (readValue env t) t)).cancel = false := by
        rw [f1]
        show t.cancel = false
        simpa using hc
      have htr : Track s (body (0 + (k : Int)) (afterRead (readValue env t) t)) := by
        refine ⟨readValue env t :: l, ?_, ?_, ?_, ?_⟩
        · rw [f2]
          show readValue env t :: t.statusReads = readValue env t :: l ++ s.statusReads
          rw [a]
          rfl
        · rw [hcb]
          simp only [Bool.false_eq_true, false_iff, List.mem_cons]
          intro h
          rcases h with h | h | h
          · exact hnot (Or.inl h)
          · exact hv h.symm
          · exact hnot (Or.inr h)
        · rw [f3]; exact c
        · rw [f4]; exact d
      by_cases hz : (body (0 + (k : Int)) (afterRead (readValue env t) t)).divByZero = true
      · rw [if_pos hz]
        exact ⟨htr, fun _ => hcb⟩
      · rw [if_neg hz]
        exact ⟨by simpa using hz, htr⟩
  · rintro t ⟨htd, htr⟩
    exact ⟨htr, fun h => by rw [htd] at h; exact absurd h (by simp)⟩

theorem plain_boxVoxelX (a b c : Int) : PlainBody (boxVoxelX a b c) :=
  ⟨fun _ _ => ⟨rfl, rfl, rfl, rfl⟩, fun _ _ => ⟨rfl, rfl, rfl⟩⟩

theorem plain_boxVoxelY (a b c d : Int) : PlainBody (boxVoxelY a b c d) :=
  ⟨fun _ _ => ⟨rfl, rfl, rfl, rfl⟩, fun _ _ => ⟨rfl, rfl, rfl⟩⟩

theorem plain_boxVoxelZ (a b c d : Int) : PlainBody (boxVoxelZ a b c d) :=
  ⟨fun _ _ => ⟨rfl, rfl, rfl, rfl⟩, fun _ _ => ⟨rfl, rfl, rfl⟩⟩

theorem plain_gaussVoxelX (a b c : Int) (g : Buffer) : PlainBody (gaussVoxelX a b c g) :=
  ⟨fun _ _ => ⟨rfl, rfl, rfl, rfl⟩, fun _ _ => ⟨rfl, rfl, rfl⟩⟩

theorem plain_gaussVoxelY (a b c d : Int) (g : Buffer) : PlainBody (gaussVoxelY a b c d g) :=
  ⟨fun _ _ => ⟨rfl, rfl, rfl, rfl⟩, fun _ _ => ⟨rfl, rfl, rfl⟩⟩

theorem plain_gaussVoxelZ (a b c d : Int) (g : Buffer) : PlainBody (gaussVoxelZ a b c d g) :=
  ⟨fun _ _ => ⟨rfl, rfl, rfl, rfl⟩, fun _ _ => ⟨rfl, rfl, rfl⟩⟩

theorem gradientVoxel_eq (pnode : ParametersNode) (d0 S N : Int) (n2 : ℚ) (e : Int)
    (s : State) :
    gradientVoxel pnode d0 S N n2 e s =
      { s with tempPixel := write s.tempPixel e (gradientValue pnode d0 S N n2 s.outPixel e) } := by
  unfold gradientVoxel gradientValue
  by_cases h : n2 = 0
  · simp only [h, if_true]
  · simp only [h, if_false]
    rfl

theorem plain_gradientVoxel (pnode : ParametersNode) (a b c : Int) (n2 : ℚ) :
    PlainBody (gradientVoxel pnode a b c n2) :=
  ⟨fun e s => by rw [gradientVoxel_eq]; exact ⟨rfl, rfl, rfl, rfl⟩,
    fun e s => by rw [gradientVoxel_eq]; exact ⟨rfl, rfl, rfl⟩⟩

theorem progress_frame (N e : Int) (s : State) :
    (progress N e s).cancel = s.cancel ∧ (progress N e s).statusReads = s.statusReads ∧
    (progress N e s).rangeUpdates = s.rangeUpdates ∧
    (progress N e s).noiseUpdates = s.noiseUpdates := by
  unfold progress SetStatus
  by_cases h1 : Int.tdiv N 100 = 0
  · simp [h1]
  · by_cases h2 : Int.tdiv e (Int.tdiv N 100) > s.status
    · simp [h1, h2]
    · simp [h1, h2]

theorem frame_anisoBoxVoxel (a b c d e f g : Int) : FrameBody (anisoBoxVoxel a b c d e f g) := by
  intro k s
  unfold anisoBoxVoxel
  exact progress_frame _ _ _

theorem frame_anisoGaussVoxel (a b c d e f g h : Int) (G : Buffer) :
    FrameBody (anisoGaussVoxel a b c d e f g h G) := by
  intro k s
  unfold anisoGaussVoxel
  exact progress_frame _ _ _

/-- A sweep with a plain body never traps. -/
theorem sweep_safe (env : Env) (N : Int) (body : Int → State → State) (hb : PlainBody body)
    (s : State) (hd : s.divByZero = false) : (sweep env N body s).divByZero = false := by
  unfold sweep forRange
  refine forLoop_rule (voxelStep env body) (fun _ t => t.divByZero = false)
    (fun t => t.divByZero = false) _ 0 s hd ?_ (fun _ h => h)
  intro k t _ htd
  have hbd : (body (0 + (k : Int)) (afterRead (readValue env t) t)).divByZero = false := by
    rw [(hb.2 _ _).1]
    exact htd
  rw [voxelStep_cases]
  by_cases hstop : readValue env t = -1 ∨ t.cancel = true
  · rw [if_pos hstop]
    exact htd
  · rw [if_neg hstop, hbd]
    simp only [Bool.false_eq_true, if_false]
    exact hbd

/-- A sweep with a plain body that nobody cancels runs the body on every voxel. -/
theorem sweep_plain_quiet (env : Env) (hq : Quiet env) (N : Int)
    (body : Int → State → State) (hb : PlainBody body) (s : State)
    (hc : s.cancel = false) (hd : s.divByZero = false) (hs : s.Status ≠ -1) :
    (sweep env N body s).cancel = false ∧ (sweep env N body s).Status ≠ -1 ∧
      (sweep env N body s).voxels = s.voxels + N.toNat := by
  unfold sweep forRange
  rw [sweep_toNat]
  refine forLoop_rule (voxelStep env body)
    (fun k t => t.cancel = false ∧ t.divByZero = false ∧ t.Status ≠ -1 ∧
      t.voxels = s.voxels + k)
    (fun t => t.cancel = false ∧ t.Status ≠ -1 ∧ t.voxels = s.voxels + N.toNat)
    _ 0 s ⟨hc, hd, hs, rfl⟩ ?_ (fun t h => ⟨h.1, h.2.2.1, h.2.2.2⟩)
  rintro k t _ ⟨h1, h2, h3, h4⟩
  obtain ⟨v, hv, hstep⟩ := voxelStep_quiet env hq body (0 + (k : Int)) t h1 h3
  obtain ⟨hf, hp⟩ := hb
  have f1 := fun e u => (hf e u).1
  obtain ⟨p1, p2, p3⟩ := hp (0 + (k : Int)) (afterRead v t)
  have hbd : (body (0 + (k : Int)) (afterRead v t)).divByZero = false := by
    rw [p1]; exact h2
  rw [hstep, hbd]
  simp only [Bool.false_eq_true, if_false]
  refine ⟨?_, hbd, ?_, ?_⟩
  · rw [(f1 _ _)]; exact h1
  · rw [p2]; exact hv
  · rw [p3]
    show t.voxels + 1 = s.voxels + (k + 1)
    omega

theorem Summary.early (s t : State) (c : Int) (h1 : t.statusReads = s.statusReads) :
    Summary s (Outcome.returned c, t) :=
  ⟨[], by simpa using h1, fun h => absurd h (by simp)⟩

/-- A run that ends in state `t` with `cancel` set returns 0 without statistics. -/
theorem Summary.cancelled (s s1 t u : State) (h1 : s1.statusReads = s.statusReads)
    (hr : s1.rangeUpdates = s.rangeUpdates)
    (hn : s1.noiseUpdates = s.noiseUpdates) (ht : Track s1 t)
    (hu1 : u.statusReads = t.statusReads) (hu2 : u.rangeUpdates = t.rangeUpdates)
    (hu3 : u.noiseUpdates = t.noiseUpdates) :
    Summary s (Outcome.returned 0, u) := by
  obtain ⟨l, a, -, c, d⟩ := ht
  exact ⟨l, by rw [hu1, a, h1], fun _ => ⟨rfl, by rw [hu2, c, hr], by rw [hu3, d, hn]⟩⟩

/-- A run that ends in state `t` with `cancel` clear has read no `-1`. -/
theorem Summary.completed (s s1 t u : State) (o : Outcome) (h1 : s1.statusReads = s.statusReads)
    (hc : s1.cancel = false) (ht : Track s1 t) (htc : t.cancel = false)
    (hu1 : u.statusReads = t.statusReads) :
    Summary s (o, u) := by
  obtain ⟨l, a, b, -, -⟩ := ht
  have _ := hc
  refine ⟨l, by rw [hu1, a, h1], fun hm => ?_⟩
  have : t.cancel = true := b.mpr (Or.inr hm)
  rw [htc] at this
  exact absurd this (by simp)

/-- One stage of an isotropic filter: a sweep after `SetStatus k`, or a copy `alt`. -/
theorem stage_track (env : Env) (N : Int) (body : Int → State → State) (hb : PlainBody body)
    (k : Int) (s alt : State) (P : Prop) [Decidable P] (hd : s.divByZero = false)
    (ha1 : alt.statusReads = s.statusReads) (ha2 : alt.cancel = s.cancel)
    (ha3 : alt.rangeUpdates = s.rangeUpdates) (ha4 : alt.noiseUpdates = s.noiseUpdates)
    (ha5 : alt.divByZero = s.divByZero) :
    Track s (if P then sweep env N body (SetStatus k s) else alt) ∧
      (if P then sweep env N body (SetStatus k s) else alt).divByZero = false := by
  by_cases hP : P
  · rw [if_pos hP]
    have h1 := (sweep_track env N body hb.1 (SetStatus k s) hd).1
    exact ⟨Track.trans (Track.of_eq rfl rfl rfl rfl) h1, sweep_safe env N body hb _ hd⟩
  · rw [if_neg hP]
    exact ⟨Track.of_eq ha1 ha2 ha3 ha4, by rw [ha5]; exact hd⟩

theorem stage_quiet (env : Env) (hq : Quiet env) (N : Int) (body : Int → State → State)
    (hb : PlainBody body) (k : Int) (hk : k ≠ -1) (s alt : State) (P : Prop) [Decidable P]
    (hc : s.cancel = false) (hd : s.divByZero = false) (hs : s.Status ≠ -1)
    (ha2 : alt.cancel = s.cancel) (ha6 : alt.Status = s.Status) (ha7 : alt.voxels = s.voxels) :
    (if P then sweep env N body (SetStatus k s) else alt).cancel = false ∧
      (if P then sweep env N body (SetStatus k s) else alt).Status ≠ -1 ∧
      (if P then sweep env N body (SetStatus k s) else alt).voxels =
        s.voxels + (if P then 1 else 0) * N.toNat := by
  by_cases hP : P
  · rw [if_pos hP, if_pos hP, one_mul]
    exact sweep_plain_quiet env hq N body hb (SetStatus k s) hc hd hk
  · rw [if_neg hP, if_neg hP, zero_mul, add_zero]
    exact ⟨by rw [ha2]; exact hc, by rw [ha6]; exact hs, ha7⟩

theorem boxStageX_ctl (env : Env) (pnode : ParametersNode) (ov : ImageData) (s : State)
    (hd : s.divByZero = false) :
    Track s (boxStageX env pnode ov s) ∧ (boxStageX env pnode ov s).divByZero = false := by
  unfold boxStageX
  exact stage_track env _ _ (plain_boxVoxelX _ _ _) 10 s s _ hd rfl rfl rfl rfl rfl

theorem boxStageY_ctl (env : Env) (pnode : ParametersNode) (ov : ImageData) (s : State)
    (hd : s.divByZero = false) :
    Track s (boxStageY env pnode ov s) ∧ (boxStageY env pnode ov s).divByZero = false := by
  unfold boxStageY
  exact stage_track env _ _ (plain_boxVoxelY _ _ _ _) 40 s _ _ hd rfl rfl rfl rfl rfl

theorem boxStageZ_ctl (env : Env) (pnode : ParametersNode) (ov : ImageData) (s : State)
    (hd : s.divByZero = false) :
    Track s (boxStageZ env pnode ov s) ∧ (boxStageZ env pnode ov s).divByZero = false := by
  unfold boxStageZ
  exact stage_track env _ _ (plain_boxVoxelZ _ _ _ _) 70 s _ _ hd rfl rfl rfl rfl rfl

theorem gaussStageX_ctl (env : Env) (pnode : ParametersNode) (ov : ImageData) (s : State)
    (hd : s.divByZero = false) :
    Track s (gaussStageX env pnode ov s) ∧ (gaussStageX env pnode ov s).divByZero = false := by
  unfold gaussStageX
  exact stage_track env _ _ (plain_gaussVoxelX _ _ _ _) 10 s s _ hd rfl rfl rfl rfl rfl

theorem gaussStageY_ctl (env : Env) (pnode : ParametersNode) (ov : ImageData) (s : State)
    (hd : s.divByZero = false) :
    Track s (gaussStageY env pnode ov s) ∧ (gaussStageY env pnode ov s).divByZero = false := by
  unfold gaussStageY
  exact stage_track env _ _ (plain_gaussVoxelY _ _ _ _ _) 40 s _ _ hd rfl rfl rfl rfl rfl

theorem gaussStageZ_ctl (env : Env) (pnode : ParametersNode) (ov : ImageData) (s : State)
    (hd : s.divByZero = false) :
    Track s (gaussStageZ env pnode ov s) ∧ (gaussStageZ env pnode ov s).divByZero = false := by
  unfold gaussStageZ
  exact stage_track env _ _ (plain_gaussVoxelZ _ _ _ _ _) 70 s _ _ hd rfl rfl rfl rfl rfl

theorem isoBox_summary (env : Env) (pnode : ParametersNode) (s : State) :
    Summary s (IsotropicBoxCPUFilter env pnode s) := by
  unfold IsotropicBoxCPUFilter
  cases hin : s.inputVolume with
  | none => exact Summary.early s s 0 rfl
  | some iv =>
    cases hout : s.outputVolume with
    | none => exact Summary.early s s 0 rfl
    | some ov =>
      simp only
      by_cases hcomp : ov.NumberOfScalarComponents > 1
      · rw [if_pos hcomp]
        exact Summary.early s _ 0 rfl
      · rw [if_neg hcomp]
        by_cases htype : ov.DataType = VTK_FLOAT ∨ ov.DataType = VTK_DOUBLE
        · rw [if_pos htype]
          obtain ⟨t1, d1⟩ := boxStageX_ctl env pnode ov (startScratch s) rfl
          obtain ⟨t2, d2⟩ := boxStageY_ctl env pnode ov _ d1
          obtain ⟨t3, -⟩ := boxStageZ_ctl env pnode ov _ d2
          by_cases c1 : (boxStageX env pnode ov (startScratch s)).cancel = true
          · rw [if_pos c1]
            exact Summary.cancelled s (startScratch s) _ _ rfl rfl rfl t1 rfl rfl rfl
          · rw [if_neg c1]
            by_cases c2 : (boxStageY env pnode ov
                (boxStageX env pnode ov (startScratch s))).cancel = true
            · rw [if_pos c2]
              exact Summary.cancelled s (startScratch s) _ _ rfl rfl rfl (Track.trans t1 t2)
                rfl rfl rfl
            · rw [if_neg c2]
              by_cases c3 : (releaseTemp (boxStageZ env pnode ov (boxStageY env pnode ov
                  (boxStageX env pnode ov (startScratch s))))).cancel = true
              · rw [if_pos c3]
                exact Summary.cancelled s (startScratch s) _ _ rfl rfl rfl
                  (Track.trans (Track.trans t1 t2) t3) rfl rfl rfl
              · rw [if_neg c3]
                exact Summary.completed s (startScratch s) _ _ _ rfl rfl
                  (Track.trans (Track.trans t1 t2) t3) (by simpa using c3) rfl
        · rw [if_neg htype]
          exact Summary.early s _ 0 rfl

theorem isoGauss_summary (env : Env) (pnode : ParametersNode) (s : State) :
    Summary s (IsotropicGaussianCPUFilter env pnode s) := by
  unfold IsotropicGaussianCPUFilter
  cases hin : s.inputVolume with
  | none => exact Summary.early s s 0 rfl
  | some iv =>
    cases hout : s.outputVolume with
    | none => exact Summary.early s s 0 rfl
    | some ov =>
      simp only
      by_cases hcomp : ov.NumberOfScalarComponents > 1
      · rw [if_pos hcomp]
        exact Summary.early s _ 0 rfl
      · rw [if_neg hcomp]
        by_cases htype : ov.DataType = VTK_FLOAT ∨ ov.DataType = VTK_DOUBLE
        · rw [if_pos htype]
          obtain ⟨t1, d1⟩ := gaussStageX_ctl env pnode ov (startScratch s) rfl
          obtain ⟨t2, d2⟩ := gaussStageY_ctl env pnode ov _ d1
          obtain ⟨t3, -⟩ := gaussStageZ_ctl env pnode ov _ d2
          by_cases c1 : (gaussStageX env pnode ov (startScratch s)).cancel = true
          · rw [if_pos c1]
            exact Summary.cancelled s (startScratch s) _ _ rfl rfl rfl t1 rfl rfl rfl
          · rw [if_neg c1]
            by_cases c2 : (gaussStageY env pnode ov
                (gaussStageX env pnode ov (startScratch s))).cancel = true
            · rw [if_pos c2]
              exact Summary.cancelled s (startScratch s) _ _ rfl rfl rfl (Track.trans t1 t2)
                rfl rfl rfl
            · rw [if_neg c2]
              by_cases c3 : (releaseTemp (gaussStageZ env pnode ov (gaussStageY env pnode ov
                  (gaussStageX env pnode ov (startScratch s))))).cancel = true
              · rw [if_pos c3]
                exact Summary.cancelled s (startScratch s) _ _ rfl rfl rfl
                  (Track.trans (Track.trans t1 t2) t3) rfl rfl rfl
              · rw [if_neg c3]
                exact Summary.completed s (startScratch s) _ _ _ rfl rfl
                  (Track.trans (Track.trans t1 t2) t3) (by simpa using c3) rfl
        · rw [if_neg htype]
          exact Summary.early s _ 0 rfl

theorem aniso_tail_summary (env : Env) (s t : State) (ht : Track (startDirect s) t)
    (hz : t.divByZero = true → t.cancel = false) :
    Summary s (if t.divByZero then (Outcome.divisionByZero, t)
      else if t.cancel then (Outcome.returned 0, t)
      else (Outcome.returned 1, updateAttributes env t)) := by
  by_cases hd : t.divByZero = true
  · rw [if_pos hd]
    exact Summary.completed s (startDirect s) t t _ rfl rfl ht (hz hd) rfl
  · rw [if_neg hd]
    by_cases hc : t.cancel = true
    · rw [if_pos hc]
      exact Summary.cancelled s (startDirect s) t t rfl rfl rfl ht rfl rfl rfl
    · rw [if_neg hc]
      exact Summary.completed s (startDirect s) t _ _ rfl rfl ht (by simpa using hc) rfl

theorem anisoBox_summary (env : Env) (pnode : ParametersNode) (s : State) :
    Summary s (AnisotropicBoxCPUFilter env pnode s) := by
  unfold AnisotropicBoxCPUFilter
  cases hin : s.inputVolume with
  | none => exact Summary.early s s 0 rfl
  | some iv =>
    cases hout : s.outputVolume with
    | none => exact Summary.early s s 0 rfl
    | some ov =>
      simp only
      by_cases hcomp : ov.NumberOfScalarComponents > 1
      · rw [if_pos hcomp]
        exact Summary.early s _ 0 rfl
      · rw [if_neg hcomp]
        by_cases htype : ov.DataType = VTK_FLOAT ∨ ov.DataType = VTK_DOUBLE
        · rw [if_pos htype]
          obtain ⟨t1, d1⟩ := sweep_track env (ov.dims0 * ov.dims1 * ov.dims2) _
            (frame_anisoBoxVoxel ov.dims0 (ov.dims0 * ov.dims1) (ov.dims0 * ov.dims1 * ov.dims2)
              (halfWidth (forceOdd (toInt pnode.ParameterX)))
              (halfWidth (forceOdd (toInt pnode.ParameterY)))
              (halfWidth (forceOdd (toInt pnode.ParameterZ)))
              (forceOdd (toInt pnode.ParameterX) * forceOdd (toInt pnode.ParameterY) *
                forceOdd (toInt pnode.ParameterZ))) (startDirect s) rfl
          exact aniso_tail_summary env s _ t1 d1
        · rw [if_neg htype]
          exact Summary.early s _ 0 rfl

theorem anisoGauss_summary (env : Env) (pnode : ParametersNode) (s : State) :
    Summary s (AnisotropicGaussianCPUFilter env pnode s) := by
  unfold AnisotropicGaussianCPUFilter
  cases hin : s.inputVolume with
  | none => exact Summary.early s s 0 rfl
  | some iv =>
    cases hout : s.outputVolume with
    | none => exact Summary.early s s 0 rfl
    | some ov =>
      simp only
      by_cases hcomp : ov.NumberOfScalarComponents > 1
      · rw [if_pos hcomp]
        exact Summary.early s _ 0 rfl
      · rw [if_neg hcomp]
        by_cases htype : ov.DataType = VTK_FLOAT ∨ ov.DataType = VTK_DOUBLE
        · rw [if_pos htype]
          obtain ⟨t1, d1⟩ := sweep_track env (ov.dims0 * ov.dims1 * ov.dims2) _
            (frame_anisoGaussVoxel ov.dims0 (ov.dims0 * ov.dims1)
              (ov.dims0 * ov.dims1 * ov.dims2)
              (toInt (((pnode.KernelLengthX - 1 : Int) : ℚ) / 2))
              (toInt (((pnode.KernelLengthY - 1 : Int) : ℚ) / 2))
              (toInt (((pnode.KernelLengthZ - 1 : Int) : ℚ) / 2))
              (pnode.KernelLengthX * pnode.KernelLengthY) pnode.KernelLengthX
              pnode.GaussianKernel3D) (startDirect s) rfl
          exact aniso_tail_summary env s _ t1 d1
        · rw [if_neg htype]
          exact Summary.early s _ 0 rfl

theorem gradientIteration_eq (env : Env) (pnode : ParametersNode) (d0 S N : Int) (n2 : ℚ)
    (i : Int) (s : State) :
    gradientIteration env pnode d0 S N n2 i s =
      if (sweep env N (gradientVoxel pnode d0 S N n2) s).cancel = true then
        LoopStep.brk (releaseTemp (sweep env N (gradientVoxel pnode d0 S N n2) s))
      else LoopStep.cont (SetStatus (Int.tdiv (i * 100) pnode.Accuracy)
        (copyTempToOut (sweep env N (gradientVoxel pnode d0 S N n2) s))) := rfl

theorem gradient_loop_track (env : Env) (pnode : ParametersNode) (d0 S N : Int) (n2 : ℚ)
    (s : State) (hc : s.cancel = false) (hd : s.divByZero = false) :
    Track s (forRange 1 pnode.Accuracy (gradientIteration env pnode d0 S N n2) s) := by
  unfold forRange
  refine forLoop_rule (gradientIteration env pnode d0 S N n2)
    (fun _ t => t.divByZero = false ∧ Track s t) (fun t => Track s t) _ 1 s
    ⟨hd, Track.refl s⟩ ?_ (fun _ h => h.2)
  rintro k t _ ⟨htd, htr⟩
  have _ := hc
  obtain ⟨t1, -⟩ := sweep_track env N (gradientVoxel pnode d0 S N n2)
    (plain_gradientVoxel pnode d0 S N n2).1 t htd
  have hsafe := sweep_safe env N (gradientVoxel pnode d0 S N n2)
    (plain_gradientVoxel pnode d0 S N n2) t htd
  rw [gradientIteration_eq]
  by_cases hcan : (sweep env N (gradientVoxel pnode d0 S N n2) t).cancel = true
  · rw [if_pos hcan]
    exact Track.trans (Track.trans htr t1) (Track.of_eq rfl rfl rfl rfl)
  · rw [if_neg hcan]
    exact ⟨hsafe, Track.trans (Track.trans htr t1) (Track.of_eq rfl rfl rfl rfl)⟩

theorem gradient_summary (env : Env) (pnode : ParametersNode) (s : State) :
    Summary s (GradientCPUFilter env pnode s) := by
  unfold GradientCPUFilter
  cases hin : s.inputVolume with
  | none => exact Summary.early s s 0 rfl
  | some iv =>
    cases hout : s.outputVolume with
    | none => exact Summary.early s s 0 rfl
    | some ov =>
      simp only
      by_cases hcomp : ov.NumberOfScalarComponents > 1
      · rw [if_pos hcomp]
        exact Summary.early s _ 0 rfl
      · rw [if_neg hcomp]
        by_cases htype : ov.DataType = VTK_FLOAT ∨ ov.DataType = VTK_DOUBLE
        · rw [if_pos htype]
          have t1 := gradient_loop_track env pnode ov.dims0 (ov.dims0 * ov.dims1)
            (ov.dims0 * ov.dims1 * ov.dims2) (s.RMS * s.RMS * pnode.K * pnode.K)
            (startScratch s) rfl rfl
          by_cases c1 : (forRange 1 pnode.Accuracy
              (gradientIteration env pnode ov.dims0 (ov.dims0 * ov.dims1)
                (ov.dims0 * ov.dims1 * ov.dims2) (s.RMS * s.RMS * pnode.K * pnode.K))
              (startScratch s)).cancel = true
          · rw [if_pos c1]
            exact Summary.cancelled s (startScratch s) _ _ rfl rfl rfl t1 rfl rfl rfl
          · rw [if_neg c1]
            exact Summary.completed s (startScratch s) _ _ _ rfl rfl t1 (by simpa using c1) rfl
        · rw [if_neg htype]
          exact Summary.early s _ 0 rfl

theorem gradient_loop_quiet (env : Env) (hq : Quiet env) (pnode : ParametersNode)
    (d0 S N : Int) (n2 : ℚ) (s : State) (hc : s.cancel = false) (hd : s.divByZero = false)
    (hs : s.Status ≠ -1) :
    (forRange 1 pnode.Accuracy (gradientIteration env pnode d0 S N n2) s).cancel = false ∧
    (forRange 1 pnode.Accuracy (gradientIteration env pnode d0 S N n2) s).voxels =
      s.voxels + pnode.Accuracy.toNat * N.toNat := by
  unfold forRange
  have hn : (pnode.Accuracy + 1 - 1).toNat = pnode.Accuracy.toNat := by
    congr 1
    ring
  rw [hn]
  refine forLoop_rule (gradientIteration env pnode d0 S N n2)
    (fun k t => t.cancel = false ∧ t.divByZero = false ∧ t.Status ≠ -1 ∧
      t.voxels = s.voxels + k * N.toNat)
    (fun t => t.cancel = false ∧ t.voxels = s.voxels + pnode.Accuracy.toNat * N.toNat)
    _ 1 s ⟨hc, hd, hs, by simp⟩ ?_ (fun t h => ⟨h.1, h.2.2.2⟩)
  rintro k t hk ⟨h1, h2, h3, h4⟩
  obtain ⟨q1, q2, q3⟩ := sweep_plain_quiet env hq N (gradientVoxel pnode d0 S N n2)
    (plain_gradientVoxel pnode d0 S N n2) t h1 h2 h3
  have hsafe := sweep_safe env N (gradientVoxel pnode d0 S N n2)
    (plain_gradientVoxel pnode d0 S N n2) t h2
  rw [gradientIteration_eq, if_neg (by rw [q1]; simp)]
  refine ⟨q1, hsafe, ?_, ?_⟩
  · show Int.tdiv ((1 + (k : Int)) * 100) pnode.Accuracy ≠ -1
    have hA : 0 ≤ pnode.Accuracy := by omega
    have := Int.tdiv_nonneg (a := (1 + (k : Int)) * 100) (b := pnode.Accuracy) (by omega) hA
    omega
  · show (sweep env N (gradientVoxel pnode d0 S N n2) t).voxels = s.voxels + (k + 1) * N.toNat
    rw [q3, h4]
    ring

theorem gradient_ctl_quiet (env : Env) (hq : Quiet env) (pnode : ParametersNode) (s : State)
    (ov : ImageData) (hv : ValidScene s ov) :
    (GradientCPUFilter env pnode s).1 = Outcome.returned 1 ∧
    (GradientCPUFilter env pnode s).2.voxels =
      s.voxels + pnode.Accuracy.toNat * (ov.dims0 * ov.dims1 * ov.dims2).toNat := by
  obtain ⟨⟨iv, hin⟩, hout, hcomp, htype⟩ := hv
  obtain ⟨q1, q2⟩ := gradient_loop_quiet env hq pnode ov.dims0 (ov.dims0 * ov.dims1)
    (ov.dims0 * ov.dims1 * ov.dims2) (s.RMS * s.RMS * pnode.K * pnode.K)
    (startScratch s) rfl rfl (by simp [startScratch, SetStatus])
  unfold GradientCPUFilter
  simp only [hin, hout, hcomp, htype, if_true, if_false, q1, Bool.false_eq_true]
  exact ⟨trivial, q2⟩

theorem isoBox_ctl_quiet (env : Env) (hq : Quiet env) (pnode : ParametersNode) (s : State)
    (ov : ImageData) (hv : ValidScene s ov) :
    (IsotropicBoxCPUFilter env pnode s).1 = Outcome.returned 1 ∧
    (IsotropicBoxCPUFilter env pnode s).2.voxels =
      s.voxels + passCount pnode * (ov.dims0 * ov.dims1 * ov.dims2).toNat := by
  obtain ⟨⟨iv, hin⟩, hout, hcomp, htype⟩ := hv
  obtain ⟨a1, a2, a3⟩ : (boxStageX env pnode ov (startScratch s)).cancel = false ∧
      (boxStageX env pnode ov (startScratch s)).Status ≠ -1 ∧
      (boxStageX env pnode ov (startScratch s)).voxels = (startScratch s).voxels +
        (if pnode.ParameterX > 0.001 then 1 else 0) * (ov.dims0 * ov.dims1 * ov.dims2).toNat := by
    unfold boxStageX
    exact stage_quiet env hq _ _ (plain_boxVoxelX _ _ _) 10 (by norm_num) _ _ _ rfl rfl
      (by simp [startScratch, SetStatus]) rfl rfl rfl
  have d1 := (boxStageX_ctl env pnode ov (startScratch s) rfl).2
  obtain ⟨b1, b2, b3⟩ :
      (boxStageY env pnode ov (boxStageX env pnode ov (startScratch s))).cancel = false ∧
      (boxStageY env pnode ov (boxStageX env pnode ov (startScratch s))).Status ≠ -1 ∧
      (boxStageY env pnode ov (boxStageX env pnode ov (startScratch s))).voxels =
        (boxStageX env pnode ov (startScratch s)).voxels +
        (if pnode.ParameterY > 0.001 then 1 else 0) * (ov.dims0 * ov.dims1 * ov.dims2).toNat := by
    unfold boxStageY
    exact stage_quiet env hq _ _ (plain_boxVoxelY _ _ _ _) 40 (by norm_num) _ _ _ a1 d1 a2
      rfl rfl rfl
  have d2 := (boxStageY_ctl env pnode ov _ d1).2
  obtain ⟨c1, -, c3⟩ :
      (boxStageZ env pnode ov (boxStageY env pnode ov
        (boxStageX env pnode ov (startScratch s)))).cancel = false ∧
      (boxStageZ env pnode ov (boxStageY env pnode ov
        (boxStageX env pnode ov (startScratch s)))).Status ≠ -1 ∧
      (boxStageZ env pnode ov (boxStageY env pnode ov
        (boxStageX env pnode ov (startScratch s)))).voxels =
        (boxStageY env pnode ov (boxStageX env pnode ov (startScratch s))).voxels +
        (if pnode.ParameterZ > 0.001 then 1 else 0) * (ov.dims0 * ov.dims1 * ov.dims2).toNat := by
    unfold boxStageZ
    exact stage_quiet env hq _ _ (plain_boxVoxelZ _ _ _ _) 70 (by norm_num) _ _ _ b1 d2 b2
      rfl rfl rfl
  have c1r : (releaseTemp (boxStageZ env pnode ov (boxStageY env pnode ov
        (boxStageX env pnode ov (startScratch s))))).cancel = false := c1
  unfold IsotropicBoxCPUFilter
  simp only [hin, hout, hcomp, htype, if_true, if_false, a1, b1, c1r, Bool.false_eq_true]
  refine ⟨trivial, ?_⟩
  show (boxStageZ env pnode ov (boxStageY env pnode ov
        (boxStageX env pnode ov (startScratch s)))).voxels = _
  rw [c3, b3, a3]
  unfold passCount
  show s.voxels + _ + _ + _ = _
  ring

theorem isoGauss_ctl_quiet (env : Env) (hq : Quiet env) (pnode : ParametersNode) (s : State)
    (ov : ImageData) (hv : ValidScene s ov) :
    (IsotropicGaussianCPUFilter env pnode s).1 = Outcome.returned 1 ∧
    (IsotropicGaussianCPUFilter env pnode s).2.voxels =
      s.voxels + passCount pnode * (ov.dims0 * ov.dims1 * ov.dims2).toNat := by
  obtain ⟨⟨iv, hin⟩, hout, hcomp, htype⟩ := hv
  obtain ⟨a1, a2, a3⟩ : (gaussStageX env pnode ov (startScratch s)).cancel = false ∧
      (gaussStageX env pnode ov (startScratch s)).Status ≠ -1 ∧
      (gaussStageX env pnode ov (startScratch s)).voxels = (startScratch s).voxels +
        (if pnode.ParameterX > 0.001 then 1 else 0) * (ov.dims0 * ov.dims1 * ov.dims2).toNat := by
    unfold gaussStageX
    exact stage_quiet env hq _ _ (plain_gaussVoxelX _ _ _ _) 10 (by norm_num) _ _ _ rfl rfl
      (by simp [startScratch, SetStatus]) rfl rfl rfl
  have d1 := (gaussStageX_ctl env pnode ov (startScratch s) rfl).2
  obtain ⟨b1, b2, b3⟩ :
      (gaussStageY env pnode ov (gaussStageX env pnode ov (startScratch s))).cancel = false ∧
      (gaussStageY env pnode ov (gaussStageX env pnode ov (startScratch s))).Status ≠ -1 ∧
      (gaussStageY env pnode ov (gaussStageX env pnode ov (startScratch s))).voxels =
        (gaussStageX env pnode ov (startScratch s)).voxels +
        (if pnode.ParameterY > 0.001 then 1 else 0) * (ov.dims0 * ov.dims1 * ov.dims2).toNat := by
    unfold gaussStageY
    exact stage_quiet env hq _ _ (plain_gaussVoxelY _ _ _ _ _) 40 (by norm_num) _ _ _ a1 d1 a2
      rfl rfl rfl
  have d2 := (gaussStageY_ctl env pnode ov _ d1).2
  obtain ⟨c1, -, c3⟩ :
      (gaussStageZ env pnode ov (gaussStageY env pnode ov
        (gaussStageX env pnode ov (startScratch s)))).cancel = false ∧
      (gaussStageZ env pnode ov (gaussStageY env pnode ov
        (gaussStageX env pnode ov (startScratch s)))).Status ≠ -1 ∧
      (gaussStageZ env pnode ov (gaussStageY env pnode ov
        (gaussStageX env pnode ov (startScratch s)))).voxels =
        (gaussStageY env pnode ov (gaussStageX env pnode ov (startScratch s))).voxels +
        (if pnode.ParameterZ > 0.001 then 1 else 0) * (ov.dims0 * ov.dims1 * ov.dims2).toNat := by
    unfold gaussStageZ
    exact stage_quiet env hq _ _ (plain_gaussVoxelZ _ _ _ _ _) 70 (by norm_num) _ _ _ b1 d2 b2
      rfl rfl rfl
  have c1r : (releaseTemp (gaussStageZ env pnode ov (gaussStageY env pnode ov
        (gaussStageX env pnode ov (startScratch s))))).cancel = false := c1
  unfold IsotropicGaussianCPUFilter
  simp only [hin, hout, hcomp, htype, if_true, if_false, a1, b1, c1r, Bool.false_eq_true]
  refine ⟨trivial, ?_⟩
  show (gaussStageZ env pnode ov (gaussStageY env pnode ov
        (gaussStageX env pnode ov (startScratch s)))).voxels = _
  rw [c3, b3, a3]
  unfold passCount
  show s.voxels + _ + _ + _ = _
  ring

/-- C5 (counterexample). The status cell holds `-1` when `IsotropicBoxCPUFilter` is started
on a 2x2x2 grid with kernel length 3 and nobody writes the cell during the run: the call
returns 1 and all 3 * 8 scheduled voxel bodies are executed. -/
theorem C5_counterexample :
    (sceneOf (floatImage 2 2 2) (floatImage 2 2 2) (fun _ => 1) (fun _ => 1) (-1)).Status = -1 ∧
    (IsotropicBoxCPUFilter idleEnv (boxNode 3 3 3)
      (sceneOf (floatImage 2 2 2) (floatImage 2 2 2) (fun _ => 1) (fun _ => 1) (-1))).1 =
        Outcome.returned 1 ∧
    (IsotropicBoxCPUFilter idleEnv (boxNode 3 3 3)
      (sceneOf (floatImage 2 2 2) (floatImage 2 2 2) (fun _ => 1) (fun _ => 1) (-1))).2.voxels =
        3 * 8 := by
  obtain ⟨h1, h2⟩ := isoBox_ctl_quiet idleEnv idleEnv_quiet (boxNode 3 3 3)
    (sceneOf (floatImage 2 2 2) (floatImage 2 2 2) (fun _ => 1) (fun _ => 1) (-1))
    (floatImage 2 2 2) (sceneOf_valid _ _ _ _ _ (by norm_num [floatImage]) (Or.inl rfl))
  refine ⟨rfl, h1, ?_⟩
  rw [h2]
  have hp : passCount (boxNode 3 3 3) = 3 := by norm_num [passCount, boxNode]
  rw [hp]
  rfl

/-- C5 (amended). Whatever the status cell holds when `IsotropicBoxCPUFilter`,
`IsotropicGaussianCPUFilter` or `GradientCPUFilter` is started on a valid scene (so also
`-1`), if nobody stores `-1` in the cell during the run, the call returns 1 and executes
the full scheduled count of voxel bodies: the number of scheduled sweeps times the number
of voxels of the output grid. -/
theorem C5_preset_status_is_overwritten (env : Env) (hq : Quiet env) (pnode : ParametersNode)
    (s : State) (ov : ImageData) (hv : ValidScene s ov) (st : Strategy)
    (hst : st.isMultiPass = true) :
    (runStrategy env pnode s st).1 = Outcome.returned 1 ∧
    (runStrategy env pnode s st).2.voxels =
      s.voxels + scheduledSweeps pnode st * (ov.dims0 * ov.dims1 * ov.dims2).toNat := by
  cases st with
  | IsotropicBoxCPU => exact isoBox_ctl_quiet env hq pnode s ov hv
  | IsotropicGaussianCPU => exact isoGauss_ctl_quiet env hq pnode s ov hv
  | GradientCPU => exact gradient_ctl_quiet env hq pnode s ov hv
  | AnisotropicBoxCPU => exact absurd hst (by decide)
  | AnisotropicGaussianCPU => exact absurd hst (by decide)
  | BoxGPU => exact absurd hst (by decide)
  | GaussianGPU => exact absurd hst (by decide)
  | GradientGPU => exact absurd hst (by decide)

/-- C5 (witness). Gradient filter with 2 iterations on a 2x2x2 grid, the status cell
holding `-1` at the start: the call returns 1 after 2 * 8 voxel bodies. -/
theorem C5_preset_status_is_overwritten_witness :
    (sceneOf (floatImage 2 2 2) (floatImage 2 2 2) (fun _ => 1) (fun _ => 1) (-1)).Status = -1 ∧
    (runStrategy idleEnv (gradientNode 2)
      (sceneOf (floatImage 2 2 2) (floatImage 2 2 2) (fun _ => 1) (fun _ => 1) (-1))
      Strategy.GradientCPU).1 = Outcome.returned 1 ∧
    (runStrategy idleEnv (gradientNode 2)
      (sceneOf (floatImage 2 2 2) (floatImage 2 2 2) (fun _ => 1) (fun _ => 1) (-1))
      Strategy.GradientCPU).2.voxels = 0 + 2 * 8 :=
  ⟨rfl, C5_preset_status_is_overwritten idleEnv idleEnv_quiet (gradientNode 2)
    (sceneOf (floatImage 2 2 2) (floatImage 2 2 2) (fun _ => 1) (fun _ => 1) (-1))
    (floatImage 2 2 2) (sceneOf_valid _ _ _ _ _ (by norm_num [floatImage]) (Or.inl rfl))
    Strategy.GradientCPU rfl⟩

theorem forLoop_comm {σ : Type} (g : σ → σ) (body : Int → σ → LoopStep σ)
    (h : ∀ i s, body i (g s) = mapStep g (body i s)) (n : Nat) (i : Int) (s : σ) :
    forLoop body n i (g s) = g (forLoop body n i s) := by
  induction n generalizing i s with
  | zero => rfl
  | succ n ih =>
    rw [forLoop, forLoop, h]
    cases body i s with
    | cont u => exact ih (i + 1) u
    | brk u => rfl

theorem voxelStep_withInput (v : Option ImageData) (env : Env) (body : Int → State → State)
    (hb : ∀ e t, body e (withInput v t) = withInput v (body e t)) (e : Int) (t : State) :
    voxelStep env body e (withInput v t) = mapStep (withInput v) (voxelStep env body e t) := by
  rw [voxelStep_cases, voxelStep_cases]
  have h1 : readValue env (withInput v t) = readValue env t := rfl
  have h2 : afterRead (readValue env t) (withInput v t) =
      withInput v (afterRead (readValue env t) t) := rfl
  have h3 : (withInput v t).cancel = t.cancel := rfl
  rw [h1, h2, h3, hb]
  have h4 : (withInput v (body e (afterRead (readValue env t) t))).divByZero =
      (body e (afterRead (readValue env t) t)).divByZero := rfl
  rw [h4]
  by_cases c1 : readValue env t = -1 ∨ t.cancel = true
  · rw [if_pos c1, if_pos c1]
    rfl
  · rw [if_neg c1, if_neg c1]
    by_cases c2 : (body e (afterRead (readValue env t) t)).divByZero = true
    · rw [if_pos c2, if_pos c2]
      rfl
    · rw [if_neg c2, if_neg c2]
      rfl

theorem sweep_withInput (v : Option ImageData) (env : Env) (N : Int)
    (body : Int → State → State)
    (hb : ∀ e t, body e (withInput v t) = withInput v (body e t)) (t : State) :
    sweep env N body (withInput v t) = withInput v (sweep env N body t) :=
  forLoop_comm (withInput v) (voxelStep env body) (voxelStep_withInput v env body hb) _ _ _

theorem progress_withInput (v : Option ImageData) (N e : Int) (t : State) :
    progress N e (withInput v t) = withInput v (progress N e t) := by
  unfold progress
  have h3 : (withInput v t).status = t.status := rfl
  by_cases c1 : Int.tdiv N 100 = 0
  · simp only [c1, if_true]
    rfl
  · simp only [c1, if_false, h3]
    by_cases c2 : Int.tdiv e (Int.tdiv N 100) > t.status
    · rw [if_pos c2, if_pos c2]
      rfl
    · rw [if_neg c2, if_neg c2]

theorem boxStageX_withInput (v : Option ImageData) (env : Env) (pnode : ParametersNode)
    (ov : ImageData) (t : State) :
    boxStageX env pnode ov (withInput v t) = withInput v (boxStageX env pnode ov t) := by
  unfold boxStageX
  by_cases c : pnode.ParameterX > 0.001
  · simp only [c, if_true]
    refine sweep_withInput v env _ _ ?_ (SetStatus 10 t)
    intro _ _
    rfl
  · simp only [c, if_false]

theorem boxStageY_withInput (v : Option ImageData) (env : Env) (pnode : ParametersNode)
    (ov : ImageData) (t : State) :
    boxStageY env pnode ov (withInput v t) = withInput v (boxStageY env pnode ov t) := by
  unfold boxStageY
  by_cases c : pnode.ParameterY > 0.001
  · simp only [c, if_true]
    refine sweep_withInput v env _ _ ?_ (SetStatus 40 t)
    intro _ _
    rfl
  · simp only [c, if_false]
    rfl

theorem boxStageZ_withInput (v : Option ImageData) (env : Env) (pnode : ParametersNode)
    (ov : ImageData) (t : State) :
    boxStageZ env pnode ov (withInput v t) = withInput v (boxStageZ env pnode ov t) := by
  unfold boxStageZ
  by_cases c : pnode.ParameterZ > 0.001
  · simp only [c, if_true]
    refine sweep_withInput v env _ _ ?_ (SetStatus 70 t)
    intro _ _
    rfl
  · simp only [c, if_false]
    rfl

theorem gaussStageX_withInput (v : Option ImageData) (env : Env) (pnode : ParametersNode)
    (ov : ImageData) (t : State) :
    gaussStageX env pnode ov (withInput v t) = withInput v (gaussStageX env pnode ov t) := by
  unfold gaussStageX
  by_cases c : pnode.ParameterX > 0.001
  · simp only [c, if_true]
    refine sweep_withInput v env _ _ ?_ (SetStatus 10 t)
    intro _ _
    rfl
  · simp only [c, if_false]

theorem gaussStageY_withInput (v : Option ImageData) (env : Env) (pnode : ParametersNode)
    (ov : ImageData) (t : State) :
    gaussStageY env pnode ov (withInput v t) = withInput v (gaussStageY env pnode ov t) := by
  unfold gaussStageY
  by_cases c : pnode.ParameterY > 0.001
  · simp only [c, if_true]
    refine sweep_withInput v env _ _ ?_ (SetStatus 40 t)
    intro _ _
    rfl
  · simp only [c, if_false]
    rfl

theorem gaussStageZ_withInput (v : Option ImageData) (env : Env) (pnode : ParametersNode)
    (ov : ImageData) (t : State) :
    gaussStageZ env pnode ov (withInput v t) = withInput v (gaussStageZ env pnode ov t) := by
  unfold gaussStageZ
  by_cases c : pnode.ParameterZ > 0.001
  · simp only [c, if_true]
    refine sweep_withInput v env _ _ ?_ (SetStatus 70 t)
    intro _ _
    rfl
  · simp only [c, if_false]
    rfl

theorem gradientIteration_withInput (v : Option ImageData) (env : Env) (pnode : ParametersNode)
    (d0 S N : Int) (n2 : ℚ) (i : Int) (t : State) :
    gradientIteration env pnode d0 S N n2 i (withInput v t) =
      mapStep (withInput v) (gradientIteration env pnode d0 S N n2 i t) := by
  have hs : sweep env N (gradientVoxel pnode d0 S N n2) (withInput v t) =
      withInput v (sweep env N (gradientVoxel pnode d0 S N n2) t) := by
    refine sweep_withInput v env _ _ ?_ t
    intro e u
    rw [gradientVoxel_eq, gradientVoxel_eq]
    rfl
  rw [gradientIteration_eq, gradientIteration_eq, hs]
  have h : (withInput v (sweep env N (gradientVoxel pnode d0 S N n2) t)).cancel =
      (sweep env N (gradientVoxel pnode d0 S N n2) t).cancel := rfl
  rw [h]
  by_cases c : (sweep env N (gradientVoxel pnode d0 S N n2) t).cancel = true
  · rw [if_pos c, if_pos c]
    rfl
  · rw [if_neg c, if_neg c]
    rfl

theorem isoBox_withInput (env : Env) (pnode : ParametersNode) (s : State) (v w : ImageData)
    (h : s.inputVolume = some v) :
    IsotropicBoxCPUFilter env pnode (withInput (some w) s) =
      ((IsotropicBoxCPUFilter env pnode s).1,
        withInput (some w) (IsotropicBoxCPUFilter env pnode s).2) := by
  unfold IsotropicBoxCPUFilter
  have hi : (withInput (some w) s).inputVolume = some w := rfl
  have ho : (withInput (some w) s).outputVolume = s.outputVolume := rfl
  have e0 : startScratch (withInput (some w) s) = withInput (some w) (startScratch s) := rfl
  have ec : ∀ t, (withInput (some w) t).cancel = t.cancel := fun _ => rfl
  have er : ∀ t, releaseTemp (withInput (some w) t) = withInput (some w) (releaseTemp t) :=
    fun _ => rfl
  rw [hi, ho, h]
  cases s.outputVolume with
  | none => rfl
  | some ov =>
    simp only [e0, boxStageX_withInput, boxStageY_withInput, boxStageZ_withInput, ec, er]
    by_cases c1 : ov.NumberOfScalarComponents > 1
    · simp only [c1, if_true]
      rfl
    · by_cases c2 : ov.DataType = VTK_FLOAT ∨ ov.DataType = VTK_DOUBLE
      · simp only [c1, c2, if_true, if_false]
        split_ifs <;> rfl
      · simp only [c1, c2, if_false]
        rfl

theorem isoGauss_withInput (env : Env) (pnode : ParametersNode) (s : State) (v w : ImageData)
    (h : s.inputVolume = some v) :
    IsotropicGaussianCPUFilter env pnode (withInput (some w) s) =
      ((IsotropicGaussianCPUFilter env pnode s).1,
        withInput (some w) (IsotropicGaussianCPUFilter env pnode s).2) := by
  unfold IsotropicGaussianCPUFilter
  have hi : (withInput (some w) s).inputVolume = some w := rfl
  have ho : (withInput (some w) s).outputVolume = s.outputVolume := rfl
  have e0 : startScratch (withInput (some w) s) = withInput (some w) (startScratch s) := rfl
  have ec : ∀ t, (withInput (some w) t).cancel = t.cancel := fun _ => rfl
  have er : ∀ t, releaseTemp (withInput (some w) t) = withInput (some w) (releaseTemp t) :=
    fun _ => rfl
  rw [hi, ho, h]
  cases s.outputVolume with
  | none => rfl
  | some ov =>
    simp only [e0, gaussStageX_withInput, gaussStageY_withInput, gaussStageZ_withInput, ec, er]
    by_cases c1 : ov.NumberOfScalarComponents > 1
    · simp only [c1, if_true]
      rfl
    · by_cases c2 : ov.DataType = VTK_FLOAT ∨ ov.DataType = VTK_DOUBLE
      · simp only [c1, c2, if_true, if_false]
        split_ifs <;> rfl
      · simp only [c1, c2, if_false]
        rfl

theorem gradient_withInput (env : Env) (pnode : ParametersNode) (s : State) (v w : ImageData)
    (h : s.inputVolume = some v) :
    GradientCPUFilter env pnode (withInput (some w) s) =
      ((GradientCPUFilter env pnode s).1,
        withInput (some w) (GradientCPUFilter env pnode s).2) := by
  unfold GradientCPUFilter
  have hi : (withInput (some w) s).inputVolume = some w := rfl
  have ho : (withInput (some w) s).outputVolume = s.outputVolume := rfl
  have e0 : startScratch (withInput (some w) s) = withInput (some w) (startScratch s) := rfl
  have e1 : (withInput (some w) s).RMS = s.RMS := rfl
  have ec : ∀ t, (withInput (some w) t).cancel = t.cancel := fun _ => rfl
  have el : ∀ d0 S N n2 t, forRange 1 pnode.Accuracy (gradientIteration env pnode d0 S N n2)
      (withInput (some w) t) = withInput (some w) (forRange 1 pnode.Accuracy
        (gradientIteration env pnode d0 S N n2) t) := fun d0 S N n2 t =>
    forLoop_comm (withInput (some w)) _
      (gradientIteration_withInput (some w) env pnode d0 S N n2) _ _ t
  rw [hi, ho, h]
  cases s.outputVolume with
  | none => rfl
  | some ov =>
    simp only [e0, e1, el, ec]
    by_cases c1 : ov.NumberOfScalarComponents > 1
    · simp only [c1, if_true]
      rfl
    · by_cases c2 : ov.DataType = VTK_FLOAT ∨ ov.DataType = VTK_DOUBLE
      · simp only [c1, c2, if_true, if_false]
        split_ifs <;> rfl
      · simp only [c1, c2, if_false]
        rfl

theorem progress_withInput_out (v : Option ImageData) (N e : Int) (t : State) (o : Buffer) :
    progress N e { withInput v t with outPixel := o } =
      withInput v (progress N e { t with outPixel := o }) :=
  progress_withInput v N e { t with outPixel := o }

theorem anisoBoxVoxel_withInput (v : Option ImageData) (a b c d e f g k : Int) (u : State) :
    anisoBoxVoxel a b c d e f g k (withInput v u) =
      withInput v (anisoBoxVoxel a b c d e f g k u) := by
  unfold anisoBoxVoxel
  exact progress_withInput_out v _ _ _ _

theorem anisoGaussVoxel_withInput (v : Option ImageData) (a b c d e f g h : Int) (G : Buffer)
    (k : Int) (u : State) :
    anisoGaussVoxel a b c d e f g h G k (withInput v u) =
      withInput v (anisoGaussVoxel a b c d e f g h G k u) := by
  unfold anisoGaussVoxel
  exact progress_withInput_out v _ _ _ _

theorem anisoBox_withInput (env : Env) (pnode : ParametersNode) (s : State) (v w : ImageData)
    (h : s.inputVolume = some v) :
    AnisotropicBoxCPUFilter env pnode (withInput (some w) s) =
      ((AnisotropicBoxCPUFilter env pnode s).1,
        withInput (some w) (AnisotropicBoxCPUFilter env pnode s).2) := by
  unfold AnisotropicBoxCPUFilter
  have hi : (withInput (some w) s).inputVolume = some w := rfl
  have ho : (withInput (some w) s).outputVolume = s.outputVolume := rfl
  have e0 : startDirect (withInput (some w) s) = withInput (some w) (startDirect s) := rfl
  have ec : ∀ t, (withInput (some w) t).cancel = t.cancel := fun _ => rfl
  have ed : ∀ t, (withInput (some w) t).divByZero = t.divByZero := fun _ => rfl
  have el : ∀ N a b c d e f g t, sweep env N (anisoBoxVoxel a b c d e f g)
      (withInput (some w) t) = withInput (some w) (sweep env N (anisoBoxVoxel a b c d e f g) t) :=
    fun N a b c d e f g t => sweep_withInput (some w) env N (anisoBoxVoxel a b c d e f g)
      (anisoBoxVoxel_withInput (some w) a b c d e f g) t
  rw [hi, ho, h]
  cases s.outputVolume with
  | none => rfl
  | some ov =>
    simp only [e0, el, ec, ed]
    by_cases c1 : ov.NumberOfScalarComponents > 1
    · simp only [c1, if_true]
    · by_cases c2 : ov.DataType = VTK_FLOAT ∨ ov.DataType = VTK_DOUBLE
      · simp only [c1, c2, if_true, if_false]
        split_ifs <;> rfl
      · simp only [c1, c2, if_false]

theorem anisoGauss_withInput (env : Env) (pnode : ParametersNode) (s : State) (v w : ImageData)
    (h : s.inputVolume = some v) :
    AnisotropicGaussianCPUFilter env pnode (withInput (some w) s) =
      ((AnisotropicGaussianCPUFilter env pnode s).1,
        withInput (some w) (AnisotropicGaussianCPUFilter env pnode s).2) := by
  unfold AnisotropicGaussianCPUFilter
  have hi : (withInput (some w) s).inputVolume = some w := rfl
  have ho : (withInput (some w) s).outputVolume = s.outputVolume := rfl
  have e0 : startDirect (withInput (some w) s) = withInput (some w) (startDirect s) := rfl
  have ec : ∀ t, (withInput (some w) t).cancel = t.cancel := fun _ => rfl
  have ed : ∀ t, (withInput (some w) t).divByZero = t.divByZero := fun _ => rfl
  have el : ∀ N a b c d e f g h G t, sweep env N (anisoGaussVoxel a b c d e f g h G)
      (withInput (some w) t) =
        withInput (some w) (sweep env N (anisoGaussVoxel a b c d e f g h G) t) :=
    fun N a b c d e f g h G t => sweep_withInput (some w) env N
      (anisoGaussVoxel a b c d e f g h G) (anisoGaussVoxel_withInput (some w) a b c d e f g h G) t
  rw [hi, ho, h]
  cases s.outputVolume with
  | none => rfl
  | some ov =>
    simp only [e0, el, ec, ed]
    by_cases c1 : ov.NumberOfScalarComponents > 1
    · simp only [c1, if_true]
    · by_cases c2 : ov.DataType = VTK_FLOAT ∨ ov.DataType = VTK_DOUBLE
      · simp only [c1, c2, if_true, if_false]
        split_ifs <;> rfl
      · simp only [c1, c2, if_false]

/-- Kernel length 3 on a grid of all 1.0 that is at least 2 voxels long on every axis: the
isotropic box filter completes and leaves 8/27 at the corner voxel 0, whatever the input
volume's descriptor is. -/
theorem isoBox_corner (iv : ImageData) (nx ny nz : Int) (hx : 2 ≤ nx) (hy : 2 ≤ ny)
    (hz : 2 ≤ nz) (inp : Buffer) (status : Int) :
    (IsotropicBoxCPUFilter idleEnv (boxNode 3 3 3)
      (sceneOf iv (floatImage nx ny nz) inp (fun _ => 1) status)).1 = Outcome.returned 1 ∧
    (IsotropicBoxCPUFilter idleEnv (boxNode 3 3 3)
      (sceneOf iv (floatImage nx ny nz) inp (fun _ => 1) status)).2.outPixel 0 = 8 / 27 := by
  have hv : ValidScene (sceneOf iv (floatImage nx ny nz) inp (fun _ => 1) status)
      (floatImage nx ny nz) :=
    sceneOf_valid _ _ _ _ _ (by norm_num [floatImage]) (Or.inl rfl)
  have h3 : (3 : ℚ) = ((2 * 1 + 1 : Int) : ℚ) := by norm_num
  have hdims : (floatImage nx ny nz).dims0 = nx ∧ (floatImage nx ny nz).dims1 = ny ∧
      (floatImage nx ny nz).dims2 = nz := ⟨rfl, rfl, rfl⟩
  have hval := isoBox_const idleEnv idleEnv_quiet (boxNode 3 3 3) _ (floatImage nx ny nz) hv 1
    (by norm_num) h3 h3 h3 1 (fun _ _ _ => rfl) 0 0 0 (le_refl 0) (by rw [hdims.1]; omega)
    (le_refl 0) (by rw [hdims.2.1]; omega) (le_refl 0) (by rw [hdims.2.2]; omega)
  have hidx : idx (floatImage nx ny nz).dims0 (floatImage nx ny nz).dims1 0 0 0 = 0 := by
    simp [idx]
  rw [hidx, hdims.1, hdims.2.1, hdims.2.2, tapsIn_edge nx hx, tapsIn_edge ny hy,
    tapsIn_edge nz hz] at hval
  have h827 : (1 : ℚ) * (2 * 2 * 2) / ((2 * 1 + 1 : Int) : ℚ) ^ 3 = 8 / 27 := by norm_num
  rw [h827] at hval
  refine ⟨isoBox_quiet_fst idleEnv idleEnv_quiet _ _ (floatImage nx ny nz) hv ?_ ?_, hval⟩
  · rw [hdims.1]
    omega
  · rw [hdims.2.1]
    omega

/-- C6 (counterexample). Input grid 4x4x4, output grid 4x4x8 of all 1.0, kernel length 3:
`IsotropicBoxCPUFilter` returns 1, not an error result, and the corner voxel 0 of the output
grid is overwritten with 8/27. -/
theorem C6_counterexample :
    (IsotropicBoxCPUFilter idleEnv (boxNode 3 3 3)
      (sceneOf (floatImage 4 4 4) (floatImage 4 4 8) (fun _ => 1) (fun _ => 1) 0)).1 =
        Outcome.returned 1 ∧
    (IsotropicBoxCPUFilter idleEnv (boxNode 3 3 3)
      (sceneOf (floatImage 4 4 4) (floatImage 4 4 8) (fun _ => 1) (fun _ => 1) 0)).2.outPixel 0 ≠
      (sceneOf (floatImage 4 4 4) (floatImage 4 4 8) (fun _ => 1) (fun _ => 1) 0).outPixel 0 := by
  obtain ⟨h1, h2⟩ := isoBox_corner (floatImage 4 4 4) 4 4 8 (by norm_num) (by norm_num)
    (by norm_num) (fun _ => 1) 0
  refine ⟨h1, ?_⟩
  rw [h2]
  show (8 / 27 : ℚ) ≠ 1
  norm_num

/-- C6 (amended). No filter strategy looks at the input volume's image descriptor
(dimensions, component count, scalar type): a call made with the descriptor `w` returns the
same code and leaves the same state as the call made with the descriptor `v`; in particular
a mismatch between the input and the output grid's dimensions changes nothing, every size
the filters use being the output grid's. -/
theorem C6_input_descriptor_ignored (env : Env) (pnode : ParametersNode) (s : State)
    (st : Strategy) (v w : ImageData) :
    runStrategy env pnode (withInput (some w) s) st =
      ((runStrategy env pnode (withInput (some v) s) st).1,
        withInput (some w) (runStrategy env pnode (withInput (some v) s) st).2) := by
  cases st with
  | IsotropicBoxCPU => exact isoBox_withInput env pnode (withInput (some v) s) v w rfl
  | AnisotropicBoxCPU => exact anisoBox_withInput env pnode (withInput (some v) s) v w rfl
  | IsotropicGaussianCPU => exact isoGauss_withInput env pnode (withInput (some v) s) v w rfl
  | AnisotropicGaussianCPU => exact anisoGauss_withInput env pnode (withInput (some v) s) v w rfl
  | GradientCPU => exact gradient_withInput env pnode (withInput (some v) s) v w rfl
  | BoxGPU => rfl
  | GaussianGPU => rfl
  | GradientGPU => rfl

/-- C6 (witness). The isotropic box filter called with input grid 4x4x4 and output grid
4x4x8 behaves as the call with input grid 4x4x8 and output grid 4x4x8. -/
theorem C6_input_descriptor_ignored_witness :
    runStrategy idleEnv (boxNode 3 3 3)
      (sceneOf (floatImage 4 4 4) (floatImage 4 4 8) (fun _ => 1) (fun _ => 1) 0)
      Strategy.IsotropicBoxCPU =
      ((runStrategy idleEnv (boxNode 3 3 3)
        (sceneOf (floatImage 4 4 8) (floatImage 4 4 8) (fun _ => 1) (fun _ => 1) 0)
        Strategy.IsotropicBoxCPU).1,
       withInput (some (floatImage 4 4 4)) (runStrategy idleEnv (boxNode 3 3 3)
        (sceneOf (floatImage 4 4 8) (floatImage 4 4 8) (fun _ => 1) (fun _ => 1) 0)
        Strategy.IsotropicBoxCPU).2) :=
  C6_input_descriptor_ignored idleEnv (boxNode 3 3 3)
    (sceneOf (floatImage 4 4 4) (floatImage 4 4 8) (fun _ => 1) (fun _ => 1) 0)
    Strategy.IsotropicBoxCPU (floatImage 4 4 8) (floatImage 4 4 4)

/-- C7 (counterexample). The input grid has 2 scalar components, the output grid (2x2x2, all
1.0) has one: `IsotropicBoxCPUFilter` with kernel length 3 returns 1 and overwrites the
corner voxel 0 of the output grid with 8/27. -/
theorem C7_counterexample :
    (imageOf 2 2 2 2 VTK_FLOAT).NumberOfScalarComponents > 1 ∧
    (IsotropicBoxCPUFilter idleEnv (boxNode 3 3 3)
      (sceneOf (imageOf 2 2 2 2 VTK_FLOAT) (floatImage 2 2 2) (fun _ => 1) (fun _ => 1) 0)).1 =
        Outcome.returned 1 ∧
    (IsotropicBoxCPUFilter idleEnv (boxNode 3 3 3)
      (sceneOf (imageOf 2 2 2 2 VTK_FLOAT) (floatImage 2 2 2) (fun _ => 1)
        (fun _ => 1) 0)).2.outPixel 0 ≠
      (sceneOf (imageOf 2 2 2 2 VTK_FLOAT) (floatImage 2 2 2) (fun _ => 1)
        (fun _ => 1) 0).outPixel 0 := by
  obtain ⟨h1, h2⟩ := isoBox_corner (imageOf 2 2 2 2 VTK_FLOAT) 2 2 2 (by norm_num)
    (by norm_num) (by norm_num) (fun _ => 1) 0
  refine ⟨by decide, h1, ?_⟩
  rw [h2]
  show (8 / 27 : ℚ) ≠ 1
  norm_num

/-- C7 (amended). For each of the five CPU filter strategies: if the OUTPUT grid has more
than one scalar component, the call returns 0, executes no voxel body, reads and writes the
status cell not at all and leaves every voxel of the output grid as it was. -/
theorem C7_output_components_rejected (env : Env) (pnode : ParametersNode) (s : State)
    (st : Strategy) (hcpu : st.isCPU = true) (ov : ImageData) (hout : s.outputVolume = some ov)
    (hc : ov.NumberOfScalarComponents > 1) :
    (runStrategy env pnode s st).1 = Outcome.returned 0 ∧
    (runStrategy env pnode s st).2.outPixel = s.outPixel ∧
    (runStrategy env pnode s st).2.voxels = s.voxels ∧
    (runStrategy env pnode s st).2.Status = s.Status ∧
    (runStrategy env pnode s st).2.statusReads = s.statusReads := by
  cases st with
  | IsotropicBoxCPU =>
    unfold runStrategy IsotropicBoxCPUFilter
    cases s.inputVolume <;> simp [hout, hc]
  | AnisotropicBoxCPU =>
    unfold runStrategy AnisotropicBoxCPUFilter
    cases s.inputVolume <;> simp [hout, hc]
  | IsotropicGaussianCPU =>
    unfold runStrategy IsotropicGaussianCPUFilter
    cases s.inputVolume <;> simp [hout, hc]
  | AnisotropicGaussianCPU =>
    unfold runStrategy AnisotropicGaussianCPUFilter
    cases s.inputVolume <;> simp [hout, hc]
  | GradientCPU =>
    unfold runStrategy GradientCPUFilter
    cases s.inputVolume <;> simp [hout, hc]
  | BoxGPU => exact absurd hcpu (by decide)
  | GaussianGPU => exact absurd hcpu (by decide)
  | GradientGPU => exact absurd hcpu (by decide)

/-- C7 (witness). Anisotropic box filter, output grid 2x2x2 with 3 scalar components. -/
theorem C7_output_components_rejected_witness :
    (runStrategy idleEnv (boxNode 3 5 7)
      (sceneOf (floatImage 2 2 2) (imageOf 2 2 2 3 VTK_FLOAT) (fun _ => 1) (fun _ => 2) 0)
      Strategy.AnisotropicBoxCPU).1 = Outcome.returned 0 ∧
    (runStrategy idleEnv (boxNode 3 5 7)
      (sceneOf (floatImage 2 2 2) (imageOf 2 2 2 3 VTK_FLOAT) (fun _ => 1) (fun _ => 2) 0)
      Strategy.AnisotropicBoxCPU).2.outPixel = (fun _ => 2) :=
  ⟨(C7_output_components_rejected idleEnv (boxNode 3 5 7)
      (sceneOf (floatImage 2 2 2) (imageOf 2 2 2 3 VTK_FLOAT) (fun _ => 1) (fun _ => 2) 0)
      Strategy.AnisotropicBoxCPU rfl (imageOf 2 2 2 3 VTK_FLOAT) rfl (by decide)).1,
    (C7_output_components_rejected idleEnv (boxNode 3 5 7)
      (sceneOf (floatImage 2 2 2) (imageOf 2 2 2 3 VTK_FLOAT) (fun _ => 1) (fun _ => 2) 0)
      Strategy.AnisotropicBoxCPU rfl (imageOf 2 2 2 3 VTK_FLOAT) rfl (by decide)).2.1⟩

/-- C8. For each of the five CPU filter strategies: if the scalar type of the output
volume's grid, the grid the filters switch on, is neither `VTK_FLOAT` nor `VTK_DOUBLE`,
the call returns 0 before any sweep: no voxel body is executed, every voxel of the output
grid is as it was, and the status cell is neither read nor written (so it is not set
to 1). -/
theorem C8_unsupported_scalar_type (env : Env) (pnode : ParametersNode) (s : State)
    (st : Strategy) (hcpu : st.isCPU = true) (ov : ImageData) (hout : s.outputVolume = some ov)
    (hf : ov.DataType ≠ VTK_FLOAT) (hd : ov.DataType ≠ VTK_DOUBLE) :
    (runStrategy env pnode s st).1 = Outcome.returned 0 ∧
    (runStrategy env pnode s st).2.outPixel = s.outPixel ∧
    (runStrategy env pnode s st).2.voxels = s.voxels ∧
    (runStrategy env pnode s st).2.Status = s.Status ∧
    (runStrategy env pnode s st).2.statusReads = s.statusReads := by
  cases st with
  | IsotropicBoxCPU =>
    unfold runStrategy IsotropicBoxCPUFilter
    cases s.inputVolume <;> by_cases hc : ov.NumberOfScalarComponents > 1 <;>
      simp [hout, hc, hf, hd]
  | AnisotropicBoxCPU =>
    unfold runStrategy AnisotropicBoxCPUFilter
    cases s.inputVolume <;> by_cases hc : ov.NumberOfScalarComponents > 1 <;>
      simp [hout, hc, hf, hd]
  | IsotropicGaussianCPU =>
    unfold runStrategy IsotropicGaussianCPUFilter
    cases s.inputVolume <;> by_cases hc : ov.NumberOfScalarComponents > 1 <;>
      simp [hout, hc, hf, hd]
  | AnisotropicGaussianCPU =>
    unfold runStrategy AnisotropicGaussianCPUFilter
    cases s.inputVolume <;> by_cases hc : ov.NumberOfScalarComponents > 1 <;>
      simp [hout, hc, hf, hd]
  | GradientCPU =>
    unfold runStrategy GradientCPUFilter
    cases s.inputVolume <;> by_cases hc : ov.NumberOfScalarComponents > 1 <;>
      simp [hout, hc, hf, hd]
  | BoxGPU => exact absurd hcpu (by decide)
  | GaussianGPU => exact absurd hcpu (by decide)
  | GradientGPU => exact absurd hcpu (by decide)

/-- C8 (witness). Gradient filter on a 4x4x4 grid of `short` scalars, status cell 0. -/
theorem C8_unsupported_scalar_type_witness :
    (runStrategy idleEnv (gradientNode 20)
      (sceneOf (imageOf 4 4 4 1 VTK_SHORT) (imageOf 4 4 4 1 VTK_SHORT) (fun _ => 1)
        (fun _ => 1) 0) Strategy.GradientCPU).1 = Outcome.returned 0 ∧
    (runStrategy idleEnv (gradientNode 20)
      (sceneOf (imageOf 4 4 4 1 VTK_SHORT) (imageOf 4 4 4 1 VTK_SHORT) (fun _ => 1)
        (fun _ => 1) 0) Strategy.GradientCPU).2.voxels = 0 ∧
    (runStrategy idleEnv (gradientNode 20)
      (sceneOf (imageOf 4 4 4 1 VTK_SHORT) (imageOf 4 4 4 1 VTK_SHORT) (fun _ => 1)
        (fun _ => 1) 0) Strategy.GradientCPU).2.Status = 0 :=
  ⟨(C8_unsupported_scalar_type idleEnv (gradientNode 20)
      (sceneOf (imageOf 4 4 4 1 VTK_SHORT) (imageOf 4 4 4 1 VTK_SHORT) (fun _ => 1)
        (fun _ => 1) 0) Strategy.GradientCPU rfl (imageOf 4 4 4 1 VTK_SHORT) rfl
      (by decide) (by decide)).1,
    (C8_unsupported_scalar_type idleEnv (gradientNode 20)
      (sceneOf (imageOf 4 4 4 1 VTK_SHORT) (imageOf 4 4 4 1 VTK_SHORT) (fun _ => 1)
        (fun _ => 1) 0) Strategy.GradientCPU rfl (imageOf 4 4 4 1 VTK_SHORT) rfl
      (by decide) (by decide)).2.2.1,
    (C8_unsupported_scalar_type idleEnv (gradientNode 20)
      (sceneOf (imageOf 4 4 4 1 VTK_SHORT) (imageOf 4 4 4 1 VTK_SHORT) (fun _ => 1)
        (fun _ => 1) 0) Strategy.GradientCPU rfl (imageOf 4 4 4 1 VTK_SHORT) rfl
      (by decide) (by decide)).2.2.2.1⟩

theorem newReads_of_summary {s : State} {r : Outcome × State} (h : Summary s r)
    (hm : -1 ∈ newReads s r.2) :
    r.1 = Outcome.returned 0 ∧ r.2.rangeUpdates = s.rangeUpdates ∧
      r.2.noiseUpdates = s.noiseUpdates := by
  obtain ⟨l, a, b⟩ := h
  apply b
  unfold newReads at hm
  rw [a, List.length_append, Nat.add_sub_cancel, List.take_left'] at hm
  · exact hm
  · rfl

/-- C9. In the single-threaded build, for each of the five CPU filter strategies: if some
status read made during the call returns `-1`, the call returns 0 and neither
`UpdateRangeAttributes` nor `UpdateNoiseAttributes` is invoked on the output volume. -/
theorem C9_cancelled_run_returns_zero (env : Env) (pnode : ParametersNode) (s : State)
    (st : Strategy) (hcpu : st.isCPU = true)
    (hread : -1 ∈ newReads s (runStrategy env pnode s st).2) :
    (runStrategy env pnode s st).1 = Outcome.returned 0 ∧
    (runStrategy env pnode s st).2.rangeUpdates = s.rangeUpdates ∧
    (runStrategy env pnode s st).2.noiseUpdates = s.noiseUpdates := by
  cases st with
  | IsotropicBoxCPU => exact newReads_of_summary (isoBox_summary env pnode s) hread
  | AnisotropicBoxCPU => exact newReads_of_summary (anisoBox_summary env pnode s) hread
  | IsotropicGaussianCPU => exact newReads_of_summary (isoGauss_summary env pnode s) hread
  | AnisotropicGaussianCPU => exact newReads_of_summary (anisoGauss_summary env pnode s) hread
  | GradientCPU => exact newReads_of_summary (gradient_summary env pnode s) hread
  | BoxGPU => exact absurd hcpu (by decide)
  | GaussianGPU => exact absurd hcpu (by decide)
  | GradientGPU => exact absurd hcpu (by decide)

/-- With `-1` stored before every read, the isotropic box filter on a one-voxel grid makes
one status read, which returns `-1`. -/
theorem cancel_first_read :
    newReads (sceneOf (floatImage 1 1 1) (floatImage 1 1 1) (fun _ => 1) (fun _ => 1) 0)
      (runStrategy cancelEnv (boxNode 3 3 3)
        (sceneOf (floatImage 1 1 1) (floatImage 1 1 1) (fun _ => 1) (fun _ => 1) 0)
        Strategy.IsotropicBoxCPU).2 = [-1] := by
  have hp : (0.001 : ℚ) < 3 := by norm_num
  simp [hp, runStrategy, IsotropicBoxCPUFilter, sceneOf, floatImage, VTK_FLOAT, boxStageX, sweep,
    forRange, forLoop, voxelStep, GetStatus, cancelEnv, startScratch, SetStatus, releaseTemp,
    newReads, boxNode]

/-- C9 (witness). Isotropic box filter on a one-voxel grid while another thread keeps `-1`
in the status cell: the first read returns `-1`, the call returns 0 and the statistics are
not recomputed. -/
theorem C9_cancelled_run_returns_zero_witness :
    -1 ∈ newReads (sceneOf (floatImage 1 1 1) (floatImage 1 1 1) (fun _ => 1) (fun _ => 1) 0)
      (runStrategy cancelEnv (boxNode 3 3 3)
        (sceneOf (floatImage 1 1 1) (floatImage 1 1 1) (fun _ => 1) (fun _ => 1) 0)
        Strategy.IsotropicBoxCPU).2 ∧
    (runStrategy cancelEnv (boxNode 3 3 3)
        (sceneOf (floatImage 1 1 1) (floatImage 1 1 1) (fun _ => 1) (fun _ => 1) 0)
        Strategy.IsotropicBoxCPU).1 = Outcome.returned 0 ∧
    (runStrategy cancelEnv (boxNode 3 3 3)
        (sceneOf (floatImage 1 1 1) (floatImage 1 1 1) (fun _ => 1) (fun _ => 1) 0)
        Strategy.IsotropicBoxCPU).2.rangeUpdates = 0 ∧
    (runStrategy cancelEnv (boxNode 3 3 3)
        (sceneOf (floatImage 1 1 1) (floatImage 1 1 1) (fun _ => 1) (fun _ => 1) 0)
        Strategy.IsotropicBoxCPU).2.noiseUpdates = 0 :=
  ⟨by rw [cancel_first_read]; exact List.mem_singleton.mpr rfl,
    C9_cancelled_run_returns_zero cancelEnv (boxNode 3 3 3)
      (sceneOf (floatImage 1 1 1) (floatImage 1 1 1) (fun _ => 1) (fun _ => 1) 0)
      Strategy.IsotropicBoxCPU rfl
      (by rw [cancel_first_read]; exact List.mem_singleton.mpr rfl)⟩

/-- C10 (counterexample). Axis parameters 3, 3.0009 and 3.0018 for a CPU box filter:
`Apply` calls the isotropic method although `|X - Z| = 0.0018` is not below 0.001. -/
theorem C10_counterexample :
    selectStrategy (boxNode 3 3.0009 3.0018) = some Strategy.IsotropicBoxCPU ∧
    (∀ env s, Apply env (boxNode 3 3.0009 3.0018) s =
      IsotropicBoxCPUFilter env (boxNode 3 3.0009 3.0018) s) ∧
    ¬ |(boxNode 3 3.0009 3.0018).ParameterX - (boxNode 3 3.0009 3.0018).ParameterZ| < 0.001 := by
  have hsel : selectStrategy (boxNode 3 3.0009 3.0018) = some Strategy.IsotropicBoxCPU := by
    have h1 : |(3 : ℚ) - 3.0009| < 0.001 := by
      rw [abs_lt]
      constructor <;> norm_num
    have h2 : |(3.0009 : ℚ) - 3.0018| < 0.001 := by
      rw [abs_lt]
      constructor <;> norm_num
    unfold selectStrategy
    simp only [boxNode, if_true, h1, h2, and_self]
  refine ⟨hsel, ?_, ?_⟩
  · intro env s
    unfold Apply
    rw [hsel]
    rfl
  · show ¬ |(3 : ℚ) - 3.0018| < 0.001
    rw [abs_lt]
    norm_num

/-- C10 (amended). For CPU box and Gaussian filtering (filter kind 0 or 1, hardware 0),
`Apply` calls exactly one filter method; it is the isotropic (separable) one if and only if
`|X - Y| < 0.001` and `|Y - Z| < 0.001`, and the anisotropic one otherwise. `|X - Z|` is not
tested: in the isotropic case it is only known to be below 0.002. -/
theorem C10_isotropic_selection (env : Env) (pnode : ParametersNode) (s : State)
    (hf : pnode.Filter = 0 ∨ pnode.Filter = 1) (hh : pnode.Hardware = 0) :
    ∃ st, selectStrategy pnode = some st ∧ Apply env pnode s = runStrategy env pnode s st ∧
      st.isCPU = true ∧
      (st.isIsotropic = true ↔ (|pnode.ParameterX - pnode.ParameterY| < 0.001 ∧
        |pnode.ParameterY - pnode.ParameterZ| < 0.001)) ∧
      (st.isAnisotropic = true ↔ ¬ (|pnode.ParameterX - pnode.ParameterY| < 0.001 ∧
        |pnode.ParameterY - pnode.ParameterZ| < 0.001)) ∧
      (st.isIsotropic = true → |pnode.ParameterX - pnode.ParameterZ| < 0.002) := by
  have hxz : (|pnode.ParameterX - pnode.ParameterY| < 0.001 ∧
      |pnode.ParameterY - pnode.ParameterZ| < 0.001) →
      |pnode.ParameterX - pnode.ParameterZ| < 0.002 := by
    rintro ⟨a, b⟩
    rw [abs_lt] at a b ⊢
    constructor
    · linarith [a.1, b.1]
    · linarith [a.2, b.2]
  have hap : ∀ st, selectStrategy pnode = some st →
      Apply env pnode s = runStrategy env pnode s st := by
    intro st h
    unfold Apply
    rw [h]
  have h10 : ¬ ((1 : Int) = 0) := by decide
  by_cases hc : |pnode.ParameterX - pnode.ParameterY| < 0.001 ∧
      |pnode.ParameterY - pnode.ParameterZ| < 0.001
  · rcases hf with hf | hf
    · have hsel : selectStrategy pnode = some Strategy.IsotropicBoxCPU := by
        unfold selectStrategy
        rw [if_pos hf, if_pos hh, if_pos hc]
      exact ⟨_, hsel, hap _ hsel, rfl, ⟨fun _ => hc, fun _ => rfl⟩,
        ⟨fun h => absurd h (by decide), fun h => absurd hc h⟩, fun _ => hxz hc⟩
    · have hsel : selectStrategy pnode = some Strategy.IsotropicGaussianCPU := by
        unfold selectStrategy
        rw [hf, if_neg h10, if_pos rfl, if_pos hh, if_pos hc]
      exact ⟨_, hsel, hap _ hsel, rfl, ⟨fun _ => hc, fun _ => rfl⟩,
        ⟨fun h => absurd h (by decide), fun h => absurd hc h⟩, fun _ => hxz hc⟩
  · rcases hf with hf | hf
    · have hsel : selectStrategy pnode = some Strategy.AnisotropicBoxCPU := by
        unfold selectStrategy
        rw [if_pos hf, if_pos hh, if_neg hc]
      exact ⟨_, hsel, hap _ hsel, rfl, ⟨fun h => absurd h (by decide), fun h => absurd h hc⟩,
        ⟨fun _ => hc, fun _ => rfl⟩, fun h => absurd h (by decide)⟩
    · have hsel : selectStrategy pnode = some Strategy.AnisotropicGaussianCPU := by
        unfold selectStrategy
        rw [hf, if_neg h10, if_pos rfl, if_pos hh, if_neg hc]
      exact ⟨_, hsel, hap _ hsel, rfl, ⟨fun h => absurd h (by decide), fun h => absurd h hc⟩,
        ⟨fun _ => hc, fun _ => rfl⟩, fun h => absurd h (by decide)⟩

/-- C10 (witness). Box filter with axis parameters 3, 5, 7 on the CPU: `Apply` calls a
filter method that is not isotropic. -/
theorem C10_isotropic_selection_witness :
    ((boxNode 3 5 7).Filter = 0 ∨ (boxNode 3 5 7).Filter = 1) ∧ (boxNode 3 5 7).Hardware = 0 ∧
    ∃ st, selectStrategy (boxNode 3 5 7) = some st ∧
      Apply idleEnv (boxNode 3 5 7)
        (sceneOf (floatImage 2 2 2) (floatImage 2 2 2) (fun _ => 1) (fun _ => 1) 0) =
        runStrategy idleEnv (boxNode 3 5 7)
          (sceneOf (floatImage 2 2 2) (floatImage 2 2 2) (fun _ => 1) (fun _ => 1) 0) st ∧
      st.isCPU = true ∧
      (st.isIsotropic = true ↔ (|(boxNode 3 5 7).ParameterX - (boxNode 3 5 7).ParameterY| < 0.001 ∧
        |(boxNode 3 5 7).ParameterY - (boxNode 3 5 7).ParameterZ| < 0.001)) ∧
      (st.isAnisotropic = true ↔
        ¬ (|(boxNode 3 5 7).ParameterX - (boxNode 3 5 7).ParameterY| < 0.001 ∧
          |(boxNode 3 5 7).ParameterY - (boxNode 3 5 7).ParameterZ| < 0.001)) ∧
      (st.isIsotropic = true →
        |(boxNode 3 5 7).ParameterX - (boxNode 3 5 7).ParameterZ| < 0.002) :=
  ⟨Or.inl rfl, rfl, C10_isotropic_selection idleEnv (boxNode 3 5 7)
    (sceneOf (floatImage 2 2 2) (floatImage 2 2 2) (fun _ => 1) (fun _ => 1) 0)
    (Or.inl rfl) rfl⟩

theorem forceOdd_toInt (L : Int) (hL : 0 ≤ L) :
    forceOdd (toInt (L : ℚ)) = if L % 2 = 0 then L + 1 else L := by
  rw [toInt_intCast]
  have hmod : Int.tmod L 2 = L % 2 := Int.tmod_eq_emod hL (by norm_num)
  unfold forceOdd
  rw [hmod]
  rcases Int.emod_two_eq_zero_or_one L with h0 | h1
  · rw [h0, if_pos rfl, if_pos (by norm_num)]
  · rw [h1, if_neg (by norm_num), if_neg (by norm_num)]

/-- A full window `-h, ..., h` has `2 * h + 1` taps. -/
theorem winSum_range (h : Int) (f : Int → ℚ) :
    winSum (-h) h f =
      Finset.sum (Finset.range (2 * h + 1).toNat) (fun t => f ((t : Int) - h)) := by
  unfold winSum
  have e : h + 1 - -h = 2 * h + 1 := by ring
  rw [e]
  apply Finset.sum_congr rfl
  intro t _
  congr 1
  ring

theorem progress_out (N e : Int) (s : State) : (progress N e s).outPixel = s.outPixel := by
  unfold progress SetStatus
  by_cases h1 : Int.tdiv N 100 = 0
  · simp [h1]
  · by_cases h2 : Int.tdiv e (Int.tdiv N 100) > s.status
    · simp [h1, h2]
    · simp [h1, h2]

/-- Value the anisotropic box body leaves at a voxel all of whose taps are accepted. -/
theorem anisoBoxVoxel_full (nx S N hx hy hz cont : Int) (e : Int) (s : State)
    (hin : ∀ i j k, -hx ≤ i → i ≤ hx → -hy ≤ j → j ≤ hy → -hz ≤ k → k ≤ hz →
      anisoTapOK nx S N e i j k) :
    (anisoBoxVoxel nx S N hx hy hz cont e s).outPixel e =
      Finset.sum (Finset.range (2 * hz + 1).toNat) (fun c =>
        Finset.sum (Finset.range (2 * hy + 1).toNat) (fun b =>
          Finset.sum (Finset.range (2 * hx + 1).toNat) (fun a =>
            s.inPixel (e + ((a : Int) - hx) + ((b : Int) - hy) * nx + ((c : Int) - hz) * S))))
        / (cont : ℚ) := by
  rw [anisoBoxVoxel_eq, progress_out]
  show write s.outPixel e _ e = _
  rw [write_same]
  congr 1
  unfold anisoBoxSum
  rw [winSum_congr (-hz) hz _ (fun k => winSum (-hy) hy (fun j => winSum (-hx) hx (fun i =>
    s.inPixel (e + i + j * nx + k * S)))) ?_, winSum_range]
  · apply Finset.sum_congr rfl
    intro c _
    rw [winSum_range]
    apply Finset.sum_congr rfl
    intro b _
    rw [winSum_range]
  · intro k hk1 hk2
    apply winSum_congr
    intro j hj1 hj2
    apply winSum_congr
    intro i hi1 hi2
    rw [if_pos (hin i j k hi1 hi2 hj1 hj2 hk1 hk2)]

/-- Value the X pass of the isotropic box filter leaves at a voxel whose window lies
inside its row. -/
theorem boxVoxelX_full (nx nItems h : Int) (e : Int) (s : State)
    (hlo : Int.tdiv e nx * nx ≤ e - h) (hhi : e + h < Int.tdiv e nx * nx + nx) :
    (boxVoxelX nx nItems h e s).outPixel e =
      Finset.sum (Finset.range (2 * h + 1).toNat) (fun a => s.tempPixel (e + ((a : Int) - h)))
        / (nItems : ℚ) := by
  rw [boxVoxelX_eq]
  show write s.outPixel e _ e = _
  rw [write_same]
  unfold passX
  congr 1
  rw [winSum_congr (-h) h _ (fun i => s.tempPixel (e + i)) ?_, winSum_range]
  intro i hi1 hi2
  rw [if_pos ⟨by omega, by omega⟩]

/-- C16. In the build without OpenGL filtering support, `Apply` with the GPU backend
selected (hardware flag not 0) and filter kind box (0), Gaussian (1) or gradient (2) calls a
GPU entry point, no CPU filter, returns 0 and leaves the whole state as it was: in
particular the output grid, the status cell and the count of executed voxel bodies. -/
theorem C16_gpu_backend_unavailable (env : Env) (pnode : ParametersNode) (s : State)
    (hf : pnode.Filter = 0 ∨ pnode.Filter = 1 ∨ pnode.Filter = 2) (hh : pnode.Hardware ≠ 0) :
    (∃ st, selectStrategy pnode = some st ∧ st.isCPU = false) ∧
    Apply env pnode s = (Outcome.returned 0, s) ∧
    (Apply env pnode s).2.outPixel = s.outPixel ∧ (Apply env pnode s).2.Status = s.Status ∧
    (Apply env pnode s).2.statusWrites = s.statusWrites ∧
    (Apply env pnode s).2.voxels = s.voxels := by
  have h10 : ¬ ((1 : Int) = 0) := by decide
  have h20 : ¬ ((2 : Int) = 0) := by decide
  have h21 : ¬ ((2 : Int) = 1) := by decide
  rcases hf with hf | hf | hf
  · have hsel : selectStrategy pnode = some Strategy.BoxGPU := by
      unfold selectStrategy
      rw [if_pos hf, if_neg hh]
    have hap : Apply env pnode s = (Outcome.returned 0, s) := by
      unfold Apply
      rw [hsel]
      rfl
    rw [hap]
    exact ⟨⟨_, hsel, rfl⟩, rfl, rfl, rfl, rfl, rfl⟩
  · have hsel : selectStrategy pnode = some Strategy.GaussianGPU := by
      unfold selectStrategy
      rw [hf, if_neg h10, if_pos rfl, if_neg hh]
    have hap : Apply env pnode s = (Outcome.returned 0, s) := by
      unfold Apply
      rw [hsel]
      rfl
    rw [hap]
    exact ⟨⟨_, hsel, rfl⟩, rfl, rfl, rfl, rfl, rfl⟩
  · have hsel : selectStrategy pnode = some Strategy.GradientGPU := by
      unfold selectStrategy
      rw [hf, if_neg h20, if_neg h21, if_pos rfl, if_neg hh]
    have hap : Apply env pnode s = (Outcome.returned 0, s) := by
      unfold Apply
      rw [hsel]
      rfl
    rw [hap]
    exact ⟨⟨_, hsel, rfl⟩, rfl, rfl, rfl, rfl, rfl⟩

/-- C16 (witness). Gaussian filtering on the GPU backend over a 4x4x4 grid, status cell 0. -/
theorem C16_gpu_backend_unavailable_witness :
    Apply idleEnv (gpuNode 1)
      (sceneOf (floatImage 4 4 4) (floatImage 4 4 4) (fun _ => 1) (fun _ => 1) 0) =
      (Outcome.returned 0,
        sceneOf (floatImage 4 4 4) (floatImage 4 4 4) (fun _ => 1) (fun _ => 1) 0) :=
  (C16_gpu_backend_unavailable idleEnv (gpuNode 1)
    (sceneOf (floatImage 4 4 4) (floatImage 4 4 4) (fun _ => 1) (fun _ => 1) 0)
    (Or.inr (Or.inl rfl)) (by decide)).2.1

/-- The window sum as a sum over the integer interval `[lo, hi]`. -/
theorem winSum_Icc (lo hi : Int) (f : Int → ℚ) :
    winSum lo hi f = Finset.sum (Finset.Icc lo hi) f := by
  unfold winSum
  rw [Int.Icc_eq_finset_map, Finset.sum_map]
  rfl

/-- The triple cut window sum as one sum over the cube of offsets, the taps outside the grid
contributing nothing. -/
theorem cutSum3_Icc (nx ny nz hx hy hz : Int) (G : Int → Int → Int → ℚ) (x y z : Int) :
    cutSum3 nx ny nz hx hy hz G x y z =
      Finset.sum (Finset.Icc (-hz) hz) (fun c =>
        Finset.sum (Finset.Icc (-hy) hy) (fun b =>
          Finset.sum (Finset.Icc (-hx) hx) (fun a =>
            if (0 ≤ x + a ∧ x + a < nx) ∧ (0 ≤ y + b ∧ y + b < ny) ∧ (0 ≤ z + c ∧ z + c < nz)
            then G (x + a) (y + b) (z + c) else 0))) := by
  unfold cutSum3 cutSum
  rw [winSum_Icc]
  apply Finset.sum_congr rfl
  intro c _
  by_cases hc : 0 ≤ z + c ∧ z + c < nz
  · rw [if_pos hc]
    beta_reduce
    rw [winSum_Icc]
    apply Finset.sum_congr rfl
    intro b _
    by_cases hb : 0 ≤ y + b ∧ y + b < ny
    · rw [if_pos hb, winSum_Icc]
      apply Finset.sum_congr rfl
      intro a _
      by_cases ha : 0 ≤ x + a ∧ x + a < nx
      · rw [if_pos ha, if_pos ⟨ha, hb, hc⟩]
      · rw [if_neg ha, if_neg (fun h => ha h.1)]
    · rw [if_neg hb]
      symm
      apply Finset.sum_eq_zero
      intro a _
      rw [if_neg (fun h => hb h.2.1)]
  · rw [if_neg hc]
    symm
    apply Finset.sum_eq_zero
    intro b _
    apply Finset.sum_eq_zero
    intro a _
    rw [if_neg (fun h => hc h.2.2)]

/-- The anisotropic tap loops read the source grid only at indices in `[0, N)`. -/
theorem anisoBoxSum_local (nx S N hx hy hz : Int) (I J : Buffer) (e : Int)
    (hIJ : ∀ p, 0 ≤ p → p < N → I p = J p) :
    anisoBoxSum nx S N hx hy hz I e = anisoBoxSum nx S N hx hy hz J e := by
  unfold anisoBoxSum
  apply winSum_congr
  intro k _ _
  apply winSum_congr
  intro j _ _
  apply winSum_congr
  intro i _ _
  by_cases hok : anisoTapOK nx S N e i j k
  · rw [if_pos hok, if_pos hok, hIJ _ hok.2.2.1 hok.2.2.2]
  · rw [if_neg hok, if_neg hok]

/-- Closed form of a run of `AnisotropicBoxCPUFilter` nobody cancels on a grid of at least
100 voxels: with effective lengths `lx, ly, lz` and half-widths `hx, hy, hz`, voxel
`(i, j, k)` receives the sum of the input grid over the taps of the window that lie inside
the grid, divided by `lx * ly * lz`; input indices outside `[0, nx * ny * nz)` have no
influence. -/
theorem anisoBox_formula (env : Env) (hq : Quiet env) (pnode : ParametersNode) (s : State)
    (ov : ImageData) (hv : ValidScene s ov) (hN : 100 ≤ ov.dims0 * ov.dims1 * ov.dims2)
    (i j k : Int) (hi0 : 0 ≤ i) (hin : i < ov.dims0) (hj0 : 0 ≤ j) (hjn : j < ov.dims1)
    (hk0 : 0 ≤ k) (hkn : k < ov.dims2) :
    (AnisotropicBoxCPUFilter env pnode s).1 = Outcome.returned 1 ∧
    (AnisotropicBoxCPUFilter env pnode s).2.outPixel
        (i + j * ov.dims0 + k * (ov.dims0 * ov.dims1)) =
      Finset.sum (Finset.Icc (-halfWidth (forceOdd (toInt pnode.ParameterZ)))
          (halfWidth (forceOdd (toInt pnode.ParameterZ)))) (fun c =>
        Finset.sum (Finset.Icc (-halfWidth (forceOdd (toInt pnode.ParameterY)))
            (halfWidth (forceOdd (toInt pnode.ParameterY)))) (fun b =>
          Finset.sum (Finset.Icc (-halfWidth (forceOdd (toInt pnode.ParameterX)))
              (halfWidth (forceOdd (toInt pnode.ParameterX)))) (fun a =>
            if (0 ≤ i + a ∧ i + a < ov.dims0) ∧ (0 ≤ j + b ∧ j + b < ov.dims1) ∧
                (0 ≤ k + c ∧ k + c < ov.dims2)
            then s.inPixel ((i + a) + (j + b) * ov.dims0 + (k + c) * (ov.dims0 * ov.dims1))
            else 0))) /
        ((forceOdd (toInt pnode.ParameterX) * forceOdd (toInt pnode.ParameterY) *
          forceOdd (toInt pnode.ParameterZ) : Int) : ℚ) := by
  refine ⟨anisoBox_quiet_fst env hq pnode s ov hv hN, ?_⟩
  have hidx : i + j * ov.dims0 + k * (ov.dims0 * ov.dims1) = idx ov.dims0 ov.dims1 i j k := rfl
  rw [hidx, anisoBox_quiet_out env hq pnode s ov hv hN,
    anisoBox_coord pnode ov s.inPixel s.outPixel i j k hi0 hin hj0 hjn hk0 hkn, cutSum3_Icc]
  congr 1
  push_cast
  ring

/-- C20 (failing input). `AnisotropicBoxCPUFilter` on a 3x3x3 grid of all 1.0 with axis
parameters 3, 5, 7, nobody cancelling: the progress update of the first voxel divides by
`27 / 100 = 0`, so the call ends in an integer division by zero instead of writing the
window means. -/
theorem C20_small_grid_stops :
    (AnisotropicBoxCPUFilter idleEnv (boxNode 3 5 7)
      (sceneOf (floatImage 3 3 3) (floatImage 3 3 3) (fun _ => 1) (fun _ => 1) 0)).1 =
      Outcome.divisionByZero :=
  anisoBox_trap idleEnv idleEnv_quiet _ _ (floatImage 3 3 3)
    (sceneOf_valid _ _ _ _ _ (by norm_num [floatImage]) (Or.inl rfl))
    (by norm_num [floatImage]) (by norm_num [floatImage])

theorem Counted.failed (k : Nat) (s t : State) : Counted k s (Outcome.returned 0, t) := by
  intro h
  have h2 : Outcome.returned 0 = Outcome.returned 1 := h
  exact absurd h2 (by decide)

theorem Counted.trapped (k : Nat) (s t : State) : Counted k s (Outcome.divisionByZero, t) := by
  intro h
  have h2 : Outcome.divisionByZero = Outcome.returned 1 := h
  exact absurd h2 (by decide)

theorem Counted.updated (env : Env) (s s1 t u : State)
    (hr : s1.rangeUpdates = s.rangeUpdates) (hn : s1.noiseUpdates = s.noiseUpdates)
    (ht : Track s1 t) (hu2 : u.rangeUpdates = t.rangeUpdates)
    (hu3 : u.noiseUpdates = t.noiseUpdates) :
    Counted 1 s (Outcome.returned 1, updateAttributes env u) := by
  obtain ⟨l, -, -, c, d⟩ := ht
  intro _
  constructor
  · show u.rangeUpdates + 1 = s.rangeUpdates + 1
    rw [hu2, c, hr]
  · show u.noiseUpdates + 1 = s.noiseUpdates + 1
    rw [hu3, d, hn]

theorem isoBox_counted (env : Env) (pnode : ParametersNode) (s : State) :
    Counted 1 s (IsotropicBoxCPUFilter env pnode s) := by
  unfold IsotropicBoxCPUFilter
  cases hin : s.inputVolume with
  | none => exact Counted.failed 1 s s
  | some iv =>
    cases hout : s.outputVolume with
    | none => exact Counted.failed 1 s s
    | some ov =>
      simp only
      obtain ⟨t1, d1⟩ := boxStageX_ctl env pnode ov (startScratch s) rfl
      obtain ⟨t2, d2⟩ := boxStageY_ctl env pnode ov _ d1
      obtain ⟨t3, -⟩ := boxStageZ_ctl env pnode ov _ d2
      split_ifs
      · exact Counted.failed 1 s _
      · exact Counted.failed 1 s _
      · exact Counted.failed 1 s _
      · exact Counted.failed 1 s _
      · exact Counted.updated env s (startScratch s) _ _ rfl rfl
          (Track.trans (Track.trans t1 t2) t3) rfl rfl
      · exact Counted.failed 1 s _

theorem isoGauss_counted (env : Env) (pnode : ParametersNode) (s : State) :
    Counted 1 s (IsotropicGaussianCPUFilter env pnode s) := by
  unfold IsotropicGaussianCPUFilter
  cases hin : s.inputVolume with
  | none => exact Counted.failed 1 s s
  | some iv =>
    cases hout : s.outputVolume with
    | none => exact Counted.failed 1 s s
    | some ov =>
      simp only
      obtain ⟨t1, d1⟩ := gaussStageX_ctl env pnode ov (startScratch s) rfl
      obtain ⟨t2, d2⟩ := gaussStageY_ctl env pnode ov _ d1
      obtain ⟨t3, -⟩ := gaussStageZ_ctl env pnode ov _ d2
      split_ifs
      · exact Counted.failed 1 s _
      · exact Counted.failed 1 s _
      · exact Counted.failed 1 s _
      · exact Counted.failed 1 s _
      · exact Counted.updated env s (startScratch s) _ _ rfl rfl
          (Track.trans (Track.trans t1 t2) t3) rfl rfl
      · exact Counted.failed 1 s _

theorem anisoBox_counted (env : Env) (pnode : ParametersNode) (s : State) :
    Counted 1 s (AnisotropicBoxCPUFilter env pnode s) := by
  unfold AnisotropicBoxCPUFilter
  cases hin : s.inputVolume with
  | none => exact Counted.failed 1 s s
  | some iv =>
    cases hout : s.outputVolume with
    | none => exact Counted.failed 1 s s
    | some ov =>
      simp only
      obtain ⟨t1, -⟩ := sweep_track env (ov.dims0 * ov.dims1 * ov.dims2) _
        (frame_anisoBoxVoxel ov.dims0 (ov.dims0 * ov.dims1) (ov.dims0 * ov.dims1 * ov.dims2)
          (halfWidth (forceOdd (toInt pnode.ParameterX)))
          (halfWidth (forceOdd (toInt pnode.ParameterY)))
          (halfWidth (forceOdd (toInt pnode.ParameterZ)))
          (forceOdd (toInt pnode.ParameterX) * forceOdd (toInt pnode.ParameterY) *
            forceOdd (toInt pnode.ParameterZ))) (startDirect s) rfl
      split_ifs
      · exact Counted.failed 1 s _
      · exact Counted.trapped 1 s _
      · exact Counted.failed 1 s _
      · exact Counted.updated env s (startDirect s) _ _ rfl rfl t1 rfl rfl
      · exact Counted.failed 1 s _

theorem anisoGauss_counted (env : Env) (pnode : ParametersNode) (s : State) :
    Counted 1 s (AnisotropicGaussianCPUFilter env pnode s) := by
  unfold AnisotropicGaussianCPUFilter
  cases hin : s.inputVolume with
  | none => exact Counted.failed 1 s s
  | some iv =>
    cases hout : s.outputVolume with
    | none => exact Counted.failed 1 s s
    | some ov =>
      simp only
      obtain ⟨t1, -⟩ := sweep_track env (ov.dims0 * ov.dims1 * ov.dims2) _
        (frame_anisoGaussVoxel ov.dims0 (ov.dims0 * ov.dims1)
          (ov.dims0 * ov.dims1 * ov.dims2)
          (toInt (((pnode.KernelLengthX - 1 : Int) : ℚ) / 2))
          (toInt (((pnode.KernelLengthY - 1 : Int) : ℚ) / 2))
          (toInt (((pnode.KernelLengthZ - 1 : Int) : ℚ) / 2))
          (pnode.KernelLengthX * pnode.KernelLengthY) pnode.KernelLengthX
          pnode.GaussianKernel3D) (startDirect s) rfl
      split_ifs
      · exact Counted.failed 1 s _
      · exact Counted.trapped 1 s _
      · exact Counted.failed 1 s _
      · exact Counted.updated env s (startDirect s) _ _ rfl rfl t1 rfl rfl
      · exact Counted.failed 1 s _

theorem gradient_counted (env : Env) (pnode : ParametersNode) (s : State) :
    Counted 2 s (GradientCPUFilter env pnode s) := by
  unfold GradientCPUFilter
  cases hin : s.inputVolume with
  | none => exact Counted.failed 2 s s
  | some iv =>
    cases hout : s.outputVolume with
    | none => exact Counted.failed 2 s s
    | some ov =>
      simp only
      obtain ⟨l, -, -, c, d⟩ := gradient_loop_track env pnode ov.dims0 (ov.dims0 * ov.dims1)
        (ov.dims0 * ov.dims1 * ov.dims2) (s.RMS * s.RMS * pnode.K * pnode.K)
        (startScratch s) rfl rfl
      split_ifs
      · exact Counted.failed 2 s _
      · exact Counted.failed 2 s _
      · intro _
        constructor
        · show _ + 1 + 1 = s.rangeUpdates + 2
          rw [c]
          rfl
        · show _ + 1 + 1 = s.noiseUpdates + 2
          rw [d]
          rfl
      · exact Counted.failed 2 s _

/-- C13 (counterexample). `GradientCPUFilter` with one iteration on a 2x2x2 grid, nobody
cancelling: the call returns 1 after invoking `UpdateRangeAttributes` twice and
`UpdateNoiseAttributes` twice. -/
theorem C13_counterexample :
    (GradientCPUFilter idleEnv (gradientNode 1)
      (sceneOf (floatImage 2 2 2) (floatImage 2 2 2) (fun _ => 1) (fun _ => 1) 0)).1 =
        Outcome.returned 1 ∧
    (GradientCPUFilter idleEnv (gradientNode 1)
      (sceneOf (floatImage 2 2 2) (floatImage 2 2 2) (fun _ => 1) (fun _ => 1)
        0)).2.rangeUpdates = 2 ∧
    (GradientCPUFilter idleEnv (gradientNode 1)
      (sceneOf (floatImage 2 2 2) (floatImage 2 2 2) (fun _ => 1) (fun _ => 1)
        0)).2.noiseUpdates = 2 := by
  have h1 := (gradient_ctl_quiet idleEnv idleEnv_quiet (gradientNode 1)
    (sceneOf (floatImage 2 2 2) (floatImage 2 2 2) (fun _ => 1) (fun _ => 1) 0)
    (floatImage 2 2 2) (sceneOf_valid _ _ _ _ _ (by norm_num [floatImage]) (Or.inl rfl))).1
  have h2 := gradient_counted idleEnv (gradientNode 1)
    (sceneOf (floatImage 2 2 2) (floatImage 2 2 2) (fun _ => 1) (fun _ => 1) 0) h1
  exact ⟨h1, h2.1, h2.2⟩

/-- C13 (amended). For each of the five CPU filter strategies, whatever happens to the
status cell during the run: a call that returns 1 has invoked `UpdateRangeAttributes` and
`UpdateNoiseAttributes` on the output volume the same number of times, exactly once each
for the box and Gaussian filters and exactly twice each for `GradientCPUFilter`. -/
theorem C13_updates_on_success (env : Env) (pnode : ParametersNode) (s : State)
    (st : Strategy) (hcpu : st.isCPU = true)
    (hok : (runStrategy env pnode s st).1 = Outcome.returned 1) :
    (runStrategy env pnode s st).2.rangeUpdates = s.rangeUpdates + updatesOnSuccess st ∧
    (runStrategy env pnode s st).2.noiseUpdates = s.noiseUpdates + updatesOnSuccess st := by
  cases st with
  | IsotropicBoxCPU => exact isoBox_counted env pnode s hok
  | AnisotropicBoxCPU => exact anisoBox_counted env pnode s hok
  | IsotropicGaussianCPU => exact isoGauss_counted env pnode s hok
  | AnisotropicGaussianCPU => exact anisoGauss_counted env pnode s hok
  | GradientCPU => exact gradient_counted env pnode s hok
  | BoxGPU => exact absurd hcpu (by decide)
  | GaussianGPU => exact absurd hcpu (by decide)
  | GradientGPU => exact absurd hcpu (by decide)

/-- C13 (witness). The isotropic box filter on a 2x2x2 grid, nobody cancelling, returns 1
with one range update and one noise update. -/
theorem C13_updates_on_success_witness :
    (runStrategy idleEnv (boxNode 3 3 3)
      (sceneOf (floatImage 2 2 2) (floatImage 2 2 2) (fun _ => 1) (fun _ => 1) 0)
      Strategy.IsotropicBoxCPU).1 = Outcome.returned 1 ∧
    (runStrategy idleEnv (boxNode 3 3 3)
      (sceneOf (floatImage 2 2 2) (floatImage 2 2 2) (fun _ => 1) (fun _ => 1) 0)
      Strategy.IsotropicBoxCPU).2.rangeUpdates = 0 + 1 ∧
    (runStrategy idleEnv (boxNode 3 3 3)
      (sceneOf (floatImage 2 2 2) (floatImage 2 2 2) (fun _ => 1) (fun _ => 1) 0)
      Strategy.IsotropicBoxCPU).2.noiseUpdates = 0 + 1 :=
  ⟨(isoBox_ctl_quiet idleEnv idleEnv_quiet (boxNode 3 3 3)
      (sceneOf (floatImage 2 2 2) (floatImage 2 2 2) (fun _ => 1) (fun _ => 1) 0)
      (floatImage 2 2 2) (sceneOf_valid _ _ _ _ _ (by norm_num [floatImage]) (Or.inl rfl))).1,
    C13_updates_on_success idleEnv (boxNode 3 3 3)
      (sceneOf (floatImage 2 2 2) (floatImage 2 2 2) (fun _ => 1) (fun _ => 1) 0)
      Strategy.IsotropicBoxCPU rfl
      (isoBox_ctl_quiet idleEnv idleEnv_quiet (boxNode 3 3 3)
        (sceneOf (floatImage 2 2 2) (floatImage 2 2 2) (fun _ => 1) (fun _ => 1) 0)
        (floatImage 2 2 2)
        (sceneOf_valid _ _ _ _ _ (by norm_num [floatImage]) (Or.inl rfl))).1⟩

theorem Wrote.same (P : Int → Prop) (s : State) : Wrote P s s :=
  ⟨[], rfl, fun _ h => absurd h (by simp)⟩

theorem Wrote.of_state_eq (P : Int → Prop) {s t : State} (h : t.statusWrites = s.statusWrites) :
    Wrote P s t :=
  ⟨[], by simpa using h, fun _ h => absurd h (by simp)⟩

theorem Wrote.chain {P : Int → Prop} {s t u : State} (h1 : Wrote P s t) (h2 : Wrote P t u) :
    Wrote P s u := by
  obtain ⟨l1, a1, b1⟩ := h1
  obtain ⟨l2, a2, b2⟩ := h2
  refine ⟨l2 ++ l1, by rw [a2, a1, List.append_assoc], ?_⟩
  intro v hv
  rcases List.mem_append.mp hv with h | h
  · exact b2 v h
  · exact b1 v h

theorem Wrote.set (P : Int → Prop) (v : Int) (hv : P v) (s : State) :
    Wrote P s (SetStatus v s) :=
  ⟨[v], rfl, fun w hw => by rw [List.mem_singleton.mp hw]; exact hv⟩

theorem Wrote.mono {P Q : Int → Prop} (hPQ : ∀ v, P v → Q v) {s t : State}
    (h : Wrote P s t) : Wrote Q s t := by
  obtain ⟨l, a, b⟩ := h
  exact ⟨l, a, fun v hv => hPQ v (b v hv)⟩

theorem Wrote.newWrites {P : Int → Prop} {s t : State} (h : Wrote P s t) (v : Int)
    (hv : v ∈ newWrites s t) : P v := by
  obtain ⟨l, a, b⟩ := h
  unfold SlicerAstro.newWrites at hv
  rw [a, List.length_append, Nat.add_sub_cancel, List.take_left'] at hv
  · exact b v hv
  · rfl

/-- Writes of one sweep: the status reads write nothing, the bodies write values
satisfying `P` as long as the local progress counter satisfies `J`. -/
theorem sweep_wrote (env : Env) (N : Int) (body : Int → State → State) (P : Int → Prop)
    (J : Int → Prop)
    (hb : ∀ e t, J t.status → J (body e t).status ∧ Wrote P t (body e t))
    (s : State) (hs : J s.status) :
    Wrote P s (sweep env N body s) ∧ J (sweep env N body s).status := by
  unfold sweep forRange
  refine forLoop_rule (voxelStep env body)
    (fun _ t => Wrote P s t ∧ J t.status) (fun t => Wrote P s t ∧ J t.status)
    _ 0 s ⟨Wrote.same P s, hs⟩ ?_ (fun _ h => h)
  rintro k t _ ⟨hw, hj⟩
  rw [voxelStep_cases]
  have hbt := hb (0 + (k : Int)) (afterRead (readValue env t) t) hj
  have hw2 : Wrote P s (body (0 + (k : Int)) (afterRead (readValue env t) t)) :=
    Wrote.chain (Wrote.chain hw (Wrote.of_state_eq P rfl)) hbt.2
  split_ifs
  · exact ⟨Wrote.chain hw (Wrote.of_state_eq P rfl), hj⟩
  · exact ⟨hw2, hbt.1⟩
  · exact ⟨hw2, hbt.1⟩

/-- Writes of one stage of an isotropic filter: `SetStatus k`, then a sweep whose bodies
write nothing; or a copy `alt`. -/
theorem stage_wrote (env : Env) (N : Int) (body : Int → State → State) (P : Int → Prop)
    (hbw : ∀ e t, (body e t).statusWrites = t.statusWrites) (k : Int) (hk : P k)
    (s alt : State) (C : Prop) [Decidable C] (ha : alt.statusWrites = s.statusWrites) :
    Wrote P s (if C then sweep env N body (SetStatus k s) else alt) := by
  by_cases hC : C
  · rw [if_pos hC]
    exact Wrote.chain (Wrote.set P k hk s)
      (sweep_wrote env N body P (fun _ => True)
        (fun e t _ => ⟨trivial, Wrote.of_state_eq P (hbw e t)⟩) _ trivial).1
  · rw [if_neg hC]
    exact Wrote.of_state_eq P ha

theorem isoBox_wrote (env : Env) (pnode : ParametersNode) (s : State) :
    Wrote isoWrite s (IsotropicBoxCPUFilter env pnode s).2 := by
  unfold IsotropicBoxCPUFilter
  cases hin : s.inputVolume with
  | none => exact Wrote.same _ s
  | some iv =>
    cases hout : s.outputVolume with
    | none => exact Wrote.same _ s
    | some ov =>
      simp only
      have w0 : Wrote isoWrite s (startScratch s) := Wrote.set isoWrite 1 (Or.inl rfl) _
      have w1 : Wrote isoWrite (startScratch s) (boxStageX env pnode ov (startScratch s)) := by
        unfold boxStageX
        refine stage_wrote env _ _ isoWrite ?_ 10 (Or.inr (Or.inl rfl)) _ _ _ ?_
        · intro _ _
          rfl
        · rfl
      have w2 : Wrote isoWrite (boxStageX env pnode ov (startScratch s))
          (boxStageY env pnode ov (boxStageX env pnode ov (startScratch s))) := by
        unfold boxStageY
        refine stage_wrote env _ _ isoWrite ?_ 40 (Or.inr (Or.inr (Or.inl rfl))) _ _ _ ?_
        · intro _ _
          rfl
        · rfl
      have w3 : Wrote isoWrite (boxStageY env pnode ov (boxStageX env pnode ov (startScratch s)))
          (boxStageZ env pnode ov (boxStageY env pnode ov
            (boxStageX env pnode ov (startScratch s)))) := by
        unfold boxStageZ
        refine stage_wrote env _ _ isoWrite ?_ 70 (Or.inr (Or.inr (Or.inr rfl))) _ _ _ ?_
        · intro _ _
          rfl
        · rfl
      split_ifs
      · exact Wrote.of_state_eq _ rfl
      · exact Wrote.chain (Wrote.chain w0 w1) (Wrote.of_state_eq _ rfl)
      · exact Wrote.chain (Wrote.chain (Wrote.chain w0 w1) w2) (Wrote.of_state_eq _ rfl)
      · exact Wrote.chain (Wrote.chain (Wrote.chain (Wrote.chain w0 w1) w2) w3)
          (Wrote.of_state_eq _ rfl)
      · exact Wrote.chain (Wrote.chain (Wrote.chain (Wrote.chain w0 w1) w2) w3)
          (Wrote.of_state_eq _ rfl)
      · exact Wrote.of_state_eq _ rfl

theorem isoGauss_wrote (env : Env) (pnode : ParametersNode) (s : State) :
    Wrote isoWrite s (IsotropicGaussianCPUFilter env pnode s).2 := by
  unfold IsotropicGaussianCPUFilter
  cases hin : s.inputVolume with
  | none => exact Wrote.same _ s
  | some iv =>
    cases hout : s.outputVolume with
    | none => exact Wrote.same _ s
    | some ov =>
      simp only
      have w0 : Wrote isoWrite s (startScratch s) := Wrote.set isoWrite 1 (Or.inl rfl) _
      have w1 : Wrote isoWrite (startScratch s) (gaussStageX env pnode ov (startScratch s)) := by
        unfold gaussStageX
        refine stage_wrote env _ _ isoWrite ?_ 10 (Or.inr (Or.inl rfl)) _ _ _ ?_
        · intro _ _
          rfl
        · rfl
      have w2 : Wrote isoWrite (gaussStageX env pnode ov (startScratch s))
          (gaussStageY env pnode ov (gaussStageX env pnode ov (startScratch s))) := by
        unfold gaussStageY
        refine stage_wrote env _ _ isoWrite ?_ 40 (Or.inr (Or.inr (Or.inl rfl))) _ _ _ ?_
        · intro _ _
          rfl
        · rfl
      have w3 : Wrote isoWrite
          (gaussStageY env pnode ov (gaussStageX env pnode ov (startScratch s)))
          (gaussStageZ env pnode ov (gaussStageY env pnode ov
            (gaussStageX env pnode ov (startScratch s)))) := by
        unfold gaussStageZ
        refine stage_wrote env _ _ isoWrite ?_ 70 (Or.inr (Or.inr (Or.inr rfl))) _ _ _ ?_
        · intro _ _
          rfl
        · rfl
      split_ifs
      · exact Wrote.of_state_eq _ rfl
      · exact Wrote.chain (Wrote.chain w0 w1) (Wrote.of_state_eq _ rfl)
      · exact Wrote.chain (Wrote.chain (Wrote.chain w0 w1) w2) (Wrote.of_state_eq _ rfl)
      · exact Wrote.chain (Wrote.chain (Wrote.chain (Wrote.chain w0 w1) w2) w3)
          (Wrote.of_state_eq _ rfl)
      · exact Wrote.chain (Wrote.chain (Wrote.chain (Wrote.chain w0 w1) w2) w3)
          (Wrote.of_state_eq _ rfl)
      · exact Wrote.of_state_eq _ rfl

theorem progress_wrote (N e : Int) (t : State) (hj : 0 ≤ t.status ∧ t.status % 10 = 0) :
    (0 ≤ (progress N e t).status ∧ (progress N e t).status % 10 = 0) ∧
      Wrote anisoWrite t (progress N e t) := by
  unfold progress
  by_cases h1 : Int.tdiv N 100 = 0
  · simp only [h1, if_true]
    exact ⟨hj, Wrote.of_state_eq _ rfl⟩
  · simp only [h1, if_false]
    by_cases h2 : Int.tdiv e (Int.tdiv N 100) > t.status
    · rw [if_pos h2]
      refine ⟨⟨?_, ?_⟩, ?_⟩
      · show 0 ≤ t.status + 10
        omega
      · show (t.status + 10) % 10 = 0
        omega
      · exact Wrote.chain (Wrote.of_state_eq _ rfl) (Wrote.set anisoWrite (t.status + 10)
          (Or.inr ⟨by omega, by omega⟩) _)
    · rw [if_neg h2]
      exact ⟨hj, Wrote.same _ t⟩

theorem aniso_tail_wrote (env : Env) (s t : State) (ht : Wrote anisoWrite (startDirect s) t) :
    Wrote anisoWrite s (if t.divByZero then (Outcome.divisionByZero, t)
      else if t.cancel then (Outcome.returned 0, t)
      else (Outcome.returned 1, updateAttributes env t)).2 := by
  have w0 : Wrote anisoWrite s (startDirect s) :=
    Wrote.chain (Wrote.of_state_eq _ rfl) (Wrote.set anisoWrite 1 (Or.inl rfl) _)
  split_ifs
  · exact Wrote.chain w0 ht
  · exact Wrote.chain w0 ht
  · exact Wrote.chain (Wrote.chain w0 ht) (Wrote.of_state_eq _ rfl)

theorem anisoBox_wrote (env : Env) (pnode : ParametersNode) (s : State) :
    Wrote anisoWrite s (AnisotropicBoxCPUFilter env pnode s).2 := by
  unfold AnisotropicBoxCPUFilter
  cases hin : s.inputVolume with
  | none => exact Wrote.same _ s
  | some iv =>
    cases hout : s.outputVolume with
    | none => exact Wrote.same _ s
    | some ov =>
      simp only
      by_cases hcomp : ov.NumberOfScalarComponents > 1
      · rw [if_pos hcomp]
        exact Wrote.same _ s
      · rw [if_neg hcomp]
        by_cases htype : ov.DataType = VTK_FLOAT ∨ ov.DataType = VTK_DOUBLE
        · rw [if_pos htype]
          refine aniso_tail_wrote env s _ (sweep_wrote env _ _ anisoWrite
            (fun v => 0 ≤ v ∧ v % 10 = 0) ?_ (startDirect s) ⟨le_refl 0, rfl⟩).1
          intro e t hj
          rw [anisoBoxVoxel_eq]
          exact progress_wrote _ _ _ hj
        · rw [if_neg htype]
          exact Wrote.same _ s

theorem anisoGauss_wrote (env : Env) (pnode : ParametersNode) (s : State) :
    Wrote anisoWrite s (AnisotropicGaussianCPUFilter env pnode s).2 := by
  unfold AnisotropicGaussianCPUFilter
  cases hin : s.inputVolume with
  | none => exact Wrote.same _ s
  | some iv =>
    cases hout : s.outputVolume with
    | none => exact Wrote.same _ s
    | some ov =>
      simp only
      by_cases hcomp : ov.NumberOfScalarComponents > 1
      · rw [if_pos hcomp]
        exact Wrote.same _ s
      · rw [if_neg hcomp]
        by_cases htype : ov.DataType = VTK_FLOAT ∨ ov.DataType = VTK_DOUBLE
        · rw [if_pos htype]
          refine aniso_tail_wrote env s _ (sweep_wrote env _ _ anisoWrite
            (fun v => 0 ≤ v ∧ v % 10 = 0) ?_ (startDirect s) ⟨le_refl 0, rfl⟩).1
          intro e t hj
          unfold anisoGaussVoxel
          exact progress_wrote _ _ _ hj
        · rw [if_neg htype]
          exact Wrote.same _ s

theorem gradient_loop_wrote (env : Env) (pnode : ParametersNode) (d0 S N : Int) (n2 : ℚ)
    (s : State) :
    Wrote (gradientWrite pnode) s
      (forRange 1 pnode.Accuracy (gradientIteration env pnode d0 S N n2) s) := by
  unfold forRange
  refine forLoop_rule (gradientIteration env pnode d0 S N n2)
    (fun _ t => Wrote (gradientWrite pnode) s t) (fun t => Wrote (gradientWrite pnode) s t)
    _ 1 s (Wrote.same _ s) ?_ (fun _ h => h)
  intro k t hk hw
  have hsw : Wrote (gradientWrite pnode) t
      (sweep env N (gradientVoxel pnode d0 S N n2) t) :=
    (sweep_wrote env N (gradientVoxel pnode d0 S N n2) (gradientWrite pnode) (fun _ => True)
      (fun e u _ => ⟨trivial, Wrote.of_state_eq _ (by rw [gradientVoxel_eq])⟩) t trivial).1
  rw [gradientIteration_eq]
  split_ifs
  · exact Wrote.chain (Wrote.chain hw hsw) (Wrote.of_state_eq _ rfl)
  · refine Wrote.chain (Wrote.chain hw hsw) (Wrote.chain (Wrote.of_state_eq _ rfl)
      (Wrote.set (gradientWrite pnode) _ (Or.inr ⟨1 + (k : Int), by omega, by omega, rfl⟩) _))

theorem gradient_wrote (env : Env) (pnode : ParametersNode) (s : State) :
    Wrote (gradientWrite pnode) s (GradientCPUFilter env pnode s).2 := by
  unfold GradientCPUFilter
  cases hin : s.inputVolume with
  | none => exact Wrote.same _ s
  | some iv =>
    cases hout : s.outputVolume with
    | none => exact Wrote.same _ s
    | some ov =>
      simp only
      have w0 : Wrote (gradientWrite pnode) s (startScratch s) :=
        Wrote.set (gradientWrite pnode) 1 (Or.inl rfl) _
      have w1 := gradient_loop_wrote env pnode ov.dims0 (ov.dims0 * ov.dims1)
        (ov.dims0 * ov.dims1 * ov.dims2) (s.RMS * s.RMS * pnode.K * pnode.K) (startScratch s)
      split_ifs
      · exact Wrote.of_state_eq _ rfl
      · exact Wrote.chain w0 w1
      · exact Wrote.chain (Wrote.chain w0 w1) (Wrote.of_state_eq _ rfl)
      · exact Wrote.of_state_eq _ rfl

theorem Idle.quiet {env : Env} (h : Idle env) : Quiet env := by
  intro t
  rw [h t]
  simp

theorem idleEnv_idle : Idle idleEnv := fun _ => rfl

theorem readValue_idle (env : Env) (h : Idle env) (t : State) : readValue env t = t.Status := by
  unfold readValue
  rw [h]
  rfl

/-- A sweep whose bodies pass nothing to `SetStatus` leaves the write log as it was. -/
theorem sweep_plain_writes (env : Env) (N : Int) (body : Int → State → State)
    (hbw : ∀ e t, (body e t).statusWrites = t.statusWrites) (s : State) :
    (sweep env N body s).statusWrites = s.statusWrites := by
  obtain ⟨l, a, b⟩ := (sweep_wrote env N body (fun _ => False) (fun _ => True)
    (fun e t _ => ⟨trivial, Wrote.of_state_eq _ (hbw e t)⟩) s trivial).1
  cases l with
  | nil => simpa using a
  | cons v l => exact absurd (b v (List.mem_cons_self v l)) id

/-- With nobody else writing the status cell, a sweep with a plain body leaves the cell as
it was. -/
theorem sweep_plain_idle (env : Env) (hi : Idle env) (N : Int)
    (body : Int → State → State) (hb : PlainBody body) (s : State)
    (hc : s.cancel = false) (hd : s.divByZero = false) (hs : s.Status ≠ -1) :
    (sweep env N body s).Status = s.Status := by
  unfold sweep forRange
  refine forLoop_rule (voxelStep env body)
    (fun _ t => t.cancel = false ∧ t.divByZero = false ∧ t.Status = s.Status)
    (fun t => t.Status = s.Status) _ 0 s ⟨hc, hd, rfl⟩ ?_ (fun t h => h.2.2)
  rintro k t _ ⟨h1, h2, h3⟩
  obtain ⟨hf, hp⟩ := hb
  obtain ⟨p1, p2, -⟩ := hp (0 + (k : Int)) (afterRead (readValue env t) t)
  have f1 := (hf (0 + (k : Int)) (afterRead (readValue env t) t)).1
  have hr : readValue env t = t.Status := readValue_idle env hi t
  rw [voxelStep_cases, if_neg (by rw [hr, h3, h1]; simp [hs])]
  have hbd : (body (0 + (k : Int)) (afterRead (readValue env t) t)).divByZero = false := by
    rw [p1]
    exact h2
  have hbs : (body (0 + (k : Int)) (afterRead (readValue env t) t)).Status = s.Status := by
    rw [p2]
    show readValue env t = s.Status
    rw [hr, h3]
  have hbc : (body (0 + (k : Int)) (afterRead (readValue env t) t)).cancel = false := by
    rw [f1]
    exact h1
  rw [if_neg (by rw [hbd]; simp)]
  exact ⟨hbc, hbd, hbs⟩

/-- Status cell after one stage of an isotropic filter when nobody else writes it. -/
theorem stage_idle (env : Env) (hi : Idle env) (N : Int) (body : Int → State → State)
    (hb : PlainBody body) (k : Int) (hk : k ≠ -1) (s alt : State) (C : Prop) [Decidable C]
    (hc : s.cancel = false) (hd : s.divByZero = false) (hs : s.Status ≠ -1)
    (ha2 : alt.cancel = s.cancel) (ha : alt.Status = s.Status) :
    (if C then sweep env N body (SetStatus k s) else alt).cancel = false ∧
    (if C then sweep env N body (SetStatus k s) else alt).Status ≠ -1 ∧
    (if C then sweep env N body (SetStatus k s) else alt).Status =
      if C then k else s.Status := by
  by_cases hC : C
  · rw [if_pos hC, if_pos hC]
    obtain ⟨q1, q2, -⟩ := sweep_plain_quiet env hi.quiet N body hb (SetStatus k s) hc hd hk
    exact ⟨q1, q2, sweep_plain_idle env hi N body hb (SetStatus k s) hc hd hk⟩
  · rw [if_neg hC, if_neg hC]
    exact ⟨by rw [ha2]; exact hc, by rw [ha]; exact hs, ha⟩

theorem boxStageX_idle (env : Env) (hi : Idle env) (pnode : ParametersNode) (ov : ImageData)
    (s : State) (hc : s.cancel = false) (hd : s.divByZero = false) (hs : s.Status ≠ -1) :
    (boxStageX env pnode ov s).cancel = false ∧ (boxStageX env pnode ov s).Status ≠ -1 ∧
      (boxStageX env pnode ov s).Status = if pnode.ParameterX > 0.001 then 10 else s.Status := by
  unfold boxStageX
  exact stage_idle env hi _ _ (plain_boxVoxelX _ _ _) 10 (by norm_num) _ _ _ hc hd hs rfl rfl

theorem boxStageY_idle (env : Env) (hi : Idle env) (pnode : ParametersNode) (ov : ImageData)
    (s : State) (hc : s.cancel = false) (hd : s.divByZero = false) (hs : s.Status ≠ -1) :
    (boxStageY env pnode ov s).cancel = false ∧ (boxStageY env pnode ov s).Status ≠ -1 ∧
      (boxStageY env pnode ov s).Status = if pnode.ParameterY > 0.001 then 40 else s.Status := by
  unfold boxStageY
  exact stage_idle env hi _ _ (plain_boxVoxelY _ _ _ _) 40 (by norm_num) _ _ _ hc hd hs rfl rfl

theorem boxStageZ_idle (env : Env) (hi : Idle env) (pnode : ParametersNode) (ov : ImageData)
    (s : State) (hc : s.cancel = false) (hd : s.divByZero = false) (hs : s.Status ≠ -1) :
    (boxStageZ env pnode ov s).cancel = false ∧ (boxStageZ env pnode ov s).Status ≠ -1 ∧
      (boxStageZ env pnode ov s).Status = if pnode.ParameterZ > 0.001 then 70 else s.Status := by
  unfold boxStageZ
  exact stage_idle env hi _ _ (plain_boxVoxelZ _ _ _ _) 70 (by norm_num) _ _ _ hc hd hs rfl rfl

theorem gaussStageX_idle (env : Env) (hi : Idle env) (pnode : ParametersNode) (ov : ImageData)
    (s : State) (hc : s.cancel = false) (hd : s.divByZero = false) (hs : s.Status ≠ -1) :
    (gaussStageX env pnode ov s).cancel = false ∧ (gaussStageX env pnode ov s).Status ≠ -1 ∧
      (gaussStageX env pnode ov s).Status = if pnode.ParameterX > 0.001 then 10 else s.Status := by
  unfold gaussStageX
  exact stage_idle env hi _ _ (plain_gaussVoxelX _ _ _ _) 10 (by norm_num) _ _ _ hc hd hs rfl rfl

theorem gaussStageY_idle (env : Env) (hi : Idle env) (pnode : ParametersNode) (ov : ImageData)
    (s : State) (hc : s.cancel = false) (hd : s.divByZero = false) (hs : s.Status ≠ -1) :
    (gaussStageY env pnode ov s).cancel = false ∧ (gaussStageY env pnode ov s).Status ≠ -1 ∧
      (gaussStageY env pnode ov s).Status = if pnode.ParameterY > 0.001 then 40 else s.Status := by
  unfold gaussStageY
  exact stage_idle env hi _ _ (plain_gaussVoxelY _ _ _ _ _) 40 (by norm_num) _ _ _ hc hd hs rfl rfl

theorem gaussStageZ_idle (env : Env) (hi : Idle env) (pnode : ParametersNode) (ov : ImageData)
    (s : State) (hc : s.cancel = false) (hd : s.divByZero = false) (hs : s.Status ≠ -1) :
    (gaussStageZ env pnode ov s).cancel = false ∧ (gaussStageZ env pnode ov s).Status ≠ -1 ∧
      (gaussStageZ env pnode ov s).Status = if pnode.ParameterZ > 0.001 then 70 else s.Status := by
  unfold gaussStageZ
  exact stage_idle env hi _ _ (plain_gaussVoxelZ _ _ _ _ _) 70 (by norm_num) _ _ _ hc hd hs rfl rfl

theorem isoBox_idle (env : Env) (hi : Idle env) (pnode : ParametersNode) (s : State)
    (ov : ImageData) (hv : ValidScene s ov) :
    (IsotropicBoxCPUFilter env pnode s).1 = Outcome.returned 1 ∧
    (IsotropicBoxCPUFilter env pnode s).2.Status = isoFinalStatus pnode := by
  obtain ⟨⟨iv, hin⟩, hout, hcomp, htype⟩ := hv
  obtain ⟨a1, a2, a3⟩ := boxStageX_idle env hi pnode ov (startScratch s) rfl rfl
    (by simp [startScratch, SetStatus])
  have d1 := (boxStageX_ctl env pnode ov (startScratch s) rfl).2
  obtain ⟨b1, b2, b3⟩ := boxStageY_idle env hi pnode ov _ a1 d1 a2
  have d2 := (boxStageY_ctl env pnode ov _ d1).2
  obtain ⟨c1, -, c3⟩ := boxStageZ_idle env hi pnode ov _ b1 d2 b2
  have c1r : (releaseTemp (boxStageZ env pnode ov (boxStageY env pnode ov
        (boxStageX env pnode ov (startScratch s))))).cancel = false := c1
  unfold IsotropicBoxCPUFilter
  simp only [hin, hout, hcomp, htype, if_true, if_false, a1, b1, c1r, Bool.false_eq_true]
  refine ⟨trivial, ?_⟩
  show (boxStageZ env pnode ov (boxStageY env pnode ov
        (boxStageX env pnode ov (startScratch s)))).Status = _
  rw [c3, b3, a3]
  rfl

theorem isoGauss_idle (env : Env) (hi : Idle env) (pnode : ParametersNode) (s : State)
    (ov : ImageData) (hv : ValidScene s ov) :
    (IsotropicGaussianCPUFilter env pnode s).1 = Outcome.returned 1 ∧
    (IsotropicGaussianCPUFilter env pnode s).2.Status = isoFinalStatus pnode := by
  obtain ⟨⟨iv, hin⟩, hout, hcomp, htype⟩ := hv
  obtain ⟨a1, a2, a3⟩ := gaussStageX_idle env hi pnode ov (startScratch s) rfl rfl
    (by simp [startScratch, SetStatus])
  have d1 := (gaussStageX_ctl env pnode ov (startScratch s) rfl).2
  obtain ⟨b1, b2, b3⟩ := gaussStageY_idle env hi pnode ov _ a1 d1 a2
  have d2 := (gaussStageY_ctl env pnode ov _ d1).2
  obtain ⟨c1, -, c3⟩ := gaussStageZ_idle env hi pnode ov _ b1 d2 b2
  have c1r : (releaseTemp (gaussStageZ env pnode ov (gaussStageY env pnode ov
        (gaussStageX env pnode ov (startScratch s))))).cancel = false := c1
  unfold IsotropicGaussianCPUFilter
  simp only [hin, hout, hcomp, htype, if_true, if_false, a1, b1, c1r, Bool.false_eq_true]
  refine ⟨trivial, ?_⟩
  show (gaussStageZ env pnode ov (gaussStageY env pnode ov
        (gaussStageX env pnode ov (startScratch s)))).Status = _
  rw [c3, b3, a3]
  rfl

theorem newWrites_append (s t : State) (l : List Int)
    (h : t.statusWrites = l ++ s.statusWrites) : newWrites s t = l := by
  unfold newWrites
  rw [h, List.length_append, Nat.add_sub_cancel, List.take_left']
  rfl

/-- The gradient loop, nobody cancelling, with at least one iteration: the last value passed
to `SetStatus` is `Accuracy * 100 / Accuracy = 100`, and it is what the cell holds when
the loop ends. -/
theorem gradient_loop_status (env : Env) (hq : Quiet env) (pnode : ParametersNode)
    (d0 S N : Int) (n2 : ℚ) (s : State) (hc : s.cancel = false) (hd : s.divByZero = false)
    (hs : s.Status ≠ -1) (hA : 1 ≤ pnode.Accuracy) :
    (forRange 1 pnode.Accuracy (gradientIteration env pnode d0 S N n2) s).Status = 100 ∧
    100 ∈ newWrites s (forRange 1 pnode.Accuracy (gradientIteration env pnode d0 S N n2) s) := by
  unfold forRange
  have hn : (pnode.Accuracy + 1 - 1).toNat = pnode.Accuracy.toNat := by
    congr 1
    ring
  rw [hn]
  refine forLoop_rule (gradientIteration env pnode d0 S N n2)
    (fun k t => t.cancel = false ∧ t.divByZero = false ∧ t.Status ≠ -1 ∧
      ∃ l, t.statusWrites = l ++ s.statusWrites ∧
        (1 ≤ k → t.Status = Int.tdiv ((k : Int) * 100) pnode.Accuracy ∧
          Int.tdiv ((k : Int) * 100) pnode.Accuracy ∈ l))
    (fun t => t.Status = 100 ∧ 100 ∈ newWrites s t)
    _ 1 s ⟨hc, hd, hs, [], rfl, fun h => (Nat.not_succ_le_zero 0 h).elim⟩ ?_ ?_
  · rintro k t hk ⟨h1, h2, h3, l, hl, -⟩
    obtain ⟨q1, q2, -⟩ := sweep_plain_quiet env hq N (gradientVoxel pnode d0 S N n2)
      (plain_gradientVoxel pnode d0 S N n2) t h1 h2 h3
    have hsafe := sweep_safe env N (gradientVoxel pnode d0 S N n2)
      (plain_gradientVoxel pnode d0 S N n2) t h2
    have hw := sweep_plain_writes env N (gradientVoxel pnode d0 S N n2)
      (fun _ _ => by rw [gradientVoxel_eq]) t
    rw [gradientIteration_eq, if_neg (by rw [q1]; simp)]
    have hcast : (((k + 1 : Nat) : Int)) = 1 + (k : Int) := by push_cast; ring
    refine ⟨q1, hsafe, ?_, Int.tdiv ((1 + (k : Int)) * 100) pnode.Accuracy :: l, ?_, ?_⟩
    · show Int.tdiv ((1 + (k : Int)) * 100) pnode.Accuracy ≠ -1
      have := Int.tdiv_nonneg (a := (1 + (k : Int)) * 100) (b := pnode.Accuracy) (by omega)
        (by omega)
      omega
    · show Int.tdiv ((1 + (k : Int)) * 100) pnode.Accuracy ::
        (sweep env N (gradientVoxel pnode d0 S N n2) t).statusWrites = _
      rw [hw, hl]
      rfl
    · intro _
      rw [hcast]
      exact ⟨rfl, List.mem_cons_self _ _⟩
  · rintro t ⟨-, -, -, l, hl, h⟩
    have hk : 1 ≤ pnode.Accuracy.toNat := by omega
    obtain ⟨e1, e2⟩ := h hk
    have hval : Int.tdiv (((pnode.Accuracy.toNat : Nat) : Int) * 100) pnode.Accuracy = 100 := by
      have hA0 : pnode.Accuracy ≠ 0 := by omega
      rw [Int.toNat_of_nonneg (by omega)]
      exact Int.mul_tdiv_cancel_left 100 hA0
    rw [hval] at e1 e2
    rw [newWrites_append s t l hl]
    exact ⟨e1, e2⟩

/-- `GradientCPUFilter` on a valid scene, nobody cancelling, at least one iteration: the call
returns 1, has passed 100 to `SetStatus`, and leaves 100 in the status cell. -/
theorem gradient_status (env : Env) (hq : Quiet env) (pnode : ParametersNode) (s : State)
    (ov : ImageData) (hv : ValidScene s ov) (hA : 1 ≤ pnode.Accuracy) :
    (GradientCPUFilter env pnode s).1 = Outcome.returned 1 ∧
    (GradientCPUFilter env pnode s).2.Status = 100 ∧
    100 ∈ newWrites s (GradientCPUFilter env pnode s).2 := by
  have h1 := (gradient_ctl_quiet env hq pnode s ov hv).1
  obtain ⟨⟨iv, hin⟩, hout, hcomp, htype⟩ := hv
  obtain ⟨q1, -⟩ := gradient_loop_quiet env hq pnode ov.dims0 (ov.dims0 * ov.dims1)
    (ov.dims0 * ov.dims1 * ov.dims2) (s.RMS * s.RMS * pnode.K * pnode.K)
    (startScratch s) rfl rfl (by simp [startScratch, SetStatus])
  obtain ⟨g1, g2⟩ := gradient_loop_status env hq pnode ov.dims0 (ov.dims0 * ov.dims1)
    (ov.dims0 * ov.dims1 * ov.dims2) (s.RMS * s.RMS * pnode.K * pnode.K)
    (startScratch s) rfl rfl (by simp [startScratch, SetStatus]) hA
  refine ⟨h1, ?_, ?_⟩
  · unfold GradientCPUFilter
    simp only [hin, hout, hcomp, htype, if_true, if_false, q1, Bool.false_eq_true]
    exact g1
  · obtain ⟨l, hl, -⟩ := gradient_loop_wrote env pnode ov.dims0 (ov.dims0 * ov.dims1)
      (ov.dims0 * ov.dims1 * ov.dims2) (s.RMS * s.RMS * pnode.K * pnode.K) (startScratch s)
    rw [newWrites_append _ _ l hl] at g2
    have hfin : (GradientCPUFilter env pnode s).2.statusWrites = (l ++ [1]) ++ s.statusWrites := by
      unfold GradientCPUFilter
      simp only [hin, hout, hcomp, htype, if_true, if_false, q1, Bool.false_eq_true]
      show (forRange 1 pnode.Accuracy _ (startScratch s)).statusWrites = _
      rw [hl]
      simp [startScratch, SetStatus]
    rw [newWrites_append _ _ _ hfin]
    exact List.mem_append_left _ g2

theorem ediv_step (k d : Int) (hd : 1 ≤ d) : k / d ≤ (k - 1) / d + 1 := by
  have h1 : (k - 1 + 1 * d) / d = (k - 1) / d + 1 :=
    Int.add_mul_ediv_right (k - 1) 1 (by omega)
  rw [← h1]
  exact Int.ediv_le_ediv (by omega) (by omega)

theorem last_quotient (N : Int) (hN : 100 ≤ N) : 99 ≤ (N - 1) / (N / 100) := by
  apply Int.le_ediv_of_mul_le
  · omega
  · have := Int.ediv_mul_le N (show (100 : Int) ≠ 0 by norm_num)
    omega

/-- An anisotropic sweep on a grid of at least 100 voxels with nobody else writing the status
cell: the progress counter climbs in steps of 10 past 99, every step is written to the
cell, and the cell ends holding the counter. -/
theorem sweep_aniso_idle (env : Env) (hi : Idle env) (N : Int) (hN : 100 ≤ N)
    (body : Int → State → State)
    (hbody : ∀ e t, ∃ o, body e t = progress N e { t with outPixel := o })
    (s : State) (hc : s.cancel = false) (hd : s.divByZero = false) (hst : s.status = 0)
    (hS : s.Status = 1) :
    (sweep env N body s).cancel = false ∧ (sweep env N body s).divByZero = false ∧
    100 ≤ (sweep env N body s).Status ∧ (sweep env N body s).Status % 10 = 0 ∧
    100 ∈ newWrites s (sweep env N body s) := by
  have hd1 : 1 ≤ N / 100 := by omega
  have hdt : Int.tdiv N 100 = N / 100 := Int.tdiv_eq_ediv (by omega) (by norm_num)
  unfold sweep forRange
  rw [sweep_toNat]
  refine forLoop_rule (voxelStep env body)
    (fun k t => t.cancel = false ∧ t.divByZero = false ∧ 0 ≤ t.status ∧ t.status % 10 = 0 ∧
      t.Status = (if t.status = 0 then 1 else t.status) ∧
      (1 ≤ k → ((k : Int) - 1) / (N / 100) ≤ t.status) ∧
      ∃ l, t.statusWrites = l ++ s.statusWrites ∧
        ∀ m : Int, 1 ≤ m → 10 * m ≤ t.status → 10 * m ∈ l)
    (fun t => t.cancel = false ∧ t.divByZero = false ∧ 100 ≤ t.Status ∧ t.Status % 10 = 0 ∧
      100 ∈ newWrites s t)
    N.toNat 0 s ?_ ?_ ?_
  · refine ⟨hc, hd, by omega, by omega, by rw [hst, hS]; rfl,
      fun h => (Nat.not_succ_le_zero 0 h).elim, [], rfl, ?_⟩
    intro m hm1 hm2
    omega
  · rintro k t hk ⟨h1, h2, h3, h4, h5, h6, l, hl, hm⟩
    have hr : readValue env t = t.Status := readValue_idle env hi t
    have hSpos : 1 ≤ t.Status := by
      rw [h5]
      split_ifs <;> omega
    obtain ⟨o, ho⟩ := hbody (0 + (k : Int)) (afterRead (readValue env t) t)
    rw [voxelStep_cases, if_neg (by rw [hr, h1]; simp; omega), ho]
    have hk0 : (0 : Int) ≤ (k : Int) := by omega
    have hq : Int.tdiv (0 + (k : Int)) (Int.tdiv N 100) = (k : Int) / (N / 100) := by
      rw [hdt, zero_add]
      exact Int.tdiv_eq_ediv hk0 (by omega)
    have hle : (k : Int) / (N / 100) ≤ t.status + 1 := by
      by_cases hk1 : 1 ≤ k
      · have := ediv_step (k : Int) (N / 100) hd1
        have := h6 hk1
        omega
      · have hk00 : k = 0 := by omega
        rw [hk00]
        simp
        omega
    have hdne : ¬ Int.tdiv N 100 = 0 := by rw [hdt]; omega
    unfold progress
    simp only [hdne, if_false, hq]
    by_cases hgt : (k : Int) / (N / 100) > t.status
    · have hgt2 : (k : Int) / (N / 100) > (afterRead (readValue env t) t).status := hgt
      rw [if_pos hgt2]
      simp only [SetStatus, afterRead, h2, Bool.false_eq_true, if_false]
      refine ⟨h1, trivial, by omega, by omega, ?_, ?_, (t.status + 10) :: l, ?_, ?_⟩
      · rw [if_neg (by omega)]
      · intro _
        push_cast
        simp only [add_sub_cancel_right]
        omega
      · rw [hl]
        rfl
      · intro m hm1 hm2
        by_cases hmm : 10 * m ≤ t.status
        · exact List.mem_cons_of_mem _ (hm m hm1 hmm)
        · have : 10 * m = t.status + 10 := by omega
          rw [this]
          exact List.mem_cons_self _ _
    · have hgt2 : ¬ (k : Int) / (N / 100) > (afterRead (readValue env t) t).status := hgt
      rw [if_neg hgt2]
      simp only [afterRead, h2, Bool.false_eq_true, if_false]
      refine ⟨h1, trivial, h3, h4, ?_, ?_, l, hl, hm⟩
      · show readValue env t = _
        rw [hr, h5]
      · intro _
        push_cast
        simp only [add_sub_cancel_right]
        omega
  · rintro t ⟨h1, h2, h3, h4, h5, h6, l, hl, hm⟩
    have hlast := last_quotient N hN
    have hk : 1 ≤ N.toNat := by omega
    have h6b := h6 hk
    rw [Int.toNat_of_nonneg (by omega)] at h6b
    have hge : 100 ≤ t.status := by omega
    have hSt : t.Status = t.status := by
      rw [h5, if_neg (by omega)]
    refine ⟨h1, h2, by rw [hSt]; exact hge, by rw [hSt]; exact h4, ?_⟩
    rw [newWrites_append s t l hl]
    exact hm 10 (by norm_num) (by omega)

theorem sweep_aniso_wrote (env : Env) (N : Int) (body : Int → State → State)
    (hbody : ∀ e t, ∃ o, body e t = progress N e { t with outPixel := o })
    (s : State) (hj : 0 ≤ s.status ∧ s.status % 10 = 0) :
    Wrote anisoWrite s (sweep env N body s) :=
  (sweep_wrote env N body anisoWrite (fun v => 0 ≤ v ∧ v % 10 = 0)
    (fun e t hj => by
      obtain ⟨o, ho⟩ := hbody e t
      rw [ho]
      exact progress_wrote _ _ _ hj) s hj).1

theorem aniso_tail_idle (env : Env) (s t : State) (hc : t.cancel = false)
    (hd : t.divByZero = false) (h1 : 100 ≤ t.Status) (h2 : t.Status % 10 = 0)
    (h3 : 100 ∈ newWrites (startDirect s) t) (hw : Wrote anisoWrite (startDirect s) t) :
    (if t.divByZero then (Outcome.divisionByZero, t)
      else if t.cancel then (Outcome.returned 0, t)
      else (Outcome.returned 1, updateAttributes env t)).1 = Outcome.returned 1 ∧
    100 ≤ (if t.divByZero then (Outcome.divisionByZero, t)
      else if t.cancel then (Outcome.returned 0, t)
      else (Outcome.returned 1, updateAttributes env t)).2.Status ∧
    (if t.divByZero then (Outcome.divisionByZero, t)
      else if t.cancel then (Outcome.returned 0, t)
      else (Outcome.returned 1, updateAttributes env t)).2.Status % 10 = 0 ∧
    100 ∈ newWrites s (if t.divByZero then (Outcome.divisionByZero, t)
      else if t.cancel then (Outcome.returned 0, t)
      else (Outcome.returned 1, updateAttributes env t)).2 := by
  rw [hd, hc]
  simp only [Bool.false_eq_true, if_false]
  refine ⟨trivial, h1, h2, ?_⟩
  obtain ⟨l, hl, -⟩ := hw
  rw [newWrites_append _ _ l hl] at h3
  have hfin : (updateAttributes env t).statusWrites = (l ++ [1]) ++ s.statusWrites := by
    show t.statusWrites = _
    rw [hl]
    simp [startDirect, SetStatus]
  rw [newWrites_append _ _ _ hfin]
  exact List.mem_append_left _ h3

/-- `AnisotropicBoxCPUFilter` on a valid scene of at least 100 voxels with nobody else
writing the status cell: the call returns 1, has passed 100 to `SetStatus`, and leaves a
multiple of ten, at least 100, in the cell. -/
theorem anisoBox_idle (env : Env) (hi : Idle env) (pnode : ParametersNode) (s : State)
    (ov : ImageData) (hv : ValidScene s ov) (hN : 100 ≤ ov.dims0 * ov.dims1 * ov.dims2) :
    (AnisotropicBoxCPUFilter env pnode s).1 = Outcome.returned 1 ∧
    100 ≤ (AnisotropicBoxCPUFilter env pnode s).2.Status ∧
    (AnisotropicBoxCPUFilter env pnode s).2.Status % 10 = 0 ∧
    100 ∈ newWrites s (AnisotropicBoxCPUFilter env pnode s).2 := by
  obtain ⟨⟨iv, hin⟩, hout, hcomp, htype⟩ := hv
  have hb : ∀ e t, ∃ o, anisoBoxVoxel ov.dims0 (ov.dims0 * ov.dims1)
      (ov.dims0 * ov.dims1 * ov.dims2)
      (halfWidth (forceOdd (toInt pnode.ParameterX)))
      (halfWidth (forceOdd (toInt pnode.ParameterY)))
      (halfWidth (forceOdd (toInt pnode.ParameterZ)))
      (forceOdd (toInt pnode.ParameterX) * forceOdd (toInt pnode.ParameterY) *
        forceOdd (toInt pnode.ParameterZ)) e t =
      progress (ov.dims0 * ov.dims1 * ov.dims2) e { t with outPixel := o } :=
    fun e t => ⟨_, anisoBoxVoxel_eq _ _ _ _ _ _ _ e t⟩
  obtain ⟨q1, q2, q3, q4, q5⟩ := sweep_aniso_idle env hi _ hN _ hb (startDirect s) rfl rfl
    rfl rfl
  have hw := sweep_aniso_wrote env _ _ hb (startDirect s) ⟨le_refl 0, rfl⟩
  unfold AnisotropicBoxCPUFilter
  simp only [hin, hout, hcomp, htype, if_true, if_false]
  exact aniso_tail_idle env s _ q1 q2 q3 q4 q5 hw

/-- The same for `AnisotropicGaussianCPUFilter`. -/
theorem anisoGauss_idle (env : Env) (hi : Idle env) (pnode : ParametersNode) (s : State)
    (ov : ImageData) (hv : ValidScene s ov) (hN : 100 ≤ ov.dims0 * ov.dims1 * ov.dims2) :
    (AnisotropicGaussianCPUFilter env pnode s).1 = Outcome.returned 1 ∧
    100 ≤ (AnisotropicGaussianCPUFilter env pnode s).2.Status ∧
    (AnisotropicGaussianCPUFilter env pnode s).2.Status % 10 = 0 ∧
    100 ∈ newWrites s (AnisotropicGaussianCPUFilter env pnode s).2 := by
  obtain ⟨⟨iv, hin⟩, hout, hcomp, htype⟩ := hv
  have hb : ∀ e t, ∃ o, anisoGaussVoxel ov.dims0 (ov.dims0 * ov.dims1)
      (ov.dims0 * ov.dims1 * ov.dims2)
      (toInt (((pnode.KernelLengthX - 1 : Int) : ℚ) / 2))
      (toInt (((pnode.KernelLengthY - 1 : Int) : ℚ) / 2))
      (toInt (((pnode.KernelLengthZ - 1 : Int) : ℚ) / 2))
      (pnode.KernelLengthX * pnode.KernelLengthY) pnode.KernelLengthX
      pnode.GaussianKernel3D e t =
      progress (ov.dims0 * ov.dims1 * ov.dims2) e { t with outPixel := o } :=
    fun e t => ⟨_, rfl⟩
  obtain ⟨q1, q2, q3, q4, q5⟩ := sweep_aniso_idle env hi _ hN _ hb (startDirect s) rfl rfl
    rfl rfl
  have hw := sweep_aniso_wrote env _ _ hb (startDirect s) ⟨le_refl 0, rfl⟩
  unfold AnisotropicGaussianCPUFilter
  simp only [hin, hout, hcomp, htype, if_true, if_false]
  exact aniso_tail_idle env s _ q1 q2 q3 q4 q5 hw

theorem runStrategy_wrote (env : Env) (pnode : ParametersNode) (s : State) (st : Strategy) :
    Wrote (statusWriteShape pnode st) s (runStrategy env pnode s st).2 := by
  cases st with
  | IsotropicBoxCPU => exact isoBox_wrote env pnode s
  | AnisotropicBoxCPU => exact anisoBox_wrote env pnode s
  | IsotropicGaussianCPU => exact isoGauss_wrote env pnode s
  | AnisotropicGaussianCPU => exact anisoGauss_wrote env pnode s
  | GradientCPU => exact gradient_wrote env pnode s
  | BoxGPU => exact Wrote.of_state_eq _ rfl
  | GaussianGPU => exact Wrote.of_state_eq _ rfl
  | GradientGPU => exact Wrote.of_state_eq _ rfl

theorem isoWrite_range (v : Int) (h : isoWrite v) : 1 ≤ v ∧ v ≤ 99 := by
  unfold isoWrite at h
  omega

theorem gradientWrite_range (pnode : ParametersNode) (v : Int) (h : gradientWrite pnode v) :
    0 ≤ v ∧ v ≤ 100 := by
  rcases h with h | ⟨i, h1, h2, h3⟩
  · omega
  · have hA : 0 < pnode.Accuracy := by omega
    have e : Int.tdiv (i * 100) pnode.Accuracy = i * 100 / pnode.Accuracy :=
      Int.tdiv_eq_ediv (by omega) (by omega)
    rw [h3, e]
    constructor
    · exact Int.ediv_nonneg (by omega) (by omega)
    · apply Int.ediv_le_of_le_mul hA
      nlinarith

/-- C14 (counterexample). `GradientCPUFilter` with one iteration on a 2x2x2 grid, nobody
touching the status cell: the call passes 100 to `SetStatus`, a value outside 1..99. -/
theorem C14_counterexample :
    (100 : Int) ∈ newWrites
      (sceneOf (floatImage 2 2 2) (floatImage 2 2 2) (fun _ => 1) (fun _ => 1) 0)
      (GradientCPUFilter idleEnv (gradientNode 1)
        (sceneOf (floatImage 2 2 2) (floatImage 2 2 2) (fun _ => 1) (fun _ => 1) 0)).2 ∧
    ¬ ((1 : Int) ≤ 100 ∧ (100 : Int) ≤ 99) :=
  ⟨(gradient_status idleEnv idleEnv_quiet (gradientNode 1)
      (sceneOf (floatImage 2 2 2) (floatImage 2 2 2) (fun _ => 1) (fun _ => 1) 0)
      (floatImage 2 2 2) (sceneOf_valid _ _ _ _ _ (by norm_num [floatImage]) (Or.inl rfl))
      (by decide)).2.2, by decide⟩

/-- C14 (amended). Whatever happens to the status cell during a run, the values a strategy
passes to `SetStatus` are: 1, 10, 40 or 70 for the isotropic box and Gaussian filters, which
therefore stay within 1..99; 1 and multiples of ten from 10 upward for the anisotropic
filters; 1 and `i * 100 / Accuracy` for iteration numbers `1 <= i <= Accuracy` for the
gradient filter, all within 0..100. The gradient filter with at least one iteration, not
cancelled, does write 100, and so do the anisotropic filters in the build without OpenMP on
a grid of at least 100 voxels when nobody else writes the cell (the OpenMP build, whose
progress update divides by `numElements / (numProcs * 100)`, is not covered). -/
theorem C14_status_values_written (env : Env) (pnode : ParametersNode) (s : State)
    (st : Strategy) :
    (∀ v ∈ newWrites s (runStrategy env pnode s st).2, statusWriteShape pnode st v) ∧
    (st.isIsotropic = true →
      ∀ v ∈ newWrites s (runStrategy env pnode s st).2, 1 ≤ v ∧ v ≤ 99) ∧
    (st = Strategy.GradientCPU →
      ∀ v ∈ newWrites s (runStrategy env pnode s st).2, 0 ≤ v ∧ v ≤ 100) ∧
    (∀ ov, Quiet env → ValidScene s ov → st = Strategy.GradientCPU → 1 ≤ pnode.Accuracy →
      100 ∈ newWrites s (runStrategy env pnode s st).2) ∧
    (∀ ov, Idle env → ValidScene s ov → st.isAnisotropic = true →
      100 ≤ ov.dims0 * ov.dims1 * ov.dims2 →
      100 ∈ newWrites s (runStrategy env pnode s st).2) := by
  have hw := runStrategy_wrote env pnode s st
  refine ⟨fun v hv => hw.newWrites v hv, ?_, ?_, ?_, ?_⟩
  · intro hiso v hv
    have h := hw.newWrites v hv
    cases st with
    | IsotropicBoxCPU => exact isoWrite_range v h
    | IsotropicGaussianCPU => exact isoWrite_range v h
    | AnisotropicBoxCPU => exact absurd hiso (by decide)
    | AnisotropicGaussianCPU => exact absurd hiso (by decide)
    | GradientCPU => exact absurd hiso (by decide)
    | BoxGPU => exact absurd hiso (by decide)
    | GaussianGPU => exact absurd hiso (by decide)
    | GradientGPU => exact absurd hiso (by decide)
  · intro hst v hv
    subst hst
    exact gradientWrite_range pnode v (hw.newWrites v hv)
  · intro ov hq hv hst hA
    subst hst
    exact (gradient_status env hq pnode s ov hv hA).2.2
  · intro ov hi hv hst hN
    cases st with
    | AnisotropicBoxCPU => exact (anisoBox_idle env hi pnode s ov hv hN).2.2.2
    | AnisotropicGaussianCPU => exact (anisoGauss_idle env hi pnode s ov hv hN).2.2.2
    | IsotropicBoxCPU => exact absurd hst (by decide)
    | IsotropicGaussianCPU => exact absurd hst (by decide)
    | GradientCPU => exact absurd hst (by decide)
    | BoxGPU => exact absurd hst (by decide)
    | GaussianGPU => exact absurd hst (by decide)
    | GradientGPU => exact absurd hst (by decide)

/-- C14 (witness). The isotropic box filter on a 2x2x2 grid with kernel length 3 passes only
values within 1..99 to `SetStatus`. -/
theorem C14_status_values_written_witness :
    ∀ v ∈ newWrites (sceneOf (floatImage 2 2 2) (floatImage 2 2 2) (fun _ => 1) (fun _ => 1) 0)
      (runStrategy idleEnv (boxNode 3 3 3)
        (sceneOf (floatImage 2 2 2) (floatImage 2 2 2) (fun _ => 1) (fun _ => 1) 0)
        Strategy.IsotropicBoxCPU).2, 1 ≤ v ∧ v ≤ 99 :=
  (C14_status_values_written idleEnv (boxNode 3 3 3)
    (sceneOf (floatImage 2 2 2) (floatImage 2 2 2) (fun _ => 1) (fun _ => 1) 0)
    Strategy.IsotropicBoxCPU).2.1 rfl

/-- `GradientCPUFilter` with no iteration to run (`Accuracy <= 0`): the call returns 1 and
the status cell holds the 1 written at the start. -/
theorem gradient_no_iteration (env : Env) (pnode : ParametersNode) (s : State)
    (ov : ImageData) (hv : ValidScene s ov) (hA : pnode.Accuracy ≤ 0) :
    (GradientCPUFilter env pnode s).1 = Outcome.returned 1 ∧
    (GradientCPUFilter env pnode s).2.Status = 1 := by
  obtain ⟨⟨iv, hin⟩, hout, hcomp, htype⟩ := hv
  have hloop : ∀ d0 S N n2, forRange 1 pnode.Accuracy
      (gradientIteration env pnode d0 S N n2) (startScratch s) = startScratch s := by
    intro d0 S N n2
    unfold forRange
    have hn : (pnode.Accuracy + 1 - 1).toNat = 0 := by omega
    rw [hn]
    rfl
  unfold GradientCPUFilter
  simp only [hin, hout, hcomp, htype, if_true, if_false, hloop]
  exact ⟨rfl, rfl⟩

theorem isoFinalStatus_pos (pnode : ParametersNode) : 1 ≤ isoFinalStatus pnode := by
  unfold isoFinalStatus
  split_ifs <;> norm_num

/-- C15 (counterexample). `IsotropicBoxCPUFilter` with kernel length 3 on a 2x2x2 grid,
nobody else touching the status cell: the call returns 1 and the cell holds 70, not 0. -/
theorem C15_counterexample :
    (IsotropicBoxCPUFilter idleEnv (boxNode 3 3 3)
      (sceneOf (floatImage 2 2 2) (floatImage 2 2 2) (fun _ => 1) (fun _ => 1) 0)).1 =
        Outcome.returned 1 ∧
    (IsotropicBoxCPUFilter idleEnv (boxNode 3 3 3)
      (sceneOf (floatImage 2 2 2) (floatImage 2 2 2) (fun _ => 1) (fun _ => 1) 0)).2.Status =
        70 := by
  obtain ⟨h1, h2⟩ := isoBox_idle idleEnv idleEnv_idle (boxNode 3 3 3)
    (sceneOf (floatImage 2 2 2) (floatImage 2 2 2) (fun _ => 1) (fun _ => 1) 0)
    (floatImage 2 2 2) (sceneOf_valid _ _ _ _ _ (by norm_num [floatImage]) (Or.inl rfl))
  refine ⟨h1, ?_⟩
  rw [h2]
  norm_num [isoFinalStatus, boxNode]

/-- C15 (amended). No CPU filter strategy resets the status cell. On a valid scene with
nobody else writing the cell (for the anisotropic filters: on a grid of at least 100
voxels), the call returns 1 and the cell holds the last progress value written: 70, 40, 10
or 1 for the isotropic filters, according to the last pass that ran; a multiple of ten from
100 upward for the anisotropic filters; 100 for the gradient filter, or 1 when it has no
iteration to run. In every case the value is not 0. -/
theorem C15_status_cell_on_success (env : Env) (hi : Idle env) (pnode : ParametersNode)
    (s : State) (ov : ImageData) (hv : ValidScene s ov) (st : Strategy)
    (hcpu : st.isCPU = true)
    (hN : st.isAnisotropic = true → 100 ≤ ov.dims0 * ov.dims1 * ov.dims2) :
    (runStrategy env pnode s st).1 = Outcome.returned 1 ∧
    successStatus pnode st (runStrategy env pnode s st).2.Status ∧
    (runStrategy env pnode s st).2.Status ≠ 0 := by
  cases st with
  | IsotropicBoxCPU =>
    obtain ⟨h1, h2⟩ := isoBox_idle env hi pnode s ov hv
    refine ⟨h1, h2, ?_⟩
    show (IsotropicBoxCPUFilter env pnode s).2.Status ≠ 0
    have := isoFinalStatus_pos pnode
    rw [h2]
    omega
  | IsotropicGaussianCPU =>
    obtain ⟨h1, h2⟩ := isoGauss_idle env hi pnode s ov hv
    refine ⟨h1, h2, ?_⟩
    show (IsotropicGaussianCPUFilter env pnode s).2.Status ≠ 0
    have := isoFinalStatus_pos pnode
    rw [h2]
    omega
  | AnisotropicBoxCPU =>
    obtain ⟨h1, h2, h3, -⟩ := anisoBox_idle env hi pnode s ov hv (hN rfl)
    refine ⟨h1, ⟨h2, h3⟩, ?_⟩
    show (AnisotropicBoxCPUFilter env pnode s).2.Status ≠ 0
    omega
  | AnisotropicGaussianCPU =>
    obtain ⟨h1, h2, h3, -⟩ := anisoGauss_idle env hi pnode s ov hv (hN rfl)
    refine ⟨h1, ⟨h2, h3⟩, ?_⟩
    show (AnisotropicGaussianCPUFilter env pnode s).2.Status ≠ 0
    omega
  | GradientCPU =>
    by_cases hA : 1 ≤ pnode.Accuracy
    · obtain ⟨h1, h2, -⟩ := gradient_status env hi.quiet pnode s ov hv hA
      refine ⟨h1, ?_, ?_⟩
      · show (GradientCPUFilter env pnode s).2.Status = if 1 ≤ pnode.Accuracy then 100 else 1
        rw [if_pos hA, h2]
      · show (GradientCPUFilter env pnode s).2.Status ≠ 0
        rw [h2]
        norm_num
    · obtain ⟨h1, h2⟩ := gradient_no_iteration env pnode s ov hv (by omega)
      refine ⟨h1, ?_, ?_⟩
      · show (GradientCPUFilter env pnode s).2.Status = if 1 ≤ pnode.Accuracy then 100 else 1
        rw [if_neg hA, h2]
      · show (GradientCPUFilter env pnode s).2.Status ≠ 0
        rw [h2]
        norm_num
  | BoxGPU => exact absurd hcpu (by decide)
  | GaussianGPU => exact absurd hcpu (by decide)
  | GradientGPU => exact absurd hcpu (by decide)

/-- C15 (witness). The gradient filter with 20 iterations on a 2x2x2 grid, nobody else
touching the status cell, returns 1 and leaves 100 in the cell. -/
theorem C15_status_cell_on_success_witness :
    (runStrategy idleEnv (gradientNode 20)
      (sceneOf (floatImage 2 2 2) (floatImage 2 2 2) (fun _ => 1) (fun _ => 1) 0)
      Strategy.GradientCPU).1 = Outcome.returned 1 ∧
    (runStrategy idleEnv (gradientNode 20)
      (sceneOf (floatImage 2 2 2) (floatImage 2 2 2) (fun _ => 1) (fun _ => 1) 0)
      Strategy.GradientCPU).2.Status = 100 := by
  have H := C15_status_cell_on_success idleEnv idleEnv_idle (gradientNode 20)
    (sceneOf (floatImage 2 2 2) (floatImage 2 2 2) (fun _ => 1) (fun _ => 1) 0)
    (floatImage 2 2 2) (sceneOf_valid _ _ _ _ _ (by norm_num [floatImage]) (Or.inl rfl))
    Strategy.GradientCPU rfl (fun h => absurd h (by decide))
  refine ⟨H.1, ?_⟩
  have h2 := H.2.1
  exact h2

theorem voxelStep_withInPixel (p : Buffer) (env : Env) (body : Int → State → State)
    (hb : ∀ e t, body e (withInPixel p t) = withInPixel p (body e t)) (e : Int) (t : State) :
    voxelStep env body e (withInPixel p t) = mapStep (withInPixel p) (voxelStep env body e t) := by
  rw [voxelStep_cases, voxelStep_cases]
  have h1 : readValue env (withInPixel p t) = readValue env t := rfl
  have h2 : afterRead (readValue env t) (withInPixel p t) =
      withInPixel p (afterRead (readValue env t) t) := rfl
  have h3 : (withInPixel p t).cancel = t.cancel := rfl
  rw [h1, h2, h3, hb]
  have h4 : (withInPixel p (body e (afterRead (readValue env t) t))).divByZero =
      (body e (afterRead (readValue env t) t)).divByZero := rfl
  rw [h4]
  by_cases c1 : readValue env t = -1 ∨ t.cancel = true
  · rw [if_pos c1, if_pos c1]
    rfl
  · rw [if_neg c1, if_neg c1]
    by_cases c2 : (body e (afterRead (readValue env t) t)).divByZero = true
    · rw [if_pos c2, if_pos c2]
      rfl
    · rw [if_neg c2, if_neg c2]
      rfl

theorem sweep_withInPixel (p : Buffer) (env : Env) (N : Int)
    (body : Int → State → State)
    (hb : ∀ e t, body e (withInPixel p t) = withInPixel p (body e t)) (t : State) :
    sweep env N body (withInPixel p t) = withInPixel p (sweep env N body t) :=
  forLoop_comm (withInPixel p) (voxelStep env body) (voxelStep_withInPixel p env body hb) _ _ _

theorem boxStageX_withInPixel (p : Buffer) (env : Env) (pnode : ParametersNode)
    (ov : ImageData) (t : State) :
    boxStageX env pnode ov (withInPixel p t) = withInPixel p (boxStageX env pnode ov t) := by
  unfold boxStageX
  by_cases c : pnode.ParameterX > 0.001
  · simp only [c, if_true]
    refine sweep_withInPixel p env _ _ ?_ (SetStatus 10 t)
    intro _ _
    rfl
  · simp only [c, if_false]

theorem boxStageY_withInPixel (p : Buffer) (env : Env) (pnode : ParametersNode)
    (ov : ImageData) (t : State) :
    boxStageY env pnode ov (withInPixel p t) = withInPixel p (boxStageY env pnode ov t) := by
  unfold boxStageY
  by_cases c : pnode.ParameterY > 0.001
  · simp only [c, if_true]
    refine sweep_withInPixel p env _ _ ?_ (SetStatus 40 t)
    intro _ _
    rfl
  · simp only [c, if_false]
    rfl

theorem boxStageZ_withInPixel (p : Buffer) (env : Env) (pnode : ParametersNode)
    (ov : ImageData) (t : State) :
    boxStageZ env pnode ov (withInPixel p t) = withInPixel p (boxStageZ env pnode ov t) := by
  unfold boxStageZ
  by_cases c : pnode.ParameterZ > 0.001
  · simp only [c, if_true]
    refine sweep_withInPixel p env _ _ ?_ (SetStatus 70 t)
    intro _ _
    rfl
  · simp only [c, if_false]
    rfl

theorem gaussStageX_withInPixel (p : Buffer) (env : Env) (pnode : ParametersNode)
    (ov : ImageData) (t : State) :
    gaussStageX env pnode ov (withInPixel p t) = withInPixel p (gaussStageX env pnode ov t) := by
  unfold gaussStageX
  by_cases c : pnode.ParameterX > 0.001
  · simp only [c, if_true]
    refine sweep_withInPixel p env _ _ ?_ (SetStatus 10 t)
    intro _ _
    rfl
  · simp only [c, if_false]

theorem gaussStageY_withInPixel (p : Buffer) (env : Env) (pnode : ParametersNode)
    (ov : ImageData) (t : State) :
    gaussStageY env pnode ov (withInPixel p t) = withInPixel p (gaussStageY env pnode ov t) := by
  unfold gaussStageY
  by_cases c : pnode.ParameterY > 0.001
  · simp only [c, if_true]
    refine sweep_withInPixel p env _ _ ?_ (SetStatus 40 t)
    intro _ _
    rfl
  · simp only [c, if_false]
    rfl

theorem gaussStageZ_withInPixel (p : Buffer) (env : Env) (pnode : ParametersNode)
    (ov : ImageData) (t : State) :
    gaussStageZ env pnode ov (withInPixel p t) = withInPixel p (gaussStageZ env pnode ov t) := by
  unfold gaussStageZ
  by_cases c : pnode.ParameterZ > 0.001
  · simp only [c, if_true]
    refine sweep_withInPixel p env _ _ ?_ (SetStatus 70 t)
    intro _ _
    rfl
  · simp only [c, if_false]
    rfl

theorem gradientIteration_withInPixel (p : Buffer) (env : Env) (pnode : ParametersNode)
    (d0 S N : Int) (n2 : ℚ) (i : Int) (t : State) :
    gradientIteration env pnode d0 S N n2 i (withInPixel p t) =
      mapStep (withInPixel p) (gradientIteration env pnode d0 S N n2 i t) := by
  have hs : sweep env N (gradientVoxel pnode d0 S N n2) (withInPixel p t) =
      withInPixel p (sweep env N (gradientVoxel pnode d0 S N n2) t) := by
    refine sweep_withInPixel p env _ _ ?_ t
    intro e u
    rw [gradientVoxel_eq, gradientVoxel_eq]
    rfl
  rw [gradientIteration_eq, gradientIteration_eq, hs]
  have h : (withInPixel p (sweep env N (gradientVoxel pnode d0 S N n2) t)).cancel =
      (sweep env N (gradientVoxel pnode d0 S N n2) t).cancel := rfl
  rw [h]
  by_cases c : (sweep env N (gradientVoxel pnode d0 S N n2) t).cancel = true
  · rw [if_pos c, if_pos c]
    rfl
  · rw [if_neg c, if_neg c]
    rfl

theorem isoBox_withInPixel (env : Env) (pnode : ParametersNode) (s : State) (p : Buffer) :
    IsotropicBoxCPUFilter env pnode (withInPixel p s) =
      ((IsotropicBoxCPUFilter env pnode s).1,
        withInPixel p (IsotropicBoxCPUFilter env pnode s).2) := by
  unfold IsotropicBoxCPUFilter
  have hi : (withInPixel p s).inputVolume = s.inputVolume := rfl
  have ho : (withInPixel p s).outputVolume = s.outputVolume := rfl
  have e0 : startScratch (withInPixel p s) = withInPixel p (startScratch s) := rfl
  have ec : ∀ t, (withInPixel p t).cancel = t.cancel := fun _ => rfl
  have er : ∀ t, releaseTemp (withInPixel p t) = withInPixel p (releaseTemp t) := fun _ => rfl
  rw [hi, ho]
  cases s.inputVolume with
  | none => rfl
  | some iv =>
    cases s.outputVolume with
    | none => rfl
    | some ov =>
      simp only [e0, boxStageX_withInPixel, boxStageY_withInPixel, boxStageZ_withInPixel, ec, er]
      by_cases c1 : ov.NumberOfScalarComponents > 1
      · simp only [c1, if_true]
        rfl
      · by_cases c2 : ov.DataType = VTK_FLOAT ∨ ov.DataType = VTK_DOUBLE
        · simp only [c1, c2, if_true, if_false]
          split_ifs <;> rfl
        · simp only [c1, c2, if_false]
          rfl

theorem isoGauss_withInPixel (env : Env) (pnode : ParametersNode) (s : State) (p : Buffer) :
    IsotropicGaussianCPUFilter env pnode (withInPixel p s) =
      ((IsotropicGaussianCPUFilter env pnode s).1,
        withInPixel p (IsotropicGaussianCPUFilter env pnode s).2) := by
  unfold IsotropicGaussianCPUFilter
  have hi : (withInPixel p s).inputVolume = s.inputVolume := rfl
  have ho : (withInPixel p s).outputVolume = s.outputVolume := rfl
  have e0 : startScratch (withInPixel p s) = withInPixel p (startScratch s) := rfl
  have ec : ∀ t, (withInPixel p t).cancel = t.cancel := fun _ => rfl
  have er : ∀ t, releaseTemp (withInPixel p t) = withInPixel p (releaseTemp t) := fun _ => rfl
  rw [hi, ho]
  cases s.inputVolume with
  | none => rfl
  | some iv =>
    cases s.outputVolume with
    | none => rfl
    | some ov =>
      simp only [e0, gaussStageX_withInPixel, gaussStageY_withInPixel,
        gaussStageZ_withInPixel, ec, er]
      by_cases c1 : ov.NumberOfScalarComponents > 1
      · simp only [c1, if_true]
        rfl
      · by_cases c2 : ov.DataType = VTK_FLOAT ∨ ov.DataType = VTK_DOUBLE
        · simp only [c1, c2, if_true, if_false]
          split_ifs <;> rfl
        · simp only [c1, c2, if_false]
          rfl

theorem gradient_withInPixel (env : Env) (pnode : ParametersNode) (s : State) (p : Buffer) :
    GradientCPUFilter env pnode (withInPixel p s) =
      ((GradientCPUFilter env pnode s).1, withInPixel p (GradientCPUFilter env pnode s).2) := by
  unfold GradientCPUFilter
  have hi : (withInPixel p s).inputVolume = s.inputVolume := rfl
  have ho : (withInPixel p s).outputVolume = s.outputVolume := rfl
  have e0 : startScratch (withInPixel p s) = withInPixel p (startScratch s) := rfl
  have e1 : (withInPixel p s).RMS = s.RMS := rfl
  have ec : ∀ t, (withInPixel p t).cancel = t.cancel := fun _ => rfl
  have el : ∀ d0 S N n2 t, forRange 1 pnode.Accuracy (gradientIteration env pnode d0 S N n2)
      (withInPixel p t) = withInPixel p (forRange 1 pnode.Accuracy
        (gradientIteration env pnode d0 S N n2) t) := fun d0 S N n2 t =>
    forLoop_comm (withInPixel p) _
      (gradientIteration_withInPixel p env pnode d0 S N n2) _ _ t
  rw [hi, ho]
  cases s.inputVolume with
  | none => rfl
  | some iv =>
    cases s.outputVolume with
    | none => rfl
    | some ov =>
      simp only [e0, e1, el, ec]
      by_cases c1 : ov.NumberOfScalarComponents > 1
      · simp only [c1, if_true]
        rfl
      · by_cases c2 : ov.DataType = VTK_FLOAT ∨ ov.DataType = VTK_DOUBLE
        · simp only [c1, c2, if_true, if_false]
          split_ifs <;> rfl
        · simp only [c1, c2, if_false]
          rfl

theorem anisoGaussTaps_eq (nx S N hx hy hz KS KL : Int) (G src : Buffer) (e : Int)
    (d : Buffer) :
    anisoGaussTaps nx S N hx hy hz KS KL G src e d =
      write d e (d e + anisoGaussSum nx S N hx hy hz KS KL G src e) := by
  have hinner : ∀ (j k : Int), (fun (i : Int) (d : Buffer) =>
      let posData := e + i
      let ref := Int.tdiv e nx * nx
      if posData < ref then LoopStep.cont d
      else if posData ≥ ref + nx then LoopStep.brk d
      else
        let posData := posData + j * nx
        let ref := Int.tdiv e S * S
        if posData < ref then LoopStep.cont d
        else if posData ≥ ref + S then LoopStep.brk d
        else
          let posData := posData + k * S
          if posData < 0 then LoopStep.cont d
          else if posData ≥ N then LoopStep.brk d
          else
            let posKernel := (k + hz) * KS + (j + hy) * KL + (i + hx)
            LoopStep.cont (write d e (d e + src posData * G posKernel))) =
      tapBody (anisoTap nx S N e j k (fun i =>
        src (e + i + j * nx + k * S) * G ((k + hz) * KS + (j + hy) * KL + (i + hx)))) e := by
    intro j k
    funext i d
    simp only [tapBody, anisoTap]
    split_ifs <;> rfl
  unfold anisoGaussTaps anisoGaussSum
  simp only [hinner, forRange_tapBody _ (anisoTap_mono _ _ _ _ _ _ _), anisoTap_val,
    forRange_take]

theorem anisoGaussVoxel_eq (nx S N hx hy hz KS KL : Int) (G : Buffer) (e : Int) (s : State) :
    anisoGaussVoxel nx S N hx hy hz KS KL G e s =
      progress N e
        { s with outPixel :=
            write s.outPixel e (anisoGaussSum nx S N hx hy hz KS KL G s.inPixel e) } := by
  unfold anisoGaussVoxel
  simp only [anisoGaussTaps_eq, write_same, write_write, zero_add]

theorem anisoGauss_quiet (env : Env) (hq : Quiet env) (pnode : ParametersNode) (s : State)
    (ov : ImageData) (hv : ValidScene s ov) (hN : 100 ≤ ov.dims0 * ov.dims1 * ov.dims2) :
    (AnisotropicGaussianCPUFilter env pnode s).1 = Outcome.returned 1 ∧
    (AnisotropicGaussianCPUFilter env pnode s).2.outPixel =
      anisoGaussOut pnode ov s.inPixel s.outPixel := by
  obtain ⟨⟨iv, hin⟩, hout, hcomp, htype⟩ := hv
  obtain ⟨st, rd, ls, wr, hst, e⟩ := sweep_aniso_quiet env hq (ov.dims0 * ov.dims1 * ov.dims2)
    hN
    (anisoGaussVoxel ov.dims0 (ov.dims0 * ov.dims1) (ov.dims0 * ov.dims1 * ov.dims2)
      (toInt (((pnode.KernelLengthX - 1 : Int) : ℚ) / 2))
      (toInt (((pnode.KernelLengthY - 1 : Int) : ℚ) / 2))
      (toInt (((pnode.KernelLengthZ - 1 : Int) : ℚ) / 2))
      (pnode.KernelLengthX * pnode.KernelLengthY) pnode.KernelLengthX
      pnode.GaussianKernel3D)
    (anisoGaussSum ov.dims0 (ov.dims0 * ov.dims1) (ov.dims0 * ov.dims1 * ov.dims2)
      (toInt (((pnode.KernelLengthX - 1 : Int) : ℚ) / 2))
      (toInt (((pnode.KernelLengthY - 1 : Int) : ℚ) / 2))
      (toInt (((pnode.KernelLengthZ - 1 : Int) : ℚ) / 2))
      (pnode.KernelLengthX * pnode.KernelLengthY) pnode.KernelLengthX
      pnode.GaussianKernel3D s.inPixel)
    (startDirect s)
    (fun e t ht => by rw [anisoGaussVoxel_eq, ht]; rfl) rfl rfl
    (by simp [startDirect, SetStatus]) (by simp [startDirect, SetStatus])
  unfold AnisotropicGaussianCPUFilter
  simp only [hin, hout, hcomp, htype, if_true, if_false]
  rw [e]
  simp only [updateAttributes, startDirect, SetStatus, anisoGaussOut, Bool.false_eq_true,
    if_false]
  exact ⟨trivial, trivial⟩

/-- The anisotropic Gaussian tap loops read the source grid only at indices in `[0, N)`. -/
theorem anisoGaussSum_local (nx S N hx hy hz KS KL : Int) (G I J : Buffer) (e : Int)
    (hIJ : ∀ p, 0 ≤ p → p < N → I p = J p) :
    anisoGaussSum nx S N hx hy hz KS KL G I e = anisoGaussSum nx S N hx hy hz KS KL G J e := by
  unfold anisoGaussSum
  apply winSum_congr
  intro k _ _
  apply winSum_congr
  intro j _ _
  apply winSum_congr
  intro i _ _
  by_cases hok : anisoTapOK nx S N e i j k
  · rw [if_pos hok, if_pos hok, hIJ _ hok.2.2.1 hok.2.2.2]
  · rw [if_neg hok, if_neg hok]

theorem isoBox_zero_grid (iv : ImageData) (nx ny nz : Int) (hx : 1 ≤ nx) (hy : 1 ≤ ny)
    (hz : 1 ≤ nz) (inp : Buffer) (status : Int) :
    (IsotropicBoxCPUFilter idleEnv (boxNode 3 3 3)
      (sceneOf iv (floatImage nx ny nz) inp (fun _ => 0) status)).1 = Outcome.returned 1 ∧
    (IsotropicBoxCPUFilter idleEnv (boxNode 3 3 3)
      (sceneOf iv (floatImage nx ny nz) inp (fun _ => 0) status)).2.outPixel 0 = 0 := by
  have hv : ValidScene (sceneOf iv (floatImage nx ny nz) inp (fun _ => 0) status)
      (floatImage nx ny nz) :=
    sceneOf_valid _ _ _ _ _ (by norm_num [floatImage]) (Or.inl rfl)
  have h3 : (3 : ℚ) = ((2 * 1 + 1 : Int) : ℚ) := by norm_num
  have hdims : (floatImage nx ny nz).dims0 = nx ∧ (floatImage nx ny nz).dims1 = ny ∧
      (floatImage nx ny nz).dims2 = nz := ⟨rfl, rfl, rfl⟩
  have hval := isoBox_const idleEnv idleEnv_quiet (boxNode 3 3 3) _ (floatImage nx ny nz) hv 1
    (by norm_num) h3 h3 h3 0 (fun _ _ _ => rfl) 0 0 0 (le_refl 0) (by rw [hdims.1]; omega)
    (le_refl 0) (by rw [hdims.2.1]; omega) (le_refl 0) (by rw [hdims.2.2]; omega)
  have hidx : idx (floatImage nx ny nz).dims0 (floatImage nx ny nz).dims1 0 0 0 = 0 := by
    simp [idx]
  rw [hidx, zero_mul, zero_div] at hval
  refine ⟨isoBox_quiet_fst idleEnv idleEnv_quiet _ _ (floatImage nx ny nz) hv ?_ ?_, hval⟩
  · rw [hdims.1]
    omega
  · rw [hdims.2.1]
    omega

/-- C17 (counterexample). Two runs of `IsotropicBoxCPUFilter` with kernel length 3 on a 2x2x2
grid, both with the input grid all 1.0 and both returning 1: with the output grid initially
all 1.0 the corner voxel ends as 8/27, with the output grid initially all 0.0 it ends
as 0. -/
theorem C17_counterexample :
    (sceneOf (floatImage 2 2 2) (floatImage 2 2 2) (fun _ => 1) (fun _ => 1) 0).inPixel =
      (sceneOf (floatImage 2 2 2) (floatImage 2 2 2) (fun _ => 1) (fun _ => 0) 0).inPixel ∧
    (IsotropicBoxCPUFilter idleEnv (boxNode 3 3 3)
      (sceneOf (floatImage 2 2 2) (floatImage 2 2 2) (fun _ => 1) (fun _ => 1) 0)).1 =
        Outcome.returned 1 ∧
    (IsotropicBoxCPUFilter idleEnv (boxNode 3 3 3)
      (sceneOf (floatImage 2 2 2) (floatImage 2 2 2) (fun _ => 1) (fun _ => 0) 0)).1 =
        Outcome.returned 1 ∧
    (IsotropicBoxCPUFilter idleEnv (boxNode 3 3 3)
      (sceneOf (floatImage 2 2 2) (floatImage 2 2 2) (fun _ => 1) (fun _ => 1) 0)).2.outPixel 0 ≠
    (IsotropicBoxCPUFilter idleEnv (boxNode 3 3 3)
      (sceneOf (floatImage 2 2 2) (floatImage 2 2 2) (fun _ => 1) (fun _ => 0) 0)).2.outPixel
        0 := by
  obtain ⟨a1, a2⟩ := isoBox_corner (floatImage 2 2 2) 2 2 2 (by norm_num) (by norm_num)
    (by norm_num) (fun _ => 1) 0
  obtain ⟨b1, b2⟩ := isoBox_zero_grid (floatImage 2 2 2) 2 2 2 (by norm_num) (by norm_num)
    (by norm_num) (fun _ => 1) 0
  refine ⟨rfl, a1, b1, ?_⟩
  rw [a2, b2]
  norm_num

/-- C17 (amended). What the output grid of a run is a function of. The isotropic box and
Gaussian filters and the gradient filter never read the voxels of the input grid: with any
other input voxels the call returns the same code and leaves the same state (they filter
the contents the output grid had before the run), so their output is no function of the
input grid. For the anisotropic box and Gaussian filters in the build without OpenMP, two
runs nobody cancels with the same configuration on grids of the same size of at least 100
voxels, whose input grids agree, both return 1 and produce the same value at every output
voxel, whatever the output grids contained before. The OpenMP build, whose progress update
divides by `numElements / (numProcs * 100)`, zero below `numProcs * 100` voxels, is not
covered. -/
theorem C17_output_function_of (pnode : ParametersNode) (st : Strategy) :
    (st.isMultiPass = true → ∀ (env : Env) (s : State) (p : Buffer),
      runStrategy env pnode (withInPixel p s) st =
        ((runStrategy env pnode s st).1, withInPixel p (runStrategy env pnode s st).2)) ∧
    (st.isAnisotropic = true → ∀ (env1 env2 : Env) (s1 s2 : State) (ov : ImageData),
      Quiet env1 → Quiet env2 → ValidScene s1 ov → ValidScene s2 ov →
      100 ≤ ov.dims0 * ov.dims1 * ov.dims2 →
      (∀ e, 0 ≤ e → e < ov.dims0 * ov.dims1 * ov.dims2 → s1.inPixel e = s2.inPixel e) →
      (runStrategy env1 pnode s1 st).1 = Outcome.returned 1 ∧
      (runStrategy env2 pnode s2 st).1 = Outcome.returned 1 ∧
      ∀ e, 0 ≤ e → e < ov.dims0 * ov.dims1 * ov.dims2 →
        (runStrategy env1 pnode s1 st).2.outPixel e =
          (runStrategy env2 pnode s2 st).2.outPixel e) := by
  constructor
  · intro hmp env s p
    cases st with
    | IsotropicBoxCPU => exact isoBox_withInPixel env pnode s p
    | IsotropicGaussianCPU => exact isoGauss_withInPixel env pnode s p
    | GradientCPU => exact gradient_withInPixel env pnode s p
    | AnisotropicBoxCPU => exact absurd hmp (by decide)
    | AnisotropicGaussianCPU => exact absurd hmp (by decide)
    | BoxGPU => exact absurd hmp (by decide)
    | GaussianGPU => exact absurd hmp (by decide)
    | GradientGPU => exact absurd hmp (by decide)
  · intro han env1 env2 s1 s2 ov hq1 hq2 hv1 hv2 hN hin
    cases st with
    | AnisotropicBoxCPU =>
      refine ⟨anisoBox_quiet_fst env1 hq1 pnode s1 ov hv1 hN,
        anisoBox_quiet_fst env2 hq2 pnode s2 ov hv2 hN, ?_⟩
      intro e h0 h1
      show (AnisotropicBoxCPUFilter env1 pnode s1).2.outPixel e =
        (AnisotropicBoxCPUFilter env2 pnode s2).2.outPixel e
      rw [anisoBox_quiet_out env1 hq1 pnode s1 ov hv1 hN,
        anisoBox_quiet_out env2 hq2 pnode s2 ov hv2 hN]
      unfold anisoBoxOut
      rw [swept_in _ _ _ e h0 h1, swept_in _ _ _ e h0 h1,
        anisoBoxSum_local _ _ _ _ _ _ s1.inPixel s2.inPixel e hin]
    | AnisotropicGaussianCPU =>
      refine ⟨(anisoGauss_quiet env1 hq1 pnode s1 ov hv1 hN).1,
        (anisoGauss_quiet env2 hq2 pnode s2 ov hv2 hN).1, ?_⟩
      intro e h0 h1
      show (AnisotropicGaussianCPUFilter env1 pnode s1).2.outPixel e =
        (AnisotropicGaussianCPUFilter env2 pnode s2).2.outPixel e
      rw [(anisoGauss_quiet env1 hq1 pnode s1 ov hv1 hN).2,
        (anisoGauss_quiet env2 hq2 pnode s2 ov hv2 hN).2]
      unfold anisoGaussOut
      rw [swept_in _ _ _ e h0 h1, swept_in _ _ _ e h0 h1,
        anisoGaussSum_local _ _ _ _ _ _ _ _ _ s1.inPixel s2.inPixel e hin]
    | IsotropicBoxCPU => exact absurd han (by decide)
    | IsotropicGaussianCPU => exact absurd han (by decide)
    | GradientCPU => exact absurd han (by decide)
    | BoxGPU => exact absurd han (by decide)
    | GaussianGPU => exact absurd han (by decide)
    | GradientGPU => exact absurd han (by decide)

/-- C17 (witness). Anisotropic box filter with axis parameters 3, 5, 7 on a 10x10x1 grid of
all 1.0, build without OpenMP: the runs started with the output grid all 0.0 and all 2.0
both return 1 and agree at voxel 0. -/
theorem C17_output_function_of_witness :
    (runStrategy idleEnv (boxNode 3 5 7)
      (sceneOf (floatImage 10 10 1) (floatImage 10 10 1) (fun _ => 1) (fun _ => 0) 0)
      Strategy.AnisotropicBoxCPU).1 = Outcome.returned 1 ∧
    (runStrategy idleEnv (boxNode 3 5 7)
      (sceneOf (floatImage 10 10 1) (floatImage 10 10 1) (fun _ => 1) (fun _ => 2) 0)
      Strategy.AnisotropicBoxCPU).1 = Outcome.returned 1 ∧
    (runStrategy idleEnv (boxNode 3 5 7)
      (sceneOf (floatImage 10 10 1) (floatImage 10 10 1) (fun _ => 1) (fun _ => 0) 0)
      Strategy.AnisotropicBoxCPU).2.outPixel 0 =
    (runStrategy idleEnv (boxNode 3 5 7)
      (sceneOf (floatImage 10 10 1) (floatImage 10 10 1) (fun _ => 1) (fun _ => 2) 0)
      Strategy.AnisotropicBoxCPU).2.outPixel 0 := by
  have H := (C17_output_function_of (boxNode 3 5 7) Strategy.AnisotropicBoxCPU).2 rfl
    idleEnv idleEnv
    (sceneOf (floatImage 10 10 1) (floatImage 10 10 1) (fun _ => 1) (fun _ => 0) 0)
    (sceneOf (floatImage 10 10 1) (floatImage 10 10 1) (fun _ => 1) (fun _ => 2) 0)
    (floatImage 10 10 1) idleEnv_quiet idleEnv_quiet
    (sceneOf_valid _ _ _ _ _ (by norm_num [floatImage]) (Or.inl rfl))
    (sceneOf_valid _ _ _ _ _ (by norm_num [floatImage]) (Or.inl rfl))
    (by norm_num [floatImage]) (fun _ _ _ => rfl)
  exact ⟨H.1, H.2.1, H.2.2 0 (le_refl 0) (by norm_num [floatImage])⟩

/-- C18. For every node and every string `s`: after `SetInputVolumeNodeID(s)` the getter
`GetInputVolumeNodeID()` returns `s` and `GetZeroMomentVolumeNodeID()` returns what it
returned before; after `SetZeroMomentVolumeNodeID(s)` the getter
`GetZeroMomentVolumeNodeID()` returns `s` and `GetInputVolumeNodeID()` returns what it
returned before. -/
theorem C18_node_id_set_get (n : MomentMapsParametersNode) (s : String) :
    (n.SetInputVolumeNodeID (some s)).GetInputVolumeNodeID = some s ∧
    (n.SetInputVolumeNodeID (some s)).GetZeroMomentVolumeNodeID =
      n.GetZeroMomentVolumeNodeID ∧
    (n.SetZeroMomentVolumeNodeID (some s)).GetZeroMomentVolumeNodeID = some s ∧
    (n.SetZeroMomentVolumeNodeID (some s)).GetInputVolumeNodeID = n.GetInputVolumeNodeID := by
  unfold MomentMapsParametersNode.SetInputVolumeNodeID
    MomentMapsParametersNode.SetZeroMomentVolumeNodeID
    MomentMapsParametersNode.GetInputVolumeNodeID
    MomentMapsParametersNode.GetZeroMomentVolumeNodeID
  refine ⟨?_, ?_, ?_, ?_⟩
  · by_cases h : n.InputVolumeNodeID = some s
    · rw [if_pos h]
      exact h
    · rw [if_neg h]
  · by_cases h : n.InputVolumeNodeID = some s
    · rw [if_pos h]
    · rw [if_neg h]
  · by_cases h : n.ZeroMomentVolumeNodeID = some s
    · rw [if_pos h]
      exact h
    · rw [if_neg h]
  · by_cases h : n.ZeroMomentVolumeNodeID = some s
    · rw [if_pos h]
    · rw [if_neg h]

/-- C18 (witness). The sequence of the test: on a new node set the input volume ID to
"WEIN069", then the zero-moment volume ID to "WEIN069_MomentMap0"; both getters return what
was set. -/
theorem C18_node_id_set_get_witness :
    ((MomentMapsParametersNode.new.SetInputVolumeNodeID
        (some "WEIN069")).SetZeroMomentVolumeNodeID
        (some "WEIN069_MomentMap0")).GetInputVolumeNodeID = some "WEIN069" ∧
    ((MomentMapsParametersNode.new.SetInputVolumeNodeID
        (some "WEIN069")).SetZeroMomentVolumeNodeID
        (some "WEIN069_MomentMap0")).GetZeroMomentVolumeNodeID =
      some "WEIN069_MomentMap0" := by
  have h1 := C18_node_id_set_get MomentMapsParametersNode.new "WEIN069"
  have h2 := C18_node_id_set_get
    (MomentMapsParametersNode.new.SetInputVolumeNodeID (some "WEIN069")) "WEIN069_MomentMap0"
  exact ⟨by rw [h2.2.2.2]; exact h1.1, h2.2.2.1⟩

theorem gaussTapsX_eq (nx is is2 : Int) (g src : Buffer) (e : Int) (d : Buffer) :
    gaussTapsX nx is is2 g src e d = write d e (d e + gaussPassX nx is is2 g src e) := by
  have hbody : (fun (i : Int) (d : Buffer) =>
      let ii := e + i + is2
      let ref := Int.tdiv e nx * nx
      if ii < ref then LoopStep.cont d
      else if ii ≥ ref + nx then LoopStep.brk d
      else LoopStep.cont (write d e (d e + src ii * g i))) =
      tapBody (boundedTap (fun i => e + i + is2) (Int.tdiv e nx * nx) (Int.tdiv e nx * nx + nx)
        (fun i => src (e + i + is2) * g i)) e := by
    funext i d
    simp only [tapBody, boundedTap]
    split_ifs <;> rfl
  unfold gaussTapsX gaussPassX
  rw [hbody, forRange_tapBody _ (boundedTap_mono _ (fun a b hab => by
    show e + a + is2 ≤ e + b + is2
    omega) _ _ _)]
  simp only [boundedTap_val]

theorem gaussTapsY_eq (nx S is is2 : Int) (hnx : 0 ≤ nx) (g src : Buffer) (e : Int)
    (d : Buffer) :
    gaussTapsY nx S is is2 g src e d = write d e (d e + gaussPassY nx S is is2 g src e) := by
  have hbody : (fun (i : Int) (d : Buffer) =>
      let ii := e + (i + is2) * nx
      let ref := Int.tdiv e S * S
      if ii < ref then LoopStep.cont d
      else if ii ≥ ref + S then LoopStep.brk d
      else LoopStep.cont (write d e (d e + src ii * g i))) =
      tapBody (boundedTap (fun i => e + (i + is2) * nx) (Int.tdiv e S * S)
        (Int.tdiv e S * S + S) (fun i => src (e + (i + is2) * nx) * g i)) e := by
    funext i d
    simp only [tapBody, boundedTap]
    split_ifs <;> rfl
  unfold gaussTapsY gaussPassY
  rw [hbody, forRange_tapBody _ (boundedTap_mono _ (fun a b hab => by
    show e + (a + is2) * nx ≤ e + (b + is2) * nx
    have := mul_le_mul_of_nonneg_right (show a + is2 ≤ b + is2 by omega) hnx
    omega) _ _ _)]
  simp only [boundedTap_val]

theorem gaussTapsZ_eq (S N is is2 : Int) (hS : 0 ≤ S) (g src : Buffer) (e : Int)
    (d : Buffer) :
    gaussTapsZ S N is is2 g src e d = write d e (d e + gaussPassZ S N is is2 g src e) := by
  have hbody : (fun (i : Int) (d : Buffer) =>
      let ii := e + (i + is2) * S
      if ii < 0 then LoopStep.cont d
      else if ii ≥ N then LoopStep.brk d
      else LoopStep.cont (write d e (d e + src ii * g i))) =
      tapBody (boundedTap (fun i => e + (i + is2) * S) 0 N
        (fun i => src (e + (i + is2) * S) * g i)) e := by
    funext i d
    simp only [tapBody, boundedTap]
    split_ifs <;> rfl
  unfold gaussTapsZ gaussPassZ
  rw [hbody, forRange_tapBody _ (boundedTap_mono _ (fun a b hab => by
    show e + (a + is2) * S ≤ e + (b + is2) * S
    have := mul_le_mul_of_nonneg_right (show a + is2 ≤ b + is2 by omega) hS
    omega) _ _ _)]
  simp only [boundedTap_val]

theorem gaussVoxelX_eq (nx is is2 : Int) (g : Buffer) (e : Int) (s : State) :
    gaussVoxelX nx is is2 g e s =
      { s with outPixel := write s.outPixel e (gaussPassX nx is is2 g s.tempPixel e) } := by
  unfold gaussVoxelX
  simp only [gaussTapsX_eq, write_same, write_write, zero_add]

theorem gaussVoxelY_eq (nx S is is2 : Int) (hnx : 0 ≤ nx) (g : Buffer) (e : Int) (s : State) :
    gaussVoxelY nx S is is2 g e s =
      { s with tempPixel := write s.tempPixel e (gaussPassY nx S is is2 g s.outPixel e) } := by
  unfold gaussVoxelY
  simp only [gaussTapsY_eq _ _ _ _ hnx, write_same, write_write, zero_add]

theorem gaussVoxelZ_eq (S N is is2 : Int) (hS : 0 ≤ S) (g : Buffer) (e : Int) (s : State) :
    gaussVoxelZ S N is is2 g e s =
      { s with outPixel := write s.outPixel e (gaussPassZ S N is is2 g s.tempPixel e) } := by
  unfold gaussVoxelZ
  simp only [gaussTapsZ_eq _ _ _ _ hS, write_same, write_write, zero_add]

theorem gaussStageX_quiet (env : Env) (hq : Quiet env) (pnode : ParametersNode)
    (ov : ImageData) (s : State) (hc : s.cancel = false) (hd : s.divByZero = false)
    (hs : s.Status ≠ -1) :
    ∃ (st : Int) (rd wr : List Int), st ≠ -1 ∧ gaussStageX env pnode ov s =
      { s with outPixel := if pnode.ParameterX > 0.001 then
                 swept (ov.dims0 * ov.dims1 * ov.dims2)
                   (gaussPassX ov.dims0 (forceOdd pnode.KernelLengthX)
                     (-(Int.tdiv (forceOdd pnode.KernelLengthX - 1) 2))
                     pnode.GaussianKernel1D s.tempPixel) s.outPixel
                 else s.outPixel,
               voxels := s.voxels + (if pnode.ParameterX > 0.001 then 1 else 0) *
                 (ov.dims0 * ov.dims1 * ov.dims2).toNat,
               Status := st, statusReads := rd, statusWrites := wr } := by
  unfold gaussStageX
  by_cases hx : pnode.ParameterX > 0.001
  · obtain ⟨st, rd, hst, e⟩ := sweep_out_quiet env hq (ov.dims0 * ov.dims1 * ov.dims2)
      (gaussVoxelX ov.dims0 (forceOdd pnode.KernelLengthX)
        (-(Int.tdiv (forceOdd pnode.KernelLengthX - 1) 2)) pnode.GaussianKernel1D)
      (gaussPassX ov.dims0 (forceOdd pnode.KernelLengthX)
        (-(Int.tdiv (forceOdd pnode.KernelLengthX - 1) 2)) pnode.GaussianKernel1D s.tempPixel)
      (SetStatus 10 s)
      (fun e t ht _ => by rw [gaussVoxelX_eq, ht]; rfl) hc hd (by simp [SetStatus])
    refine ⟨st, rd, 10 :: s.statusWrites, hst, ?_⟩
    simp only [if_pos hx, e]
    simp [SetStatus]
  · refine ⟨s.Status, s.statusReads, s.statusWrites, hs, ?_⟩
    simp only [if_neg hx]
    simp

theorem gaussStageY_quiet (env : Env) (hq : Quiet env) (pnode : ParametersNode)
    (ov : ImageData) (h0 : 0 ≤ ov.dims0) (s : State) (hc : s.cancel = false)
    (hd : s.divByZero = false) (hs : s.Status ≠ -1) :
    ∃ (st : Int) (rd wr : List Int), st ≠ -1 ∧ gaussStageY env pnode ov s =
      { s with tempPixel := if pnode.ParameterY > 0.001 then
                 swept (ov.dims0 * ov.dims1 * ov.dims2)
                   (gaussPassY ov.dims0 (ov.dims0 * ov.dims1) (forceOdd pnode.KernelLengthX)
                     (-(Int.tdiv (forceOdd pnode.KernelLengthX - 1) 2))
                     pnode.GaussianKernel1D s.outPixel) s.tempPixel
                 else s.outPixel,
               voxels := s.voxels + (if pnode.ParameterY > 0.001 then 1 else 0) *
                 (ov.dims0 * ov.dims1 * ov.dims2).toNat,
               Status := st, statusReads := rd, statusWrites := wr } := by
  unfold gaussStageY
  by_cases hy : pnode.ParameterY > 0.001
  · obtain ⟨st, rd, hst, e⟩ := sweep_temp_quiet env hq (ov.dims0 * ov.dims1 * ov.dims2)
      (gaussVoxelY ov.dims0 (ov.dims0 * ov.dims1) (forceOdd pnode.KernelLengthX)
        (-(Int.tdiv (forceOdd pnode.KernelLengthX - 1) 2)) pnode.GaussianKernel1D)
      (gaussPassY ov.dims0 (ov.dims0 * ov.dims1) (forceOdd pnode.KernelLengthX)
        (-(Int.tdiv (forceOdd pnode.KernelLengthX - 1) 2)) pnode.GaussianKernel1D s.outPixel)
      (SetStatus 40 s)
      (fun e t ht => by rw [gaussVoxelY_eq _ _ _ _ h0, ht]; rfl) hc hd (by simp [SetStatus])
    refine ⟨st, rd, 40 :: s.statusWrites, hst, ?_⟩
    simp only [if_pos hy, e]
    simp [SetStatus]
  · refine ⟨s.Status, s.statusReads, s.statusWrites, hs, ?_⟩
    simp only [if_neg hy]
    simp

theorem gaussStageZ_quiet (env : Env) (hq : Quiet env) (pnode : ParametersNode)
    (ov : ImageData) (hS : 0 ≤ ov.dims0 * ov.dims1) (s : State) (hc : s.cancel = false)
    (hd : s.divByZero = false) (hs : s.Status ≠ -1) :
    ∃ (st : Int) (rd wr : List Int), st ≠ -1 ∧ gaussStageZ env pnode ov s =
      { s with outPixel := if pnode.ParameterZ > 0.001 then
                 swept (ov.dims0 * ov.dims1 * ov.dims2)
                   (gaussPassZ (ov.dims0 * ov.dims1) (ov.dims0 * ov.dims1 * ov.dims2)
                     (forceOdd pnode.KernelLengthX)
                     (-(Int.tdiv (forceOdd pnode.KernelLengthX - 1) 2))
                     pnode.GaussianKernel1D s.tempPixel) s.outPixel
                 else s.tempPixel,
               voxels := s.voxels + (if pnode.ParameterZ > 0.001 then 1 else 0) *
                 (ov.dims0 * ov.dims1 * ov.dims2).toNat,
               Status := st, statusReads := rd, statusWrites := wr } := by
  unfold gaussStageZ
  by_cases hz : pnode.ParameterZ > 0.001
  · obtain ⟨st, rd, hst, e⟩ := sweep_out_quiet env hq (ov.dims0 * ov.dims1 * ov.dims2)
      (gaussVoxelZ (ov.dims0 * ov.dims1) (ov.dims0 * ov.dims1 * ov.dims2)
        (forceOdd pnode.KernelLengthX) (-(Int.tdiv (forceOdd pnode.KernelLengthX - 1) 2))
        pnode.GaussianKernel1D)
      (gaussPassZ (ov.dims0 * ov.dims1) (ov.dims0 * ov.dims1 * ov.dims2)
        (forceOdd pnode.KernelLengthX) (-(Int.tdiv (forceOdd pnode.KernelLengthX - 1) 2))
        pnode.GaussianKernel1D s.tempPixel)
      (SetStatus 70 s)
      (fun e t ht _ => by rw [gaussVoxelZ_eq _ _ _ _ hS, ht]; rfl) hc hd (by simp [SetStatus])
    refine ⟨st, rd, 70 :: s.statusWrites, hst, ?_⟩
    simp only [if_pos hz, e]
    simp [SetStatus]
  · refine ⟨s.Status, s.statusReads, s.statusWrites, hs, ?_⟩
    simp only [if_neg hz]
    simp

/-- Closed form of a run of `IsotropicGaussianCPUFilter` nobody cancels. -/
theorem isoGauss_quiet (env : Env) (hq : Quiet env) (pnode : ParametersNode) (s : State)
    (ov : ImageData) (hv : ValidScene s ov) (h0 : 0 ≤ ov.dims0) (h1 : 0 ≤ ov.dims1) :
    (IsotropicGaussianCPUFilter env pnode s).1 = Outcome.returned 1 ∧
    (IsotropicGaussianCPUFilter env pnode s).2.outPixel =
      isoGaussAfterZ pnode ov s.outPixel := by
  obtain ⟨⟨iv, hin⟩, hout, hcomp, htype⟩ := hv
  have hS : 0 ≤ ov.dims0 * ov.dims1 := mul_nonneg h0 h1
  obtain ⟨st1, rd1, wr1, hst1, e1⟩ := gaussStageX_quiet env hq pnode ov (startScratch s) rfl rfl
    (by simp [startScratch, SetStatus])
  obtain ⟨st2, rd2, wr2, hst2, e2⟩ := gaussStageY_quiet env hq pnode ov h0
    (gaussStageX env pnode ov (startScratch s)) (by rw [e1]; rfl) (by rw [e1]; rfl)
    (by rw [e1]; exact hst1)
  obtain ⟨st3, rd3, wr3, hst3, e3⟩ := gaussStageZ_quiet env hq pnode ov hS
    (gaussStageY env pnode ov (gaussStageX env pnode ov (startScratch s)))
    (by rw [e2, e1]; rfl) (by rw [e2, e1]; rfl) (by rw [e2]; exact hst2)
  have hc1 : (gaussStageX env pnode ov (startScratch s)).cancel = false := by rw [e1]; rfl
  have hc2 : (gaussStageY env pnode ov (gaussStageX env pnode ov (startScratch s))).cancel
      = false := by rw [e2, e1]; rfl
  have hc3 : (releaseTemp (gaussStageZ env pnode ov
      (gaussStageY env pnode ov (gaussStageX env pnode ov (startScratch s))))).cancel
      = false := by rw [e3, e2, e1]; rfl
  unfold IsotropicGaussianCPUFilter
  simp only [hin, hout, hcomp, htype, if_true, if_false, hc1, hc2, hc3, Bool.false_eq_true]
  refine ⟨trivial, ?_⟩
  rw [e3, e2, e1]
  simp only [updateAttributes, releaseTemp, startScratch, SetStatus, isoGaussAfterZ,
    isoGaussAfterY, isoGaussAfterX]

/-- C12 (failing input). Kernel length 1, 1-D table `[1.0]`, 3-D table `[1.0]`, a 100x1x1
grid of all 1.0 as input and as initial output, `c` the content of the memory cell after the
1-D table. Both Gaussian filters return 1. The tap loop `for (int i = 0; i <= is; i++)` of
the isotropic X pass runs one tap too many: it reads table index 1 and the right-hand
neighbour, so voxel 0 ends at `1 + c`, while the anisotropic filter leaves 1 there. -/
theorem C12_kernel_overrun (c : ℚ) :
    (IsotropicGaussianCPUFilter idleEnv (unitGaussNode c)
      (sceneOf (floatImage 100 1 1) (floatImage 100 1 1) (fun _ => 1) (fun _ => 1) 0)).1
      = Outcome.returned 1 ∧
    (AnisotropicGaussianCPUFilter idleEnv (unitGaussNode c)
      (sceneOf (floatImage 100 1 1) (floatImage 100 1 1) (fun _ => 1) (fun _ => 1) 0)).1
      = Outcome.returned 1 ∧
    (IsotropicGaussianCPUFilter idleEnv (unitGaussNode c)
      (sceneOf (floatImage 100 1 1) (floatImage 100 1 1) (fun _ => 1) (fun _ => 1)
        0)).2.outPixel 0 = 1 + c ∧
    (AnisotropicGaussianCPUFilter idleEnv (unitGaussNode c)
      (sceneOf (floatImage 100 1 1) (floatImage 100 1 1) (fun _ => 1) (fun _ => 1)
        0)).2.outPixel 0 = 1 := by
  have hv : ValidScene
      (sceneOf (floatImage 100 1 1) (floatImage 100 1 1) (fun _ => 1) (fun _ => 1) 0)
      (floatImage 100 1 1) :=
    sceneOf_valid _ _ _ _ _ (by norm_num [floatImage]) (Or.inl rfl)
  have hi := isoGauss_quiet idleEnv idleEnv_quiet (unitGaussNode c) _ _ hv
    (by norm_num [floatImage]) (by norm_num [floatImage])
  have ha := anisoGauss_quiet idleEnv idleEnv_quiet (unitGaussNode c) _ _ hv
    (by norm_num [floatImage])
  refine ⟨hi.1, ha.1, ?_, ?_⟩
  · rw [hi.2]
    have hodd : forceOdd 1 = 1 := by
      have ht : Int.tmod 1 2 = 1 := by decide
      unfold forceOdd
      norm_num [ht]
    simp only [isoGaussAfterZ, isoGaussAfterY, isoGaussAfterX, unitGaussNode, sceneOf,
      floatImage, hodd]
    have h2 : Int.toNat 2 = 2 := rfl
    norm_num [swept, gaussPassX, gaussPassY, gaussPassZ, winSum, h2, Finset.sum_range_succ]
  · rw [ha.2]
    have hh : toInt (((1 - 1 : Int) : ℚ) / 2) = 0 := by
      norm_num [toInt]
    simp only [anisoGaussOut, unitGaussNode, sceneOf, floatImage, hh]
    have h1 : Int.toNat 1 = 1 := rfl
    norm_num [swept, anisoGaussSum, anisoTapOK, winSum, h1, Finset.sum_range_succ]

theorem gradientX_coord (nx ny x y z : Int) (hx0 : 0 ≤ x) (hxn : x < nx) (hy0 : 0 ≤ y)
    (hny : 0 ≤ ny) (hz0 : 0 ≤ z) :
    gradientX1 nx (idx nx ny x y z) =
      (if x > 0 then idx nx ny x y z - 1 else idx nx ny x y z) ∧
    gradientX2 nx (idx nx ny x y z) =
      (if x < nx - 1 then idx nx ny x y z + 1 else idx nx ny x y z) := by
  have href := rowRef nx ny x y z hx0 hxn hy0 hny hz0
  unfold gradientX1 gradientX2
  simp only [href]
  have h0 : idx nx ny x y z = idx nx ny 0 y z + x := by unfold idx; ring
  constructor
  · by_cases h : x > 0
    · rw [if_pos h, if_neg (by omega)]
    · rw [if_neg h, if_pos (by omega)]
      omega
  · by_cases h : x < nx - 1
    · rw [if_pos h, if_neg (by omega)]
    · rw [if_neg h, if_pos (by omega)]
      omega

theorem gradientY_coord (nx ny x y z : Int) (hx0 : 0 ≤ x) (hxn : x < nx) (hy0 : 0 ≤ y)
    (hyn : y < ny) (hz0 : 0 ≤ z) :
    gradientY1 nx (nx * ny) (idx nx ny x y z) =
      (if y > 0 then idx nx ny x y z - nx else idx nx ny x y z) ∧
    gradientY2 nx (nx * ny) (idx nx ny x y z) =
      (if y < ny - 1 then idx nx ny x y z + nx else idx nx ny x y z) := by
  have href := slabRef nx ny x y z hx0 hxn hy0 hyn hz0
  unfold gradientY1 gradientY2
  simp only [href]
  have h0 : idx nx ny x y z = idx nx ny 0 0 z + (x + y * nx) := by unfold idx; ring
  constructor
  · by_cases h : y > 0
    · have h1 : 1 * nx ≤ y * nx := mul_le_mul_of_nonneg_right (by omega) (by omega)
      rw [if_pos h, if_neg (by omega)]
    · have hy : y = 0 := by omega
      subst hy
      rw [if_neg h, if_pos (by omega)]
      omega
  · by_cases h : y < ny - 1
    · have h1 : (y + 1) * nx ≤ (ny - 1) * nx :=
        mul_le_mul_of_nonneg_right (by omega) (by omega)
      have h2 : nx * ny = (ny - 1) * nx + nx := by ring
      have h3 : (y + 1) * nx = y * nx + nx := by ring
      rw [if_pos h, if_neg (by omega)]
    · have hy : y = ny - 1 := by omega
      have h2 : nx * ny = (ny - 1) * nx + nx := by ring
      subst hy
      rw [if_neg h, if_pos (by omega)]
      omega

theorem gradientZ_coord (nx ny nz x y z : Int) (hx0 : 0 ≤ x) (hxn : x < nx) (hy0 : 0 ≤ y)
    (hyn : y < ny) (hz0 : 0 ≤ z) (hzn : z < nz) :
    gradientZ1 (nx * ny) (idx nx ny x y z) =
      (if z > 0 then idx nx ny x y z - nx * ny else idx nx ny x y z) ∧
    gradientZ2 (nx * ny) (nx * ny * nz) (idx nx ny x y z) =
      (if z < nz - 1 then idx nx ny x y z + nx * ny else idx nx ny x y z) := by
  obtain ⟨h1, h2⟩ := row_part nx ny x y hx0 hxn hy0 hyn
  have h0 : idx nx ny x y z = (x + y * nx) + z * (nx * ny) := by unfold idx; ring
  unfold gradientZ1 gradientZ2
  constructor
  · by_cases h : z > 0
    · have h3 : 1 * (nx * ny) ≤ z * (nx * ny) :=
        mul_le_mul_of_nonneg_right (by omega) (by omega)
      rw [if_pos h, if_neg (by omega)]
    · have hz : z = 0 := by omega
      subst hz
      rw [if_neg h, if_pos (by omega)]
      omega
  · by_cases h : z < nz - 1
    · have h3 : (z + 1) * (nx * ny) ≤ (nz - 1) * (nx * ny) :=
        mul_le_mul_of_nonneg_right (by omega) (by omega)
      have h4 : nx * ny * nz = (nz - 1) * (nx * ny) + nx * ny := by ring
      have h5 : (z + 1) * (nx * ny) = z * (nx * ny) + nx * ny := by ring
      rw [if_pos h, if_neg (by omega)]
    · have hz : z = nz - 1 := by omega
      have h4 : nx * ny * nz = (nz - 1) * (nx * ny) + nx * ny := by ring
      subst hz
      rw [if_neg h, if_pos (by omega)]
      omega

theorem idx_shift (nx ny x y z a b c : Int) :
    idx nx ny x y z + a + b * nx + c * (nx * ny) = idx nx ny (x + a) (y + b) (z + c) := by
  unfold idx
  ring

/-- The six neighbour indices at an in-grid voxel are in-grid. -/
theorem gradient_neighbours_range (nx ny nz i j k : Int) (hi0 : 0 ≤ i) (hin : i < nx)
    (hj0 : 0 ≤ j) (hjn : j < ny) (hk0 : 0 ≤ k) (hkn : k < nz) (p : Int)
    (hp : p = gradientX1 nx (idx nx ny i j k) ∨ p = gradientX2 nx (idx nx ny i j k) ∨
      p = gradientY1 nx (nx * ny) (idx nx ny i j k) ∨
      p = gradientY2 nx (nx * ny) (idx nx ny i j k) ∨
      p = gradientZ1 (nx * ny) (idx nx ny i j k) ∨
      p = gradientZ2 (nx * ny) (nx * ny * nz) (idx nx ny i j k)) :
    0 ≤ p ∧ p < nx * ny * nz := by
  obtain ⟨hx1, hx2⟩ := gradientX_coord nx ny i j k hi0 hin hj0 (by omega) hk0
  obtain ⟨hy1, hy2⟩ := gradientY_coord nx ny i j k hi0 hin hj0 hjn hk0
  obtain ⟨hz1, hz2⟩ := gradientZ_coord nx ny nz i j k hi0 hin hj0 hjn hk0 hkn
  have hself := idx_range nx ny nz i j k hi0 hin hj0 hjn hk0 hkn
  rcases hp with h | h | h | h | h | h
  · rw [h, hx1]
    split_ifs with hc
    · have e : idx nx ny i j k - 1 = idx nx ny (i - 1) j k := by unfold idx; ring
      rw [e]
      exact idx_range nx ny nz (i - 1) j k (by omega) (by omega) hj0 hjn hk0 hkn
    · exact hself
  · rw [h, hx2]
    split_ifs with hc
    · have e : idx nx ny i j k + 1 = idx nx ny (i + 1) j k := by unfold idx; ring
      rw [e]
      exact idx_range nx ny nz (i + 1) j k (by omega) (by omega) hj0 hjn hk0 hkn
    · exact hself
  · rw [h, hy1]
    split_ifs with hc
    · have e : idx nx ny i j k - nx = idx nx ny i (j - 1) k := by unfold idx; ring
      rw [e]
      exact idx_range nx ny nz i (j - 1) k hi0 hin (by omega) (by omega) hk0 hkn
    · exact hself
  · rw [h, hy2]
    split_ifs with hc
    · have e : idx nx ny i j k + nx = idx nx ny i (j + 1) k := by unfold idx; ring
      rw [e]
      exact idx_range nx ny nz i (j + 1) k hi0 hin (by omega) (by omega) hk0 hkn
    · exact hself
  · rw [h, hz1]
    split_ifs with hc
    · have e : idx nx ny i j k - nx * ny = idx nx ny i j (k - 1) := by unfold idx; ring
      rw [e]
      exact idx_range nx ny nz i j (k - 1) hi0 hin hj0 hjn (by omega) (by omega)
    · exact hself
  · rw [h, hz2]
    split_ifs with hc
    · have e : idx nx ny i j k + nx * ny = idx nx ny i j (k + 1) := by unfold idx; ring
      rw [e]
      exact idx_range nx ny nz i j (k + 1) hi0 hin hj0 hjn (by omega) (by omega)
    · exact hself

/-- C23. On a grid with `nx, ny, nz >= 1`, at the voxel `(i, j, k)` with linear index
`e = i + j*nx + k*nx*ny`, the per-voxel body of `GradientCPUFilter` stores
`gradientValue` at `e`, which reads the grid at `e` and at the six indices `x1, x2, y1, y2,
z1, z2` it computes; each of them is the index of the 6-connected neighbour when that
neighbour exists and `e` itself otherwise, and all six lie in `[0, nx*ny*nz)`. -/
theorem C23_gradient_neighbours (nx ny nz i j k : Int) (hi0 : 0 ≤ i) (hin : i < nx)
    (hj0 : 0 ≤ j) (hjn : j < ny) (hk0 : 0 ≤ k) (hkn : k < nz) :
    (∀ (pnode : ParametersNode) (noise2 : ℚ) (s : State),
      gradientVoxel pnode nx (nx * ny) (nx * ny * nz) noise2 (idx nx ny i j k) s =
        { s with tempPixel := write s.tempPixel (idx nx ny i j k)
                                 (gradientValue pnode nx (nx * ny) (nx * ny * nz) noise2
                                   s.outPixel (idx nx ny i j k)) }) ∧
    gradientX1 nx (idx nx ny i j k) =
      (if i > 0 then idx nx ny i j k - 1 else idx nx ny i j k) ∧
    gradientX2 nx (idx nx ny i j k) =
      (if i < nx - 1 then idx nx ny i j k + 1 else idx nx ny i j k) ∧
    gradientY1 nx (nx * ny) (idx nx ny i j k) =
      (if j > 0 then idx nx ny i j k - nx else idx nx ny i j k) ∧
    gradientY2 nx (nx * ny) (idx nx ny i j k) =
      (if j < ny - 1 then idx nx ny i j k + nx else idx nx ny i j k) ∧
    gradientZ1 (nx * ny) (idx nx ny i j k) =
      (if k > 0 then idx nx ny i j k - nx * ny else idx nx ny i j k) ∧
    gradientZ2 (nx * ny) (nx * ny * nz) (idx nx ny i j k) =
      (if k < nz - 1 then idx nx ny i j k + nx * ny else idx nx ny i j k) ∧
    (∀ p, p = gradientX1 nx (idx nx ny i j k) ∨ p = gradientX2 nx (idx nx ny i j k) ∨
        p = gradientY1 nx (nx * ny) (idx nx ny i j k) ∨
        p = gradientY2 nx (nx * ny) (idx nx ny i j k) ∨
        p = gradientZ1 (nx * ny) (idx nx ny i j k) ∨
        p = gradientZ2 (nx * ny) (nx * ny * nz) (idx nx ny i j k) →
      0 ≤ p ∧ p < nx * ny * nz) := by
  obtain ⟨hx1, hx2⟩ := gradientX_coord nx ny i j k hi0 hin hj0 (by omega) hk0
  obtain ⟨hy1, hy2⟩ := gradientY_coord nx ny i j k hi0 hin hj0 hjn hk0
  obtain ⟨hz1, hz2⟩ := gradientZ_coord nx ny nz i j k hi0 hin hj0 hjn hk0 hkn
  exact ⟨fun _ _ _ => gradientVoxel_eq _ _ _ _ _ _ _, hx1, hx2, hy1, hy2, hz1, hz2,
    gradient_neighbours_range nx ny nz i j k hi0 hin hj0 hjn hk0 hkn⟩

/-- C23 (witness). The corner voxel `(0, 0, 0)` of a 2x2x2 grid (linear index 0): the
lower neighbours are the voxel itself, the upper ones are 1, 2 and 4. -/
theorem C23_gradient_neighbours_witness :
    gradientX1 2 0 = 0 ∧ gradientX2 2 0 = 1 ∧ gradientY1 2 (2 * 2) 0 = 0 ∧
    gradientY2 2 (2 * 2) 0 = 2 ∧ gradientZ1 (2 * 2) 0 = 0 ∧
    gradientZ2 (2 * 2) (2 * 2 * 2) 0 = 4 := by
  have h := C23_gradient_neighbours 2 2 2 0 0 0 (by decide) (by decide) (by decide)
    (by decide) (by decide) (by decide)
  have e : idx 2 2 0 0 0 = 0 := by decide
  rw [e] at h
  obtain ⟨_, h1, h2, h3, h4, h5, h6, _⟩ := h
  exact ⟨by rw [h1]; decide, by rw [h2]; decide, by rw [h3]; decide, by rw [h4]; decide,
    by rw [h5]; decide, by rw [h6]; decide⟩

theorem gradient_unfold (env : Env) (pnode : ParametersNode) (s : State) (ov : ImageData)
    (hv : ValidScene s ov) :
    GradientCPUFilter env pnode s = gradientTail env ov (gradientLoop env pnode ov s) := by
  obtain ⟨⟨iv, hin⟩, hout, hcomp, htype⟩ := hv
  unfold GradientCPUFilter gradientTail gradientLoop
  simp only [hin, hout, hcomp, htype, if_true, if_false]

theorem subtractMean_eq (N : Int) (m : ℚ) (out : Buffer) :
    subtractMean N m out = swept N (fun e => out e - m) out := by
  unfold subtractMean forRange
  rw [sweep_toNat]
  refine forLoop_rule
    (fun (elemCnt : Int) (o : Buffer) => LoopStep.cont (write o elemCnt (o elemCnt - m)))
    (fun k t => t = swept (k : Int) (fun e => out e - m) out)
    (fun t => t = swept N (fun e => out e - m) out) N.toNat 0 out
    (by simp [swept_zero]) ?_ ?_
  · intro k t _ ht
    show write t (0 + (k : Int)) (t (0 + (k : Int)) - m) = swept ((k + 1 : Nat) : Int) _ out
    have hk : t (0 + (k : Int)) = out (0 + (k : Int)) := by
      rw [ht]
      unfold swept
      rw [if_neg (by omega)]
    rw [hk, ht, zero_add]
    exact swept_succ (k : Int) (by omega) (fun e => out e - m) out
  · intro t ht
    rw [ht, swept_toNat]

/-- Grid and flags at the end of the iterations nobody cancels. -/
theorem gradient_loop_grid (env : Env) (hq : Quiet env) (pnode : ParametersNode)
    (d0 S N : Int) (n2 : ℚ) (s : State) (hc : s.cancel = false) (hd : s.divByZero = false)
    (hs : s.Status ≠ -1) (ht : s.tempPixel = s.outPixel) :
    (forRange 1 pnode.Accuracy (gradientIteration env pnode d0 S N n2) s).cancel = false ∧
    (forRange 1 pnode.Accuracy (gradientIteration env pnode d0 S N n2) s).outPixel =
      Nat.iterate (gradientStep pnode d0 S N n2) pnode.Accuracy.toNat s.outPixel ∧
    (forRange 1 pnode.Accuracy (gradientIteration env pnode d0 S N n2) s).rangeUpdates =
      s.rangeUpdates ∧
    (forRange 1 pnode.Accuracy (gradientIteration env pnode d0 S N n2) s).noiseUpdates =
      s.noiseUpdates := by
  unfold forRange
  have hn : (pnode.Accuracy + 1 - 1).toNat = pnode.Accuracy.toNat := by
    congr 1
    ring
  rw [hn]
  refine forLoop_rule (gradientIteration env pnode d0 S N n2)
    (fun k t => t.cancel = false ∧ t.divByZero = false ∧ t.Status ≠ -1 ∧
      t.tempPixel = t.outPixel ∧
      t.outPixel = Nat.iterate (gradientStep pnode d0 S N n2) k s.outPixel ∧
      t.rangeUpdates = s.rangeUpdates ∧ t.noiseUpdates = s.noiseUpdates)
    (fun t => t.cancel = false ∧
      t.outPixel = Nat.iterate (gradientStep pnode d0 S N n2) pnode.Accuracy.toNat
        s.outPixel ∧ t.rangeUpdates = s.rangeUpdates ∧ t.noiseUpdates = s.noiseUpdates)
    _ 1 s ⟨hc, hd, hs, ht, rfl, rfl, rfl⟩ ?_ (fun t h => ⟨h.1, h.2.2.2.2⟩)
  rintro k t hk ⟨h1, h2, h3, h4, h5, h6, h7⟩
  obtain ⟨st, rd, hst, e⟩ := sweep_temp_quiet env hq N (gradientVoxel pnode d0 S N n2)
    (gradientValue pnode d0 S N n2 t.outPixel) t
    (fun e u hu => by rw [gradientVoxel_eq, hu]) h1 h2 h3
  rw [gradientIteration_eq, e]
  simp only [h1, Bool.false_eq_true, if_false]
  refine ⟨?_, ?_, ?_, ?_, ?_, ?_, ?_⟩
  · rfl
  · exact h2
  · show Int.tdiv ((1 + (k : Int)) * 100) pnode.Accuracy ≠ -1
    have hA : 0 ≤ pnode.Accuracy := by omega
    have := Int.tdiv_nonneg (a := (1 + (k : Int)) * 100) (b := pnode.Accuracy) (by omega) hA
    omega
  · rfl
  · show swept N (gradientValue pnode d0 S N n2 t.outPixel) t.tempPixel = _
    rw [Function.iterate_succ_apply', ← h5, h4]
    rfl
  · exact h6
  · exact h7

/-- Every in-grid linear index is the index of its coordinates. -/
theorem coords_of_index (nx ny nz e : Int) (hx : 1 ≤ nx) (hy : 1 ≤ ny) (h0 : 0 ≤ e)
    (hN : e < nx * ny * nz) :
    (0 ≤ e % nx ∧ e % nx < nx) ∧ (0 ≤ e % (nx * ny) / nx ∧ e % (nx * ny) / nx < ny) ∧
    (0 ≤ e / (nx * ny) ∧ e / (nx * ny) < nz) ∧
    idx nx ny (e % nx) (e % (nx * ny) / nx) (e / (nx * ny)) = e := by
  have hS : 0 < nx * ny := mul_pos (by omega) (by omega)
  have r0 : 0 ≤ e % (nx * ny) := Int.emod_nonneg _ (by omega)
  have r1 : e % (nx * ny) < nx * ny := Int.emod_lt_of_pos _ hS
  refine ⟨⟨Int.emod_nonneg _ (by omega), Int.emod_lt_of_pos _ (by omega)⟩,
    ⟨Int.ediv_nonneg r0 (by omega), ?_⟩, ⟨Int.ediv_nonneg h0 (by omega), ?_⟩, ?_⟩
  · apply Int.ediv_lt_of_lt_mul (by omega)
    have : ny * nx = nx * ny := by ring
    omega
  · apply Int.ediv_lt_of_lt_mul hS
    have : nz * (nx * ny) = nx * ny * nz := by ring
    omega
  · have a := Int.emod_add_ediv e (nx * ny)
    have b := Int.emod_add_ediv (e % (nx * ny)) nx
    have c : e % (nx * ny) % nx = e % nx := Int.emod_emod_of_dvd e (dvd_mul_right nx ny)
    unfold idx
    linear_combination a + b - c

theorem noise2_ne_zero (K rms : ℚ) (hK : K * rms ≠ 0) : rms * rms * K * K ≠ 0 := by
  have h1 : rms * rms * K * K = (K * rms) ^ 2 := by ring
  rw [h1]
  exact pow_ne_zero 2 hK

/-- With `K * RMS` other than 0 no voxel body stores a NaN. -/
theorem gradient_no_NaN (K rms : ℚ) (hK : K * rms ≠ 0) (out : Buffer) (e : Int) :
    ¬ gradientStoresNaN (rms * rms * K * K) out e :=
  fun h => noise2_ne_zero K rms hK h.1

/-- With `noise2 = 0` (`K = 0`, or a noise attribute that is 0, missing or not a number) and
no voxel of the grid equal to 0, no voxel body stores a NaN and an iteration leaves the grid
as it is: `norm` is infinite at every voxel. -/
theorem gradientStep_noise_zero (pnode : ParametersNode) (d0 S N : Int) (g : Buffer)
    (hg : ∀ e, 0 ≤ e → e < N → g e ≠ 0) :
    (∀ e, 0 ≤ e → e < N → ¬ gradientStoresNaN 0 g e) ∧
    gradientStep pnode d0 S N 0 g = g := by
  refine ⟨fun e h0 h1 h => hg e h0 h1 h.2, ?_⟩
  funext e
  unfold gradientStep swept gradientValue
  simp

/-- One iteration of the code is the step map of the spec when `K * RMS` is not 0. -/
theorem gradientStep_eq_stepMap (pnode : ParametersNode) (rms : ℚ) (nx ny nz : Int)
    (hx : 1 ≤ nx) (hy : 1 ≤ ny) (hK : pnode.K * rms ≠ 0) (g : Buffer) :
    gradientStep pnode nx (nx * ny) (nx * ny * nz) (rms * rms * pnode.K * pnode.K) g =
      stepMap pnode rms nx ny nz g := by
  have hn2 := noise2_ne_zero pnode.K rms hK
  funext e
  unfold gradientStep swept stepMap
  by_cases h : 0 ≤ e ∧ e < nx * ny * nz
  · rw [if_pos h, if_pos h]
    obtain ⟨⟨i0, i1⟩, ⟨j0, j1⟩, ⟨k0, k1⟩, he⟩ := coords_of_index nx ny nz e hx hy h.1 h.2
    have cx := gradientX_coord nx ny _ _ _ i0 i1 j0 (by omega) k0
    have cy := gradientY_coord nx ny _ _ _ i0 i1 j0 j1 k0
    have cz := gradientZ_coord nx ny nz _ _ _ i0 i1 j0 j1 k0 k1
    rw [he] at cx cy cz
    unfold gradientValue gradientFlux gradientNorm
    rw [if_neg hn2, cx.1, cx.2, cy.1, cy.2, cz.1, cz.2]
    have h2 : (pnode.K * rms) ^ 2 = rms * rms * pnode.K * pnode.K := by ring
    simp only [h2, sq]
    ring
  · rw [if_neg h, if_neg h]

/-- C22. A run of `GradientCPUFilter` nobody cancels on a valid scene whose grid has
`nx, ny >= 1`, with `K * RMS` other than 0 (`RMS` the noise attribute read on entry, so that
`norm` is a number at every voxel): the loop over the iterations ends without cancellation,
and the output grid it leaves (the grid before the statistics update and the bias correction
of `gradientTail`) is the step map `S` of the spec applied `Accuracy` times to the initial
contents of the output grid; it is the initial grid when `Accuracy <= 0`. -/
theorem C22_gradient_iterates_step_map (env : Env) (hq : Quiet env) (pnode : ParametersNode)
    (s : State) (ov : ImageData) (hv : ValidScene s ov) (hx : 1 ≤ ov.dims0)
    (hy : 1 ≤ ov.dims1) (hK : pnode.K * s.RMS ≠ 0) :
    GradientCPUFilter env pnode s = gradientTail env ov (gradientLoop env pnode ov s) ∧
    (gradientLoop env pnode ov s).cancel = false ∧
    (gradientLoop env pnode ov s).outPixel =
      Nat.iterate (stepMap pnode s.RMS ov.dims0 ov.dims1 ov.dims2) pnode.Accuracy.toNat
        s.outPixel ∧
    (pnode.Accuracy ≤ 0 → (gradientLoop env pnode ov s).outPixel = s.outPixel) := by
  obtain ⟨q1, q2, _, _⟩ := gradient_loop_grid env hq pnode ov.dims0 (ov.dims0 * ov.dims1)
    (ov.dims0 * ov.dims1 * ov.dims2) (s.RMS * s.RMS * pnode.K * pnode.K)
    (startScratch s) rfl rfl (by simp [startScratch, SetStatus]) rfl
  have hstep : gradientStep pnode ov.dims0 (ov.dims0 * ov.dims1)
      (ov.dims0 * ov.dims1 * ov.dims2) (s.RMS * s.RMS * pnode.K * pnode.K) =
      stepMap pnode s.RMS ov.dims0 ov.dims1 ov.dims2 := by
    funext g
    exact gradientStep_eq_stepMap pnode s.RMS ov.dims0 ov.dims1 ov.dims2 hx hy hK g
  rw [hstep] at q2
  refine ⟨gradient_unfold env pnode s ov hv, q1, q2, ?_⟩
  intro hA
  have h0 : pnode.Accuracy.toNat = 0 := by omega
  show (gradientLoop env pnode ov s).outPixel = (startScratch s).outPixel
  unfold gradientLoop
  rw [q2, h0]
  rfl

/-- C22 (witness). One iteration with `Px = Py = Pz = K = timeStep = 1` and `RMS = 1` on the
2x1x1 grid holding 0 and 1: voxel 0 becomes `0 + (1 - 0) / (1 + 0) = 1` and voxel 1 becomes
`1 + (0 - 1) / (1 + 1) = 1/2`. -/
theorem C22_gradient_iterates_step_map_witness :
    (gradientLoop idleEnv (gradientNode 1) (floatImage 2 1 1)
      (sceneOf (floatImage 2 1 1) (floatImage 2 1 1) (fun _ => 0)
        (fun e => if e = 1 then 1 else 0) 0)).outPixel 0 = 1 ∧
    (gradientLoop idleEnv (gradientNode 1) (floatImage 2 1 1)
      (sceneOf (floatImage 2 1 1) (floatImage 2 1 1) (fun _ => 0)
        (fun e => if e = 1 then 1 else 0) 0)).outPixel 1 = 1 / 2 := by
  have h := (C22_gradient_iterates_step_map idleEnv idleEnv_quiet (gradientNode 1)
    (sceneOf (floatImage 2 1 1) (floatImage 2 1 1) (fun _ => 0)
      (fun e => if e = 1 then 1 else 0) 0) (floatImage 2 1 1)
    (sceneOf_valid _ _ _ _ _ (by norm_num [floatImage]) (Or.inl rfl))
    (by norm_num [floatImage]) (by norm_num [floatImage])
    (by norm_num [gradientNode, sceneOf])).2.2.1
  have hA : (gradientNode 1).Accuracy.toNat = 1 := rfl
  rw [h, hA]
  constructor
  · norm_num [stepMap, gradientNode, sceneOf, floatImage]
  · norm_num [stepMap, gradientNode, sceneOf, floatImage]

/-- Closed form of a run of `GradientCPUFilter` nobody cancels. -/
theorem gradient_quiet (env : Env) (hq : Quiet env) (pnode : ParametersNode) (s : State)
    (ov : ImageData) (hv : ValidScene s ov) (G : Buffer)
    (hG : G = Nat.iterate (gradientStep pnode ov.dims0 (ov.dims0 * ov.dims1)
      (ov.dims0 * ov.dims1 * ov.dims2) (s.RMS * s.RMS * pnode.K * pnode.K))
      pnode.Accuracy.toNat s.outPixel) :
    (gradientLoop env pnode ov s).cancel = false ∧
    (gradientLoop env pnode ov s).outPixel = G ∧
    (GradientCPUFilter env pnode s).1 = Outcome.returned 1 ∧
    (GradientCPUFilter env pnode s).2.outPixel =
      swept (ov.dims0 * ov.dims1 * ov.dims2) (fun e => G e - env.noiseMean G) G ∧
    (GradientCPUFilter env pnode s).2.RMSMEAN =
      env.noiseMean (GradientCPUFilter env pnode s).2.outPixel ∧
    (GradientCPUFilter env pnode s).2.RMS =
      env.noiseRMS (GradientCPUFilter env pnode s).2.outPixel ∧
    (GradientCPUFilter env pnode s).2.rangeUpdates = s.rangeUpdates + 2 ∧
    (GradientCPUFilter env pnode s).2.noiseUpdates = s.noiseUpdates + 2 := by
  obtain ⟨q1, q2, q3, q4⟩ := gradient_loop_grid env hq pnode ov.dims0 (ov.dims0 * ov.dims1)
    (ov.dims0 * ov.dims1 * ov.dims2) (s.RMS * s.RMS * pnode.K * pnode.K)
    (startScratch s) rfl rfl (by simp [startScratch, SetStatus]) rfl
  have g1 : (gradientLoop env pnode ov s).cancel = false := q1
  have g2 : (gradientLoop env pnode ov s).outPixel = G := by
    rw [hG]
    exact q2
  have g3 : (gradientLoop env pnode ov s).rangeUpdates = s.rangeUpdates := q3
  have g4 : (gradientLoop env pnode ov s).noiseUpdates = s.noiseUpdates := q4
  rw [gradient_unfold env pnode s ov hv]
  unfold gradientTail
  simp only [g1, Bool.false_eq_true, if_false, updateAttributes, releaseTemp, g2, g3, g4,
    subtractMean_eq]
  exact ⟨trivial, trivial, trivial, trivial, trivial, trivial, trivial, trivial⟩

/-- C24. A run of `GradientCPUFilter` nobody cancels on a valid scene with `K * RMS` other
than 0 (so that every iteration stores numbers) returns 1; with `G` the grid after the last
iteration, every voxel of the output grid holds its value in `G` minus the
`SlicerAstro.RMSMEAN` the noise-statistics update computes for `G` (the content the
attribute had before the run plays no part), and the `SlicerAstro.RMS` and
`SlicerAstro.RMSMEAN` on return are the statistics of the final grid: the range and the
noise statistics are updated twice, before and after the subtraction. The statistics update
itself is the collaborator modelled in `updateAttributes`. -/
theorem C24_gradient_bias_correction (env : Env) (hq : Quiet env) (pnode : ParametersNode)
    (s : State) (ov : ImageData) (hv : ValidScene s ov) (hK : pnode.K * s.RMS ≠ 0)
    (G : Buffer)
    (hG : G = Nat.iterate (gradientStep pnode ov.dims0 (ov.dims0 * ov.dims1)
      (ov.dims0 * ov.dims1 * ov.dims2) (s.RMS * s.RMS * pnode.K * pnode.K))
      pnode.Accuracy.toNat s.outPixel) :
    (gradientLoop env pnode ov s).outPixel = G ∧
    (GradientCPUFilter env pnode s).1 = Outcome.returned 1 ∧
    (∀ e, 0 ≤ e → e < ov.dims0 * ov.dims1 * ov.dims2 →
      (GradientCPUFilter env pnode s).2.outPixel e = G e - env.noiseMean G) ∧
    (GradientCPUFilter env pnode s).2.RMSMEAN =
      env.noiseMean (GradientCPUFilter env pnode s).2.outPixel ∧
    (GradientCPUFilter env pnode s).2.RMS =
      env.noiseRMS (GradientCPUFilter env pnode s).2.outPixel ∧
    (GradientCPUFilter env pnode s).2.rangeUpdates = s.rangeUpdates + 2 ∧
    (GradientCPUFilter env pnode s).2.noiseUpdates = s.noiseUpdates + 2 := by
  have _ := hK
  obtain ⟨_, h2, h3, h4, h5, h6, h7, h8⟩ := gradient_quiet env hq pnode s ov hv G hG
  refine ⟨h2, h3, ?_, h5, h6, h7, h8⟩
  intro e h0 h1
  rw [h4, swept_in _ _ _ e h0 h1]

/-- C24 (witness). One iteration with all parameters 1 on the 2x1x1 grid holding 0 and 1,
the attribute `SlicerAstro.RMSMEAN` holding 5 before the run and the noise mean of a grid
being the mean of its two voxels: the iteration leaves 1 and 1/2, whose mean 3/4 is
subtracted, so the run ends with 1/4 and -1/4 and the attribute holds their mean 0. -/
theorem C24_gradient_bias_correction_witness :
    (GradientCPUFilter twoVoxelEnv (gradientNode 1)
      { sceneOf (floatImage 2 1 1) (floatImage 2 1 1) (fun _ => 0)
          (fun e => if e = 1 then 1 else 0) 0 with RMSMEAN := 5 }).2.outPixel 0 = 1 / 4 ∧
    (GradientCPUFilter twoVoxelEnv (gradientNode 1)
      { sceneOf (floatImage 2 1 1) (floatImage 2 1 1) (fun _ => 0)
          (fun e => if e = 1 then 1 else 0) 0 with RMSMEAN := 5 }).2.outPixel 1 = -1 / 4 ∧
    (GradientCPUFilter twoVoxelEnv (gradientNode 1)
      { sceneOf (floatImage 2 1 1) (floatImage 2 1 1) (fun _ => 0)
          (fun e => if e = 1 then 1 else 0) 0 with RMSMEAN := 5 }).2.RMSMEAN = 0 := by
  have hG : stepMap (gradientNode 1) 1 2 1 1 (fun e => if e = 1 then 1 else 0) =
      Nat.iterate (gradientStep (gradientNode 1) (floatImage 2 1 1).dims0
        ((floatImage 2 1 1).dims0 * (floatImage 2 1 1).dims1)
        ((floatImage 2 1 1).dims0 * (floatImage 2 1 1).dims1 * (floatImage 2 1 1).dims2)
        (1 * 1 * (gradientNode 1).K * (gradientNode 1).K))
        (gradientNode 1).Accuracy.toNat (fun e => if e = 1 then 1 else 0) := by
    have hA : (gradientNode 1).Accuracy.toNat = 1 := rfl
    rw [hA]
    exact (gradientStep_eq_stepMap (gradientNode 1) 1 2 1 1 (by norm_num) (by norm_num)
      (by norm_num [gradientNode]) _).symm
  have h := C24_gradient_bias_correction twoVoxelEnv (fun _ => by simp [twoVoxelEnv])
    (gradientNode 1)
    { sceneOf (floatImage 2 1 1) (floatImage 2 1 1) (fun _ => 0)
        (fun e => if e = 1 then 1 else 0) 0 with RMSMEAN := 5 } (floatImage 2 1 1)
    ⟨⟨_, rfl⟩, rfl, by norm_num [floatImage], Or.inl rfl⟩
    (by norm_num [gradientNode, sceneOf]) _ hG
  obtain ⟨_, _, h3, h4, _⟩ := h
  have v0 := h3 0 (by norm_num) (by norm_num [floatImage])
  have v1 := h3 1 (by norm_num) (by norm_num [floatImage])
  have m : twoVoxelEnv.noiseMean (stepMap (gradientNode 1) 1 2 1 1
      (fun e => if e = 1 then 1 else 0)) = 3 / 4 := by
    norm_num [twoVoxelEnv, stepMap, gradientNode]
  rw [m] at v0 v1
  refine ⟨?_, ?_, ?_⟩
  · rw [v0]
    norm_num [stepMap, gradientNode]
  · rw [v1]
    norm_num [stepMap, gradientNode]
  · rw [h4]
    show ((_ : Buffer) 0 + (_ : Buffer) 1) / 2 = 0
    rw [v0, v1]
    norm_num [stepMap, gradientNode]

/-- On a grid that is constant in `[0, N)` the per-voxel body stores the value already
there. -/
theorem gradientValue_const (pnode : ParametersNode) (nx ny nz : Int) (hx : 1 ≤ nx)
    (hy : 1 ≤ ny) (n2 : ℚ) (g : Buffer) (c : ℚ)
    (hg : ∀ e, 0 ≤ e → e < nx * ny * nz → g e = c) (e : Int) (h0 : 0 ≤ e)
    (hN : e < nx * ny * nz) :
    gradientFlux pnode nx (nx * ny) (nx * ny * nz) g e = 0 ∧
    gradientValue pnode nx (nx * ny) (nx * ny * nz) n2 g e = c := by
  obtain ⟨⟨i0, i1⟩, ⟨j0, j1⟩, ⟨k0, k1⟩, he⟩ := coords_of_index nx ny nz e hx hy h0 hN
  have hr := gradient_neighbours_range nx ny nz _ _ _ i0 i1 j0 j1 k0 k1
  rw [he] at hr
  have a1 := hg _ (hr _ (Or.inl rfl)).1 (hr _ (Or.inl rfl)).2
  have a2 := hg _ (hr _ (Or.inr (Or.inl rfl))).1 (hr _ (Or.inr (Or.inl rfl))).2
  have a3 := hg _ (hr _ (Or.inr (Or.inr (Or.inl rfl)))).1
    (hr _ (Or.inr (Or.inr (Or.inl rfl)))).2
  have a4 := hg _ (hr _ (Or.inr (Or.inr (Or.inr (Or.inl rfl))))).1
    (hr _ (Or.inr (Or.inr (Or.inr (Or.inl rfl))))).2
  have a5 := hg _ (hr _ (Or.inr (Or.inr (Or.inr (Or.inr (Or.inl rfl)))))).1
    (hr _ (Or.inr (Or.inr (Or.inr (Or.inr (Or.inl rfl)))))).2
  have a6 := hg _ (hr _ (Or.inr (Or.inr (Or.inr (Or.inr (Or.inr rfl)))))).1
    (hr _ (Or.inr (Or.inr (Or.inr (Or.inr (Or.inr rfl)))))).2
  have a0 := hg e h0 hN
  have hflux : gradientFlux pnode nx (nx * ny) (nx * ny * nz) g e = 0 := by
    unfold gradientFlux
    rw [a1, a2, a3, a4, a5, a6, a0]
    ring
  refine ⟨hflux, ?_⟩
  unfold gradientValue
  rw [hflux, a0]
  simp

/-- A grid that is constant in `[0, N)` is a fixed point of one iteration. -/
theorem gradientStep_const (pnode : ParametersNode) (nx ny nz : Int) (hx : 1 ≤ nx)
    (hy : 1 ≤ ny) (n2 : ℚ) (g : Buffer) (c : ℚ)
    (hg : ∀ e, 0 ≤ e → e < nx * ny * nz → g e = c) :
    gradientStep pnode nx (nx * ny) (nx * ny * nz) n2 g = g := by
  funext e
  unfold gradientStep swept
  by_cases h : 0 ≤ e ∧ e < nx * ny * nz
  · rw [if_pos h, (gradientValue_const pnode nx ny nz hx hy n2 g c hg e h.1 h.2).2,
      hg e h.1 h.2]
  · rw [if_neg h]

/-- C30. On a grid with `nx, ny >= 1` whose voxels all equal `c`, with `K * RMS != 0`: the
per-voxel body of an iteration stores `c` at every voxel, one iteration leaves the grid as
it is, and a run nobody cancels holds the initial grid when its iterations have ended,
whatever the iteration count. -/
theorem C30_constant_field_fixed (env : Env) (hq : Quiet env) (pnode : ParametersNode)
    (s : State) (ov : ImageData) (hv : ValidScene s ov) (hx : 1 ≤ ov.dims0)
    (hy : 1 ≤ ov.dims1) (c : ℚ)
    (hg : ∀ e, 0 ≤ e → e < ov.dims0 * ov.dims1 * ov.dims2 → s.outPixel e = c)
    (hK : pnode.K * s.RMS ≠ 0) :
    (∀ e (t : State), 0 ≤ e → e < ov.dims0 * ov.dims1 * ov.dims2 →
      t.outPixel = s.outPixel →
      (gradientVoxel pnode ov.dims0 (ov.dims0 * ov.dims1) (ov.dims0 * ov.dims1 * ov.dims2)
        (s.RMS * s.RMS * pnode.K * pnode.K) e t).tempPixel e = c) ∧
    gradientStep pnode ov.dims0 (ov.dims0 * ov.dims1) (ov.dims0 * ov.dims1 * ov.dims2)
      (s.RMS * s.RMS * pnode.K * pnode.K) s.outPixel = s.outPixel ∧
    (gradientLoop env pnode ov s).cancel = false ∧
    (gradientLoop env pnode ov s).outPixel = s.outPixel := by
  have _ := hK
  have hfix := gradientStep_const pnode ov.dims0 ov.dims1 ov.dims2 hx hy
    (s.RMS * s.RMS * pnode.K * pnode.K) s.outPixel c hg
  obtain ⟨q1, q2, _⟩ := gradient_quiet env hq pnode s ov hv _ rfl
  refine ⟨?_, hfix, q1, ?_⟩
  · intro e t h0 hN ht
    rw [gradientVoxel_eq]
    show write t.tempPixel e _ e = c
    rw [write_same, ht]
    exact (gradientValue_const pnode ov.dims0 ov.dims1 ov.dims2 hx hy _ s.outPixel c hg e
      h0 hN).2
  · rw [q2]
    exact Function.iterate_fixed hfix _

/-- C30 (witness). Twenty iterations on a 2x2x2 grid of all 3.0 with `K = RMS = 1`: the
grid before the bias correction is the initial one. -/
theorem C30_constant_field_fixed_witness :
    (gradientLoop idleEnv (gradientNode 20) (floatImage 2 2 2)
      (sceneOf (floatImage 2 2 2) (floatImage 2 2 2) (fun _ => 0) (fun _ => 3) 0)).outPixel
      = fun _ => 3 :=
  (C30_constant_field_fixed idleEnv idleEnv_quiet (gradientNode 20)
    (sceneOf (floatImage 2 2 2) (floatImage 2 2 2) (fun _ => 0) (fun _ => 3) 0)
    (floatImage 2 2 2) (sceneOf_valid _ _ _ _ _ (by norm_num [floatImage]) (Or.inl rfl))
    (by norm_num [floatImage]) (by norm_num [floatImage]) 3 (fun _ _ _ => rfl)
    (by norm_num [gradientNode, sceneOf])).2.2.2

/-- C29. In the per-voxel body of `GradientCPUFilter`, with `noise2 = RMS * RMS * K * K`:
when `K * RMS != 0`, `norm = 1 + Pixel2 / noise2` is at least 1, hence not zero, and the
value stored differs from the voxel's value by `timeStep * (cX + cY + cZ) / norm`, of
magnitude at most `|timeStep * (cX + cY + cZ)|`. The divisor `noise2` is zero exactly when
`K = 0` or `RMS = 0`, and `StringToDouble` reads an attribute from which no number can be
extracted as 0. -/
theorem C29_gradient_norm (pnode : ParametersNode) (rms : ℚ) (dims0 numSlice numElements : Int)
    (out : Buffer) (elemCnt : Int) :
    (pnode.K * rms ≠ 0 →
      1 ≤ gradientNorm (rms * rms * pnode.K * pnode.K) out elemCnt ∧
      gradientNorm (rms * rms * pnode.K * pnode.K) out elemCnt ≠ 0 ∧
      gradientValue pnode dims0 numSlice numElements (rms * rms * pnode.K * pnode.K) out
          elemCnt - out elemCnt =
        pnode.TimeStep * gradientFlux pnode dims0 numSlice numElements out elemCnt /
          gradientNorm (rms * rms * pnode.K * pnode.K) out elemCnt ∧
      |gradientValue pnode dims0 numSlice numElements (rms * rms * pnode.K * pnode.K) out
          elemCnt - out elemCnt| ≤
        |pnode.TimeStep * gradientFlux pnode dims0 numSlice numElements out elemCnt|) ∧
    (rms * rms * pnode.K * pnode.K = 0 ↔ pnode.K = 0 ∨ rms = 0) ∧
    (∀ (extract : String → Option ℚ) (str : String), extract str = none →
      StringToDouble extract str = 0 ∧
      StringToDouble extract str * StringToDouble extract str * pnode.K * pnode.K = 0) := by
  refine ⟨?_, ?_, ?_⟩
  · intro hK
    have hn2 : 0 < rms * rms * pnode.K * pnode.K := by
      have h1 : rms * rms * pnode.K * pnode.K = (pnode.K * rms) ^ 2 := by ring
      rw [h1]
      positivity
    have hnorm : 1 ≤ gradientNorm (rms * rms * pnode.K * pnode.K) out elemCnt := by
      unfold gradientNorm
      have : 0 ≤ out elemCnt * out elemCnt / (rms * rms * pnode.K * pnode.K) :=
        div_nonneg (mul_self_nonneg _) hn2.le
      linarith
    have hpos : 0 < gradientNorm (rms * rms * pnode.K * pnode.K) out elemCnt := by linarith
    refine ⟨hnorm, hpos.ne', ?_, ?_⟩
    · unfold gradientValue
      rw [if_neg hn2.ne']
      ring
    · have hd : gradientValue pnode dims0 numSlice numElements
          (rms * rms * pnode.K * pnode.K) out elemCnt - out elemCnt =
          pnode.TimeStep * gradientFlux pnode dims0 numSlice numElements out elemCnt /
            gradientNorm (rms * rms * pnode.K * pnode.K) out elemCnt := by
        unfold gradientValue
        rw [if_neg hn2.ne']
        ring
      rw [hd, abs_div, abs_of_pos hpos]
      exact div_le_self (abs_nonneg _) hnorm
  · constructor
    · intro h
      rcases mul_eq_zero.mp h with h1 | h1
      · rcases mul_eq_zero.mp h1 with h2 | h2
        · rcases mul_eq_zero.mp h2 with h3 | h3
          · exact Or.inr h3
          · exact Or.inr h3
        · exact Or.inl h2
      · exact Or.inl h1
    · rintro (h | h)
      · rw [h]
        ring
      · rw [h]
        ring
  · intro extract str h
    have h0 : StringToDouble extract str = 0 := by
      unfold StringToDouble
      rw [h]
    rw [h0]
    exact ⟨rfl, by ring⟩

/-- C29 (witness). `K = RMS = 1`, `timeStep = 1` and the 2x1x1 grid holding 0 and 1, at
voxel 1: `norm` is at least 1 and the voxel changes by at most
`|timeStep * (cX + cY + cZ)|`. -/
theorem C29_gradient_norm_witness :
    1 ≤ gradientNorm (1 * 1 * (gradientNode 1).K * (gradientNode 1).K)
      (fun e => if e = 1 then 1 else 0) 1 ∧
    |gradientValue (gradientNode 1) 2 2 2 (1 * 1 * (gradientNode 1).K * (gradientNode 1).K)
        (fun e => if e = 1 then 1 else 0) 1 - (fun e : Int => if e = 1 then (1 : ℚ) else 0) 1| ≤
      |(gradientNode 1).TimeStep *
        gradientFlux (gradientNode 1) 2 2 2 (fun e => if e = 1 then 1 else 0) 1| := by
  have h := (C29_gradient_norm (gradientNode 1) 1 2 2 2 (fun e => if e = 1 then 1 else 0)
    1).1 (by norm_num [gradientNode])
  exact ⟨h.1, h.2.2.2⟩

/-- With the Y and Z passes skipped, the isotropic box filter returns the grid of its X
stage. -/
theorem isoBox_x_stage_only (env : Env) (pnode : ParametersNode) (s : State) (ov : ImageData)
    (hv : ValidScene s ov) (hy : pnode.ParameterY ≤ 0.001) (hz : pnode.ParameterZ ≤ 0.001) :
    (IsotropicBoxCPUFilter env pnode s).2.outPixel =
      (boxStageX env pnode ov (startScratch s)).outPixel := by
  obtain ⟨⟨iv, hin⟩, hout, hcomp, htype⟩ := hv
  have hy2 : ¬ pnode.ParameterY > 0.001 := not_lt.mpr hy
  have hz2 : ¬ pnode.ParameterZ > 0.001 := not_lt.mpr hz
  unfold IsotropicBoxCPUFilter
  simp only [hin, hout, hcomp, htype, if_true, if_false]
  by_cases hc : (boxStageX env pnode ov (startScratch s)).cancel = true
  · simp only [hc, if_true]
    rfl
  · simp only [hc, if_false, boxStageY, boxStageZ, hy2, hz2, releaseTemp]
    rfl

/-- With the Y and Z passes skipped, the isotropic Gaussian filter returns the grid of its
X stage. -/
theorem isoGauss_x_stage_only (env : Env) (pnode : ParametersNode) (s : State)
    (ov : ImageData) (hv : ValidScene s ov) (hy : pnode.ParameterY ≤ 0.001)
    (hz : pnode.ParameterZ ≤ 0.001) :
    (IsotropicGaussianCPUFilter env pnode s).2.outPixel =
      (gaussStageX env pnode ov (startScratch s)).outPixel := by
  obtain ⟨⟨iv, hin⟩, hout, hcomp, htype⟩ := hv
  have hy2 : ¬ pnode.ParameterY > 0.001 := not_lt.mpr hy
  have hz2 : ¬ pnode.ParameterZ > 0.001 := not_lt.mpr hz
  unfold IsotropicGaussianCPUFilter
  simp only [hin, hout, hcomp, htype, if_true, if_false]
  by_cases hc : (gaussStageX env pnode ov (startScratch s)).cancel = true
  · simp only [hc, if_true]
    rfl
  · simp only [hc, if_false, gaussStageY, gaussStageZ, hy2, hz2, releaseTemp]
    rfl

/-- C21. In `IsotropicBoxCPUFilter` and `IsotropicGaussianCPUFilter` a pass whose axis
parameter is at most 0.001 is a copy. With `ParameterY <= 0.001` the second stage changes
nothing but the scratch grid, which becomes the output grid left by the first stage. With
`ParameterZ <= 0.001` the third stage changes nothing but the output grid, which becomes
the scratch grid left by the second stage. With both at most 0.001, on a valid scene, the
output grid the filter returns is the one its X stage left. -/
theorem C21_skipped_pass_is_copy (env : Env) (pnode : ParametersNode) (ov : ImageData)
    (s : State) :
    (pnode.ParameterY ≤ 0.001 →
      boxStageY env pnode ov s = { s with tempPixel := s.outPixel } ∧
      gaussStageY env pnode ov s = { s with tempPixel := s.outPixel }) ∧
    (pnode.ParameterZ ≤ 0.001 →
      boxStageZ env pnode ov s = { s with outPixel := s.tempPixel } ∧
      gaussStageZ env pnode ov s = { s with outPixel := s.tempPixel }) ∧
    (pnode.ParameterY ≤ 0.001 → pnode.ParameterZ ≤ 0.001 → ValidScene s ov →
      (IsotropicBoxCPUFilter env pnode s).2.outPixel =
        (boxStageX env pnode ov (startScratch s)).outPixel ∧
      (IsotropicGaussianCPUFilter env pnode s).2.outPixel =
        (gaussStageX env pnode ov (startScratch s)).outPixel) := by
  refine ⟨?_, ?_, ?_⟩
  · intro hy
    have hy2 : ¬ pnode.ParameterY > 0.001 := not_lt.mpr hy
    unfold boxStageY gaussStageY
    simp only [hy2, if_false]
    exact ⟨trivial, trivial⟩
  · intro hz
    have hz2 : ¬ pnode.ParameterZ > 0.001 := not_lt.mpr hz
    unfold boxStageZ gaussStageZ
    simp only [hz2, if_false]
    exact ⟨trivial, trivial⟩
  · intro hy hz hv
    exact ⟨isoBox_x_stage_only env pnode s ov hv hy hz,
      isoGauss_x_stage_only env pnode s ov hv hy hz⟩

/-- C21 (witness). Box filter with axis parameters 3, 0, 0 on a 4x4x4 grid: the returned
output grid is the one the X stage left. -/
theorem C21_skipped_pass_is_copy_witness :
    (IsotropicBoxCPUFilter idleEnv (boxNode 3 0 0)
      (sceneOf (floatImage 4 4 4) (floatImage 4 4 4) (fun _ => 0) rowGrid 0)).2.outPixel =
    (boxStageX idleEnv (boxNode 3 0 0) (floatImage 4 4 4)
      (startScratch
        (sceneOf (floatImage 4 4 4) (floatImage 4 4 4) (fun _ => 0) rowGrid 0))).outPixel :=
  ((C21_skipped_pass_is_copy idleEnv (boxNode 3 0 0) (floatImage 4 4 4)
    (sceneOf (floatImage 4 4 4) (floatImage 4 4 4) (fun _ => 0) rowGrid 0)).2.2
    (by norm_num [boxNode]) (by norm_num [boxNode])
    (sceneOf_valid _ _ _ _ _ (by norm_num [floatImage]) (Or.inl rfl))).1

theorem mem_indices (N e : Int) : e ∈ indices N ↔ 0 ≤ e ∧ e < N := by
  unfold indices
  rw [List.mem_map]
  constructor
  · rintro ⟨k, hk, rfl⟩
    have := List.mem_range.mp hk
    constructor
    · exact Int.ofNat_nonneg k
    · show (k : Int) < N
      omega
  · rintro ⟨h0, h1⟩
    refine ⟨e.toNat, List.mem_range.mpr (by omega), ?_⟩
    show ((e.toNat : Nat) : Int) = e
    omega

theorem runOrder_dst (dst src : State → Buffer) (body : Int → State → State)
    (F : Buffer → Int → ℚ)
    (h : ∀ e t, dst (body e t) = write (dst t) e (F (src t) e) ∧ src (body e t) = src t)
    (order : List Int) (s : State) :
    dst (runOrder body order s) = (fun q => if q ∈ order then F (src s) q else dst s q) ∧
    src (runOrder body order s) = src s := by
  induction order generalizing s with
  | nil =>
    refine ⟨?_, rfl⟩
    funext q
    simp [runOrder]
  | cons e l ih =>
    have hstep : runOrder body (e :: l) s = runOrder body l (body e s) := rfl
    obtain ⟨a, b⟩ := ih (body e s)
    obtain ⟨c, d⟩ := h e s
    rw [hstep, a, b, d, c]
    refine ⟨?_, rfl⟩
    funext q
    by_cases hq : q = e
    · subst hq
      by_cases hl : q ∈ l
      · simp [hl]
      · simp [hl, write]
    · by_cases hl : q ∈ l
      · simp [hl]
      · simp [hl, hq, write]

theorem runOrder_swept (dst src : State → Buffer) (body : Int → State → State)
    (F : Buffer → Int → ℚ)
    (h : ∀ e t, dst (body e t) = write (dst t) e (F (src t) e) ∧ src (body e t) = src t)
    (N : Int) (order : List Int) (hp : order.Perm (indices N)) (s : State) :
    dst (runOrder body order s) = swept N (F (src s)) (dst s) := by
  rw [(runOrder_dst dst src body F h order s).1]
  funext q
  unfold swept
  have hm : q ∈ order ↔ 0 ≤ q ∧ q < N := (hp.mem_iff).trans (mem_indices N q)
  by_cases hq : 0 ≤ q ∧ q < N
  · rw [if_pos (hm.mpr hq), if_pos hq]
  · rw [if_neg (fun hx => hq (hm.mp hx)), if_neg hq]

/-- Sweeps that read the scratch grid and write the output grid. -/
theorem orderFree_out (env : Env) (hq : Quiet env) (N : Int) (body : Int → State → State)
    (P : Buffer → Int → ℚ)
    (hb : ∀ e t, body e t = { t with outPixel := write t.outPixel e (P t.tempPixel e) })
    (s : State) (hc : s.cancel = false) (hd : s.divByZero = false) (hs : s.Status ≠ -1) :
    WritesOwn State.outPixel State.tempPixel body ∧
    OrderFree env N State.outPixel body s := by
  have h : ∀ e t, (body e t).outPixel = write t.outPixel e (P t.tempPixel e) ∧
      (body e t).tempPixel = t.tempPixel := by
    intro e t
    rw [hb]
    exact ⟨rfl, rfl⟩
  refine ⟨⟨P, h⟩, ?_⟩
  intro order hp
  obtain ⟨st, rd, _, e⟩ := sweep_out_quiet env hq N body (P s.tempPixel) s
    (fun e t ht _ => by rw [hb, ht]) hc hd hs
  rw [runOrder_swept State.outPixel State.tempPixel body P h N order hp s, e]

/-- Sweeps that read the output grid and write the scratch grid. -/
theorem orderFree_temp (env : Env) (hq : Quiet env) (N : Int) (body : Int → State → State)
    (P : Buffer → Int → ℚ)
    (hb : ∀ e t, body e t = { t with tempPixel := write t.tempPixel e (P t.outPixel e) })
    (s : State) (hc : s.cancel = false) (hd : s.divByZero = false) (hs : s.Status ≠ -1) :
    WritesOwn State.tempPixel State.outPixel body ∧
    OrderFree env N State.tempPixel body s := by
  have h : ∀ e t, (body e t).tempPixel = write t.tempPixel e (P t.outPixel e) ∧
      (body e t).outPixel = t.outPixel := by
    intro e t
    rw [hb]
    exact ⟨rfl, rfl⟩
  refine ⟨⟨P, h⟩, ?_⟩
  intro order hp
  obtain ⟨st, rd, _, e⟩ := sweep_temp_quiet env hq N body (P s.outPixel) s
    (fun e t ht => by rw [hb, ht]) hc hd hs
  rw [runOrder_swept State.tempPixel State.outPixel body P h N order hp s, e]

theorem progress_in (N e : Int) (s : State) : (progress N e s).inPixel = s.inPixel := by
  unfold progress SetStatus
  by_cases h1 : Int.tdiv N 100 = 0
  · simp [h1]
  · by_cases h2 : Int.tdiv e (Int.tdiv N 100) > s.status
    · simp [h1, h2]
    · simp [h1, h2]

/-- Anisotropic sweeps: they read the input grid and write the output grid. -/
theorem orderFree_aniso (env : Env) (hq : Quiet env) (N : Int) (body : Int → State → State)
    (P : Buffer → Int → ℚ)
    (hb : ∀ e t, body e t =
      progress N e { t with outPixel := write t.outPixel e (P t.inPixel e) })
    (s : State) (hc : s.cancel = false) (hd : s.divByZero = false) (hs : s.Status ≠ -1)
    (hls : 0 ≤ s.status) :
    WritesOwn State.outPixel State.inPixel body ∧
    (100 ≤ N → OrderFree env N State.outPixel body s) := by
  have h : ∀ e t, (body e t).outPixel = write t.outPixel e (P t.inPixel e) ∧
      (body e t).inPixel = t.inPixel := by
    intro e t
    rw [hb, progress_out, progress_in]
    exact ⟨rfl, rfl⟩
  refine ⟨⟨P, h⟩, ?_⟩
  intro hN order hp
  obtain ⟨st, rd, ls, wr, _, e⟩ := sweep_aniso_quiet env hq N hN body (P s.inPixel) s
    (fun e t ht => by rw [hb, ht]) hc hd hs hls
  rw [runOrder_swept State.outPixel State.inPixel body P h N order hp s, e]

/-- C25. The sweeps of the CPU filters (single-threaded bodies, the input, output and
scratch grids being distinct buffers), started in a state that is not cancelled and run
while nobody cancels, on a grid with `dims[0] >= 0` and `numSlice >= 0`. For each of the
nine per-voxel bodies: the body for index `e` writes only element `e` of its destination
buffer, the value written is computed from `e` and the source buffer alone, and the source
buffer is left as it is; hence processing the indices `0, ..., numElements - 1` in any order
leaves the destination buffer the in-order sweep leaves. The X and Z passes of the
isotropic filters read the scratch grid and write the output grid, the Y passes and the
gradient iteration read the output grid and write the scratch grid, the anisotropic sweeps
read the input grid and write the output grid (order statement: for grids of at least 100
voxels). -/
theorem C25_sweep_order_independent (env : Env) (hq : Quiet env) (N nx S : Int)
    (hnx : 0 ≤ nx) (hS : 0 ≤ S) (s : State) (hc : s.cancel = false)
    (hd : s.divByZero = false) (hs : s.Status ≠ -1) (hls : 0 ≤ s.status)
    (pnode : ParametersNode) (nItems h is is2 hx hy hz cont KS KL : Int) (n2 : ℚ)
    (g G : Buffer) :
    (WritesOwn State.outPixel State.tempPixel (boxVoxelX nx nItems h) ∧
      OrderFree env N State.outPixel (boxVoxelX nx nItems h) s) ∧
    (WritesOwn State.tempPixel State.outPixel (boxVoxelY nx S nItems h) ∧
      OrderFree env N State.tempPixel (boxVoxelY nx S nItems h) s) ∧
    (WritesOwn State.outPixel State.tempPixel (boxVoxelZ S N nItems h) ∧
      OrderFree env N State.outPixel (boxVoxelZ S N nItems h) s) ∧
    (WritesOwn State.outPixel State.tempPixel (gaussVoxelX nx is is2 g) ∧
      OrderFree env N State.outPixel (gaussVoxelX nx is is2 g) s) ∧
    (WritesOwn State.tempPixel State.outPixel (gaussVoxelY nx S is is2 g) ∧
      OrderFree env N State.tempPixel (gaussVoxelY nx S is is2 g) s) ∧
    (WritesOwn State.outPixel State.tempPixel (gaussVoxelZ S N is is2 g) ∧
      OrderFree env N State.outPixel (gaussVoxelZ S N is is2 g) s) ∧
    (WritesOwn State.tempPixel State.outPixel (gradientVoxel pnode nx S N n2) ∧
      OrderFree env N State.tempPixel (gradientVoxel pnode nx S N n2) s) ∧
    (WritesOwn State.outPixel State.inPixel (anisoBoxVoxel nx S N hx hy hz cont) ∧
      (100 ≤ N → OrderFree env N State.outPixel (anisoBoxVoxel nx S N hx hy hz cont) s)) ∧
    (WritesOwn State.outPixel State.inPixel (anisoGaussVoxel nx S N hx hy hz KS KL G) ∧
      (100 ≤ N →
        OrderFree env N State.outPixel (anisoGaussVoxel nx S N hx hy hz KS KL G) s)) := by
  refine ⟨?_, ?_, ?_, ?_, ?_, ?_, ?_, ?_, ?_⟩
  · exact orderFree_out env hq N _ (fun T e => passX nx nItems h T e)
      (fun e t => boxVoxelX_eq nx nItems h e t) s hc hd hs
  · exact orderFree_temp env hq N _ (fun T e => passY nx S nItems h T e)
      (fun e t => boxVoxelY_eq nx S nItems h hnx e t) s hc hd hs
  · exact orderFree_out env hq N _ (fun T e => passZ S N nItems h T e)
      (fun e t => boxVoxelZ_eq S N nItems h hS e t) s hc hd hs
  · exact orderFree_out env hq N _ (fun T e => gaussPassX nx is is2 g T e)
      (fun e t => gaussVoxelX_eq nx is is2 g e t) s hc hd hs
  · exact orderFree_temp env hq N _ (fun T e => gaussPassY nx S is is2 g T e)
      (fun e t => gaussVoxelY_eq nx S is is2 hnx g e t) s hc hd hs
  · exact orderFree_out env hq N _ (fun T e => gaussPassZ S N is is2 g T e)
      (fun e t => gaussVoxelZ_eq S N is is2 hS g e t) s hc hd hs
  · exact orderFree_temp env hq N _ (fun T e => gradientValue pnode nx S N n2 T e)
      (fun e t => gradientVoxel_eq pnode nx S N n2 e t) s hc hd hs
  · exact orderFree_aniso env hq N _ (fun I e => anisoBoxSum nx S N hx hy hz I e / cont)
      (fun e t => anisoBoxVoxel_eq nx S N hx hy hz cont e t) s hc hd hs hls
  · exact orderFree_aniso env hq N _ (fun I e => anisoGaussSum nx S N hx hy hz KS KL G I e)
      (fun e t => anisoGaussVoxel_eq nx S N hx hy hz KS KL G e t) s hc hd hs hls

/-- C25 (witness). A 10x10x1 grid, the indices processed from 99 down to 0: the X pass of
the box filter (kernel length 3) and the anisotropic box sweep (half-widths 1, 2, 0) leave
the output grid of the in-order sweep. -/
theorem C25_sweep_order_independent_witness :
    (runOrder (boxVoxelX 10 3 1) (indices 100).reverse
      (startScratch (sceneOf (floatImage 10 10 1) (floatImage 10 10 1) rowGrid rowGrid
        0))).outPixel =
      (sweep idleEnv 100 (boxVoxelX 10 3 1)
        (startScratch (sceneOf (floatImage 10 10 1) (floatImage 10 10 1) rowGrid rowGrid
          0))).outPixel ∧
    (runOrder (anisoBoxVoxel 10 100 100 1 2 0 15) (indices 100).reverse
      (startScratch (sceneOf (floatImage 10 10 1) (floatImage 10 10 1) rowGrid rowGrid
        0))).outPixel =
      (sweep idleEnv 100 (anisoBoxVoxel 10 100 100 1 2 0 15)
        (startScratch (sceneOf (floatImage 10 10 1) (floatImage 10 10 1) rowGrid rowGrid
          0))).outPixel := by
  have h := C25_sweep_order_independent idleEnv idleEnv_quiet 100 10 100 (by norm_num)
    (by norm_num)
    (startScratch (sceneOf (floatImage 10 10 1) (floatImage 10 10 1) rowGrid rowGrid 0))
    rfl rfl (by simp [startScratch, SetStatus]) (by simp [startScratch, SetStatus, sceneOf])
    (boxNode 3 5 1) 3 1 0 0 1 2 0 15 0 0 0 (fun _ => 0) (fun _ => 0)
  exact ⟨h.1.2 _ (List.reverse_perm _),
    h.2.2.2.2.2.2.2.1.2 (by norm_num) _ (List.reverse_perm _)⟩

/-- C26 (counterexample). OpenMP build, worker thread 1 in the X pass of the box filter
(kernel length 3) on a 2x1x1 grid of all 3.0, the shared `cancel` not set: the status read
before voxel 0 returns `-1`, and the worker still processes voxel 0 (one more body executed,
the voxel overwritten with `(3 + 3) / 3 = 2`) and leaves `cancel` unset. -/
theorem C26_counterexample :
    (GetStatus cancelEnv
      (startScratch (sceneOf (floatImage 2 1 1) (floatImage 2 1 1) (fun _ => 3)
        (fun _ => 3) 0))).1 = -1 ∧
    (stepState (voxelStepOpenMP cancelEnv 1 (boxVoxelX 2 3 1) 0
      (startScratch (sceneOf (floatImage 2 1 1) (floatImage 2 1 1) (fun _ => 3)
        (fun _ => 3) 0)))).voxels = 1 ∧
    (stepState (voxelStepOpenMP cancelEnv 1 (boxVoxelX 2 3 1) 0
      (startScratch (sceneOf (floatImage 2 1 1) (floatImage 2 1 1) (fun _ => 3)
        (fun _ => 3) 0)))).outPixel 0 = 2 ∧
    (stepState (voxelStepOpenMP cancelEnv 1 (boxVoxelX 2 3 1) 0
      (startScratch (sceneOf (floatImage 2 1 1) (floatImage 2 1 1) (fun _ => 3)
        (fun _ => 3) 0)))).cancel = false := by
  have hstep : voxelStepOpenMP cancelEnv 1 (boxVoxelX 2 3 1) 0
      (startScratch (sceneOf (floatImage 2 1 1) (floatImage 2 1 1) (fun _ => 3)
        (fun _ => 3) 0)) =
      LoopStep.cont (boxVoxelX 2 3 1 0
        (afterRead (-1) (startScratch (sceneOf (floatImage 2 1 1) (floatImage 2 1 1)
          (fun _ => 3) (fun _ => 3) 0)))) := by
    simp [voxelStepOpenMP, GetStatus, cancelEnv, afterRead, startScratch, SetStatus, sceneOf,
      boxVoxelX]
  rw [hstep]
  refine ⟨rfl, rfl, ?_, rfl⟩
  simp only [stepState, boxVoxelX_eq, write_same]
  have h3 : Int.toNat 3 = 3 := rfl
  have ht : Int.tdiv 0 2 = 0 := by decide
  norm_num [passX, winSum, h3, ht, Finset.sum_range_succ, afterRead, startScratch, SetStatus,
    sceneOf]

/-- C26 (amended). A worker of the OpenMP build whose status read before index `e` returns
`-1`. If it is thread 0, or if the shared `cancel` it sees is already set, it does not
process `e`: no body is executed, no buffer changes, and `cancel` is set afterwards. If it
is another thread and the shared `cancel` is not yet set, it executes the body for `e` and
does not set `cancel`. In the single-threaded build the read of `-1` always skips `e`. -/
theorem C26_openmp_cancel_check (env : Env) (thread : Int) (body : Int → State → State)
    (e : Int) (s : State) (hread : (GetStatus env s).1 = -1) :
    ((thread = 0 ∨ s.cancel = true) →
      voxelStepOpenMP env thread body e s =
        LoopStep.cont { (GetStatus env s).2 with cancel := true } ∧
      (stepState (voxelStepOpenMP env thread body e s)).voxels = s.voxels ∧
      (stepState (voxelStepOpenMP env thread body e s)).outPixel = s.outPixel ∧
      (stepState (voxelStepOpenMP env thread body e s)).tempPixel = s.tempPixel ∧
      (stepState (voxelStepOpenMP env thread body e s)).cancel = true) ∧
    (thread ≠ 0 → s.cancel = false →
      stepState (voxelStepOpenMP env thread body e s) =
        body e { (GetStatus env s).2 with voxels := s.voxels + 1 }) ∧
    voxelStep env body e s = LoopStep.cont { (GetStatus env s).2 with cancel := true } := by
  have hc : (GetStatus env s).2.cancel = s.cancel := rfl
  have hv : (GetStatus env s).2.voxels = s.voxels := rfl
  refine ⟨?_, ?_, ?_⟩
  · intro h
    have hstep : voxelStepOpenMP env thread body e s =
        LoopStep.cont { (GetStatus env s).2 with cancel := true } := by
      unfold voxelStepOpenMP
      rcases h with h | h
      · simp only [hread, h, and_self, if_true]
      · by_cases ht : thread = 0
        · simp only [hread, ht, and_self, if_true]
        · have hs1 : (GetStatus env s).2 = { (GetStatus env s).2 with cancel := true } := by
            rw [← h, ← hc]
          simp only [hread, ht, and_false, if_false, hc, h, if_true]
          rw [← hs1]
    rw [hstep]
    exact ⟨rfl, rfl, rfl, rfl, rfl⟩
  · intro ht hcs
    unfold voxelStepOpenMP
    simp only [hread, ht, and_false, if_false, hc, hcs, Bool.false_eq_true, hv]
    split_ifs <;> rfl
  · unfold voxelStep
    simp only [hread, if_true]

/-- C26 (witness). Thread 0 in the X pass of the box filter on a 2x1x1 grid, the status
cell holding `-1`: voxel 0 is not processed and `cancel` is set. -/
theorem C26_openmp_cancel_check_witness :
    (stepState (voxelStepOpenMP cancelEnv 0 (boxVoxelX 2 3 1) 0
      (startScratch (sceneOf (floatImage 2 1 1) (floatImage 2 1 1) (fun _ => 3)
        (fun _ => 3) 0)))).voxels = 0 ∧
    (stepState (voxelStepOpenMP cancelEnv 0 (boxVoxelX 2 3 1) 0
      (startScratch (sceneOf (floatImage 2 1 1) (floatImage 2 1 1) (fun _ => 3)
        (fun _ => 3) 0)))).outPixel 0 = 3 ∧
    (stepState (voxelStepOpenMP cancelEnv 0 (boxVoxelX 2 3 1) 0
      (startScratch (sceneOf (floatImage 2 1 1) (floatImage 2 1 1) (fun _ => 3)
        (fun _ => 3) 0)))).cancel = true := by
  have h := (C26_openmp_cancel_check cancelEnv 0 (boxVoxelX 2 3 1) 0
    (startScratch (sceneOf (floatImage 2 1 1) (floatImage 2 1 1) (fun _ => 3)
      (fun _ => 3) 0)) rfl).1 (Or.inl rfl)
  exact ⟨h.2.1, by rw [h.2.2.1]; rfl, h.2.2.2.2⟩

theorem anisoGauss_trap (env : Env) (hq : Quiet env) (pnode : ParametersNode) (s : State)
    (ov : ImageData) (hv : ValidScene s ov) (hN1 : 1 ≤ ov.dims0 * ov.dims1 * ov.dims2)
    (hN : ov.dims0 * ov.dims1 * ov.dims2 < 100) :
    (AnisotropicGaussianCPUFilter env pnode s).1 = Outcome.divisionByZero := by
  obtain ⟨⟨iv, hin⟩, hout, hcomp, htype⟩ := hv
  have htrap := sweep_aniso_trap env hq (ov.dims0 * ov.dims1 * ov.dims2) hN1 hN
    (anisoGaussVoxel ov.dims0 (ov.dims0 * ov.dims1) (ov.dims0 * ov.dims1 * ov.dims2)
      (toInt (((pnode.KernelLengthX - 1 : Int) : ℚ) / 2))
      (toInt (((pnode.KernelLengthY - 1 : Int) : ℚ) / 2))
      (toInt (((pnode.KernelLengthZ - 1 : Int) : ℚ) / 2))
      (pnode.KernelLengthX * pnode.KernelLengthY) pnode.KernelLengthX
      pnode.GaussianKernel3D)
    (startDirect s) (fun e t => ⟨_, anisoGaussVoxel_eq _ _ _ _ _ _ _ _ _ e t⟩) rfl
    (by simp [startDirect, SetStatus])
  unfold AnisotropicGaussianCPUFilter
  simp only [hin, hout, hcomp, htype, if_true, if_false, htrap]

/-- The divisor of the progress update is zero on every grid of 1 to 99 voxels, and on
every grid of fewer than `numProcs * 100` voxels in the OpenMP build. -/
theorem progress_divisor_zero (N numProcs : Int) (hN1 : 1 ≤ N) (hp : 1 ≤ numProcs) :
    (N < 100 → Int.tdiv N 100 = 0) ∧
    (N < numProcs * 100 → progressDivisorOpenMP N numProcs = 0) := by
  constructor
  · intro hN
    rw [Int.tdiv_eq_ediv (by omega) (by norm_num)]
    omega
  · intro hN
    unfold progressDivisorOpenMP
    rw [Int.tdiv_eq_ediv (by omega) (by omega)]
    exact Int.ediv_eq_zero_of_lt (by omega) hN

/-- C28 (failing input). A 9x11x1 grid (99 voxels), nobody cancelling: the divisor
`numElements / 100` of the progress update is `99 / 100 = 0`, the first voxel's progress
update divides by it, and both anisotropic filters end in an integer division by zero. In
the OpenMP build with one worker the divisor `numElements / (numProcs * 100)` is 0 as
well. -/
theorem C28_progress_divides_by_zero :
    Int.tdiv ((floatImage 9 11 1).dims0 * (floatImage 9 11 1).dims1 *
      (floatImage 9 11 1).dims2) 100 = 0 ∧
    progressDivisorOpenMP ((floatImage 9 11 1).dims0 * (floatImage 9 11 1).dims1 *
      (floatImage 9 11 1).dims2) 1 = 0 ∧
    (progress 99 0
      (startDirect (sceneOf (floatImage 9 11 1) (floatImage 9 11 1) (fun _ => 1)
        (fun _ => 0) 0))).divByZero = true ∧
    (AnisotropicBoxCPUFilter idleEnv (boxNode 3 5 1)
      (sceneOf (floatImage 9 11 1) (floatImage 9 11 1) (fun _ => 1) (fun _ => 0) 0)).1 =
      Outcome.divisionByZero ∧
    (AnisotropicGaussianCPUFilter idleEnv (unitGaussNode 0)
      (sceneOf (floatImage 9 11 1) (floatImage 9 11 1) (fun _ => 1) (fun _ => 0) 0)).1 =
      Outcome.divisionByZero := by
  have hv : ValidScene
      (sceneOf (floatImage 9 11 1) (floatImage 9 11 1) (fun _ => 1) (fun _ => 0) 0)
      (floatImage 9 11 1) :=
    sceneOf_valid _ _ _ _ _ (by norm_num [floatImage]) (Or.inl rfl)
  refine ⟨by decide, by decide, progress_trap 99 0 (by norm_num) (by norm_num) _,
    anisoBox_trap idleEnv idleEnv_quiet _ _ (floatImage 9 11 1) hv
      (by norm_num [floatImage]) (by norm_num [floatImage]),
    anisoGauss_trap idleEnv idleEnv_quiet _ _ (floatImage 9 11 1) hv
      (by norm_num [floatImage]) (by norm_num [floatImage])⟩

/-- The X tap loop of the isotropic Gaussian filter for kernel length 1 at voxel 0 of a row
of 100 voxels: two taps, table entries 0 and 1, applied to the voxel and to its right-hand
neighbour. -/
theorem gaussPassX_unit (g T : Buffer) :
    gaussPassX 100 (forceOdd 1) (-(Int.tdiv (forceOdd 1 - 1) 2)) g T 0 =
      T 0 * g 0 + T 1 * g 1 := by
  have ht : Int.tmod 1 2 = 1 := by decide
  have hodd : forceOdd 1 = 1 := by
    unfold forceOdd
    norm_num [ht]
  have h2 : Int.toNat 2 = 2 := rfl
  rw [hodd]
  norm_num [gaussPassX, winSum, h2, Finset.sum_range_succ]

/-- C27 (failing input). Kernel length `L = 1` (`h = 0`), 1-D table `[1.0]` followed in
memory by a cell holding `c`, on a 100x1x1 grid. The body of the X pass at voxel 0 stores
`temp[0] * g[0] + temp[1] * g[1]`: the tap loop `for (int i = 0; i <= is; i++)` reads table
index 1 = L and applies it to the neighbour at offset 1 = h + 1. With the output grid
holding 1.0 at voxel 1 and 0.0 elsewhere the filter returns 1 and leaves `c` at voxel 0,
where taps at the offsets `-h..h` alone leave 0. -/
theorem C27_tap_loop_overrun (c : ℚ) :
    (∀ (g : Buffer) (s : State),
      (gaussVoxelX 100 (forceOdd 1) (-(Int.tdiv (forceOdd 1 - 1) 2)) g 0 s).outPixel 0 =
        s.tempPixel 0 * g 0 + s.tempPixel 1 * g 1) ∧
    (IsotropicGaussianCPUFilter idleEnv (unitGaussNode c)
      (sceneOf (floatImage 100 1 1) (floatImage 100 1 1) (impulse 1) (impulse 1) 0)).1 =
      Outcome.returned 1 ∧
    (IsotropicGaussianCPUFilter idleEnv (unitGaussNode c)
      (sceneOf (floatImage 100 1 1) (floatImage 100 1 1) (impulse 1) (impulse 1)
        0)).2.outPixel 0 = c := by
  have hv : ValidScene
      (sceneOf (floatImage 100 1 1) (floatImage 100 1 1) (impulse 1) (impulse 1) 0)
      (floatImage 100 1 1) :=
    sceneOf_valid _ _ _ _ _ (by norm_num [floatImage]) (Or.inl rfl)
  have hi := isoGauss_quiet idleEnv idleEnv_quiet (unitGaussNode c) _ _ hv
    (by norm_num [floatImage]) (by norm_num [floatImage])
  refine ⟨?_, hi.1, ?_⟩
  · intro g s
    rw [gaussVoxelX_eq, gaussPassX_unit]
    simp only [write_same]
  · rw [hi.2]
    have ht : Int.tmod 1 2 = 1 := by decide
    have hodd : forceOdd 1 = 1 := by
      unfold forceOdd
      norm_num [ht]
    simp only [isoGaussAfterZ, isoGaussAfterY, isoGaussAfterX, unitGaussNode, sceneOf,
      floatImage, hodd]
    have h2 : Int.toNat 2 = 2 := rfl
    norm_num [swept, gaussPassX, gaussPassY, gaussPassZ, winSum, h2, Finset.sum_range_succ,
      impulse]

/-- The box filters compute `effectiveLength L` and its half-width from a parameter `L`. -/
theorem effectiveLength_facts (L : Int) (hL : 0 ≤ L) :
    forceOdd (toInt (L : ℚ)) = effectiveLength L ∧
    effectiveLength L % 2 = 1 ∧ 1 ≤ effectiveLength L ∧
    halfWidth (effectiveLength L) = (effectiveLength L - 1) / 2 ∧
    0 ≤ (effectiveLength L - 1) / 2 ∧
    2 * ((effectiveLength L - 1) / 2) + 1 = effectiveLength L ∧
    ((Finset.Icc (-((effectiveLength L - 1) / 2)) ((effectiveLength L - 1) / 2)).card : Int) =
      effectiveLength L := by
  have hval : forceOdd (toInt (L : ℚ)) = effectiveLength L := forceOdd_toInt L hL
  have hshape := forceOdd_shape (toInt (L : ℚ)) (by rw [toInt_intCast]; exact hL)
  rw [hval] at hshape
  obtain ⟨h0, h1⟩ := hshape
  have hodd : effectiveLength L % 2 = 1 := by omega
  have hhalf : halfWidth (effectiveLength L) = (effectiveLength L - 1) / 2 := by omega
  refine ⟨hval, hodd, by omega, hhalf, by omega, by omega, ?_⟩
  rw [Int.card_Icc]
  omega

/-- Closed form of a run of `IsotropicBoxCPUFilter` nobody cancels, all three passes
running: every pass uses the length computed from `ParameterX`. -/
theorem isoBox_formula (env : Env) (hq : Quiet env) (pnode : ParametersNode) (s : State)
    (ov : ImageData) (hv : ValidScene s ov) (hnx : 1 ≤ ov.dims0) (hny : 1 ≤ ov.dims1)
    (hpx : pnode.ParameterX > 0.001) (hpy : pnode.ParameterY > 0.001)
    (hpz : pnode.ParameterZ > 0.001)
    (i j k : Int) (hi0 : 0 ≤ i) (hin : i < ov.dims0) (hj0 : 0 ≤ j) (hjn : j < ov.dims1)
    (hk0 : 0 ≤ k) (hkn : k < ov.dims2) :
    (IsotropicBoxCPUFilter env pnode s).2.outPixel
        (i + j * ov.dims0 + k * (ov.dims0 * ov.dims1)) =
      Finset.sum (Finset.Icc (-halfWidth (forceOdd (toInt pnode.ParameterX)))
          (halfWidth (forceOdd (toInt pnode.ParameterX)))) (fun c =>
        Finset.sum (Finset.Icc (-halfWidth (forceOdd (toInt pnode.ParameterX)))
            (halfWidth (forceOdd (toInt pnode.ParameterX)))) (fun b =>
          Finset.sum (Finset.Icc (-halfWidth (forceOdd (toInt pnode.ParameterX)))
              (halfWidth (forceOdd (toInt pnode.ParameterX)))) (fun a =>
            if (0 ≤ i + a ∧ i + a < ov.dims0) ∧ (0 ≤ j + b ∧ j + b < ov.dims1) ∧
                (0 ≤ k + c ∧ k + c < ov.dims2)
            then s.outPixel ((i + a) + (j + b) * ov.dims0 + (k + c) * (ov.dims0 * ov.dims1))
            else 0))) / ((forceOdd (toInt pnode.ParameterX) : Int) : ℚ) ^ 3 := by
  have hidx : i + j * ov.dims0 + k * (ov.dims0 * ov.dims1) = idx ov.dims0 ov.dims1 i j k := rfl
  rw [hidx, isoBox_quiet_out env hq pnode s ov hv (by omega) (by omega),
    isoBox_coord pnode ov s.outPixel i j k hpx hpy hpz hi0 hin hj0 hjn hk0 hkn, cutSum3_Icc]
  congr 1
  ring

/-- A run of `IsotropicBoxCPUFilter` nobody cancels with all three axis parameters at most
0.001 runs no pass and leaves the output grid as it was. -/
theorem isoBox_no_pass (env : Env) (hq : Quiet env) (pnode : ParametersNode) (s : State)
    (ov : ImageData) (hv : ValidScene s ov) (hnx : 0 ≤ ov.dims0) (hny : 0 ≤ ov.dims1)
    (hpx : pnode.ParameterX ≤ 0.001) (hpy : pnode.ParameterY ≤ 0.001)
    (hpz : pnode.ParameterZ ≤ 0.001) :
    (IsotropicBoxCPUFilter env pnode s).2.outPixel = s.outPixel := by
  rw [isoBox_quiet_out env hq pnode s ov hv hnx hny]
  unfold isoBoxAfterZ isoBoxAfterY isoBoxAfterX
  rw [if_neg (not_lt.mpr hpz), if_neg (not_lt.mpr hpy), if_neg (not_lt.mpr hpx)]

/-- Two integer parameters differ by less than 0.001 exactly when they are equal. -/
theorem int_params_close (a b : Int) : |(a : ℚ) - (b : ℚ)| < 0.001 ↔ a = b := by
  constructor
  · intro h
    by_contra hne
    have h1 : (1 : Int) ≤ |a - b| := Int.one_le_abs (sub_ne_zero.mpr hne)
    have h2 : (1 : ℚ) ≤ |(a : ℚ) - (b : ℚ)| := by exact_mod_cast h1
    have h3 : (0.001 : ℚ) < 1 := by norm_num
    exact absurd (lt_of_le_of_lt h2 h) (not_lt.mpr h3.le)
  · intro h
    rw [h, sub_self, abs_zero]
    norm_num

/-- The box filter method `Apply` calls on the CPU for integer axis parameters: the
isotropic one when the three are equal, the anisotropic one otherwise. -/
theorem apply_box_int (env : Env) (pnode : ParametersNode) (s : State)
    (hF : pnode.Filter = 0) (hH : pnode.Hardware = 0) (LX LY LZ : Int)
    (hpx : pnode.ParameterX = (LX : ℚ)) (hpy : pnode.ParameterY = (LY : ℚ))
    (hpz : pnode.ParameterZ = (LZ : ℚ)) :
    Apply env pnode s =
      if LY = LX ∧ LZ = LX then IsotropicBoxCPUFilter env pnode s
      else AnisotropicBoxCPUFilter env pnode s := by
  have hiff : (|pnode.ParameterX - pnode.ParameterY| < 0.001 ∧
      |pnode.ParameterY - pnode.ParameterZ| < 0.001) ↔ (LY = LX ∧ LZ = LX) := by
    rw [hpx, hpy, hpz, int_params_close, int_params_close]
    constructor
    · rintro ⟨h1, h2⟩
      exact ⟨h1.symm, by rw [← h2, ← h1]⟩
    · rintro ⟨h1, h2⟩
      exact ⟨h1.symm, by rw [h1, h2]⟩
  unfold Apply selectStrategy
  by_cases h : LY = LX ∧ LZ = LX
  · simp only [hF, hH, hiff.mpr h, h, and_self, if_true, runStrategy]
  · have hno : ¬ (|pnode.ParameterX - pnode.ParameterY| < 0.001 ∧
        |pnode.ParameterY - pnode.ParameterZ| < 0.001) := fun hc => h (hiff.mp hc)
    simp only [hF, hH, hno, h, if_true, if_false, runStrategy]

/-- C11. The box filters called with non-negative integer lengths `LX, LY, LZ` as axis
parameters, on a valid scene with `nx, ny, nz >= 1`, nobody cancelling. For a requested
length `L` the filters compute the effective length `len`, `L + 1` when `L` is even and `L`
when `L` is odd: it is odd and at least 1, its half-width is `h = (len - 1) / 2`, and the
window `-h..h` has `2 * h + 1 = len` offsets. `AnisotropicBoxCPUFilter` (build without
OpenMP, grid of at least 100 voxels, where its progress divisor is not zero) returns 1 and
leaves at voxel `(i, j, k)` the sum of the input grid over the offsets `(a, b, c)` of the
windows `-hX..hX`, `-hY..hY`, `-hZ..hZ` whose tap lies inside the grid, divided by
`lenX * lenY * lenZ`. A CPU box request through `Apply` calls `IsotropicBoxCPUFilter` when
the three lengths are equal and `AnisotropicBoxCPUFilter` otherwise. With three equal
lengths `IsotropicBoxCPUFilter` returns 1 and leaves the like sum of the output grid's
former contents over the window `-h..h` on every axis, divided by `len ^ 3`. -/
theorem C11_effective_box_length (env : Env) (hq : Quiet env) (pnode : ParametersNode)
    (s : State) (ov : ImageData) (hv : ValidScene s ov)
    (hnx : 1 ≤ ov.dims0) (hny : 1 ≤ ov.dims1) (hnz : 1 ≤ ov.dims2)
    (LX LY LZ : Int) (hLX : 0 ≤ LX) (hLY : 0 ≤ LY) (hLZ : 0 ≤ LZ)
    (hpx : pnode.ParameterX = (LX : ℚ)) (hpy : pnode.ParameterY = (LY : ℚ))
    (hpz : pnode.ParameterZ = (LZ : ℚ))
    (i j k : Int) (hi0 : 0 ≤ i) (hin : i < ov.dims0) (hj0 : 0 ≤ j) (hjn : j < ov.dims1)
    (hk0 : 0 ≤ k) (hkn : k < ov.dims2) :
    (∀ L : Int, 0 ≤ L →
      forceOdd (toInt (L : ℚ)) = effectiveLength L ∧
      effectiveLength L % 2 = 1 ∧ 1 ≤ effectiveLength L ∧
      halfWidth (effectiveLength L) = (effectiveLength L - 1) / 2 ∧
      2 * ((effectiveLength L - 1) / 2) + 1 = effectiveLength L ∧
      ((Finset.Icc (-((effectiveLength L - 1) / 2)) ((effectiveLength L - 1) / 2)).card : Int) =
        effectiveLength L) ∧
    (100 ≤ ov.dims0 * ov.dims1 * ov.dims2 →
      (AnisotropicBoxCPUFilter env pnode s).1 = Outcome.returned 1 ∧
      (AnisotropicBoxCPUFilter env pnode s).2.outPixel
          (i + j * ov.dims0 + k * (ov.dims0 * ov.dims1)) =
        Finset.sum (Finset.Icc (-((effectiveLength LZ - 1) / 2))
            ((effectiveLength LZ - 1) / 2)) (fun c =>
          Finset.sum (Finset.Icc (-((effectiveLength LY - 1) / 2))
              ((effectiveLength LY - 1) / 2)) (fun b =>
            Finset.sum (Finset.Icc (-((effectiveLength LX - 1) / 2))
                ((effectiveLength LX - 1) / 2)) (fun a =>
              if (0 ≤ i + a ∧ i + a < ov.dims0) ∧ (0 ≤ j + b ∧ j + b < ov.dims1) ∧
                  (0 ≤ k + c ∧ k + c < ov.dims2)
              then s.inPixel ((i + a) + (j + b) * ov.dims0 + (k + c) * (ov.dims0 * ov.dims1))
              else 0))) /
          ((effectiveLength LX * effectiveLength LY * effectiveLength LZ : Int) : ℚ)) ∧
    (pnode.Filter = 0 → pnode.Hardware = 0 →
      Apply env pnode s =
        if LY = LX ∧ LZ = LX then IsotropicBoxCPUFilter env pnode s
        else AnisotropicBoxCPUFilter env pnode s) ∧
    (LY = LX → LZ = LX →
      (IsotropicBoxCPUFilter env pnode s).1 = Outcome.returned 1 ∧
      (IsotropicBoxCPUFilter env pnode s).2.outPixel
          (i + j * ov.dims0 + k * (ov.dims0 * ov.dims1)) =
        Finset.sum (Finset.Icc (-((effectiveLength LX - 1) / 2))
            ((effectiveLength LX - 1) / 2)) (fun c =>
          Finset.sum (Finset.Icc (-((effectiveLength LX - 1) / 2))
              ((effectiveLength LX - 1) / 2)) (fun b =>
            Finset.sum (Finset.Icc (-((effectiveLength LX - 1) / 2))
                ((effectiveLength LX - 1) / 2)) (fun a =>
              if (0 ≤ i + a ∧ i + a < ov.dims0) ∧ (0 ≤ j + b ∧ j + b < ov.dims1) ∧
                  (0 ≤ k + c ∧ k + c < ov.dims2)
              then s.outPixel ((i + a) + (j + b) * ov.dims0 + (k + c) * (ov.dims0 * ov.dims1))
              else 0))) / ((effectiveLength LX : Int) : ℚ) ^ 3) := by
  have _ := hnz
  obtain ⟨fx, -, -, gx, -, -, -⟩ := effectiveLength_facts LX hLX
  obtain ⟨fy, -, -, gy, -, -, -⟩ := effectiveLength_facts LY hLY
  obtain ⟨fz, -, -, gz, -, -, -⟩ := effectiveLength_facts LZ hLZ
  refine ⟨?_, ?_, ?_, ?_⟩
  · intro L hL
    obtain ⟨a1, a2, a3, a4, -, a6, a7⟩ := effectiveLength_facts L hL
    exact ⟨a1, a2, a3, a4, a6, a7⟩
  · intro hN
    have H := anisoBox_formula env hq pnode s ov hv hN i j k hi0 hin hj0 hjn hk0 hkn
    rw [hpx, hpy, hpz, fx, fy, fz, gx, gy, gz] at H
    exact H
  · intro hF hH
    exact apply_box_int env pnode s hF hH LX LY LZ hpx hpy hpz
  · intro hyx hzx
    rw [hyx] at hpy
    rw [hzx] at hpz
    refine ⟨isoBox_quiet_fst env hq pnode s ov hv (by omega) (by omega), ?_⟩
    by_cases hL0 : LX = 0
    · have hp0 : pnode.ParameterX ≤ 0.001 := by rw [hpx, hL0]; norm_num
      have hq0 : pnode.ParameterY ≤ 0.001 := by rw [hpy, hL0]; norm_num
      have hr0 : pnode.ParameterZ ≤ 0.001 := by rw [hpz, hL0]; norm_num
      rw [isoBox_no_pass env hq pnode s ov hv (by omega) (by omega) hp0 hq0 hr0, hL0]
      have he : effectiveLength 0 = 1 := by decide
      have hI : Finset.Icc (-(((1 : Int) - 1) / 2)) (((1 : Int) - 1) / 2) = {0} := by decide
      rw [he, hI]
      simp only [Finset.sum_singleton, add_zero]
      rw [if_pos ⟨⟨hi0, hin⟩, ⟨hj0, hjn⟩, ⟨hk0, hkn⟩⟩]
      norm_num
    · have h1 : (1 : ℚ) ≤ (LX : ℚ) := by
        have : (1 : Int) ≤ LX := by omega
        exact_mod_cast this
      have hgt : (LX : ℚ) > 0.001 := lt_of_lt_of_le (by norm_num) h1
      have H := isoBox_formula env hq pnode s ov hv hnx hny (by rw [hpx]; exact hgt)
        (by rw [hpy]; exact hgt) (by rw [hpz]; exact hgt) i j k hi0 hin hj0 hjn hk0 hkn
      rw [hpx, fx, gx] at H
      exact H

/-- C11 (witness). Requested length 4 on every axis of a 3x3x3 grid of all 1.0: the
effective length is 5 with half-width 2, every window covers the whole grid, and the
isotropic box filter leaves `27 / 5 ^ 3` at the centre voxel `(1, 1, 1)`. -/
theorem C11_effective_box_length_witness :
    forceOdd (toInt ((4 : Int) : ℚ)) = 5 ∧
    (IsotropicBoxCPUFilter idleEnv (boxNode 4 4 4)
      (sceneOf (floatImage 3 3 3) (floatImage 3 3 3) (fun _ => 1) (fun _ => 1) 0)).1 =
      Outcome.returned 1 ∧
    (IsotropicBoxCPUFilter idleEnv (boxNode 4 4 4)
      (sceneOf (floatImage 3 3 3) (floatImage 3 3 3) (fun _ => 1) (fun _ => 1) 0)).2.outPixel
        13 = 27 / 125 := by
  have H := C11_effective_box_length idleEnv idleEnv_quiet (boxNode 4 4 4)
    (sceneOf (floatImage 3 3 3) (floatImage 3 3 3) (fun _ => 1) (fun _ => 1) 0)
    (floatImage 3 3 3) (sceneOf_valid _ _ _ _ _ (by norm_num [floatImage]) (Or.inl rfl))
    (by norm_num [floatImage]) (by norm_num [floatImage]) (by norm_num [floatImage])
    4 4 4 (by norm_num) (by norm_num) (by norm_num)
    (by norm_num [boxNode]) (by norm_num [boxNode]) (by norm_num [boxNode])
    1 1 1 (by norm_num) (by norm_num [floatImage]) (by norm_num)
    (by norm_num [floatImage]) (by norm_num) (by norm_num [floatImage])
  have he : effectiveLength 4 = 5 := by decide
  obtain ⟨H1, -, -, H3⟩ := H
  obtain ⟨I1, I2⟩ := H3 rfl rfl
  refine ⟨by rw [(H1 4 (by norm_num)).1, he], I1, ?_⟩
  have hidx : (1 : Int) + 1 * (floatImage 3 3 3).dims0 +
      1 * ((floatImage 3 3 3).dims0 * (floatImage 3 3 3).dims1) = 13 := by
    norm_num [floatImage]
  rw [hidx] at I2
  rw [I2, he]
  have hI : Finset.Icc (-(((5 : Int) - 1) / 2)) (((5 : Int) - 1) / 2) = {-2, -1, 0, 1, 2} := by
    decide
  simp only [hI, floatImage, sceneOf]
  have hc : (Finset.filter (fun x : Int => 0 ≤ 1 + x ∧ 1 + x < 3)
      {-2, -1, 0, 1, 2}).card = 3 := by decide
  norm_num [Finset.sum_insert, Finset.sum_singleton]
  rw [hc]
  norm_num

/-- One iteration on the 2x1x1 grid holding 2 and 1 with the noise attribute reading as 0
(`noise2 = 0`): the loop ends with the grid 2, 1, each voxel's change being divided by an
infinite `norm`. -/
theorem gradient_noise_zero_example :
    (gradientLoop idleEnv (gradientNode 1) (floatImage 2 1 1)
      { sceneOf (floatImage 2 1 1) (floatImage 2 1 1) (fun _ => 0)
          (fun e => if e = 1 then 1 else 2) 0 with RMS := 0 }).outPixel =
      fun e => if e = 1 then 1 else 2 := by
  obtain ⟨-, q2, -, -⟩ := gradient_loop_grid idleEnv idleEnv_quiet (gradientNode 1)
    (floatImage 2 1 1).dims0 ((floatImage 2 1 1).dims0 * (floatImage 2 1 1).dims1)
    ((floatImage 2 1 1).dims0 * (floatImage 2 1 1).dims1 * (floatImage 2 1 1).dims2)
    (0 * 0 * (gradientNode 1).K * (gradientNode 1).K)
    (startScratch { sceneOf (floatImage 2 1 1) (floatImage 2 1 1) (fun _ => 0)
      (fun e => if e = 1 then 1 else 2) 0 with RMS := 0 })
    rfl rfl (by simp [startScratch, SetStatus]) rfl
  have hA : (gradientNode 1).Accuracy.toNat = 1 := rfl
  have h0 : (0 : ℚ) * 0 * (gradientNode 1).K * (gradientNode 1).K = 0 := by norm_num
  rw [hA, h0] at q2
  have hstep := (gradientStep_noise_zero (gradientNode 1) (floatImage 2 1 1).dims0
    ((floatImage 2 1 1).dims0 * (floatImage 2 1 1).dims1)
    ((floatImage 2 1 1).dims0 * (floatImage 2 1 1).dims1 * (floatImage 2 1 1).dims2)
    (fun e => if e = 1 then 1 else 2)
    (fun e _ _ => by show (if e = 1 then (1 : ℚ) else 2) ≠ 0; split_ifs <;> norm_num)).2
  unfold gradientLoop
  have h1 : ({ sceneOf (floatImage 2 1 1) (floatImage 2 1 1) (fun _ => 0)
      (fun e => if e = 1 then 1 else 2) 0 with RMS := 0 } : State).RMS = 0 := rfl
  rw [h1, h0, q2]
  exact hstep

end SlicerAstro
